import Mathlib

/-! # Atomic swap engine: embedding of `wallet/swap_transaction.cpp`

A shallow embedding of the swap state machine (`AtomicSwapTransaction`), of the
HTLC script builder (`AtomicSwapContract`) and of the Chain A sub-transaction
builders, followed by the properties proved about them. The reference count of
`bitcoin::SettingsProvider` (`wallet/bitcoin/settings_provider.cpp`), the
group elements the builders compute for the shared output, and the amount
string of `BuildWithdrawTx` (binary64 arithmetic and its decimal rendering)
have sections of their own.

Conventions of the embedding.

* The object `AtomicSwapTransaction` is a record: its parameter store, its
  in-memory members (`m_LockTx`, `m_SwapLockRawTx`, ...) and a log of every
  observable call it made (RPC requests, gateway calls, peer messages,
  parameter writes), in program order.
* A member function is a function `AtomicSwapTransaction → Res α`: it either
  returns (`Res.ok`) or stops at an exception or a failed assertion
  (`Res.fail`); both outcomes carry the object as it is at that moment.
* What the translation unit only calls (the base transaction, the base
  builder, the cryptography, libbitcoin, the RPC bridge) is a field of `Env`:
  the theorems hold for every such environment.
* An execution is the object under a list of `Event`s (ticks, RPC callbacks,
  broadcast outcomes, parameters stored from outside); its properties are
  proved for every such list.
-/

namespace beam.wallet

/-! ## Bitcoin scripts (libbitcoin::machine) -/

/-- Bytes of a `libbitcoin::data_chunk`. -/
abbrev data_chunk := List Nat

/-- The `libbitcoin::machine::opcode` values the translation unit uses.
`push_size_0` is `opcode(0)`. -/
inductive opcode
  | push_size_0
  | push_positive_1
  | if_
  | else_
  | endif
  | size
  | equalverify
  | sha256
  | dup
  | hash160
  | checklocktimeverify
  | drop
  | checksig
  deriving DecidableEq, Repr

/-- A `libbitcoin::machine::operation`, by the constructor that built it:
`operation(opcode)`, `operation(data_chunk)` (a push of the bytes), and
`operation::from_string(std::to_string(n))` (a push of the number `n`). -/
inductive operation
  | op (code : opcode)
  | data (bytes : data_chunk)
  | number (n : Int)
  deriving DecidableEq, Repr

/-- A `libbitcoin::machine::operation::list`. -/
abbrev script := List operation

/-- The call `ops.emplace_back(o)` of `std::vector`. -/
def emplace_back (ops : script) (o : operation) : script := ops ++ [o]

/-- `AtomicSwapContract` (swap_transaction.cpp, lines 38-94): the HTLC script
over the refund key hash `hashPublicKeyA`, the redeem key hash
`hashPublicKeyB`, the locktime, the secret hash and the secret size. -/
def AtomicSwapContract (hashPublicKeyA hashPublicKeyB : data_chunk) (locktime : Int)
    (secretHash : data_chunk) (secretSize : Nat) : script :=
  let contract_operations : script := []
  -- Normal redeem path
  let contract_operations := emplace_back contract_operations (.op .if_)
  let contract_operations := emplace_back contract_operations (.op .size)
  let secretSizeOp := operation.number secretSize
  let contract_operations := emplace_back contract_operations secretSizeOp
  let contract_operations := emplace_back contract_operations (.op .equalverify)
  let contract_operations := emplace_back contract_operations (.op .sha256)
  let contract_operations := emplace_back contract_operations (.data secretHash)
  let contract_operations := emplace_back contract_operations (.op .equalverify)
  let contract_operations := emplace_back contract_operations (.op .dup)
  let contract_operations := emplace_back contract_operations (.op .hash160)
  let contract_operations := emplace_back contract_operations (.data hashPublicKeyB)
  -- Refund path
  let contract_operations := emplace_back contract_operations (.op .else_)
  let locktimeOp := operation.number locktime
  let contract_operations := emplace_back contract_operations locktimeOp
  let contract_operations := emplace_back contract_operations (.op .checklocktimeverify)
  let contract_operations := emplace_back contract_operations (.op .drop)
  let contract_operations := emplace_back contract_operations (.op .dup)
  let contract_operations := emplace_back contract_operations (.op .hash160)
  let contract_operations := emplace_back contract_operations (.data hashPublicKeyA)
  let contract_operations := emplace_back contract_operations (.op .endif)
  -- Complete the signature check.
  let contract_operations := emplace_back contract_operations (.op .equalverify)
  let contract_operations := emplace_back contract_operations (.op .checksig)
  contract_operations

/-- The operations of a script strictly before the first `else_` (the IF
branch, with the `if_` that opens it). -/
def redeemBranch (s : script) : script := s.takeWhile (fun o => o != .op .else_)

/-- The operations of a script from the first `else_` on (the ELSE branch and
what follows the `endif`). -/
def refundBranch (s : script) : script := s.dropWhile (fun o => o != .op .else_)

/-! ## Parameters -/

/-- The sub-transaction ids: `kDefaultSubTxID` and the `SubTxIndex` values. -/
inductive SubTxID
  | kDefaultSubTxID
  | BEAM_LOCK_TX
  | BEAM_REFUND_TX
  | BEAM_REDEEM_TX
  | LOCK_TX
  | REFUND_TX
  | REDEEM_TX
  deriving DecidableEq, Repr

/-- The `TxParameterID` values the translation unit reads, writes or sends. -/
inductive TxParameterID
  | State
  | IsSender
  | CreateTime
  | Amount
  | Fee
  | MinHeight
  | PreImage
  | KernelID
  | KernelProofHeight
  | TransactionRegistered
  | Inputs
  | Offset
  | SharedBlindingFactor
  | SharedSeed
  | SharedCoinID
  | SharedBulletProof
  | PeerPublicExcess
  | PeerPublicNonce
  | PeerSignature
  | PeerOffset
  | PeerPublicSharedBlindingFactor
  | PeerSharedBulletProofPart2
  | PeerSharedBulletProofPart3
  | PeerSharedBulletProofMSig
  | PeerLockImage
  | PeerProtoVersion
  | AtomicSwapAmount
  | AtomicSwapCoin
  | AtomicSwapAddress
  | AtomicSwapPeerAddress
  | AtomicSwapExternalTxID
  | AtomicSwapExternalTxOutputIndex
  | SubTxIndex
  deriving DecidableEq, Repr

/-- The top-level states `AtomicSwapTransaction::State` that `UpdateImpl`
switches on. -/
inductive State
  | Initial
  | Invitation
  | BuildingLockTX
  | BuildingRefundTX
  | BuildingRedeemTX
  | BuildingBeamLockTX
  | BuildingBeamRefundTX
  | BuildingBeamRedeemTX
  | HandlingContractTX
  | SendingRefundTX
  | SendingRedeemTX
  | SendingBeamLockTX
  | SendingBeamRedeemTX
  | SendingBeamRefundTX
  | CompleteSwap
  deriving DecidableEq, Repr

/-- The states `AtomicSwapTransaction::SubTxState` of a Chain A sub-transaction,
in the order of the ordered path `Initial, Invitation, SharedUTXOProofPart2,
Constructed`. -/
inductive SubTxState
  | Initial
  | Invitation
  | SharedUTXOProofPart2
  | Constructed
  deriving DecidableEq, Repr

/-- Position of a sub-transaction state on the ordered path. -/
def SubTxState.rank : SubTxState → Nat
  | .Initial => 0
  | .Invitation => 1
  | .SharedUTXOProofPart2 => 2
  | .Constructed => 3

/-- The states `AtomicSwapTransaction::SwapTxState` of a Chain B sub-transaction. -/
inductive SwapTxState
  | Initial
  | CreatingTx
  | Constructed
  deriving DecidableEq, Repr

/-- A 256-bit `ECC::uintBig` (also `Hash::Value`, `Merkle::Hash`): 32 bytes. -/
abbrev uintBig := { bytes : data_chunk // bytes.length = 32 }

/-- A stored parameter value, tagged by the C++ type it was serialized from:
`bool`; an unsigned integer (`Amount`, `Height`, `Timestamp`, the swap coin);
`int`; `std::string`; `uintBig`; the three state enums; a sub-transaction index;
and any other serialized object (points, scalars, proofs, input lists). -/
inductive Value
  | bool (b : Bool)
  | nat (n : Nat)
  | int (i : Int)
  | str (s : String)
  | big (u : uintBig)
  | state (s : State)
  | subTxState (s : SubTxState)
  | swapTxState (s : SwapTxState)
  | subTx (s : SubTxID)
  | blob (b : Nat)
  deriving DecidableEq, Repr

/-- Deserialization as `bool`. -/
def Value.asBool : Value → Option Bool
  | .bool b => some b
  | _ => none

/-- Deserialization as an unsigned integer. -/
def Value.asNat : Value → Option Nat
  | .nat n => some n
  | _ => none

/-- Deserialization as `int`. -/
def Value.asInt : Value → Option Int
  | .int i => some i
  | _ => none

/-- Deserialization as `std::string`. -/
def Value.asStr : Value → Option String
  | .str s => some s
  | _ => none

/-- Deserialization as `uintBig`. -/
def Value.asBig : Value → Option uintBig
  | .big u => some u
  | _ => none

/-- Deserialization as a top-level `State`. -/
def Value.asState : Value → Option State
  | .state s => some s
  | _ => none

/-- Deserialization as a `SubTxState`. -/
def Value.asSubTxState : Value → Option SubTxState
  | .subTxState s => some s
  | _ => none

/-- Deserialization as a `SwapTxState`. -/
def Value.asSwapTxState : Value → Option SwapTxState
  | .swapTxState s => some s
  | _ => none

/-- The parameter store of one swap: `(SubTxID, TxParameterID) → bytes`. -/
abbrev ParamStore := SubTxID → TxParameterID → Option Value

/-- Modelled from the spec: the store's `put(sub, name, bytes)` is an upsert, and
`get` after `put` returns the value written (the wallet database behind
`SetParameter` is not part of the translation unit). -/
def ParamStore.put (s : ParamStore) (subTxID : SubTxID) (id : TxParameterID) (v : Value) :
    ParamStore :=
  fun sub' id' => if sub' = subTxID ∧ id' = id then some v else s sub' id'

/-- The store with no parameter. -/
def ParamStore.empty : ParamStore := fun _ _ => none

/-! ## The object, its log and its environment -/

/-- A Chain A transaction (`Transaction::Ptr`), as built by a builder's
`CreateTransaction`: the id of its last kernel (`m_vKernels.back()->get_ID`),
and the rest of it, which the translation unit does not inspect. -/
structure Transaction where
  kernelID : uintBig
  body : Nat
  deriving DecidableEq, Repr

/-- The `TxStatus` values written by `UpdateTxDescription`. -/
inductive TxStatus
  | InProgress
  | Completed
  deriving DecidableEq, Repr

/-- The `TxFailureReason` values of the failure path `OnFailed`. -/
inductive TxFailureReason
  | FailedToSendParameters
  | FailedToRegister
  | InvalidTransaction
  | PeerSignatureInvalid
  deriving DecidableEq, Repr

/-- A peer message `SetTxParameter`: the `(ParameterID, value)` pairs added by
`AddParameter`, in order. -/
abbrev SetTxParameter := List (TxParameterID × Value)

/-- The arguments of the `createRawTransaction` request built by
`BuildWithdrawTx`: one input `{txid, vout, Sequence}`, one output
`{address: amount}`, where `amount` is the satoshi value that the source renders
as `std::to_string(double(amount) / satoshi_per_bitcoin)`, and the optional third
argument `std::to_string(locktime)`. -/
structure CreateRawTransactionArgs where
  txid : String
  vout : Int
  Sequence : Nat
  address : String
  amount : Nat
  locktime : Option Nat
  deriving DecidableEq, Repr

/-- The two callbacks `BuildWithdrawTx` binds to `dumpPrivKey`. -/
inductive DumpCallback
  | OnDumpSenderPrivateKey
  | OnDumpReceiverPrivateKey
  deriving DecidableEq, Repr

/-- A call on a transaction builder (`LockTxBuilder`, `SharedTxBuilder` and
their base), with the result of those that return `bool`. -/
inductive BuilderCall
  | GetInitialTxParams (r : Bool)
  | SelectInputs
  | AddChangeOutput
  | FinalizeOutputs
  | AddOutput
  | CreateKernel
  | GetPeerPublicExcessAndNonce (r : Bool)
  | SignPartial
  | GetPeerSignature (r : Bool)
  | IsPeerSignatureValid (r : Bool)
  | FinalizeSignature
  | CreateTransaction
  | generateSharedCoin
  | CoSignStep2
  | CoSignFinalize
  | CoSignPart
  deriving DecidableEq, Repr

/-- One observable action of the object, as it enters the log. The first group
are the calls the object makes; `Received n` is the one inbound event the log
keeps: a `getTxOut` reply reporting `n` confirmations was recorded. -/
inductive Effect
  | SetParameter (subTxID : SubTxID) (id : TxParameterID) (v : Value)
  | UpdateAsync
  | Update
  | UpdateTxDescription (status : TxStatus)
  | OnFailed (reason : TxFailureReason) (notify : Bool)
  | SendTxParameters (msg : SetTxParameter)
  | register_tx (subTxID : SubTxID) (tx : Transaction)
  | confirm_kernel (kernelID : uintBig)
  | get_kernel (kernelID : uintBig)
  | getRawChangeAddress
  | fundRawTransaction (hexTx : String)
  | signRawTransaction (hexTx : String)
  | createRawTransaction (args : CreateRawTransactionArgs)
  | dumpPrivKey (address : String) (callback : DumpCallback)
  | sendRawTransaction (rawTransaction : String) (subTxID : SubTxID)
  | getTxOut (txID : String) (outputIndex : Int)
  | Builder (subTxID : SubTxID) (call : BuilderCall)
  | ConfirmationsRecorded (n : Nat)
  deriving DecidableEq, Repr

/-- An output of a Chain B transaction: amount in satoshi and locking script. -/
structure output where
  value : Nat
  script : script
  deriving DecidableEq, Repr

/-- An input of a Chain B transaction: the spent outpoint and its input script. -/
structure input where
  previous_output : String × Int
  script : script
  sequence : Nat
  deriving DecidableEq, Repr

/-- A `libbitcoin::chain::transaction`. -/
structure transaction where
  inputs : List input
  outputs : List output
  locktime : Nat
  deriving DecidableEq, Repr

/-- The object `AtomicSwapTransaction`: the parameter store behind
`GetParameter`/`SetParameter`, the in-memory members, and the log. -/
structure AtomicSwapTransaction where
  params : ParamStore
  m_IsSender : Option Bool
  m_Amount : Option Nat
  m_LockTx : Option Transaction
  m_RefundTx : Option Transaction
  m_RedeemTx : Option Transaction
  m_SwapLockRawTx : Option String
  m_SwapWithdrawRawTx : Option String
  m_SwapLockTxConfirmations : Nat
  m_ValuePosition : Int
  log : List Effect

/-- What the translation unit calls but does not define. A field that takes the
parameter store is a function of what is persisted at the moment of the call. -/
structure Env where
  /-- `BaseTransaction::IsInitiator()`. -/
  IsInitiator : Bool
  /-- Result of `BaseTransaction::SendTxParameters(msg)`. -/
  SendTxParameters : SetTxParameter → Bool
  /-- `BaseTransaction::GetTip(state)`: the tip height when a tip is known. -/
  GetTip : Option Nat
  /-- `s_ProtoVersion`. -/
  s_ProtoVersion : Nat
  /-- `GenRandom`: the 32 bytes drawn for the preimage. -/
  GenRandom : uintBig
  /-- `Hash::Processor() << preimage >> lockImage` (SHA-256). -/
  Hash : uintBig → uintBig
  /-- `BaseTxBuilder::GetInitialTxParams()`. -/
  GetInitialTxParams : ParamStore → SubTxID → Bool
  /-- `BaseTxBuilder::GetPeerPublicExcessAndNonce()`. -/
  GetPeerPublicExcessAndNonce : ParamStore → SubTxID → Bool
  /-- `BaseTxBuilder::GetPeerSignature()`. -/
  GetPeerSignature : ParamStore → SubTxID → Bool
  /-- `BaseTxBuilder::IsPeerSignatureValid()`. -/
  IsPeerSignatureValid : ParamStore → SubTxID → Bool
  /-- `BaseTxBuilder::CreateTransaction()`. -/
  CreateTransaction : ParamStore → SubTxID → Transaction
  /-- `transaction->IsValid(context)`. -/
  IsValid : Transaction → Bool
  /-- The value a builder holds for a parameter it stores or sends (a key, a
  nonce, a partial signature, a proof part, ...). -/
  BuilderValue : ParamStore → SubTxID → TxParameterID → Value
  /-- `libbitcoin::wallet::payment_address(address).hash()`. -/
  payment_address_hash : String → data_chunk
  /-- `encode_base16(tx.to_data())`. -/
  encode_base16 : transaction → String
  /-- `transaction::factory_from_data` after `decode_base16`. -/
  factory_from_data : String → transaction
  /-- `script::create_endorsement` with the key of a WIF string, over the
  redeem script, the transaction and the input index. -/
  create_endorsement : String → script → transaction → Nat → data_chunk
  /-- The compressed public key of the key of a WIF string. -/
  to_public : String → data_chunk

/-- How a member function stops without returning: `GetMandatoryParameter`
threw, an `assert` failed (the number is its source line), or an empty optional
or an empty vector was accessed. -/
inductive Exc
  | MissingParameter (subTxID : SubTxID) (id : TxParameterID)
  | AssertionFailed (line : Nat)
  | BadAccess
  deriving DecidableEq, Repr

/-- Outcome of a member function: returned `a`, or stopped at `e`; with the
object as it is then. -/
inductive Res (α : Type)
  | ok (a : α) (tx : AtomicSwapTransaction)
  | fail (e : Exc) (tx : AtomicSwapTransaction)

/-- The object after the call, whatever the outcome. -/
def Res.tx {α : Type} : Res α → AtomicSwapTransaction
  | .ok _ tx => tx
  | .fail _ tx => tx

/-- The returned value, when the call returned. -/
def Res.value {α : Type} : Res α → Option α
  | .ok a _ => some a
  | .fail _ _ => none

/-- A member function with result type `α`. -/
def M (α : Type) := AtomicSwapTransaction → Res α

instance : Monad M where
  pure a := fun tx => .ok a tx
  bind x f := fun tx => match x tx with
    | .ok a tx' => f a tx'
    | .fail e tx' => .fail e tx'

/-! ## Primitive steps -/

/-- Read something off the object. -/
def M.read {α : Type} (f : AtomicSwapTransaction → α) : M α := fun tx => .ok (f tx) tx

/-- Stop with an exception or a failed assertion. -/
def M.raise {α : Type} (e : Exc) : M α := fun tx => .fail e tx

/-- Change the in-memory members. -/
def M.modify (f : AtomicSwapTransaction → AtomicSwapTransaction) : M Unit :=
  fun tx => .ok () (f tx)

/-- Append an action to the log. -/
def M.emit (e : Effect) : M Unit := fun tx => .ok () { tx with log := tx.log ++ [e] }

/-- The C `assert(c)` at a source line: stops when `c` is false. -/
def M.assert (line : Nat) (c : Bool) : M Unit :=
  if c then pure () else M.raise (.AssertionFailed line)

/-- `GetParameter(id, out, subTxID)` for the type deserialized by `proj`: the
value when the parameter is stored (the `bool` result is `isSome`). -/
def GetParameter {α : Type} (proj : Value → Option α) (id : TxParameterID) (subTxID : SubTxID) :
    M (Option α) :=
  M.read fun tx => (tx.params subTxID id).bind proj

/-- `GetMandatoryParameter<T>(id, subTxID)`: throws when the parameter is not
stored. -/
def GetMandatoryParameter {α : Type} (proj : Value → Option α) (id : TxParameterID)
    (subTxID : SubTxID) : M α := fun tx =>
  match (tx.params subTxID id).bind proj with
  | some a => .ok a tx
  | none => .fail (.MissingParameter subTxID id) tx

/-- `SetParameter(id, value, subTxID)`: writes the store; the write is logged. -/
def SetParameter (id : TxParameterID) (v : Value) (subTxID : SubTxID) : M Unit := fun tx =>
  .ok () { tx with params := tx.params.put subTxID id v
                   log := tx.log ++ [.SetParameter subTxID id v] }

/-- `BaseTransaction::SetState(state, subTxID)`: stores the state under
`TxParameterID::State`. -/
def SetState (state : Value) (subTxID : SubTxID) : M Unit :=
  SetParameter .State state subTxID

/-- `BaseTransaction::OnFailed(reason, notify)`: the failure path. -/
def OnFailed (reason : TxFailureReason) (notify : Bool) : M Unit :=
  M.emit (.OnFailed reason notify)

/-- `BaseTransaction::UpdateTxDescription(status)`. -/
def UpdateTxDescription (status : TxStatus) : M Unit :=
  M.emit (.UpdateTxDescription status)

/-- `BaseTransaction::SendTxParameters(msg)`: hands the message to the peer
channel and reports whether it was dispatched. -/
def SendTxParameters (env : Env) (msg : SetTxParameter) : M Bool := do
  M.emit (.SendTxParameters msg)
  return env.SendTxParameters msg

/-- A builder call with no result the caller uses. -/
def Builder (subTxID : SubTxID) (call : BuilderCall) : M Unit :=
  M.emit (.Builder subTxID call)

/-- A builder call that returns `bool`: the environment answers from what is
stored; the call and its answer are logged. -/
def BuilderQuery (oracle : ParamStore → SubTxID → Bool) (call : Bool → BuilderCall)
    (subTxID : SubTxID) : M Bool := fun tx =>
  .ok (oracle tx.params subTxID)
    { tx with log := tx.log ++ [.Builder subTxID (call (oracle tx.params subTxID))] }

/-! ## Constants -/

/-- `kBeamLockTimeInBlocks = 24 * 60`. -/
def kBeamLockTimeInBlocks : Nat := 24 * 60

/-- `kBTCLockTimeSec = 2 * 24 * 60 * 60`. -/
def kBTCLockTimeSec : Nat := 2 * 24 * 60 * 60

/-- `kBTCMinTxConfirmations = 6`. -/
def kBTCMinTxConfirmations : Nat := 6

/-- `MaxHeight`, the largest 64-bit `Height`. -/
def MaxHeight : Nat := 2 ^ 64 - 1

/-- `libbitcoin::max_input_sequence`. -/
def max_input_sequence : Nat := 4294967295

/-- A 64-bit unsigned value read as `int64_t` (two's complement). -/
def toInt64 (x : Nat) : Int :=
  if x % 2 ^ 64 < 2 ^ 63 then ((x % 2 ^ 64 : Nat) : Int) else ((x % 2 ^ 64 : Nat) : Int) - 2 ^ 64

/-- A JSON integer read with `get<int>()`: the value converted to the 32-bit
`int` (two's complement, the high bits dropped). -/
def toInt32 (x : Int) : Int := (x + 2 ^ 31) % 2 ^ 32 - 2 ^ 31

/-- The sum of two unsigned 64-bit values, as the machine computes it. -/
def add64 (a b : Nat) : Nat := (a + b) % 2 ^ 64

/-! ## The anonymous namespace -/

/-- `InitSecret` (lines 31-36): draws the preimage and stores it under
`subTxID`. -/
def InitSecret (env : Env) (subTxID : SubTxID) : M Unit :=
  SetParameter .PreImage (.big env.GenRandom) subTxID

/-- `CreateAtomicSwapContract` (lines 96-114). -/
def CreateAtomicSwapContract (env : Env) : M script := do
  let createTime ← GetMandatoryParameter Value.asNat .CreateTime .kDefaultSubTxID
  let locktime := add64 createTime kBTCLockTimeSec
  let peerSwapAddress ← GetMandatoryParameter Value.asStr .AtomicSwapPeerAddress .kDefaultSubTxID
  let swapAddress ← GetMandatoryParameter Value.asStr .AtomicSwapAddress .kDefaultSubTxID
  -- load secret or secretHash
  let preimage ← GetMandatoryParameter Value.asBig .PreImage .BEAM_REDEEM_TX
  let lockImage := env.Hash preimage
  let secretHash : data_chunk := lockImage.val
  let senderAddress := env.payment_address_hash swapAddress
  let receiverAddress := env.payment_address_hash peerSwapAddress
  return AtomicSwapContract senderAddress receiverAddress (toInt64 locktime) secretHash
    secretHash.length

/-! ## `AtomicSwapTransaction`: accessors and Chain B sub-transactions -/

namespace AtomicSwapTransaction

/-- `UpdateAsync` (lines 147-155): posts the event that runs `UpdateImpl`. -/
def UpdateAsync : M Unit := M.emit .UpdateAsync

/-- `SetNextState` (lines 141-145). -/
def SetNextState (state : State) : M Unit := do
  SetState (.state state) .kDefaultSubTxID
  UpdateAsync

/-- `GetState` (lines 162-167): the stored top-level state, `Initial` when none
is stored. -/
def GetState (subTxID : SubTxID) : M State := do
  let state ← GetParameter Value.asState .State subTxID
  return state.getD .Initial

/-- `GetSubTxState` (lines 169-174): the stored sub-transaction state,
`Initial` when none is stored. -/
def GetSubTxState (subTxID : SubTxID) : M SubTxState := do
  let state ← GetParameter Value.asSubTxState .State subTxID
  return state.getD .Initial

/-- `GetAmount` (lines 808-815), with its cache `m_Amount`. -/
def GetAmount : M Nat := fun tx =>
  match tx.m_Amount with
  | some a => .ok a tx
  | none =>
    match (tx.params .kDefaultSubTxID .Amount).bind Value.asNat with
    | some a => .ok a { tx with m_Amount := some a }
    | none => .fail (.MissingParameter .kDefaultSubTxID .Amount) tx

/-- `IsSender` (lines 817-824), with its cache `m_IsSender`. -/
def IsSender : M Bool := fun tx =>
  match tx.m_IsSender with
  | some b => .ok b tx
  | none =>
    match (tx.params .kDefaultSubTxID .IsSender).bind Value.asBool with
    | some b => .ok b { tx with m_IsSender := some b }
    | none => .fail (.MissingParameter .kDefaultSubTxID .IsSender) tx

/-- `SetRegisteredStatus` (lines 125-139): called with the outcome of a Chain A
broadcast. -/
def SetRegisteredStatus (transaction : Transaction) (isRegistered : Bool) : M Unit := do
  let kernelID := transaction.kernelID
  let lockTxKernelID ← GetMandatoryParameter Value.asBig .KernelID .BEAM_LOCK_TX
  if kernelID != lockTxKernelID then
    let subTxID := if (← IsSender) then SubTxID.BEAM_REFUND_TX else SubTxID.BEAM_REDEEM_TX
    SetParameter .TransactionRegistered (.bool isRegistered) subTxID
  else
    SetParameter .TransactionRegistered (.bool isRegistered) .BEAM_LOCK_TX

/-- `BuildLockTx` (lines 396-426). -/
def BuildLockTx (env : Env) : M SwapTxState := do
  let swapTxState := (← GetParameter Value.asSwapTxState .State .LOCK_TX).getD .Initial
  if swapTxState = .Initial then
    InitSecret env .BEAM_REDEEM_TX
    let contractScript ← CreateAtomicSwapContract env
    let swapAmount ← GetMandatoryParameter Value.asNat .AtomicSwapAmount .kDefaultSubTxID
    let contractTx : transaction :=
      { inputs := [], outputs := [{ value := swapAmount, script := contractScript }], locktime := 0 }
    let hexTx := env.encode_base16 contractTx
    M.emit (.fundRawTransaction hexTx)
    SetState (.swapTxState .CreatingTx) .LOCK_TX
    return .CreatingTx
  -- TODO: check
  return swapTxState

/-- `BuildWithdrawTx` (lines 428-463). -/
def BuildWithdrawTx (subTxID : SubTxID) : M SwapTxState := do
  let swapTxState := (← GetParameter Value.asSwapTxState .State subTxID).getD .Initial
  if swapTxState = .Initial then
    let swapAmount ← GetMandatoryParameter Value.asNat .AtomicSwapAmount .kDefaultSubTxID
    let swapAddress ← GetMandatoryParameter Value.asStr .AtomicSwapAddress .kDefaultSubTxID
    let outputIndex ← GetMandatoryParameter Value.asInt .AtomicSwapExternalTxOutputIndex .LOCK_TX
    let swapLockTxID ← GetMandatoryParameter Value.asStr .AtomicSwapExternalTxID .LOCK_TX
    let args : CreateRawTransactionArgs :=
      { txid := swapLockTxID, vout := outputIndex, Sequence := max_input_sequence - 1,
        address := swapAddress, amount := swapAmount, locktime := none }
    if subTxID = .REFUND_TX then
      let createTime ← GetMandatoryParameter Value.asNat .CreateTime .kDefaultSubTxID
      let locktime := add64 createTime kBTCLockTimeSec
      M.emit (.createRawTransaction { args with locktime := some locktime })
    else
      M.emit (.createRawTransaction args)
    SetState (.swapTxState .CreatingTx) subTxID
    return .CreatingTx
  if swapTxState = .CreatingTx then
    let swapAddress ← GetMandatoryParameter Value.asStr .AtomicSwapAddress .kDefaultSubTxID
    let callback :=
      if subTxID = .REFUND_TX then DumpCallback.OnDumpSenderPrivateKey
      else DumpCallback.OnDumpReceiverPrivateKey
    M.emit (.dumpPrivKey swapAddress callback)
  return swapTxState

/-- `RegisterExternalTx` (lines 465-498), without the reply callback (which is
`OnSendRawTransaction`). -/
def RegisterExternalTx (rawTransaction : String) (subTxID : SubTxID) : M Bool := do
  match (← GetParameter Value.asBool .TransactionRegistered subTxID) with
  | none =>
    M.emit (.sendRawTransaction rawTransaction subTxID)
    return false
  | some isRegistered =>
    if !isRegistered then
      OnFailed .FailedToRegister true
    return isRegistered

/-- The reply callback of `RegisterExternalTx` (lines 470-486) for a non-empty
response without error, carrying the txid `reply["result"]`. -/
def OnSendRawTransaction (subTxID : SubTxID) (txID : String) : M Unit := do
  let isRegistered := !txID.isEmpty
  SetParameter .TransactionRegistered (.bool isRegistered) subTxID
  if !txID.isEmpty then
    SetParameter .AtomicSwapExternalTxID (.str txID) subTxID
  M.emit .Update

/-- `GetSwapLockTxConfirmations` (lines 500-506). -/
def GetSwapLockTxConfirmations : M Unit := do
  let txID ← GetMandatoryParameter Value.asStr .AtomicSwapExternalTxID .LOCK_TX
  let outputIndex ← GetMandatoryParameter Value.asInt .AtomicSwapExternalTxOutputIndex .LOCK_TX
  M.emit (.getTxOut txID outputIndex)

end AtomicSwapTransaction

/-! ## `LockTxBuilder` and `SharedTxBuilder` -/

namespace LockTxBuilder

/-- `LockTxBuilder::GetSharedCommitment` (lines 1258-1267), as far as the
object is concerned: it needs the peer's public blinding factor share. -/
def GetSharedCommitment : M Unit := do
  let _ ← GetMandatoryParameter some .PeerPublicSharedBlindingFactor .BEAM_LOCK_TX
  return ()

/-- `LockTxBuilder::LoadSharedParameters` (lines 1186-1212). -/
def LoadSharedParameters (env : Env) : M Unit := do
  if (← GetParameter some .SharedBlindingFactor .BEAM_LOCK_TX).isNone then
    Builder .BEAM_LOCK_TX .generateSharedCoin
    let v ← M.read fun tx => env.BuilderValue tx.params .BEAM_LOCK_TX
    SetParameter .SharedCoinID (v .SharedCoinID) .BEAM_LOCK_TX
    SetParameter .SharedBlindingFactor (v .SharedBlindingFactor) .BEAM_LOCK_TX
    SetParameter .SharedSeed (v .SharedSeed) .BEAM_LOCK_TX
  else
    -- load remaining shared parameters
    return ()

/-- `LockTxBuilder::SharedUTXOProofPart2` (lines 1133-1152). -/
def SharedUTXOProofPart2 (env : Env) (shouldProduceMultisig : Bool) : M Unit := do
  if shouldProduceMultisig then
    -- GetProofCreatorParams() evaluates GetSharedCommitment()
    GetSharedCommitment
    Builder .BEAM_LOCK_TX .CoSignStep2
    let v ← M.read fun tx => env.BuilderValue tx.params .BEAM_LOCK_TX
    SetParameter .SharedBulletProof (v .SharedBulletProof) .BEAM_LOCK_TX
  else
    Builder .BEAM_LOCK_TX .CoSignPart

/-- `LockTxBuilder::SharedUTXOProofPart3` (lines 1154-1174). -/
def SharedUTXOProofPart3 (env : Env) (shouldProduceMultisig : Bool) : M Unit := do
  if shouldProduceMultisig then
    GetSharedCommitment
    Builder .BEAM_LOCK_TX .CoSignFinalize
    let v ← M.read fun tx => env.BuilderValue tx.params .BEAM_LOCK_TX
    SetParameter .SharedBulletProof (v .SharedBulletProof) .BEAM_LOCK_TX
  else
    Builder .BEAM_LOCK_TX .CoSignPart

/-- `LockTxBuilder::CreateTransaction` (lines 1214-1219): adds the shared
output, loads the peer offset and calls the base builder. -/
def CreateTransaction (env : Env) : M Transaction := do
  GetSharedCommitment
  Builder .BEAM_LOCK_TX .CreateTransaction
  M.read fun tx => env.CreateTransaction tx.params .BEAM_LOCK_TX

end LockTxBuilder

namespace SharedTxBuilder

/-- `SharedTxBuilder::GetSharedParameters` (lines 1280-1284). -/
def GetSharedParameters : M Bool := do
  let a ← GetParameter some .SharedBlindingFactor .BEAM_LOCK_TX
  if a.isSome then
    let b ← GetParameter some .PeerPublicSharedBlindingFactor .BEAM_LOCK_TX
    return b.isSome
  return false

/-- `SharedTxBuilder::InitTx` (lines 1286-1303), with `InitInputAndOutputs`
(lines 1305-1323) and `InitOffset` (lines 1325-1329). -/
def InitTx (env : Env) (subTxID : SubTxID) (isTxOwner : Bool) : M Unit := do
  if isTxOwner then
    -- select shared UTXO as input and create output utxo
    let v ← M.read fun tx => env.BuilderValue tx.params subTxID
    SetParameter .Inputs (v .Inputs) subTxID
    Builder subTxID .AddOutput
    Builder subTxID .FinalizeOutputs
  else
    -- init offset
    let v ← M.read fun tx => env.BuilderValue tx.params subTxID
    SetParameter .Offset (v .Offset) subTxID

/-- `SharedTxBuilder::CreateTransaction` (lines 1274-1278). -/
def CreateTransaction (env : Env) (subTxID : SubTxID) : M Transaction := do
  Builder subTxID .CreateTransaction
  M.read fun tx => env.CreateTransaction tx.params subTxID

end SharedTxBuilder

/-! ## Peer messages -/

namespace AtomicSwapTransaction

/-- `SendInvitation` (lines 826-845). -/
def SendInvitation (env : Env) : M Unit := do
  let swapAmount ← GetMandatoryParameter Value.asNat .AtomicSwapAmount .kDefaultSubTxID
  let swapCoin ← GetMandatoryParameter Value.asNat .AtomicSwapCoin .kDefaultSubTxID
  let swapAddress ← GetMandatoryParameter Value.asStr .AtomicSwapAddress .kDefaultSubTxID
  -- send invitation
  let amount ← GetAmount
  let isSender ← IsSender
  let msg : SetTxParameter :=
    [(.Amount, .nat amount), (.IsSender, .bool (!isSender)), (.AtomicSwapAmount, .nat swapAmount),
     (.AtomicSwapCoin, .nat swapCoin), (.AtomicSwapPeerAddress, .str swapAddress),
     (.PeerProtoVersion, .nat env.s_ProtoVersion)]
  if !(← SendTxParameters env msg) then
    OnFailed .FailedToSendParameters false

/-- `SendExternalTxDetails` (lines 847-861). -/
def SendExternalTxDetails (env : Env) : M Unit := do
  let txID ← GetMandatoryParameter Value.asStr .AtomicSwapExternalTxID .LOCK_TX
  let outputIndex ← GetMandatoryParameter Value.asInt .AtomicSwapExternalTxOutputIndex .LOCK_TX
  let msg : SetTxParameter :=
    [(.SubTxIndex, .subTx .LOCK_TX), (.AtomicSwapExternalTxID, .str txID),
     (.AtomicSwapExternalTxOutputIndex, .int outputIndex)]
  if !(← SendTxParameters env msg) then
    OnFailed .FailedToSendParameters false

/-- `SendLockTxInvitation` (lines 863-876); `fee` is the builder's fee. -/
def SendLockTxInvitation (env : Env) (fee : Nat) : M Unit := do
  let v ← M.read fun tx => env.BuilderValue tx.params .BEAM_LOCK_TX
  let msg : SetTxParameter :=
    [(.Fee, .nat fee), (.SubTxIndex, .subTx .BEAM_LOCK_TX), (.MinHeight, v .MinHeight),
     (.PeerPublicExcess, v .PeerPublicExcess), (.PeerPublicNonce, v .PeerPublicNonce)]
  if !(← SendTxParameters env msg) then
    OnFailed .FailedToSendParameters false

/-- `SendBulletProofPart2` (lines 878-902). -/
def SendBulletProofPart2 (env : Env) (isSender : Bool) : M Unit := do
  let v ← M.read fun tx => env.BuilderValue tx.params .BEAM_LOCK_TX
  let msg : SetTxParameter :=
    [(.SubTxIndex, .subTx .BEAM_LOCK_TX), (.PeerSignature, v .PeerSignature),
     (.PeerOffset, v .PeerOffset),
     (.PeerPublicSharedBlindingFactor, v .PeerPublicSharedBlindingFactor)]
  let msg : SetTxParameter :=
    if isSender then
      msg ++ [(.PeerSharedBulletProofMSig, v .PeerSharedBulletProofMSig)]
    else
      msg ++ [(.PeerPublicExcess, v .PeerPublicExcess), (.PeerPublicNonce, v .PeerPublicNonce),
              (.PeerSharedBulletProofPart2, v .PeerSharedBulletProofPart2)]
  if !(← SendTxParameters env msg) then
    OnFailed .FailedToSendParameters false

/-- `SendBulletProofPart3` (lines 904-922). -/
def SendBulletProofPart3 (env : Env) (isSender : Bool) : M Unit := do
  let v ← M.read fun tx => env.BuilderValue tx.params .BEAM_LOCK_TX
  let msg : SetTxParameter := [(.SubTxIndex, .subTx .BEAM_LOCK_TX)]
  let msg : SetTxParameter :=
    if !isSender then msg ++ [(.PeerSharedBulletProofPart3, v .PeerSharedBulletProofPart3)]
    else msg
  if !(← SendTxParameters env msg) then
    OnFailed .FailedToSendParameters false

/-- `SendSharedTxInvitation` (lines 924-943); `amount` and `fee` are the
builder's. -/
def SendSharedTxInvitation (env : Env) (subTxID : SubTxID) (amount fee : Nat)
    (shouldSendLockImage : Bool) : M Unit := do
  let v ← M.read fun tx => env.BuilderValue tx.params subTxID
  let msg : SetTxParameter :=
    [(.SubTxIndex, .subTx subTxID), (.Amount, .nat amount), (.Fee, .nat fee),
     (.MinHeight, v .MinHeight), (.PeerPublicExcess, v .PeerPublicExcess),
     (.PeerPublicNonce, v .PeerPublicNonce)]
  let msg : SetTxParameter :=
    if shouldSendLockImage then msg ++ [(.PeerLockImage, v .PeerLockImage)] else msg
  if !(← SendTxParameters env msg) then
    OnFailed .FailedToSendParameters false

/-- `ConfirmSharedTxInvitation` (lines 945-958). -/
def ConfirmSharedTxInvitation (env : Env) (subTxID : SubTxID) : M Unit := do
  let v ← M.read fun tx => env.BuilderValue tx.params subTxID
  let msg : SetTxParameter :=
    [(.SubTxIndex, .subTx subTxID), (.PeerPublicExcess, v .PeerPublicExcess),
     (.PeerSignature, v .PeerSignature), (.PeerPublicNonce, v .PeerPublicNonce),
     (.PeerOffset, v .PeerOffset)]
  if !(← SendTxParameters env msg) then
    OnFailed .FailedToSendParameters false

end AtomicSwapTransaction

/-! ## Chain A sub-transactions -/

namespace AtomicSwapTransaction

/-- `BuildBeamLockTx` (lines 508-596). -/
def BuildBeamLockTx (env : Env) : M SubTxState := do
  -- load state
  let lockTxState := (← GetParameter Value.asSubTxState .State .BEAM_LOCK_TX).getD .Initial
  let isSender ← IsSender
  let _amount ← GetAmount
  let fee ← GetMandatoryParameter Value.asNat .Fee .kDefaultSubTxID
  (if !(← BuilderQuery env.GetInitialTxParams .GetInitialTxParams .BEAM_LOCK_TX)
      && lockTxState = .Initial then do
    (if isSender then do
      Builder .BEAM_LOCK_TX .SelectInputs
      Builder .BEAM_LOCK_TX .AddChangeOutput
    else pure ())
    Builder .BEAM_LOCK_TX .FinalizeOutputs
    UpdateTxDescription .InProgress
  else pure ())
  Builder .BEAM_LOCK_TX .CreateKernel
  if !(← BuilderQuery env.GetPeerPublicExcessAndNonce .GetPeerPublicExcessAndNonce
        .BEAM_LOCK_TX) then
    if lockTxState = .Initial && env.IsInitiator then
      SendLockTxInvitation env fee
      SetState (.subTxState .Invitation) .BEAM_LOCK_TX
      return .Invitation
    return lockTxState
  LockTxBuilder.LoadSharedParameters env
  Builder .BEAM_LOCK_TX .SignPartial
  if lockTxState = .Initial || lockTxState = .Invitation then
    LockTxBuilder.SharedUTXOProofPart2 env isSender
    SendBulletProofPart2 env isSender
    SetState (.subTxState .SharedUTXOProofPart2) .BEAM_LOCK_TX
    return .SharedUTXOProofPart2
  M.assert 560 (← BuilderQuery env.GetPeerSignature .GetPeerSignature .BEAM_LOCK_TX)
  if !(← BuilderQuery env.IsPeerSignatureValid .IsPeerSignatureValid .BEAM_LOCK_TX) then
    return lockTxState
  Builder .BEAM_LOCK_TX .FinalizeSignature
  let lockTxState ←
    if lockTxState = .SharedUTXOProofPart2 then do
      LockTxBuilder.SharedUTXOProofPart3 env isSender
      SendBulletProofPart3 env isSender
      SetState (.subTxState .Constructed) .BEAM_LOCK_TX
      pure SubTxState.Constructed
    else
      pure lockTxState
  if isSender && lockTxState = .Constructed then
    -- Create TX
    let transaction ← LockTxBuilder.CreateTransaction env
    if !env.IsValid transaction then
      OnFailed .InvalidTransaction true
      return lockTxState
    M.modify fun tx => { tx with m_LockTx := some transaction }
    return lockTxState
  return lockTxState

/-- `BuildBeamRefundTx` (lines 598-669). -/
def BuildBeamRefundTx (env : Env) : M SubTxState := do
  let subTxID := SubTxID.BEAM_REFUND_TX
  let subTxState ← GetSubTxState subTxID
  let refundFee := 0
  let refundAmount := (← GetAmount) - refundFee
  let isTxOwner ← IsSender
  if !(← SharedTxBuilder.GetSharedParameters) then
    return subTxState
  -- send invite to get
  (if !(← BuilderQuery env.GetInitialTxParams .GetInitialTxParams subTxID)
      && subTxState = .Initial then
    SharedTxBuilder.InitTx env subTxID isTxOwner
  else pure ())
  Builder subTxID .CreateKernel
  if !(← BuilderQuery env.GetPeerPublicExcessAndNonce .GetPeerPublicExcessAndNonce subTxID) then
    if subTxState = .Initial && isTxOwner then
      SendSharedTxInvitation env subTxID refundAmount refundFee false
      SetState (.subTxState .Invitation) subTxID
      return .Invitation
    return subTxState
  Builder subTxID .SignPartial
  if !(← BuilderQuery env.GetPeerSignature .GetPeerSignature subTxID) then
    if subTxState = .Initial && !isTxOwner then
      -- invited participant
      M.assert 640 (!env.IsInitiator)
      ConfirmSharedTxInvitation env subTxID
      SetState (.subTxState .Constructed) subTxID
      return .Constructed
    return subTxState
  if !(← BuilderQuery env.IsPeerSignatureValid .IsPeerSignatureValid subTxID) then
    return subTxState
  Builder subTxID .FinalizeSignature
  SetState (.subTxState .Constructed) subTxID
  (if isTxOwner then do
    let transaction ← SharedTxBuilder.CreateTransaction env subTxID
    M.modify fun tx => { tx with m_RefundTx := some transaction }
  else pure ())
  return .Constructed

/-- `BuildBeamRedeemTx` (lines 671-748). -/
def BuildBeamRedeemTx (env : Env) : M SubTxState := do
  let subTxID := SubTxID.BEAM_REDEEM_TX
  let subTxState ← GetSubTxState subTxID
  let redeemFee := 0
  let redeemAmount := (← GetAmount) - redeemFee
  let isTxOwner := !(← IsSender)
  if !(← SharedTxBuilder.GetSharedParameters) then
    return subTxState
  -- send invite to get
  (if !(← BuilderQuery env.GetInitialTxParams .GetInitialTxParams subTxID)
      && subTxState = .Initial then
    SharedTxBuilder.InitTx env subTxID isTxOwner
  else pure ())
  Builder subTxID .CreateKernel
  if !(← BuilderQuery env.GetPeerPublicExcessAndNonce .GetPeerPublicExcessAndNonce subTxID) then
    if subTxState = .Initial && isTxOwner then
      -- send invitation with LockImage
      SendSharedTxInvitation env subTxID redeemAmount redeemFee true
      SetState (.subTxState .Invitation) subTxID
      return .Invitation
    return subTxState
  Builder subTxID .SignPartial
  if !(← BuilderQuery env.GetPeerSignature .GetPeerSignature subTxID) then
    if subTxState = .Initial && !isTxOwner then
      -- invited participant
      M.assert 714 env.IsInitiator
      ConfirmSharedTxInvitation env subTxID
      SetState (.subTxState .Constructed) subTxID
      return .Constructed
    return subTxState
  if !(← BuilderQuery env.IsPeerSignatureValid .IsPeerSignatureValid subTxID) then
    return subTxState
  Builder subTxID .FinalizeSignature
  SetState (.subTxState .Constructed) subTxID
  if isTxOwner then
    let transaction ← SharedTxBuilder.CreateTransaction env subTxID
    if !env.IsValid transaction then
      OnFailed .InvalidTransaction true
      return .Constructed
    M.modify fun tx => { tx with m_RedeemTx := some transaction }
  return .Constructed

/-- `SendSubTx` (lines 750-766). -/
def SendSubTx (transaction : Transaction) (subTxID : SubTxID) : M Bool := do
  match (← GetParameter Value.asBool .TransactionRegistered subTxID) with
  | none =>
    M.emit (.register_tx subTxID transaction)
    return false
  | some isRegistered =>
    if !isRegistered then
      OnFailed .FailedToRegister true
      return isRegistered
    return isRegistered

/-- `IsBeamLockTimeExpired` (lines 768-776). -/
def IsBeamLockTimeExpired (env : Env) : M Bool := do
  let lockTimeHeight := (← GetParameter Value.asNat .MinHeight .kDefaultSubTxID).getD MaxHeight
  return match env.GetTip with
    | none => false
    | some m_Height => decide (m_Height > add64 lockTimeHeight kBeamLockTimeInBlocks)

/-- `IsSubTxCompleted` (lines 778-790). -/
def IsSubTxCompleted (subTxID : SubTxID) : M Bool := do
  let hProof := (← GetParameter Value.asNat .KernelProofHeight .kDefaultSubTxID).getD 0
  if hProof = 0 then
    let kernelID ← GetMandatoryParameter Value.asBig .KernelID subTxID
    M.emit (.confirm_kernel kernelID)
    return false
  return true

/-- `GetPreimageFromChain` (lines 792-806): whether the preimage was
recovered; the preimage it loads is the stored default-sub-tx `PreImage`. -/
def GetPreimageFromChain : M Bool := do
  let hProof := (← GetParameter Value.asNat .KernelProofHeight .kDefaultSubTxID).getD 0
  let _preimage ← GetParameter Value.asBig .PreImage .kDefaultSubTxID
  if hProof = 0 then
    let kernelID ← GetMandatoryParameter Value.asBig .KernelID .BEAM_REDEEM_TX
    M.emit (.get_kernel kernelID)
    return false
  return true

end AtomicSwapTransaction

/-! ## The top-level automaton -/

namespace AtomicSwapTransaction

/-- `UpdateImpl`, `case State::Initial` (lines 183-197). -/
def UpdateImpl.Initial : M Unit := do
  -- load or generate BTC address
  match (← GetParameter Value.asStr .AtomicSwapAddress .kDefaultSubTxID) with
  | none =>
    -- is need to setup type 'legacy'?
    M.emit .getRawChangeAddress
  | some _ =>
    SetNextState .Invitation

/-- `UpdateImpl`, `case State::Invitation` (lines 198-207). -/
def UpdateImpl.Invitation (env : Env) (isBeamOwner : Bool) : M Unit := do
  if env.IsInitiator then
    SendInvitation env
  SetNextState (if isBeamOwner then .BuildingBeamLockTX else .BuildingLockTX)

/-- `UpdateImpl`, `case State::BuildingLockTX` (lines 208-217). -/
def UpdateImpl.BuildingLockTX (env : Env) (isBeamOwner : Bool) : M Unit := do
  M.assert 210 (!isBeamOwner)
  let lockTxState ← BuildLockTx env
  if lockTxState ≠ .Constructed then
    return ()
  SetNextState .BuildingBeamLockTX

/-- `UpdateImpl`, `case State::BuildingRefundTX` (lines 218-227). -/
def UpdateImpl.BuildingRefundTX (isBeamOwner : Bool) : M Unit := do
  M.assert 220 (!isBeamOwner)
  let refundTxState ← BuildWithdrawTx .REFUND_TX
  if refundTxState ≠ .Constructed then
    return ()
  SetNextState .SendingBeamLockTX

/-- `UpdateImpl`, `case State::BuildingRedeemTX` (lines 228-237). -/
def UpdateImpl.BuildingRedeemTX (isBeamOwner : Bool) : M Unit := do
  M.assert 230 isBeamOwner
  let refundTxState ← BuildWithdrawTx .REDEEM_TX
  if refundTxState ≠ .Constructed then
    return ()
  SetNextState .SendingRedeemTX

/-- `UpdateImpl`, `case State::BuildingBeamLockTX` (lines 238-246). -/
def UpdateImpl.BuildingBeamLockTX (env : Env) : M Unit := do
  let lockTxState ← BuildBeamLockTx env
  if lockTxState ≠ .Constructed then
    return ()
  SetNextState .BuildingBeamRefundTX

/-- `UpdateImpl`, `case State::BuildingBeamRefundTX` (lines 247-255). -/
def UpdateImpl.BuildingBeamRefundTX (env : Env) : M Unit := do
  let subTxState ← BuildBeamRefundTx env
  if subTxState ≠ .Constructed then
    return ()
  SetNextState .BuildingBeamRedeemTX

/-- `UpdateImpl`, `case State::BuildingBeamRedeemTX` (lines 256-264). -/
def UpdateImpl.BuildingBeamRedeemTX (env : Env) : M Unit := do
  let subTxState ← BuildBeamRedeemTx env
  if subTxState ≠ .Constructed then
    return ()
  SetNextState .HandlingContractTX

/-- `UpdateImpl`, `case State::HandlingContractTX` (lines 265-298). -/
def UpdateImpl.HandlingContractTX (env : Env) (isBeamOwner : Bool) : M Unit := do
  if !isBeamOwner then
    -- send contractTx
    let m_SwapLockRawTx ← M.read (·.m_SwapLockRawTx)
    M.assert 270 m_SwapLockRawTx.isSome
    match m_SwapLockRawTx with
    | none => M.raise .BadAccess
    | some rawTx =>
      if !(← RegisterExternalTx rawTx .LOCK_TX) then
        return ()
      SendExternalTxDetails env
      SetNextState .BuildingRefundTX
  else
    -- wait TxID from peer
    match (← GetParameter Value.asStr .AtomicSwapExternalTxID .LOCK_TX) with
    | none => return ()
    | some _ =>
      -- TODO: check current blockchain height and cancel swap if too late
      if (← M.read (·.m_SwapLockTxConfirmations)) < kBTCMinTxConfirmations then
        -- TODO: timeout ?
        GetSwapLockTxConfirmations
        return ()
      SetNextState .SendingBeamLockTX

/-- `UpdateImpl`, `case State::SendingRefundTX` (lines 299-303). -/
def UpdateImpl.SendingRefundTX : M Unit := do
  M.assert 301 false

/-- `UpdateImpl`, `case State::SendingRedeemTX` (lines 304-308). -/
def UpdateImpl.SendingRedeemTX : M Unit := do
  M.assert 306 false

/-- `UpdateImpl`, `case State::SendingBeamLockTX` (lines 309-331). -/
def UpdateImpl.SendingBeamLockTX : M Unit := do
  -- TODO: load m_LockTx
  match (← M.read (·.m_LockTx)) with
  | some m_LockTx =>
    if !(← SendSubTx m_LockTx .BEAM_LOCK_TX) then
      return ()
  | none => pure ()
  if !(← IsSubTxCompleted .BEAM_LOCK_TX) then
    return ()
  -- TODO: change this (dirty hack)
  SetParameter .KernelProofHeight (.nat 0) .kDefaultSubTxID
  SetNextState .SendingBeamRedeemTX

/-- `UpdateImpl`, `case State::SendingBeamRedeemTX` (lines 332-367). -/
def UpdateImpl.SendingBeamRedeemTX (env : Env) (isBeamOwner : Bool) : M Unit := do
  match (← M.read (·.m_RedeemTx)) with
  | some m_RedeemTx =>
    if !(← SendSubTx m_RedeemTx .BEAM_REDEEM_TX) then
      return ()
  | none => pure ()
  if isBeamOwner then
    if (← IsBeamLockTimeExpired env) then
      SetNextState .SendingBeamRefundTX
      return ()
    -- request kernel body for getting secret(preimage)
    if !(← GetPreimageFromChain) then
      return ()
    -- Redeem second Coin
    SetNextState .BuildingRedeemTX
  else
    if !(← IsSubTxCompleted .BEAM_REDEEM_TX) then
      return ()
    SetNextState .CompleteSwap

/-- `UpdateImpl`, `case State::SendingBeamRefundTX` (lines 368-382). -/
def UpdateImpl.SendingBeamRefundTX (isBeamOwner : Bool) : M Unit := do
  M.assert 370 isBeamOwner
  match (← M.read (·.m_RefundTx)) with
  | some m_RefundTx =>
    if !(← SendSubTx m_RefundTx .BEAM_REFUND_TX) then
      return ()
  | none => pure ()
  if !(← IsSubTxCompleted .BEAM_REFUND_TX) then
    return ()
  SetNextState .CompleteSwap

/-- `UpdateImpl`, `case State::CompleteSwap` (lines 383-389). -/
def UpdateImpl.CompleteSwap : M Unit := do
  UpdateTxDescription .Completed

/-- `UpdateImpl` (lines 176-394): one tick of the swap state machine; each case
of the `switch` is the function above of the same name. -/
def UpdateImpl (env : Env) : M Unit := do
  let state ← GetState .kDefaultSubTxID
  let isBeamOwner ← IsSender
  match state with
  | .Initial => UpdateImpl.Initial
  | .Invitation => UpdateImpl.Invitation env isBeamOwner
  | .BuildingLockTX => UpdateImpl.BuildingLockTX env isBeamOwner
  | .BuildingRefundTX => UpdateImpl.BuildingRefundTX isBeamOwner
  | .BuildingRedeemTX => UpdateImpl.BuildingRedeemTX isBeamOwner
  | .BuildingBeamLockTX => UpdateImpl.BuildingBeamLockTX env
  | .BuildingBeamRefundTX => UpdateImpl.BuildingBeamRefundTX env
  | .BuildingBeamRedeemTX => UpdateImpl.BuildingBeamRedeemTX env
  | .HandlingContractTX => UpdateImpl.HandlingContractTX env isBeamOwner
  | .SendingRefundTX => UpdateImpl.SendingRefundTX
  | .SendingRedeemTX => UpdateImpl.SendingRedeemTX
  | .SendingBeamLockTX => UpdateImpl.SendingBeamLockTX
  | .SendingBeamRedeemTX => UpdateImpl.SendingBeamRedeemTX env isBeamOwner
  | .SendingBeamRefundTX => UpdateImpl.SendingBeamRefundTX isBeamOwner
  | .CompleteSwap => UpdateImpl.CompleteSwap

end AtomicSwapTransaction

/-! ## RPC callbacks

A callback receives the reply as the translation unit reads it after
`json::parse`: `none` is the empty response, `some` carries the fields of
`reply["result"]` that the callback uses. -/

/-- The call `tx.inputs()[0].set_script(s)`: undefined when there is no input. -/
def set_script_of_first_input (tx : transaction) (s : script) : Option transaction :=
  match tx.inputs with
  | [] => none
  | i :: rest => some { tx with inputs := { i with script := s } :: rest }

namespace AtomicSwapTransaction

/-- `OnGetRawChangeAddress` (lines 960-975). -/
def OnGetRawChangeAddress (response : Option String) : M Unit := do
  match response with
  | none => M.raise (.AssertionFailed 962)
  | some result =>
    SetParameter .AtomicSwapAddress (.str result) .kDefaultSubTxID
    SetNextState .Invitation

/-- `OnFundRawTransaction` (lines 977-995); the reply carries `hex` and the
integer `changepos`, which line 987 reads into an `int` with `get<int>()`. -/
def OnFundRawTransaction (response : Option (String × Int)) : M Unit := do
  match response with
  | none => M.raise (.AssertionFailed 979)
  | some (hexTx, changepos) =>
    let changePos : Int := toInt32 changepos
    let valuePosition : Int := if changePos ≠ 0 then 0 else 1
    M.modify fun tx => { tx with m_ValuePosition := valuePosition }
    SetParameter .AtomicSwapExternalTxOutputIndex (.int valuePosition) .LOCK_TX
    M.emit (.signRawTransaction hexTx)

/-- `OnSignLockTransaction` (lines 997-1012); the reply carries `hex` and
`complete`. -/
def OnSignLockTransaction (response : Option (String × Bool)) : M Unit := do
  match response with
  | none => M.raise (.AssertionFailed 999)
  | some (hex, complete) =>
    M.assert 1007 complete
    M.modify fun tx => { tx with m_SwapLockRawTx := some hex }
    SetState (.swapTxState .Constructed) .LOCK_TX
    UpdateAsync

/-- `OnCreateRefundTransaction` (lines 1014-1020). -/
def OnCreateRefundTransaction (response : Option String) : M Unit := do
  match response with
  | none => M.raise (.AssertionFailed 1016)
  | some result =>
    M.modify fun tx => { tx with m_SwapWithdrawRawTx := some result }
    UpdateAsync

/-- `OnDumpSenderPrivateKey` (lines 1022-1059); the reply carries the WIF key. -/
def OnDumpSenderPrivateKey (env : Env) (response : Option String) : M Unit := do
  match response with
  | none => M.raise (.AssertionFailed 1024)
  | some result =>
    match (← M.read (·.m_SwapWithdrawRawTx)) with
    | none => M.raise .BadAccess
    | some rawTx =>
      let withdrawTX := env.factory_from_data rawTx
      let input_index := 0
      let redeemScript ← CreateAtomicSwapContract env
      let sig := env.create_endorsement result redeemScript withdrawTX input_index
      -- Create input script
      let pubkey := env.to_public result
      -- <my sig> <my pubkey> 0
      let sig_script : script := []
      let sig_script := sig_script ++ [operation.data sig]
      let sig_script := sig_script ++ [operation.data pubkey]
      let sig_script := sig_script ++ [operation.op .push_size_0]
      -- Add input script to first input in transaction
      match set_script_of_first_input withdrawTX sig_script with
      | none => M.raise .BadAccess
      | some withdrawTX =>
        -- update m_SwapWithdrawRawTx
        M.modify fun tx => { tx with m_SwapWithdrawRawTx := some (env.encode_base16 withdrawTX) }
        SetState (.swapTxState .Constructed) .REFUND_TX
        UpdateAsync

/-- `OnDumpReceiverPrivateKey` (lines 1061-1101); the reply carries the WIF
key. -/
def OnDumpReceiverPrivateKey (env : Env) (response : Option String) : M Unit := do
  match response with
  | none => M.raise (.AssertionFailed 1063)
  | some result =>
    match (← M.read (·.m_SwapWithdrawRawTx)) with
    | none => M.raise .BadAccess
    | some rawTx =>
      let withdrawTX := env.factory_from_data rawTx
      let input_index := 0
      let redeemScript ← CreateAtomicSwapContract env
      let sig := env.create_endorsement result redeemScript withdrawTX input_index
      -- Create input script
      let pubkey := env.to_public result
      let secret ← GetMandatoryParameter Value.asBig .PreImage .kDefaultSubTxID
      -- <their sig> <their pubkey> <initiator secret> 1
      let sig_script : script := []
      let sig_script := sig_script ++ [operation.data sig]
      let sig_script := sig_script ++ [operation.data pubkey]
      let sig_script := sig_script ++ [operation.data secret.val]
      let sig_script := sig_script ++ [operation.op .push_positive_1]
      -- Add input script to first input in transaction
      match set_script_of_first_input withdrawTX sig_script with
      | none => M.raise .BadAccess
      | some withdrawTX =>
        -- update m_SwapWithdrawRawTx
        M.modify fun tx => { tx with m_SwapWithdrawRawTx := some (env.encode_base16 withdrawTX) }
        SetState (.swapTxState .Constructed) .REDEEM_TX
        UpdateAsync

/-- `OnGetSwapLockTxConfirmations` (lines 1103-1121); the reply carries
`confirmations`. Recording the count is logged. -/
def OnGetSwapLockTxConfirmations (response : Option Nat) : M Unit := do
  match response with
  | none => return ()
  | some confirmations =>
    -- get confirmations
    M.modify fun tx => { tx with m_SwapLockTxConfirmations := confirmations }
    M.emit (.ConfirmationsRecorded confirmations)
    if confirmations ≥ kBTCMinTxConfirmations then
      UpdateAsync

end AtomicSwapTransaction

/-! ## Spending an HTLC output: which branch an input script selects -/

/-- The stack left by an input script made of pushes only: `operation(data)`
pushes the bytes, `push_positive_1` the number 1, `push_size_0` the empty
vector. `none` when the script holds another operation. The top is the head. -/
def runPushes : script → List data_chunk → Option (List data_chunk)
  | [], stack => some stack
  | .data bytes :: rest, stack => runPushes rest (bytes :: stack)
  | .op .push_positive_1 :: rest, stack => runPushes rest ([1] :: stack)
  | .op .push_size_0 :: rest, stack => runPushes rest ([] :: stack)
  | _ :: _, _ => none

/-- Bitcoin's reading of a stack element as a boolean: true when some byte is
non-zero, except for the negative zero (zeros, then `0x80`). -/
def castToBool : data_chunk → Bool
  | [] => false
  | [b] => b != 0 && b != 0x80
  | b :: rest => b != 0 || castToBool rest

/-- What `OP_IF` does with the top of the stack left by the input script: it
pops it and takes the IF branch when it reads as true, the ELSE branch
otherwise. The result is the branch taken (`true` for IF) and the remaining stack. -/
def selectBranch (inputScript : script) : Option (Bool × List data_chunk) :=
  match runPushes inputScript [] with
  | some (top :: rest) => some (castToBool top, rest)
  | _ => none


/-! ## Observations -/

/-- Modelled from the spec: the object right after construction over a wallet
database that holds `params`. The constructor (lines 117-123) initialises no
member itself: the optional members and the three transaction pointers are
empty by default construction; the two integer members `m_SwapLockTxConfirmations`
and `m_ValuePosition` get their initial values in the class declaration, which
is not among the sources, and are taken as 0 (no confirmation is known before
the first `getTxOut` reply). Nothing is logged yet. -/
def AtomicSwapTransaction.create (params : ParamStore) : AtomicSwapTransaction :=
  { params := params, m_IsSender := none, m_Amount := none, m_LockTx := none, m_RefundTx := none,
    m_RedeemTx := none, m_SwapLockRawTx := none, m_SwapWithdrawRawTx := none,
    m_SwapLockTxConfirmations := 0, m_ValuePosition := 0, log := [] }

/-- The stored top-level state (what `GetState(kDefaultSubTxID)` returns). -/
def AtomicSwapTransaction.state (tx : AtomicSwapTransaction) : State :=
  ((tx.params .kDefaultSubTxID .State).bind Value.asState).getD .Initial

/-- The stored state of a Chain A sub-transaction (what `GetSubTxState`
returns). -/
def AtomicSwapTransaction.subTxState (tx : AtomicSwapTransaction) (subTxID : SubTxID) :
    SubTxState :=
  ((tx.params subTxID .State).bind Value.asSubTxState).getD .Initial

/-- The stored state of a Chain B sub-transaction. -/
def AtomicSwapTransaction.swapTxState (tx : AtomicSwapTransaction) (subTxID : SubTxID) :
    SwapTxState :=
  ((tx.params subTxID .State).bind Value.asSwapTxState).getD .Initial

/-- The role bit that `IsSender()` returns on this object, when it returns: the
cached one, else the stored one. -/
def AtomicSwapTransaction.role (tx : AtomicSwapTransaction) : Option Bool :=
  match tx.m_IsSender with
  | some b => some b
  | none => (tx.params .kDefaultSubTxID .IsSender).bind Value.asBool

/-- The object once `IsSender()` has returned `b`: the role is cached. -/
def AtomicSwapTransaction.cached (tx : AtomicSwapTransaction) (b : Bool) :
    AtomicSwapTransaction :=
  { tx with m_IsSender := some b }

/-- The amount that `GetAmount()` returns on this object, when it returns: the
cached one, else the stored one. -/
def AtomicSwapTransaction.amount (tx : AtomicSwapTransaction) : Option Nat :=
  match tx.m_Amount with
  | some a => some a
  | none => (tx.params .kDefaultSubTxID .Amount).bind Value.asNat

/-- No broadcast of a built Chain A transaction is pending or failed: either
the object holds no such transaction, or `TransactionRegistered` is stored as
true for its sub-transaction. This is when the first line of the sending states,
`if (m_Tx && !SendSubTx(m_Tx, subTxID)) break;`, lets the tick continue. -/
def AtomicSwapTransaction.broadcastSettled (tx : AtomicSwapTransaction)
    (built : Option Transaction) (subTxID : SubTxID) : Prop :=
  built = none ∨ (tx.params subTxID .TransactionRegistered).bind Value.asBool = some true

/-- The log entries that a call on `tx` added. -/
def Res.newLog {α : Type} (r : Res α) (tx : AtomicSwapTransaction) : List Effect :=
  r.tx.log.drop tx.log.length

/-- The store after the parameter writes of a log, in order. -/
def replay (l : List Effect) (s : ParamStore) : ParamStore :=
  l.foldl (fun s e => match e with
    | .SetParameter subTxID id v => s.put subTxID id v
    | _ => s) s

/-! ## A concrete swap, for instantiating the theorems -/

/-- The 32 zero bytes. -/
def zeroBig : uintBig := ⟨List.replicate 32 0, rfl⟩

/-- An environment in which every request succeeds: the peer channel delivers,
the builders find what they ask for in the store, peer signatures verify and
built transactions are valid. -/
def sampleEnv (isInitiator : Bool) (tip : Option Nat) : Env :=
  { IsInitiator := isInitiator
    SendTxParameters := fun _ => true
    GetTip := tip
    s_ProtoVersion := 1
    GenRandom := zeroBig
    Hash := fun u => u
    GetInitialTxParams := fun s subTxID => (s subTxID .Offset).isSome
    GetPeerPublicExcessAndNonce := fun s subTxID =>
      (s subTxID .PeerPublicExcess).isSome && (s subTxID .PeerPublicNonce).isSome
    GetPeerSignature := fun s subTxID => (s subTxID .PeerSignature).isSome
    IsPeerSignatureValid := fun _ _ => true
    CreateTransaction := fun _ _ => { kernelID := zeroBig, body := 0 }
    IsValid := fun _ => true
    BuilderValue := fun _ _ _ => .blob 0
    payment_address_hash := fun a => a.toList.map Char.toNat
    encode_base16 := fun _ => "raw"
    factory_from_data := fun _ =>
      { inputs := [{ previous_output := ("txid", 0), script := [], sequence := 4294967294 }],
        outputs := [], locktime := 0 }
    create_endorsement := fun _ _ _ _ => [48]
    to_public := fun _ => [2] }

/-- The parameters of the first scenario of the specification, as the Chain B
owner holds them once the Chain B lock transaction is on chain: created at
`t0 = 1700000000`, 100000000 satoshi against 10 units, with the preimage under
`BEAM_REDEEM_TX` and, as recovered, under the default sub-transaction. -/
def sampleParams : ParamStore
  | .kDefaultSubTxID, .IsSender => some (.bool false)
  | .kDefaultSubTxID, .CreateTime => some (.nat 1700000000)
  | .kDefaultSubTxID, .Amount => some (.nat 10)
  | .kDefaultSubTxID, .Fee => some (.nat 1)
  | .kDefaultSubTxID, .AtomicSwapAmount => some (.nat 100000000)
  | .kDefaultSubTxID, .AtomicSwapCoin => some (.nat 0)
  | .kDefaultSubTxID, .AtomicSwapAddress => some (.str "addressB")
  | .kDefaultSubTxID, .AtomicSwapPeerAddress => some (.str "addressA")
  | .kDefaultSubTxID, .PreImage => some (.big zeroBig)
  | .BEAM_REDEEM_TX, .PreImage => some (.big zeroBig)
  | .LOCK_TX, .AtomicSwapExternalTxID => some (.str "txid")
  | .LOCK_TX, .AtomicSwapExternalTxOutputIndex => some (.int 0)
  | _, _ => none

/-- An object over `sampleParams` that holds a raw withdraw transaction. -/
def sampleTx : AtomicSwapTransaction :=
  { AtomicSwapTransaction.create sampleParams with m_SwapWithdrawRawTx := some "raw" }

/-! ## Relating an object to a later one -/

/-- The object `tx'` comes after `tx`: the log of `tx'` extends the log of `tx`
by entries that all satisfy `P`, the store of `tx'` is the store of `tx` after
the logged writes, a cached role stays, the raw Chain B transactions and the
confirmation count are the same, and, when `strict` holds, so are the three
built Chain A transactions. -/
structure Evolves (P : Effect → Prop) (strict : Prop) (tx tx' : AtomicSwapTransaction) :
    Prop where
  log : ∃ l, tx'.log = tx.log ++ l ∧ tx'.params = replay l tx.params ∧ ∀ e ∈ l, P e
  role : ∀ b, tx.m_IsSender = some b → tx'.m_IsSender = some b
  lockRaw : tx'.m_SwapLockRawTx = tx.m_SwapLockRawTx
  withdrawRaw : tx'.m_SwapWithdrawRawTx = tx.m_SwapWithdrawRawTx
  confirmations : tx'.m_SwapLockTxConfirmations = tx.m_SwapLockTxConfirmations
  built : strict →
    tx'.m_LockTx = tx.m_LockTx ∧ tx'.m_RefundTx = tx.m_RefundTx ∧ tx'.m_RedeemTx = tx.m_RedeemTx

/-- Log entries of the builders' local work: builder calls other than the
signature check and the finalization, writes of the builders' own parameters,
and the status update. -/
def Silent : Effect → Prop
  | .Builder _ (.IsPeerSignatureValid _) => False
  | .Builder _ .FinalizeSignature => False
  | .Builder _ _ => True
  | .SetParameter _ .SharedCoinID _ => True
  | .SetParameter _ .SharedBlindingFactor _ => True
  | .SetParameter _ .SharedSeed _ => True
  | .SetParameter _ .SharedBulletProof _ => True
  | .SetParameter _ .Inputs _ => True
  | .SetParameter _ .Offset _ => True
  | .UpdateTxDescription _ => True
  | _ => False

/-- Log entries of sending a peer message: the message, and the failure path
with `FailedToSendParameters`. -/
def Sending : Effect → Prop
  | .SendTxParameters _ => True
  | .OnFailed .FailedToSendParameters false => True
  | _ => False

/-- Log entries that a function called by `UpdateImpl` may add without touching
what the automaton is steered by: not a write of the top-level state, not a
Chain A broadcast, not the record of a confirmation count. -/
def Inner : Effect → Prop
  | .SetParameter .kDefaultSubTxID .State _ => False
  | .register_tx _ _ => False
  | .ConfirmationsRecorded _ => False
  | _ => True

/-- The sample object of the Beam owner in `SendingBeamRefundTX` holding a built
refund transaction whose broadcast has not been registered, while a non-zero
`KernelProofHeight` is stored. -/
def sampleRefundPending : AtomicSwapTransaction :=
  { AtomicSwapTransaction.create
      (((sampleParams.put .kDefaultSubTxID .IsSender (.bool true)).put .kDefaultSubTxID .State
        (.state .SendingBeamRefundTX)).put .kDefaultSubTxID .KernelProofHeight (.nat 5)) with
    m_RefundTx := some { kernelID := zeroBig, body := 0 } }

/-- Log entries that keep the state of sub-transaction `subTxID` at or above
`s` on the ordered path: every write of its `State` stores a sub-transaction
state of rank at least that of `s`. -/
def MonoWrite (subTxID : SubTxID) (s : SubTxState) : Effect → Prop
  | .SetParameter sub' .State v =>
    sub' = subTxID → ∃ s', v = .subTxState s' ∧ s.rank ≤ s'.rank
  | _ => True

/-- Log entries other than a check of the peer's signature that returned
`false`. -/
def NoCheck : Effect → Prop
  | .Builder _ (.IsPeerSignatureValid false) => False
  | _ => True

/-- Log entries of a call that does not advance: not a write of a state, not a
peer message, not the finalization of the signature, not a call of the failure
path. -/
def Rejected : Effect → Prop
  | .SetParameter _ .State _ => False
  | .SendTxParameters _ => False
  | .Builder _ .FinalizeSignature => False
  | .OnFailed _ _ => False
  | _ => True

/-- The outcome `r` of a builder call on `tx` for sub-transaction `subTxID`
that loaded the state `s`: the call extended the log, and if the extension
holds a check of the peer's signature that returned `false`, then the call
returned `s`, every entry of the extension is `Rejected`, and the three built
transactions are the ones `tx` held. -/
def RejectedBy (subTxID : SubTxID) (s : SubTxState) (tx : AtomicSwapTransaction)
    (r : Res SubTxState) : Prop :=
  ∃ l, r.tx.log = tx.log ++ l ∧
    (Effect.Builder subTxID (.IsPeerSignatureValid false) ∈ l →
      r.value = some s ∧ (∀ e ∈ l, Rejected e) ∧ r.tx.m_LockTx = tx.m_LockTx ∧
        r.tx.m_RefundTx = tx.m_RefundTx ∧ r.tx.m_RedeemTx = tx.m_RedeemTx)

/-- An environment like `sampleEnv` in which the peer's signature never
verifies. -/
def sampleRejectingEnv : Env :=
  { sampleEnv true none with IsPeerSignatureValid := fun _ _ => false }

/-- An object whose sub-transaction `subTxID` is stored in state `s` with the
peer's public excess, nonce and partial signature received, and with the shared
blinding factors of the lock transaction present. -/
def sampleSigned (subTxID : SubTxID) (s : SubTxState) : AtomicSwapTransaction :=
  AtomicSwapTransaction.create
    ((((((sampleParams.put subTxID .State (.subTxState s)).put subTxID .PeerPublicExcess
      (.blob 0)).put subTxID .PeerPublicNonce (.blob 0)).put subTxID .PeerSignature
      (.blob 0)).put .BEAM_LOCK_TX .SharedBlindingFactor (.blob 0)).put .BEAM_LOCK_TX
      .PeerPublicSharedBlindingFactor (.blob 0))

/-! ## Executions

An execution is the object under a sequence of events: ticks of `UpdateImpl`,
the RPC callbacks with their replies, the outcome of a Chain A broadcast, and
parameters stored from outside (a peer message, a kernel proof recorded by the
wallet). -/

/-- What reaches the object from outside. -/
inductive Event
  | Update (env : Env)
  | OnGetRawChangeAddress (response : Option String)
  | OnFundRawTransaction (response : Option (String × Int))
  | OnSignLockTransaction (response : Option (String × Bool))
  | OnCreateRefundTransaction (response : Option String)
  | OnDumpSenderPrivateKey (env : Env) (response : Option String)
  | OnDumpReceiverPrivateKey (env : Env) (response : Option String)
  | OnGetSwapLockTxConfirmations (response : Option Nat)
  | OnSendRawTransaction (subTxID : SubTxID) (txID : String)
  | SetRegisteredStatus (transaction : Transaction) (isRegistered : Bool)
  | SetParameter (subTxID : SubTxID) (id : TxParameterID) (v : Value)

/-- The member function an event runs. -/
def Event.handler : Event → M Unit
  | .Update env => AtomicSwapTransaction.UpdateImpl env
  | .OnGetRawChangeAddress response => AtomicSwapTransaction.OnGetRawChangeAddress response
  | .OnFundRawTransaction response => AtomicSwapTransaction.OnFundRawTransaction response
  | .OnSignLockTransaction response => AtomicSwapTransaction.OnSignLockTransaction response
  | .OnCreateRefundTransaction response =>
    AtomicSwapTransaction.OnCreateRefundTransaction response
  | .OnDumpSenderPrivateKey env response =>
    AtomicSwapTransaction.OnDumpSenderPrivateKey env response
  | .OnDumpReceiverPrivateKey env response =>
    AtomicSwapTransaction.OnDumpReceiverPrivateKey env response
  | .OnGetSwapLockTxConfirmations response =>
    AtomicSwapTransaction.OnGetSwapLockTxConfirmations response
  | .OnSendRawTransaction subTxID txID => AtomicSwapTransaction.OnSendRawTransaction subTxID txID
  | .SetRegisteredStatus transaction isRegistered =>
    AtomicSwapTransaction.SetRegisteredStatus transaction isRegistered
  | .SetParameter subTxID id v => beam.wallet.SetParameter id v subTxID

/-- The events of an execution: the top-level state and the role bit are the
object's own, nothing outside stores them. -/
def Event.admissible : Event → Bool
  | .SetParameter .kDefaultSubTxID .State _ => false
  | .SetParameter .kDefaultSubTxID .IsSender _ => false
  | _ => true

/-- The object after an event, whether the member function returned or stopped
at an exception or assertion. -/
def step (ev : Event) (tx : AtomicSwapTransaction) : AtomicSwapTransaction :=
  (ev.handler tx).tx

/-- The object after a sequence of events. -/
def run : List Event → AtomicSwapTransaction → AtomicSwapTransaction
  | [], tx => tx
  | ev :: evs, tx => run evs (step ev tx)

/-- Whether, at every tick of the execution, `IsBeamLockTimeExpired` answers
`false` on the object of that moment. -/
def NeverExpired : List Event → AtomicSwapTransaction → Bool
  | [], _ => true
  | .Update env :: evs, tx =>
    decide ((AtomicSwapTransaction.IsBeamLockTimeExpired env tx).value = some false) &&
      NeverExpired evs (step (.Update env) tx)
  | ev :: evs, tx => NeverExpired evs (step ev tx)

/-- The states a tick of the Beam owner may write from a state: the edges of
the `switch` in `UpdateImpl` with `isBeamOwner` true. -/
def ownerNext : State → List State
  | .Initial => [.Invitation]
  | .Invitation => [.BuildingBeamLockTX]
  | .BuildingLockTX => []
  | .BuildingRefundTX => []
  | .BuildingRedeemTX => [.SendingRedeemTX]
  | .BuildingBeamLockTX => [.BuildingBeamRefundTX]
  | .BuildingBeamRefundTX => [.BuildingBeamRedeemTX]
  | .BuildingBeamRedeemTX => [.HandlingContractTX]
  | .HandlingContractTX => [.SendingBeamLockTX]
  | .SendingRefundTX => []
  | .SendingRedeemTX => []
  | .SendingBeamLockTX => [.SendingBeamRedeemTX]
  | .SendingBeamRedeemTX => [.SendingBeamRefundTX, .BuildingRedeemTX]
  | .SendingBeamRefundTX => [.CompleteSwap]
  | .CompleteSwap => []

/-- The states an event may write when it reaches the Beam owner in state
`s`. -/
def Event.next : Event → State → List State
  | .Update _, s => ownerNext s
  | .OnGetRawChangeAddress _, _ => [.Invitation]
  | _, _ => []

/-- Whether an event that reaches the Beam owner in state `s` may broadcast the
Chain A lock transaction. -/
def Event.locks : Event → State → Prop
  | .Update _, s => s = .SendingBeamLockTX
  | _, _ => False

/-- Log entries of one event: a write of the top-level state stores one of the
states `allowed`, and the Chain A lock transaction is broadcast only when
`lock`. -/
def Tick (allowed : List State) (lock : Prop) : Effect → Prop
  | .SetParameter .kDefaultSubTxID .State v => ∃ s, v = .state s ∧ s ∈ allowed
  | .register_tx .BEAM_LOCK_TX _ => lock
  | _ => True

/-- Log entries of a callback: a write of the top-level state stores one of the
states `allowed`, the role bit is not written, and nothing is broadcast on
Chain A. -/
def Reply (allowed : List State) : Effect → Prop
  | .SetParameter .kDefaultSubTxID .State v => ∃ s, v = .state s ∧ s ∈ allowed
  | .SetParameter .kDefaultSubTxID .IsSender _ => False
  | .register_tx _ _ => False
  | _ => True

/-- The object `tx'` comes after `tx` by a member function that leaves the role
cache and the confirmation count alone: the log is extended by entries that
satisfy `P` and the store is the store after the logged writes. -/
structure Keeps (P : Effect → Prop) (tx tx' : AtomicSwapTransaction) : Prop where
  log : ∃ l, tx'.log = tx.log ++ l ∧ tx'.params = replay l tx.params ∧ ∀ e ∈ l, P e
  cache : tx'.m_IsSender = tx.m_IsSender
  confirmations : tx'.m_SwapLockTxConfirmations = tx.m_SwapLockTxConfirmations

/-- The object `tx'` comes after the Beam owner `tx` by one event: the log is
extended by entries that satisfy `P`, the store is the store after the logged
writes, a changed confirmation count is one the new entries record, and the
object is still the Beam owner. -/
structure Step (P : Effect → Prop) (tx tx' : AtomicSwapTransaction) : Prop where
  log : ∃ l, tx'.log = tx.log ++ l ∧ tx'.params = replay l tx.params ∧ (∀ e ∈ l, P e) ∧
    (tx'.m_SwapLockTxConfirmations = tx.m_SwapLockTxConfirmations ∨
      Effect.ConfirmationsRecorded tx'.m_SwapLockTxConfirmations ∈ l)
  role : tx'.role = some true

/-- The peer's Chain B lock txid is stored. -/
def txidStored (s : ParamStore) : Prop :=
  ((s .LOCK_TX .AtomicSwapExternalTxID).bind Value.asStr).isSome

/-- Somewhere along the log `l`, replayed from the store `s`, the peer's Chain B
lock txid was stored. -/
def Received (s : ParamStore) (l : List Effect) : Prop :=
  ∃ l1 l2, l = l1 ++ l2 ∧ txidStored (replay l1 s)

/-- The log `l` records a `getTxOut` reply with at least
`kBTCMinTxConfirmations` confirmations. -/
def Confirmed (l : List Effect) : Prop :=
  ∃ n, kBTCMinTxConfirmations ≤ n ∧ Effect.ConfirmationsRecorded n ∈ l

/-- The states of the Beam owner before it waits for the Chain B lock
transaction to confirm, that state included. -/
def State.early : State → Bool
  | .Initial => true
  | .Invitation => true
  | .BuildingBeamLockTX => true
  | .BuildingBeamRefundTX => true
  | .BuildingBeamRedeemTX => true
  | .HandlingContractTX => true
  | _ => false

/-- The invariant of an execution of the Beam owner that started from the store
`p0` with an empty log: the store is the replayed log; the object is the Beam
owner; a confirmation count of at least `kBTCMinTxConfirmations` was recorded;
past the early states the peer's txid was stored and such a count recorded; and
every broadcast of the Chain A lock transaction in the log comes after both. -/
structure OwnerInv (p0 : ParamStore) (tx : AtomicSwapTransaction) : Prop where
  store : tx.params = replay tx.log p0
  role : tx.role = some true
  count : kBTCMinTxConfirmations ≤ tx.m_SwapLockTxConfirmations → Confirmed tx.log
  late : tx.state.early = false → Received p0 tx.log ∧ Confirmed tx.log
  broadcast : ∀ pre t post, tx.log = pre ++ Effect.register_tx .BEAM_LOCK_TX t :: post →
    Received p0 pre ∧ Confirmed pre

/-- The parameters the Beam owner starts the first scenario of the
specification with: its role, the amounts, and the two Chain B addresses; no
state, so the state reads `Initial`. -/
def sampleOwnerParams : ParamStore
  | .kDefaultSubTxID, .IsSender => some (.bool true)
  | .kDefaultSubTxID, .CreateTime => some (.nat 1700000000)
  | .kDefaultSubTxID, .Amount => some (.nat 10)
  | .kDefaultSubTxID, .Fee => some (.nat 1)
  | .kDefaultSubTxID, .AtomicSwapAmount => some (.nat 100000000)
  | .kDefaultSubTxID, .AtomicSwapCoin => some (.nat 0)
  | .kDefaultSubTxID, .AtomicSwapAddress => some (.str "addressA")
  | .kDefaultSubTxID, .AtomicSwapPeerAddress => some (.str "addressB")
  | _, _ => none

/-- A value received from the peer for a parameter of a sub-transaction. -/
def fromPeer (subTxID : SubTxID) (id : TxParameterID) : Event :=
  .SetParameter subTxID id (.blob 0)

/-- An execution of the Beam owner, as initiator, up to the broadcast of the
Chain A lock transaction: ticks, with the peer's answers of the three signing
rounds in between, then the peer's Chain B lock txid, a `getTxOut` reply with 6
confirmations, and two more ticks. -/
def sampleOwnerRun : List Event :=
  [ .Update (sampleEnv true none), .Update (sampleEnv true none), .Update (sampleEnv true none),
    fromPeer .BEAM_LOCK_TX .PeerPublicExcess, fromPeer .BEAM_LOCK_TX .PeerPublicNonce,
    fromPeer .BEAM_LOCK_TX .PeerPublicSharedBlindingFactor,
    .Update (sampleEnv true none),
    fromPeer .BEAM_LOCK_TX .PeerSignature,
    .Update (sampleEnv true none), .Update (sampleEnv true none),
    fromPeer .BEAM_REFUND_TX .PeerPublicExcess, fromPeer .BEAM_REFUND_TX .PeerPublicNonce,
    fromPeer .BEAM_REFUND_TX .PeerSignature,
    .Update (sampleEnv true none), .Update (sampleEnv true none),
    fromPeer .BEAM_REDEEM_TX .PeerPublicExcess, fromPeer .BEAM_REDEEM_TX .PeerPublicNonce,
    .Update (sampleEnv true none), .Update (sampleEnv true none),
    .SetParameter .LOCK_TX .AtomicSwapExternalTxID (.str "txid"),
    .SetParameter .LOCK_TX .AtomicSwapExternalTxOutputIndex (.int 0),
    .Update (sampleEnv true none),
    .OnGetSwapLockTxConfirmations (some 6),
    .Update (sampleEnv true none), .Update (sampleEnv true none) ]

/-- The 32 bytes `01`. -/
def onesBig : uintBig := ⟨List.replicate 32 1, rfl⟩

/-- The sample execution of the Beam owner continued along its happy path: the
broadcast of the Chain A lock transaction is registered and its kernel proof
recorded, the kernel of the redeem transaction is found with the preimage, the
Chain B redeem transaction is created and signed, and ticks in between. -/
def sampleOwnerTail : List Event :=
  [ .SetParameter .BEAM_LOCK_TX .KernelID (.big zeroBig),
    .SetRegisteredStatus { kernelID := zeroBig, body := 0 } true,
    .Update (sampleEnv true none),
    .SetParameter .kDefaultSubTxID .KernelProofHeight (.nat 100),
    .Update (sampleEnv true none),
    .SetParameter .BEAM_REDEEM_TX .KernelID (.big zeroBig),
    .Update (sampleEnv true none),
    .SetParameter .kDefaultSubTxID .KernelProofHeight (.nat 101),
    .SetParameter .kDefaultSubTxID .PreImage (.big zeroBig),
    .SetParameter .BEAM_REDEEM_TX .PreImage (.big zeroBig),
    .Update (sampleEnv true none), .Update (sampleEnv true none),
    .OnCreateRefundTransaction (some "raw"),
    .Update (sampleEnv true none),
    .OnDumpReceiverPrivateKey (sampleEnv true none) (some "wif"),
    .Update (sampleEnv true none) ]

/-- The parameters the Chain B owner starts the first scenario of the
specification with. -/
def sampleCounterpartyParams : ParamStore
  | .kDefaultSubTxID, .IsSender => some (.bool false)
  | .kDefaultSubTxID, .CreateTime => some (.nat 1700000000)
  | .kDefaultSubTxID, .Amount => some (.nat 10)
  | .kDefaultSubTxID, .Fee => some (.nat 1)
  | .kDefaultSubTxID, .AtomicSwapAmount => some (.nat 100000000)
  | .kDefaultSubTxID, .AtomicSwapCoin => some (.nat 0)
  | .kDefaultSubTxID, .AtomicSwapAddress => some (.str "addressB")
  | .kDefaultSubTxID, .AtomicSwapPeerAddress => some (.str "addressA")
  | _, _ => none

/-- An execution of the Chain B owner along its happy path: the Chain B lock
transaction is funded and signed, the three Chain A transactions are co-signed
with the peer, the Chain B lock transaction is broadcast, the Chain B refund
transaction is created and signed, the Chain A lock transaction confirms, and
the Chain A redeem transaction is broadcast and confirms. -/
def sampleCounterpartyRun : List Event :=
  [ .Update (sampleEnv false none), .Update (sampleEnv false none),
    .Update (sampleEnv false none),
    .OnFundRawTransaction (some ("hex", 1)),
    .OnSignLockTransaction (some ("hex", true)),
    .Update (sampleEnv false none),
    fromPeer .BEAM_LOCK_TX .PeerPublicExcess, fromPeer .BEAM_LOCK_TX .PeerPublicNonce,
    .Update (sampleEnv false none),
    fromPeer .BEAM_LOCK_TX .PeerSignature,
    fromPeer .BEAM_LOCK_TX .PeerPublicSharedBlindingFactor,
    .Update (sampleEnv false none),
    fromPeer .BEAM_REFUND_TX .PeerPublicExcess, fromPeer .BEAM_REFUND_TX .PeerPublicNonce,
    .Update (sampleEnv false none), .Update (sampleEnv false none),
    fromPeer .BEAM_REDEEM_TX .PeerPublicExcess, fromPeer .BEAM_REDEEM_TX .PeerPublicNonce,
    fromPeer .BEAM_REDEEM_TX .PeerSignature,
    .Update (sampleEnv false none), .Update (sampleEnv false none),
    .OnSendRawTransaction .LOCK_TX "txid",
    .Update (sampleEnv false none), .Update (sampleEnv false none),
    .OnCreateRefundTransaction (some "raw"),
    .Update (sampleEnv false none),
    .OnDumpSenderPrivateKey (sampleEnv false none) (some "wif"),
    .Update (sampleEnv false none),
    .SetParameter .BEAM_LOCK_TX .KernelID (.big onesBig),
    .Update (sampleEnv false none),
    .SetParameter .kDefaultSubTxID .KernelProofHeight (.nat 100),
    .Update (sampleEnv false none), .Update (sampleEnv false none),
    .SetRegisteredStatus { kernelID := zeroBig, body := 0 } true,
    .SetParameter .BEAM_REDEEM_TX .KernelID (.big zeroBig),
    .Update (sampleEnv false none),
    .SetParameter .kDefaultSubTxID .KernelProofHeight (.nat 102),
    .Update (sampleEnv false none) ]

/-- Log entries other than a call of the failure path `OnFailed`. -/
def NoFail : Effect → Prop
  | .OnFailed _ _ => False
  | _ => True

/-- The sample object of the Beam owner in `SendingBeamRefundTX` holding a built
refund transaction whose broadcast was refused: `TransactionRegistered` is
stored as false under `BEAM_REFUND_TX`. -/
def sampleRefundFailed : AtomicSwapTransaction :=
  { sampleRefundPending with
    params := sampleRefundPending.params.put .BEAM_REFUND_TX .TransactionRegistered
      (.bool false) }

/-- The sample object of the Chain B owner in `HandlingContractTX`, in the
process that received the signed Chain B lock transaction: the raw transaction
is held in `m_SwapLockRawTx`. -/
def sampleBeforeRestart : AtomicSwapTransaction :=
  { AtomicSwapTransaction.create
      (sampleParams.put .kDefaultSubTxID .State (.state .HandlingContractTX)) with
    m_SwapLockRawTx := some "raw" }

/-- The object constructed in a fresh process over the store of
`sampleBeforeRestart`. -/
def sampleAfterRestart : AtomicSwapTransaction :=
  AtomicSwapTransaction.create sampleBeforeRestart.params

/-- The sample object of the Beam owner in `SendingBeamLockTX` holding the built
lock transaction, not yet broadcast. -/
def sampleLockBuilt : AtomicSwapTransaction :=
  { AtomicSwapTransaction.create
      ((sampleParams.put .kDefaultSubTxID .IsSender (.bool true)).put .kDefaultSubTxID .State
        (.state .SendingBeamLockTX)) with
    m_LockTx := some { kernelID := zeroBig, body := 0 } }

/-! ## The settings provider's reference count

`bitcoin::SettingsProvider` (settings_provider.cpp, lines 136-152). The member
`m_refCount` is declared in the header: it is taken as an unsigned integer of
`w` bits, for every `w`. -/

/-- The object `SettingsProvider`, as far as `CanModify`, `AddRef` and
`ReleaseRef` read or write it. -/
structure SettingsProvider where
  m_refCount : Nat
  deriving DecidableEq, Repr

/-- Modelled from the spec: a freshly constructed provider is held by no reader.
The constructor (lines 19-22) leaves `m_refCount` to the initializer of its
declaration. -/
def SettingsProvider.create : SettingsProvider := { m_refCount := 0 }

/-- `SettingsProvider::CanModify` (lines 136-139). -/
def SettingsProvider.CanModify (p : SettingsProvider) : Bool := p.m_refCount == 0

/-- `SettingsProvider::AddRef` (lines 141-144): `++m_refCount` on `w` bits. -/
def SettingsProvider.AddRef (w : Nat) (p : SettingsProvider) : SettingsProvider :=
  { p with m_refCount := (p.m_refCount + 1) % 2 ^ w }

/-- `SettingsProvider::ReleaseRef` (lines 146-152): `--m_refCount` on `w` bits
when the count is not zero. -/
def SettingsProvider.ReleaseRef (w : Nat) (p : SettingsProvider) : SettingsProvider :=
  if p.m_refCount ≠ 0 then { p with m_refCount := (p.m_refCount - 1) % 2 ^ w } else p

/-- A call on the provider's reference count. -/
inductive RefCall
  | AddRef
  | ReleaseRef
  deriving DecidableEq, Repr

/-- The provider after a sequence of calls. -/
def SettingsProvider.run (w : Nat) (calls : List RefCall) (p : SettingsProvider) :
    SettingsProvider :=
  calls.foldl (fun p c => match c with
    | .AddRef => p.AddRef w
    | .ReleaseRef => p.ReleaseRef w) p

/-- The number of outstanding references after a sequence of calls that starts
with `n` of them, in the words of the specification: a borrow adds one, a
release takes one away, and a release at zero is a no-op. -/
def outstanding (n : Nat) (calls : List RefCall) : Nat :=
  calls.foldl (fun n c => match c with
    | .AddRef => n + 1
    | .ReleaseRef => n - 1) n

/-! ## The shared commitment

The values that `LockTxBuilder::GetSharedCommitment` and
`SharedTxBuilder::InitInputAndOutputs` compute, over the group of `ECC::Point`:
any commutative group `Point` with the two generators `G` and `H` of
`ECC::Context`. A scalar `k` acts as `k • G`; `Tag::AddValue(c, nullptr, v)`
adds `v • H` to `c`. -/

namespace ECC

/-- `a - b` on `Amount`, an unsigned 64-bit integer. -/
def sub64 (a b : Nat) : Nat := (a + 2 ^ 64 - b % 2 ^ 64) % 2 ^ 64

/-- `Tag::AddValue(commitment, nullptr, v)`. -/
def AddValue {Point : Type} [AddCommGroup Point] (H : Point) (commitment : Point) (v : Nat) :
    Point :=
  commitment + v • H

/-- `LockTxBuilder::GetPublicSharedBlindingFactor` (lines 1242-1245). -/
def LockTxBuilder.GetPublicSharedBlindingFactor {Point : Type} [AddCommGroup Point] (G : Point)
    (m_SharedBlindingFactor : ℤ) : Point :=
  m_SharedBlindingFactor • G

/-- `LockTxBuilder::GetSharedCommitment` (lines 1258-1267): `amount` is what
`GetAmount()` returns, `peer` the stored `PeerPublicSharedBlindingFactor`; the
call throws when that is absent. -/
def LockTxBuilder.GetSharedCommitment {Point : Type} [AddCommGroup Point] (G H : Point)
    (amount : Nat) (m_SharedBlindingFactor : ℤ) (peer : Option Point) : Option Point :=
  let commitment : Point := 0
  let commitment := AddValue H commitment amount
  let commitment := commitment + LockTxBuilder.GetPublicSharedBlindingFactor G m_SharedBlindingFactor
  match peer with
  | none => none
  | some p => some (commitment + p)

/-- `SharedTxBuilder::InitInputAndOutputs` (lines 1305-1323): the commitment of
the input it adds. -/
def SharedTxBuilder.InitInputAndOutputs {Point : Type} [AddCommGroup Point] (G H : Point)
    (amount : Nat) (m_SharedBlindingFactor : ℤ) (m_PeerPublicSharedBlindingFactor : Point) :
    Point :=
  let commitment : Point := 0
  let commitment := AddValue H commitment amount
  let commitment := commitment + m_SharedBlindingFactor • G
  let commitment := commitment + m_PeerPublicSharedBlindingFactor
  commitment

/-- The amount of the builder of `BuildBeamRefundTx` (lines 602-606):
`GetAmount() - refundFee` with `refundFee = 0`. -/
def refundAmount (amount : Nat) : Nat :=
  let refundFee := 0
  sub64 amount refundFee

/-- The amount of the builder of `BuildBeamRedeemTx` (lines 675-679):
`GetAmount() - redeemFee` with `redeemFee = 0`. -/
def redeemAmount (amount : Nat) : Nat :=
  let redeemFee := 0
  sub64 amount redeemFee

end ECC

/-- The sample object in `BuildingBeamLockTX` whose lock sub-transaction is in
`SharedUTXOProofPart2` with the peer's partial signature received. -/
def sampleRejectedLock : AtomicSwapTransaction :=
  { sampleSigned .BEAM_LOCK_TX .SharedUTXOProofPart2 with
    params := (sampleSigned .BEAM_LOCK_TX .SharedUTXOProofPart2).params.put .kDefaultSubTxID
      .State (.state .BuildingBeamLockTX) }

/-! ## The two parties

What a tick does on each party: which built Chain A transaction it may hold and
broadcast, and what it writes of the secret and of the Chain B lock
transaction's state. -/

/-- The Chain A sub-transactions that the party with `IsSender() = b` builds to
the end and broadcasts: the lock and the refund transaction for the sender, the
redeem transaction for the receiver. -/
def owns (b : Bool) : SubTxID → Prop
  | .BEAM_LOCK_TX => b = true
  | .BEAM_REFUND_TX => b = true
  | .BEAM_REDEEM_TX => b = false
  | _ => False

/-- Log entries of a member function on the party `own`: the state of the
Chain B lock transaction is written as `CreatingTx` or `Constructed`, the
preimage is written under `BEAM_REDEEM_TX` only when `secret`, the role bit is
not written, and `register_tx` is called for the party's own sub-transactions
only. -/
def Fine (secret : Prop) (own : SubTxID → Prop) : Effect → Prop
  | .SetParameter .LOCK_TX .State v =>
    v = .swapTxState .CreatingTx ∨ v = .swapTxState .Constructed
  | .SetParameter .BEAM_REDEEM_TX .PreImage _ => secret
  | .SetParameter .kDefaultSubTxID .IsSender _ => False
  | .register_tx subTxID _ => own subTxID
  | _ => True

/-- The object of the party with `IsSender() = b`, the role resolved: it holds
no built transaction of the other party. -/
def Party (b : Bool) (tx : AtomicSwapTransaction) : Prop :=
  tx.m_IsSender = some b ∧ (b = false → tx.m_LockTx = none ∧ tx.m_RefundTx = none) ∧
    (b = true → tx.m_RedeemTx = none)

/-- The member function `x` on the party with `IsSender() = b`: the object stays
that party's, the log is extended by `Fine` entries, and the store is the store
after the logged writes. -/
def Owned {α : Type} (secret : Prop) (b : Bool) (x : M α) : Prop :=
  ∀ tx, Party b tx → Party b (x tx).tx ∧
    ∃ l, (x tx).tx.log = tx.log ++ l ∧ (x tx).tx.params = replay l tx.params ∧
      ∀ e ∈ l, Fine secret (owns b) e

/-- The object of the party with `IsSender() = b`, the role cached or stored: it
holds no built transaction of the other party. -/
def Side (b : Bool) (tx : AtomicSwapTransaction) : Prop :=
  tx.role = some b ∧ (b = false → tx.m_LockTx = none ∧ tx.m_RefundTx = none) ∧
    (b = true → tx.m_RedeemTx = none)

/-- The member function `x` leaves the role cache and the three built
transactions alone: the log is extended by entries that satisfy `P`, and the
store is the store after the logged writes. -/
def StaysBy {α : Type} (P : Effect → Prop) (x : M α) : Prop :=
  ∀ tx, (∃ l, (x tx).tx.log = tx.log ++ l ∧ (x tx).tx.params = replay l tx.params ∧
      ∀ e ∈ l, P e) ∧
    (x tx).tx.m_IsSender = tx.m_IsSender ∧ (x tx).tx.m_LockTx = tx.m_LockTx ∧
    (x tx).tx.m_RefundTx = tx.m_RefundTx ∧ (x tx).tx.m_RedeemTx = tx.m_RedeemTx

/-- The object `tx'` comes after `tx` on the party with `IsSender() = b`: it is
still that party's, the log is extended by `Fine` entries, and the store is the
store after the logged writes. -/
structure Passes (secret : Prop) (b : Bool) (tx tx' : AtomicSwapTransaction) : Prop where
  side : Side b tx'
  log : ∃ l, tx'.log = tx.log ++ l ∧ tx'.params = replay l tx.params ∧
    ∀ e ∈ l, Fine secret (owns b) e

/-- The state of the Chain B lock transaction is stored and is not `Initial`:
`BuildLockTx` has gone through its first branch. -/
def lockStarted (s : ParamStore) : Prop :=
  ((s .LOCK_TX .State).bind Value.asSwapTxState).getD .Initial ≠ .Initial

/-! ## Calls of `InitSecret` along an execution -/

/-- Whether a log entry is the write of `InitSecret(*this, BEAM_REDEEM_TX)`:
the preimage stored under `BEAM_REDEEM_TX`. -/
def Effect.isInitSecret : Effect → Bool
  | .SetParameter .BEAM_REDEEM_TX .PreImage _ => true
  | _ => false

/-- The number of calls of `InitSecret` in a tick on `tx`. -/
def initSecretCount (env : Env) (tx : AtomicSwapTransaction) : Nat :=
  ((AtomicSwapTransaction.UpdateImpl env tx).newLog tx).countP Effect.isInitSecret

/-- The calls of `InitSecret` along an execution: for each call, what
`IsInitiator()` returns on the party at that tick. -/
def InitSecretCalls : List Event → AtomicSwapTransaction → List Bool
  | [], _ => []
  | .Update env :: evs, tx =>
    List.replicate (initSecretCount env tx) env.IsInitiator ++
      InitSecretCalls evs (step (.Update env) tx)
  | ev :: evs, tx => InitSecretCalls evs (step ev tx)

/-- Whether every tick of the execution that calls `InitSecret` returns. -/
def InitSecretReturns : List Event → AtomicSwapTransaction → Bool
  | [], _ => true
  | .Update env :: evs, tx =>
    (initSecretCount env tx == 0 || (AtomicSwapTransaction.UpdateImpl env tx).value.isSome) &&
      InitSecretReturns evs (step (.Update env) tx)
  | ev :: evs, tx => InitSecretReturns evs (step ev tx)

/-- Whether an event stores, from outside, the state of the Chain B lock
transaction, which `BuildLockTx` and `OnSignLockTransaction` write. -/
def Event.writesLockState : Event → Bool
  | .SetParameter .LOCK_TX .State _ => true
  | _ => false

/-- The sample object of the Chain B owner in `SendingBeamLockTX` once the proof
of the lock transaction's kernel is recorded: `KernelProofHeight` 100 is stored
under the default sub-transaction, and the kernel of the redeem transaction is
known. -/
def sampleLockProven : AtomicSwapTransaction :=
  AtomicSwapTransaction.create
    (((sampleCounterpartyParams.put .kDefaultSubTxID .State (.state .SendingBeamLockTX)).put
      .kDefaultSubTxID .KernelProofHeight (.nat 100)).put .BEAM_REDEEM_TX .KernelID
      (.big zeroBig))

/-- The sample object of the Beam owner in `SendingBeamRedeemTX` with a kernel
proof height recorded and no `PreImage` stored under any sub-transaction. -/
def sampleProofWithoutPreimage : AtomicSwapTransaction :=
  AtomicSwapTransaction.create
    ((sampleOwnerParams.put .kDefaultSubTxID .State (.state .SendingBeamRedeemTX)).put
      .kDefaultSubTxID .KernelProofHeight (.nat 5))

/-- The parameters of the peer of `sampleParams`: the role and the two Chain B
addresses are mirrored, the creation time and the preimage are the same. -/
def sampleMirroredParams : ParamStore :=
  ((sampleParams.put .kDefaultSubTxID .IsSender (.bool true)).put .kDefaultSubTxID
    .AtomicSwapAddress (.str "addressA")).put .kDefaultSubTxID .AtomicSwapPeerAddress
    (.str "addressB")

/-- The object of the Chain B owner, invited to the signing of the Chain A lock
transaction, right after the tick in which it sent its `SharedUTXOProofPart2`
message: the first nine events of `sampleCounterpartyRun`. The peer's public
excess and nonce have arrived with the invitation, the peer's partial signature
has not. -/
def sampleAwaitingSignature : AtomicSwapTransaction :=
  run (sampleCounterpartyRun.take 9) (AtomicSwapTransaction.create sampleCounterpartyParams)

/-! ## The amount string of `BuildWithdrawTx`

`std::to_string(double(swapAmount) / libbitcoin::satoshi_per_bitcoin)` (line
442): the conversion of the 64-bit amount to binary64, the binary64 division,
and the rendering of `std::to_string(double)`, which is that of `printf` with
`%f`: six digits after the point. Binary64 values are kept as `m * 2 ^ (-s)`;
all values that arise from 64-bit integers are in the normal range, so neither
overflow nor underflow is modelled. -/

/-- The constant `libbitcoin::satoshi_per_bitcoin`. -/
def satoshi_per_bitcoin : Nat := 100000000

/-- The integer nearest to `n / d`, a tie going to the even one: the rounding
of IEEE 754 arithmetic and of `printf`. -/
def roundHalfEven (n d : Nat) : Nat :=
  let q := n / d
  let r := n % d
  if 2 * r < d then q else if d < 2 * r then q + 1 else if q % 2 = 0 then q else q + 1

/-- The number of binary digits of `n`, for `n < 2 ^ fuel`. -/
def bitLength : Nat → Nat → Nat
  | 0, _ => 0
  | fuel + 1, n => if n = 0 then 0 else bitLength fuel (n / 2) + 1

/-- A finite non-negative binary64 value: `m * 2 ^ up / 2 ^ down`, with a
significand `m` of at most 53 bits. -/
structure double where
  m : Nat
  up : Nat
  down : Nat
  deriving DecidableEq, Repr

/-- The conversion `double(n)` of an unsigned 64-bit integer: exact below
`2 ^ 53`, else rounded to 53 significant bits. -/
def double.ofUInt64 (n : Nat) : double :=
  if n < 2 ^ 53 then { m := n, up := 0, down := 0 }
  else
    let k := bitLength 64 n - 53
    { m := roundHalfEven n (2 ^ k), up := k, down := 0 }

/-- The binary64 quotient `x / y` for `y` not zero: the exact quotient rounded
to 53 significant bits. -/
def double.div (x y : double) : double :=
  if x.m = 0 then { m := 0, up := 0, down := 0 }
  else
    -- the exact quotient is `num / den`
    let num := x.m * 2 ^ (x.up + y.down)
    let den := y.m * 2 ^ (x.down + y.up)
    -- scaled by `2 ^ k`, it has 53 or 54 bits
    let k := 53 + bitLength 2048 den - bitLength 2048 num
    if num * 2 ^ k / den < 2 ^ 53 then
      { m := roundHalfEven (num * 2 ^ k) den, up := 0, down := k }
    else
      { m := roundHalfEven (num * 2 ^ (k - 1)) den, up := 0, down := k - 1 }

/-- The character of a decimal digit. -/
def digitChar (d : Nat) : Char := Char.ofNat (48 + d)

/-- The decimal digits of `n`, most significant first, for `n < 10 ^ fuel`. -/
def decimalDigits : Nat → Nat → List Char
  | 0, _ => []
  | fuel + 1, n =>
    if n < 10 then [digitChar n] else decimalDigits fuel (n / 10) ++ [digitChar (n % 10)]

/-- The rendering of `micro` millionths with six digits after the point. -/
def renderMicro (micro : Nat) : List Char :=
  decimalDigits (micro / 1000000 + 1) (micro / 1000000) ++ '.' ::
    [digitChar (micro / 100000 % 10), digitChar (micro / 10000 % 10),
     digitChar (micro / 1000 % 10), digitChar (micro / 100 % 10),
     digitChar (micro / 10 % 10), digitChar (micro % 10)]

/-- The number of millionths that `printf` with `%f` prints for a binary64
value: the exact value rounded to six decimals. -/
def double.micro (x : double) : Nat :=
  roundHalfEven (x.m * 2 ^ x.up * 1000000) (2 ^ x.down)

/-- The string `std::to_string(x)` of a binary64 value. -/
def to_string (x : double) : String := String.mk (renderMicro x.micro)

/-- The amount string of the output that `BuildWithdrawTx` passes to
`createRawTransaction` (line 442). -/
def CreateRawTransactionArgs.amountString (args : CreateRawTransactionArgs) : String :=
  to_string ((double.ofUInt64 args.amount).div (double.ofUInt64 satoshi_per_bitcoin))

/-- The value of a decimal digit character. -/
def decimalDigit (c : Char) : Option Nat :=
  if 48 ≤ c.toNat ∧ c.toNat ≤ 57 then some (c.toNat - 48) else none

/-- The number written by a list of decimal digits. -/
def readDigits (cs : List Char) : Option Nat :=
  cs.foldl (fun acc c =>
    match acc, decimalDigit c with
    | some n, some d => some (10 * n + d)
    | _, _ => none) (some 0)

/-- Following the specification's words, "converting the decimal string back to
satoshis": the satoshi amount that a decimal string of bitcoins with at most
eight digits after the point denotes. -/
def satoshiOfAmountString (s : String) : Option Nat :=
  let whole := s.data.takeWhile (fun c => c != '.')
  let fraction := (s.data.dropWhile (fun c => c != '.')).drop 1
  if fraction.length ≤ 8 then
    match readDigits whole, readDigits fraction with
    | some i, some f => some (i * satoshi_per_bitcoin + f * 10 ^ (8 - fraction.length))
    | _, _ => none
  else none

/-- The sample object `sampleTx` with the swap amount 123456789 satoshi. -/
def sampleOddAmount : AtomicSwapTransaction :=
  { sampleTx with
    params := sampleTx.params.put .kDefaultSubTxID .AtomicSwapAmount (.nat 123456789) }

/-- The states a tick of the party that is not the Beam owner may write from a
state: the edges of the `switch` in `UpdateImpl` with `isBeamOwner` false. -/
def counterpartyNext : State → List State
  | .Initial => [.Invitation]
  | .Invitation => [.BuildingLockTX]
  | .BuildingLockTX => [.BuildingBeamLockTX]
  | .BuildingRefundTX => [.SendingBeamLockTX]
  | .BuildingRedeemTX => []
  | .BuildingBeamLockTX => [.BuildingBeamRefundTX]
  | .BuildingBeamRefundTX => [.BuildingBeamRedeemTX]
  | .BuildingBeamRedeemTX => [.HandlingContractTX]
  | .HandlingContractTX => [.BuildingRefundTX]
  | .SendingRefundTX => []
  | .SendingRedeemTX => []
  | .SendingBeamLockTX => [.SendingBeamRedeemTX]
  | .SendingBeamRedeemTX => [.CompleteSwap]
  | .SendingBeamRefundTX => []
  | .CompleteSwap => []

/-- The states a tick of the party with `isBeamOwner = b` may write from a
state. -/
def roleNext (b : Bool) (s : State) : List State :=
  if b then ownerNext s else counterpartyNext s

/-- The states in which the party with `isBeamOwner = b` passes every assertion
of `UpdateImpl` on the role: `BuildingLockTX` and `BuildingRefundTX` are for the
party that is not the Beam owner, `BuildingRedeemTX` and `SendingBeamRefundTX`
(and `SendingRedeemTX`, which follows `BuildingRedeemTX`) for the Beam owner,
and `SendingRefundTX` for neither. -/
def State.fits (b : Bool) : State → Bool
  | .BuildingLockTX => !b
  | .BuildingRefundTX => !b
  | .BuildingRedeemTX => b
  | .SendingRedeemTX => b
  | .SendingBeamRefundTX => b
  | .SendingRefundTX => false
  | _ => true

/-- An execution of the Beam owner in which a kernel proof height is recorded
while it waits in `SendingBeamRedeemTX` and no preimage is stored:
`sampleOwnerRun`, the first eight events of `sampleOwnerTail` (the last one
stores `KernelProofHeight = 101`), and a tick. -/
def sampleLateProofRun : List Event :=
  sampleOwnerRun ++ sampleOwnerTail.take 8 ++ [.Update (sampleEnv true none)]

/-! ## Evaluation rules of the primitive steps -/

section rules
variable {α β : Type}

@[simp] theorem M.pure_apply (a : α) (tx : AtomicSwapTransaction) :
    (pure a : M α) tx = .ok a tx := rfl

@[simp] theorem M.bind_apply (x : M α) (f : α → M β) (tx : AtomicSwapTransaction) :
    (x >>= f) tx = match x tx with
      | .ok a tx' => f a tx'
      | .fail e tx' => .fail e tx' := rfl

@[simp] theorem M.read_apply (f : AtomicSwapTransaction → α) (tx : AtomicSwapTransaction) :
    M.read f tx = .ok (f tx) tx := rfl

@[simp] theorem M.raise_apply (e : Exc) (tx : AtomicSwapTransaction) :
    (M.raise e : M α) tx = .fail e tx := rfl

@[simp] theorem M.modify_apply (f : AtomicSwapTransaction → AtomicSwapTransaction)
    (tx : AtomicSwapTransaction) : M.modify f tx = .ok () (f tx) := rfl

@[simp] theorem M.emit_apply (e : Effect) (tx : AtomicSwapTransaction) :
    M.emit e tx = .ok () { tx with log := tx.log ++ [e] } := rfl

@[simp] theorem M.assert_true (line : Nat) (tx : AtomicSwapTransaction) :
    M.assert line true tx = .ok () tx := rfl

@[simp] theorem M.assert_false (line : Nat) (tx : AtomicSwapTransaction) :
    M.assert line false tx = .fail (.AssertionFailed line) tx := rfl

@[simp] theorem Res.tx_ok (a : α) (tx : AtomicSwapTransaction) : (Res.ok a tx).tx = tx := rfl

@[simp] theorem Res.tx_fail (e : Exc) (tx : AtomicSwapTransaction) :
    (Res.fail e tx : Res α).tx = tx := rfl

@[simp] theorem ParamStore.put_same (s : ParamStore) (subTxID : SubTxID) (id : TxParameterID)
    (v : Value) : s.put subTxID id v subTxID id = some v := by
  simp [ParamStore.put]

theorem ParamStore.put_other (s : ParamStore) (subTxID sub' : SubTxID) (id id' : TxParameterID)
    (v : Value) (h : ¬ (sub' = subTxID ∧ id' = id)) : s.put subTxID id v sub' id' = s sub' id' := by
  simp [ParamStore.put, h]

end rules

@[simp] theorem SetParameter_apply (id : TxParameterID) (v : Value) (subTxID : SubTxID)
    (tx : AtomicSwapTransaction) :
    SetParameter id v subTxID tx =
      .ok () { tx with params := tx.params.put subTxID id v
                       log := tx.log ++ [.SetParameter subTxID id v] } := rfl

@[simp] theorem BuilderQuery_apply (oracle : ParamStore → SubTxID → Bool)
    (call : Bool → BuilderCall) (subTxID : SubTxID) (tx : AtomicSwapTransaction) :
    BuilderQuery oracle call subTxID tx = .ok (oracle tx.params subTxID)
      { tx with log := tx.log ++ [.Builder subTxID (call (oracle tx.params subTxID))] } := rfl

/-! ## The HTLC script (C1, C2) -/

/-- The operations of `AtomicSwapContract`, written out. -/
theorem AtomicSwapContract_eq (hashA hashB : data_chunk) (L : Int) (sh : data_chunk) (n : Nat) :
    AtomicSwapContract hashA hashB L sh n =
      [.op .if_, .op .size, .number n, .op .equalverify, .op .sha256, .data sh,
       .op .equalverify, .op .dup, .op .hash160, .data hashB,
       .op .else_, .number L, .op .checklocktimeverify, .op .drop, .op .dup, .op .hash160,
       .data hashA, .op .endif, .op .equalverify, .op .checksig] := by
  simp [AtomicSwapContract, emplace_back]

/-- C1. For every refund key hash `hashA`, redeem key hash `hashB`, locktime `L`,
secret hash `sh` and secret size `n`, `AtomicSwapContract` returns exactly the
twenty operations IF, SIZE, push(n), EQUALVERIFY, SHA256, push(sh), EQUALVERIFY,
DUP, HASH160, push(hashB), ELSE, push(L), CHECKLOCKTIMEVERIFY, DROP, DUP, HASH160,
push(hashA), ENDIF, EQUALVERIFY, CHECKSIG, in that order; `hashB` stands in the
part before ELSE (the redeem branch), `L` and `hashA` in the part from ELSE on
(the refund branch). -/
theorem AtomicSwapContract_is_htlc_script (hashA hashB : data_chunk) (L : Int)
    (sh : data_chunk) (n : Nat) :
    AtomicSwapContract hashA hashB L sh n =
        [.op .if_, .op .size, .number n, .op .equalverify, .op .sha256, .data sh,
         .op .equalverify, .op .dup, .op .hash160, .data hashB,
         .op .else_, .number L, .op .checklocktimeverify, .op .drop, .op .dup, .op .hash160,
         .data hashA, .op .endif, .op .equalverify, .op .checksig]
      ∧ (AtomicSwapContract hashA hashB L sh n).length = 20
      ∧ redeemBranch (AtomicSwapContract hashA hashB L sh n) =
        [.op .if_, .op .size, .number n, .op .equalverify, .op .sha256, .data sh,
         .op .equalverify, .op .dup, .op .hash160, .data hashB]
      ∧ refundBranch (AtomicSwapContract hashA hashB L sh n) =
        [.op .else_, .number L, .op .checklocktimeverify, .op .drop, .op .dup, .op .hash160,
         .data hashA, .op .endif, .op .equalverify, .op .checksig] := by
  refine ⟨AtomicSwapContract_eq hashA hashB L sh n, ?_, ?_, ?_⟩
  · rw [AtomicSwapContract_eq]
    rfl
  · rw [AtomicSwapContract_eq]
    simp [redeemBranch, List.takeWhile_cons]
  · rw [AtomicSwapContract_eq]
    simp [refundBranch, List.dropWhile_cons]

/-- Adding 48 hours to a creation time does not wrap when the sum is below
`2^63`, and the sum reads the same as `int64_t`. -/
theorem toInt64_add64_of_lt (t0 : Nat) (h : t0 + 172800 < 2 ^ 63) :
    toInt64 (add64 t0 kBTCLockTimeSec) = ((t0 + 172800 : Nat) : Int) ∧
      add64 t0 kBTCLockTimeSec = t0 + 172800 := by
  have h1 : add64 t0 kBTCLockTimeSec = t0 + 172800 := by
    unfold add64 kBTCLockTimeSec
    omega
  refine ⟨?_, h1⟩
  rw [h1]
  unfold toInt64
  have h2 : (t0 + 172800) % 2 ^ 64 = t0 + 172800 := by omega
  rw [h2, if_pos h]

/-- `CreateAtomicSwapContract` returns, and what it returns, when its four
mandatory parameters are stored. -/
theorem CreateAtomicSwapContract_ok (env : Env) (tx : AtomicSwapTransaction) (t0 : Nat)
    (peerAddress address : String) (preimage : uintBig)
    (hCreateTime : tx.params .kDefaultSubTxID .CreateTime = some (.nat t0))
    (hPeerAddress : tx.params .kDefaultSubTxID .AtomicSwapPeerAddress = some (.str peerAddress))
    (hAddress : tx.params .kDefaultSubTxID .AtomicSwapAddress = some (.str address))
    (hPreImage : tx.params .BEAM_REDEEM_TX .PreImage = some (.big preimage)) :
    CreateAtomicSwapContract env tx =
      .ok (AtomicSwapContract (env.payment_address_hash address)
            (env.payment_address_hash peerAddress) (toInt64 (add64 t0 kBTCLockTimeSec))
            (env.Hash preimage).val 32) tx := by
  simp [CreateAtomicSwapContract, GetMandatoryParameter, hCreateTime, hPeerAddress, hAddress,
    hPreImage, Value.asNat, Value.asStr, Value.asBig, (env.Hash preimage).property]

/-- C2. For every creation time `t0` with `t0 + 172800` below `2^63`: on an
object that stores `CreateTime = t0` (and the other parameters the two functions
read), `CreateAtomicSwapContract` returns the HTLC script whose locktime push
(operation 11) is `t0 + 172800`, and `BuildWithdrawTx(REFUND_TX)`, in sub-state
`Initial`, requests `createRawTransaction` with the locktime argument
`t0 + 172800`; the two are equal, and greater than `t0`. -/
theorem locktime_is_create_time_plus_48h (env : Env) (tx : AtomicSwapTransaction) (t0 : Nat)
    (peerAddress address txID : String) (preimage : uintBig) (amount : Nat) (outputIndex : Int)
    (h : t0 + 172800 < 2 ^ 63)
    (hCreateTime : tx.params .kDefaultSubTxID .CreateTime = some (.nat t0))
    (hPeerAddress : tx.params .kDefaultSubTxID .AtomicSwapPeerAddress = some (.str peerAddress))
    (hAddress : tx.params .kDefaultSubTxID .AtomicSwapAddress = some (.str address))
    (hPreImage : tx.params .BEAM_REDEEM_TX .PreImage = some (.big preimage))
    (hAmount : tx.params .kDefaultSubTxID .AtomicSwapAmount = some (.nat amount))
    (hIndex : tx.params .LOCK_TX .AtomicSwapExternalTxOutputIndex = some (.int outputIndex))
    (hTxID : tx.params .LOCK_TX .AtomicSwapExternalTxID = some (.str txID))
    (hState : tx.swapTxState .REFUND_TX = .Initial) :
    CreateAtomicSwapContract env tx =
        .ok (AtomicSwapContract (env.payment_address_hash address)
              (env.payment_address_hash peerAddress) ((t0 + 172800 : Nat) : Int)
              (env.Hash preimage).val 32) tx
      ∧ (AtomicSwapContract (env.payment_address_hash address)
              (env.payment_address_hash peerAddress) ((t0 + 172800 : Nat) : Int)
              (env.Hash preimage).val 32)[11]? = some (.number ((t0 + 172800 : Nat) : Int))
      ∧ AtomicSwapTransaction.BuildWithdrawTx .REFUND_TX tx =
        .ok .CreatingTx
          { tx with
            params := tx.params.put .REFUND_TX .State (.swapTxState .CreatingTx)
            log := tx.log ++
              [.createRawTransaction
                { txid := txID, vout := outputIndex, Sequence := 4294967294, address := address,
                  amount := amount, locktime := some (t0 + 172800) },
               .SetParameter .REFUND_TX .State (.swapTxState .CreatingTx)] }
      ∧ t0 < t0 + 172800 := by
  obtain ⟨h1, h2⟩ := toInt64_add64_of_lt t0 h
  refine ⟨?_, ?_, ?_, by omega⟩
  · rw [CreateAtomicSwapContract_ok env tx t0 peerAddress address preimage hCreateTime
      hPeerAddress hAddress hPreImage, h1]
  · rw [AtomicSwapContract_eq]
    rfl
  · unfold AtomicSwapTransaction.swapTxState at hState
    simp [AtomicSwapTransaction.BuildWithdrawTx, GetParameter, GetMandatoryParameter, hCreateTime,
      hAddress, hAmount, hIndex, hTxID, hState, Value.asNat, Value.asStr, Value.asInt, SetState,
      h2, max_input_sequence]

/-- The second theorem at the first scenario of the specification:
`t0 = 1700000000`, locktime `1700172800`. -/
theorem locktime_is_create_time_plus_48h_witness :
    CreateAtomicSwapContract (sampleEnv false none) sampleTx =
        .ok (AtomicSwapContract ((sampleEnv false none).payment_address_hash "addressB")
              ((sampleEnv false none).payment_address_hash "addressA")
              ((1700000000 + 172800 : Nat) : Int)
              ((sampleEnv false none).Hash zeroBig).val 32) sampleTx
      ∧ (AtomicSwapContract ((sampleEnv false none).payment_address_hash "addressB")
              ((sampleEnv false none).payment_address_hash "addressA")
              ((1700000000 + 172800 : Nat) : Int)
              ((sampleEnv false none).Hash zeroBig).val 32)[11]?
          = some (.number ((1700000000 + 172800 : Nat) : Int))
      ∧ AtomicSwapTransaction.BuildWithdrawTx .REFUND_TX sampleTx =
        .ok .CreatingTx
          { sampleTx with
            params := sampleTx.params.put .REFUND_TX .State (.swapTxState .CreatingTx)
            log := sampleTx.log ++
              [.createRawTransaction
                { txid := "txid", vout := 0, Sequence := 4294967294, address := "addressB",
                  amount := 100000000, locktime := some (1700000000 + 172800) },
               .SetParameter .REFUND_TX .State (.swapTxState .CreatingTx)] }
      ∧ 1700000000 < 1700000000 + 172800 :=
  locktime_is_create_time_plus_48h (sampleEnv false none) sampleTx 1700000000 "addressA"
    "addressB" "txid" zeroBig 100000000 0 (by norm_num) rfl rfl rfl rfl rfl rfl rfl rfl

/-! ## The spending input scripts (C3) -/

/-- C3. On an object that holds a raw withdraw transaction with at least one
input (and stores the parameters of the redeem script and the recovered
preimage), `OnDumpReceiverPrivateKey` installs on input 0 exactly
`[push(sig), push(pubkey), push(preimage), OP_1]` and `OnDumpSenderPrivateKey`
exactly `[push(sig), push(pubkey), OP_0]`; under `OP_IF` the first selects the
IF branch and leaves the 32-byte preimage on top of the stack, the second
selects the ELSE branch. -/
theorem withdraw_input_scripts (env : Env) (tx : AtomicSwapTransaction) (wif rawTx : String)
    (t0 : Nat) (peerAddress address : String) (preimage secret : uintBig)
    (i : input) (rest : List input)
    (hRaw : tx.m_SwapWithdrawRawTx = some rawTx)
    (hInputs : (env.factory_from_data rawTx).inputs = i :: rest)
    (hCreateTime : tx.params .kDefaultSubTxID .CreateTime = some (.nat t0))
    (hPeerAddress : tx.params .kDefaultSubTxID .AtomicSwapPeerAddress = some (.str peerAddress))
    (hAddress : tx.params .kDefaultSubTxID .AtomicSwapAddress = some (.str address))
    (hPreImage : tx.params .BEAM_REDEEM_TX .PreImage = some (.big preimage))
    (hSecret : tx.params .kDefaultSubTxID .PreImage = some (.big secret)) :
    let withdrawTX := env.factory_from_data rawTx
    let redeemScript := AtomicSwapContract (env.payment_address_hash address)
      (env.payment_address_hash peerAddress) (toInt64 (add64 t0 kBTCLockTimeSec))
      (env.Hash preimage).val 32
    let sig := env.create_endorsement wif redeemScript withdrawTX 0
    let pubkey := env.to_public wif
    let redeemInput : script := [.data sig, .data pubkey, .data secret.val, .op .push_positive_1]
    let refundInput : script := [.data sig, .data pubkey, .op .push_size_0]
    AtomicSwapTransaction.OnDumpReceiverPrivateKey env (some wif) tx =
        .ok ()
          { tx with
            m_SwapWithdrawRawTx := some (env.encode_base16
              { withdrawTX with inputs := { i with script := redeemInput } :: rest })
            params := tx.params.put .REDEEM_TX .State (.swapTxState .Constructed)
            log := tx.log ++
              [.SetParameter .REDEEM_TX .State (.swapTxState .Constructed), .UpdateAsync] }
      ∧ AtomicSwapTransaction.OnDumpSenderPrivateKey env (some wif) tx =
        .ok ()
          { tx with
            m_SwapWithdrawRawTx := some (env.encode_base16
              { withdrawTX with inputs := { i with script := refundInput } :: rest })
            params := tx.params.put .REFUND_TX .State (.swapTxState .Constructed)
            log := tx.log ++
              [.SetParameter .REFUND_TX .State (.swapTxState .Constructed), .UpdateAsync] }
      ∧ selectBranch redeemInput = some (true, [secret.val, pubkey, sig])
      ∧ secret.val.length = 32
      ∧ selectBranch refundInput = some (false, [pubkey, sig]) := by
  intro withdrawTX redeemScript sig pubkey redeemInput refundInput
  have hScript := CreateAtomicSwapContract_ok env tx t0 peerAddress address preimage hCreateTime
    hPeerAddress hAddress hPreImage
  refine ⟨?_, ?_, rfl, secret.property, rfl⟩
  · simp [AtomicSwapTransaction.OnDumpReceiverPrivateKey, hRaw, hScript, GetMandatoryParameter,
      hSecret, Value.asBig, set_script_of_first_input, hInputs, SetState,
      AtomicSwapTransaction.UpdateAsync, redeemInput, sig, pubkey, redeemScript, withdrawTX]
  · simp [AtomicSwapTransaction.OnDumpSenderPrivateKey, hRaw, hScript,
      set_script_of_first_input, hInputs, SetState,
      AtomicSwapTransaction.UpdateAsync, refundInput, sig, pubkey, redeemScript, withdrawTX]

/-- The third theorem on the sample object, whose raw withdraw transaction has
one input. -/
theorem withdraw_input_scripts_witness :
    selectBranch [.data [48], .data [2], .data zeroBig.val, .op .push_positive_1]
        = some (true, [zeroBig.val, [2], [48]])
      ∧ selectBranch [.data [48], .data [2], .op .push_size_0] = some (false, [[2], [48]]) :=
  have h := withdraw_input_scripts (sampleEnv false none) sampleTx "wif" "raw" 1700000000
    "addressA" "addressB" zeroBig zeroBig
    { previous_output := ("txid", 0), script := [], sequence := 4294967294 } []
    rfl rfl rfl rfl rfl rfl rfl
  ⟨h.2.2.1, h.2.2.2.2⟩

set_option linter.unusedTactic false
set_option linter.unreachableTactic false
set_option linter.unusedVariables false
/-! ## Rules for `Evolves` -/

section evolves
variable {α β : Type} {P : Effect → Prop} {strict : Prop}

theorem replay_append (l1 l2 : List Effect) (s : ParamStore) :
    replay (l1 ++ l2) s = replay l2 (replay l1 s) := by
  simp [replay, List.foldl_append]

theorem Evolves.refl (tx : AtomicSwapTransaction) : Evolves P strict tx tx :=
  ⟨⟨[], by simp, rfl, by simp⟩, fun _ h => h, rfl, rfl, rfl, fun _ => ⟨rfl, rfl, rfl⟩⟩

theorem Evolves.trans {a b c : AtomicSwapTransaction} (h1 : Evolves P strict a b)
    (h2 : Evolves P strict b c) : Evolves P strict a c := by
  obtain ⟨l1, e1, r1, p1⟩ := h1.log
  obtain ⟨l2, e2, r2, p2⟩ := h2.log
  refine ⟨⟨l1 ++ l2, ?_, ?_, ?_⟩, fun b h => h2.role b (h1.role b h),
    h2.lockRaw.trans h1.lockRaw, h2.withdrawRaw.trans h1.withdrawRaw,
    h2.confirmations.trans h1.confirmations, fun hs => ?_⟩
  · rw [e2, e1, List.append_assoc]
  · rw [r2, r1, replay_append]
  · intro e he
    rcases List.mem_append.mp he with h | h
    · exact p1 e h
    · exact p2 e h
  · obtain ⟨x1, y1, z1⟩ := h1.built hs
    obtain ⟨x2, y2, z2⟩ := h2.built hs
    exact ⟨x2.trans x1, y2.trans y1, z2.trans z1⟩

theorem Evolves.mono {Q : Effect → Prop} {strict' : Prop} {a b : AtomicSwapTransaction}
    (h : Evolves P strict a b) (hPQ : ∀ e, P e → Q e) (hs : strict' → strict) :
    Evolves Q strict' a b := by
  obtain ⟨l, e, r, p⟩ := h.log
  exact ⟨⟨l, e, r, fun x hx => hPQ x (p x hx)⟩, h.role, h.lockRaw, h.withdrawRaw,
    h.confirmations, fun h' => h.built (hs h')⟩

/-- Sequencing: the second step starts where the first returned. -/
theorem Evolves.bind {x : M α} {f : α → M β} {tx : AtomicSwapTransaction}
    (hx : Evolves P strict tx (x tx).tx)
    (hf : ∀ a tx', x tx = .ok a tx' → Evolves P strict tx' (f a tx').tx) :
    Evolves P strict tx ((x >>= f) tx).tx := by
  simp only [M.bind_apply]
  cases h : x tx with
  | ok a tx' =>
    rw [h] at hx
    exact Evolves.trans hx (hf a tx' h)
  | fail e tx' =>
    rw [h] at hx
    exact hx

theorem Evolves.of_pure (a : α) (tx : AtomicSwapTransaction) :
    Evolves P strict tx ((pure a : M α) tx).tx := Evolves.refl tx

theorem Evolves.of_read (f : AtomicSwapTransaction → α) (tx : AtomicSwapTransaction) :
    Evolves P strict tx (M.read f tx).tx := Evolves.refl tx

theorem Evolves.of_raise (e : Exc) (tx : AtomicSwapTransaction) :
    Evolves P strict tx ((M.raise e : M α) tx).tx := Evolves.refl tx

theorem Evolves.of_GetParameter (proj : Value → Option α) (id : TxParameterID)
    (subTxID : SubTxID) (tx : AtomicSwapTransaction) :
    Evolves P strict tx (GetParameter proj id subTxID tx).tx := Evolves.refl tx

theorem Evolves.of_emit (e : Effect) (h : P e) (hw : ∀ s, replay [e] s = s)
    (tx : AtomicSwapTransaction) : Evolves P strict tx (M.emit e tx).tx :=
  ⟨⟨[e], rfl, (hw _).symm, by simpa using h⟩, fun _ h => h, rfl, rfl, rfl,
    fun _ => ⟨rfl, rfl, rfl⟩⟩

theorem Evolves.of_SetParameter (id : TxParameterID) (v : Value) (subTxID : SubTxID)
    (h : P (.SetParameter subTxID id v)) (tx : AtomicSwapTransaction) :
    Evolves P strict tx (SetParameter id v subTxID tx).tx :=
  ⟨⟨[.SetParameter subTxID id v], rfl, rfl, by simpa using h⟩, fun _ h => h, rfl, rfl, rfl,
    fun _ => ⟨rfl, rfl, rfl⟩⟩

theorem Evolves.of_BuilderQuery (oracle : ParamStore → SubTxID → Bool) (call : Bool → BuilderCall)
    (subTxID : SubTxID) (h : ∀ r, P (.Builder subTxID (call r))) (tx : AtomicSwapTransaction) :
    Evolves P strict tx (BuilderQuery oracle call subTxID tx).tx :=
  ⟨⟨[_], rfl, rfl, by simpa using h _⟩, fun _ h => h, rfl, rfl, rfl, fun _ => ⟨rfl, rfl, rfl⟩⟩

theorem Evolves.of_GetMandatoryParameter (proj : Value → Option α) (id : TxParameterID)
    (subTxID : SubTxID) (tx : AtomicSwapTransaction) :
    Evolves P strict tx (GetMandatoryParameter proj id subTxID tx).tx := by
  unfold GetMandatoryParameter
  split <;> exact Evolves.refl tx

theorem Evolves.of_assert (line : Nat) (c : Bool) (tx : AtomicSwapTransaction) :
    Evolves P strict tx (M.assert line c tx).tx := by
  cases c <;> exact Evolves.refl tx

theorem Evolves.of_IsSender (tx : AtomicSwapTransaction) :
    Evolves P strict tx (AtomicSwapTransaction.IsSender tx).tx := by
  unfold AtomicSwapTransaction.IsSender
  split
  · exact Evolves.refl tx
  · rename_i h
    split
    · exact ⟨⟨[], by simp, rfl, by simp⟩, fun b hb => by simp [h] at hb, rfl, rfl, rfl,
        fun _ => ⟨rfl, rfl, rfl⟩⟩
    · exact Evolves.refl tx

theorem Evolves.of_GetAmount (tx : AtomicSwapTransaction) :
    Evolves P strict tx (AtomicSwapTransaction.GetAmount tx).tx := by
  unfold AtomicSwapTransaction.GetAmount
  split
  · exact Evolves.refl tx
  · split
    · exact ⟨⟨[], by simp, rfl, by simp⟩, fun _ h => h, rfl, rfl, rfl, fun _ => ⟨rfl, rfl, rfl⟩⟩
    · exact Evolves.refl tx

theorem Evolves.of_ite {c : Prop} [Decidable c] {x y : M α} {tx : AtomicSwapTransaction}
    (hx : c → Evolves P strict tx (x tx).tx) (hy : ¬ c → Evolves P strict tx (y tx).tx) :
    Evolves P strict tx ((if c then x else y) tx).tx := by
  split
  · exact hx ‹_›
  · exact hy ‹_›

theorem Evolves.of_assign_LockTx (v : Option Transaction) (tx : AtomicSwapTransaction) :
    Evolves P False tx (M.modify (fun tx => { tx with m_LockTx := v }) tx).tx :=
  ⟨⟨[], by simp, rfl, by simp⟩, fun _ h => h, rfl, rfl, rfl, fun h => h.elim⟩

theorem Evolves.of_assign_RefundTx (v : Option Transaction) (tx : AtomicSwapTransaction) :
    Evolves P False tx (M.modify (fun tx => { tx with m_RefundTx := v }) tx).tx :=
  ⟨⟨[], by simp, rfl, by simp⟩, fun _ h => h, rfl, rfl, rfl, fun h => h.elim⟩

theorem Evolves.of_assign_RedeemTx (v : Option Transaction) (tx : AtomicSwapTransaction) :
    Evolves P False tx (M.modify (fun tx => { tx with m_RedeemTx := v }) tx).tx :=
  ⟨⟨[], by simp, rfl, by simp⟩, fun _ h => h, rfl, rfl, rfl, fun h => h.elim⟩

end evolves


/-- `LoadSharedParameters` only does local builder work. -/
theorem LoadSharedParameters_evolves {P : Effect → Prop} {strict : Prop} (hP : ∀ e, Silent e → P e)
    (env : Env) (tx : AtomicSwapTransaction) :
    Evolves P strict tx (LockTxBuilder.LoadSharedParameters env tx).tx := by
  unfold LockTxBuilder.LoadSharedParameters Builder
  repeat' first
    | with_reducible exact Evolves.of_pure _ _
    | with_reducible exact Evolves.of_read _ _
    | with_reducible exact Evolves.of_raise _ _
    | with_reducible exact Evolves.of_GetParameter _ _ _ _
    | with_reducible exact Evolves.of_GetMandatoryParameter _ _ _ _
    | with_reducible exact Evolves.of_IsSender _
    | with_reducible exact Evolves.of_GetAmount _
    | with_reducible exact Evolves.of_assert _ _ _
    | ((with_reducible refine Evolves.of_emit _ ?_ ?_ _) <;>
        (first | exact hP _ trivial | exact fun _ => rfl))
    | ((with_reducible refine Evolves.of_SetParameter _ _ _ ?_ _) <;> exact hP _ trivial)
    | ((with_reducible refine Evolves.of_BuilderQuery _ _ _ ?_ _) <;>
        exact fun _ => hP _ trivial)
    | with_reducible apply Evolves.bind
    | with_reducible apply Evolves.of_ite
    | intro _ _ _
    | intro _
    | split
    | (with_reducible dsimp only)

/-- `SharedUTXOProofPart2` only does local builder work. -/
theorem SharedUTXOProofPart2_evolves {P : Effect → Prop} {strict : Prop} (hP : ∀ e, Silent e → P e)
    (env : Env) (b : Bool) (tx : AtomicSwapTransaction) :
    Evolves P strict tx (LockTxBuilder.SharedUTXOProofPart2 env b tx).tx := by
  unfold LockTxBuilder.SharedUTXOProofPart2 LockTxBuilder.GetSharedCommitment Builder
  repeat' first
    | with_reducible exact Evolves.of_pure _ _
    | with_reducible exact Evolves.of_read _ _
    | with_reducible exact Evolves.of_raise _ _
    | with_reducible exact Evolves.of_GetParameter _ _ _ _
    | with_reducible exact Evolves.of_GetMandatoryParameter _ _ _ _
    | with_reducible exact Evolves.of_IsSender _
    | with_reducible exact Evolves.of_GetAmount _
    | with_reducible exact Evolves.of_assert _ _ _
    | ((with_reducible refine Evolves.of_emit _ ?_ ?_ _) <;>
        (first | exact hP _ trivial | exact fun _ => rfl))
    | ((with_reducible refine Evolves.of_SetParameter _ _ _ ?_ _) <;> exact hP _ trivial)
    | ((with_reducible refine Evolves.of_BuilderQuery _ _ _ ?_ _) <;>
        exact fun _ => hP _ trivial)
    | with_reducible apply Evolves.bind
    | with_reducible apply Evolves.of_ite
    | intro _ _ _
    | intro _
    | split
    | (with_reducible dsimp only)

/-- `SharedUTXOProofPart3` only does local builder work. -/
theorem SharedUTXOProofPart3_evolves {P : Effect → Prop} {strict : Prop} (hP : ∀ e, Silent e → P e)
    (env : Env) (b : Bool) (tx : AtomicSwapTransaction) :
    Evolves P strict tx (LockTxBuilder.SharedUTXOProofPart3 env b tx).tx := by
  unfold LockTxBuilder.SharedUTXOProofPart3 LockTxBuilder.GetSharedCommitment Builder
  repeat' first
    | with_reducible exact Evolves.of_pure _ _
    | with_reducible exact Evolves.of_read _ _
    | with_reducible exact Evolves.of_raise _ _
    | with_reducible exact Evolves.of_GetParameter _ _ _ _
    | with_reducible exact Evolves.of_GetMandatoryParameter _ _ _ _
    | with_reducible exact Evolves.of_IsSender _
    | with_reducible exact Evolves.of_GetAmount _
    | with_reducible exact Evolves.of_assert _ _ _
    | ((with_reducible refine Evolves.of_emit _ ?_ ?_ _) <;>
        (first | exact hP _ trivial | exact fun _ => rfl))
    | ((with_reducible refine Evolves.of_SetParameter _ _ _ ?_ _) <;> exact hP _ trivial)
    | ((with_reducible refine Evolves.of_BuilderQuery _ _ _ ?_ _) <;>
        exact fun _ => hP _ trivial)
    | with_reducible apply Evolves.bind
    | with_reducible apply Evolves.of_ite
    | intro _ _ _
    | intro _
    | split
    | (with_reducible dsimp only)

/-- `LockTxBuilder::CreateTransaction` only does local builder work. -/
theorem LockTxBuilder_CreateTransaction_evolves {P : Effect → Prop} {strict : Prop} (hP : ∀ e, Silent e → P e)
    (env : Env) (tx : AtomicSwapTransaction) :
    Evolves P strict tx (LockTxBuilder.CreateTransaction env tx).tx := by
  unfold LockTxBuilder.CreateTransaction LockTxBuilder.GetSharedCommitment Builder
  repeat' first
    | with_reducible exact Evolves.of_pure _ _
    | with_reducible exact Evolves.of_read _ _
    | with_reducible exact Evolves.of_raise _ _
    | with_reducible exact Evolves.of_GetParameter _ _ _ _
    | with_reducible exact Evolves.of_GetMandatoryParameter _ _ _ _
    | with_reducible exact Evolves.of_IsSender _
    | with_reducible exact Evolves.of_GetAmount _
    | with_reducible exact Evolves.of_assert _ _ _
    | ((with_reducible refine Evolves.of_emit _ ?_ ?_ _) <;>
        (first | exact hP _ trivial | exact fun _ => rfl))
    | ((with_reducible refine Evolves.of_SetParameter _ _ _ ?_ _) <;> exact hP _ trivial)
    | ((with_reducible refine Evolves.of_BuilderQuery _ _ _ ?_ _) <;>
        exact fun _ => hP _ trivial)
    | with_reducible apply Evolves.bind
    | with_reducible apply Evolves.of_ite
    | intro _ _ _
    | intro _
    | split
    | (with_reducible dsimp only)

/-- `InitTx` only does local builder work. -/
theorem InitTx_evolves {P : Effect → Prop} {strict : Prop} (hP : ∀ e, Silent e → P e)
    (env : Env) (subTxID : SubTxID) (b : Bool) (tx : AtomicSwapTransaction) :
    Evolves P strict tx (SharedTxBuilder.InitTx env subTxID b tx).tx := by
  unfold SharedTxBuilder.InitTx Builder
  repeat' first
    | with_reducible exact Evolves.of_pure _ _
    | with_reducible exact Evolves.of_read _ _
    | with_reducible exact Evolves.of_raise _ _
    | with_reducible exact Evolves.of_GetParameter _ _ _ _
    | with_reducible exact Evolves.of_GetMandatoryParameter _ _ _ _
    | with_reducible exact Evolves.of_IsSender _
    | with_reducible exact Evolves.of_GetAmount _
    | with_reducible exact Evolves.of_assert _ _ _
    | ((with_reducible refine Evolves.of_emit _ ?_ ?_ _) <;>
        (first | exact hP _ trivial | exact fun _ => rfl))
    | ((with_reducible refine Evolves.of_SetParameter _ _ _ ?_ _) <;> exact hP _ trivial)
    | ((with_reducible refine Evolves.of_BuilderQuery _ _ _ ?_ _) <;>
        exact fun _ => hP _ trivial)
    | with_reducible apply Evolves.bind
    | with_reducible apply Evolves.of_ite
    | intro _ _ _
    | intro _
    | split
    | (with_reducible dsimp only)

/-- `SharedTxBuilder::CreateTransaction` only does local builder work. -/
theorem SharedTxBuilder_CreateTransaction_evolves {P : Effect → Prop} {strict : Prop} (hP : ∀ e, Silent e → P e)
    (env : Env) (subTxID : SubTxID) (tx : AtomicSwapTransaction) :
    Evolves P strict tx (SharedTxBuilder.CreateTransaction env subTxID tx).tx := by
  unfold SharedTxBuilder.CreateTransaction Builder
  repeat' first
    | with_reducible exact Evolves.of_pure _ _
    | with_reducible exact Evolves.of_read _ _
    | with_reducible exact Evolves.of_raise _ _
    | with_reducible exact Evolves.of_GetParameter _ _ _ _
    | with_reducible exact Evolves.of_GetMandatoryParameter _ _ _ _
    | with_reducible exact Evolves.of_IsSender _
    | with_reducible exact Evolves.of_GetAmount _
    | with_reducible exact Evolves.of_assert _ _ _
    | ((with_reducible refine Evolves.of_emit _ ?_ ?_ _) <;>
        (first | exact hP _ trivial | exact fun _ => rfl))
    | ((with_reducible refine Evolves.of_SetParameter _ _ _ ?_ _) <;> exact hP _ trivial)
    | ((with_reducible refine Evolves.of_BuilderQuery _ _ _ ?_ _) <;>
        exact fun _ => hP _ trivial)
    | with_reducible apply Evolves.bind
    | with_reducible apply Evolves.of_ite
    | intro _ _ _
    | intro _
    | split
    | (with_reducible dsimp only)

/-- `GetSharedParameters` only reads. -/
theorem GetSharedParameters_evolves {P : Effect → Prop} {strict : Prop} (hP : ∀ e, Silent e → P e)
    (tx : AtomicSwapTransaction) :
    Evolves P strict tx (SharedTxBuilder.GetSharedParameters tx).tx := by
  unfold SharedTxBuilder.GetSharedParameters
  repeat' first
    | with_reducible exact Evolves.of_pure _ _
    | with_reducible exact Evolves.of_read _ _
    | with_reducible exact Evolves.of_raise _ _
    | with_reducible exact Evolves.of_GetParameter _ _ _ _
    | with_reducible exact Evolves.of_GetMandatoryParameter _ _ _ _
    | with_reducible exact Evolves.of_IsSender _
    | with_reducible exact Evolves.of_GetAmount _
    | with_reducible exact Evolves.of_assert _ _ _
    | ((with_reducible refine Evolves.of_emit _ ?_ ?_ _) <;>
        (first | exact hP _ trivial | exact fun _ => rfl))
    | ((with_reducible refine Evolves.of_SetParameter _ _ _ ?_ _) <;> exact hP _ trivial)
    | ((with_reducible refine Evolves.of_BuilderQuery _ _ _ ?_ _) <;>
        exact fun _ => hP _ trivial)
    | with_reducible apply Evolves.bind
    | with_reducible apply Evolves.of_ite
    | intro _ _ _
    | intro _
    | split
    | (with_reducible dsimp only)

/-- `SendInvitation` only sends a peer message. -/
theorem SendInvitation_evolves {P : Effect → Prop} {strict : Prop} (hP : ∀ e, Sending e → P e)
    (env : Env) (tx : AtomicSwapTransaction) :
    Evolves P strict tx (AtomicSwapTransaction.SendInvitation env tx).tx := by
  unfold AtomicSwapTransaction.SendInvitation SendTxParameters OnFailed
  repeat' first
    | with_reducible exact Evolves.of_pure _ _
    | with_reducible exact Evolves.of_read _ _
    | with_reducible exact Evolves.of_raise _ _
    | with_reducible exact Evolves.of_GetParameter _ _ _ _
    | with_reducible exact Evolves.of_GetMandatoryParameter _ _ _ _
    | with_reducible exact Evolves.of_IsSender _
    | with_reducible exact Evolves.of_GetAmount _
    | with_reducible exact Evolves.of_assert _ _ _
    | ((with_reducible refine Evolves.of_emit _ ?_ ?_ _) <;>
        (first | exact hP _ trivial | exact fun _ => rfl))
    | ((with_reducible refine Evolves.of_SetParameter _ _ _ ?_ _) <;> exact hP _ trivial)
    | ((with_reducible refine Evolves.of_BuilderQuery _ _ _ ?_ _) <;>
        exact fun _ => hP _ trivial)
    | with_reducible apply Evolves.bind
    | with_reducible apply Evolves.of_ite
    | intro _ _ _
    | intro _
    | split
    | (with_reducible dsimp only)

/-- `SendExternalTxDetails` only sends a peer message. -/
theorem SendExternalTxDetails_evolves {P : Effect → Prop} {strict : Prop} (hP : ∀ e, Sending e → P e)
    (env : Env) (tx : AtomicSwapTransaction) :
    Evolves P strict tx (AtomicSwapTransaction.SendExternalTxDetails env tx).tx := by
  unfold AtomicSwapTransaction.SendExternalTxDetails SendTxParameters OnFailed
  repeat' first
    | with_reducible exact Evolves.of_pure _ _
    | with_reducible exact Evolves.of_read _ _
    | with_reducible exact Evolves.of_raise _ _
    | with_reducible exact Evolves.of_GetParameter _ _ _ _
    | with_reducible exact Evolves.of_GetMandatoryParameter _ _ _ _
    | with_reducible exact Evolves.of_IsSender _
    | with_reducible exact Evolves.of_GetAmount _
    | with_reducible exact Evolves.of_assert _ _ _
    | ((with_reducible refine Evolves.of_emit _ ?_ ?_ _) <;>
        (first | exact hP _ trivial | exact fun _ => rfl))
    | ((with_reducible refine Evolves.of_SetParameter _ _ _ ?_ _) <;> exact hP _ trivial)
    | ((with_reducible refine Evolves.of_BuilderQuery _ _ _ ?_ _) <;>
        exact fun _ => hP _ trivial)
    | with_reducible apply Evolves.bind
    | with_reducible apply Evolves.of_ite
    | intro _ _ _
    | intro _
    | split
    | (with_reducible dsimp only)

/-- `SendLockTxInvitation` only sends a peer message. -/
theorem SendLockTxInvitation_evolves {P : Effect → Prop} {strict : Prop} (hP : ∀ e, Sending e → P e)
    (env : Env) (fee : Nat) (tx : AtomicSwapTransaction) :
    Evolves P strict tx (AtomicSwapTransaction.SendLockTxInvitation env fee tx).tx := by
  unfold AtomicSwapTransaction.SendLockTxInvitation SendTxParameters OnFailed
  repeat' first
    | with_reducible exact Evolves.of_pure _ _
    | with_reducible exact Evolves.of_read _ _
    | with_reducible exact Evolves.of_raise _ _
    | with_reducible exact Evolves.of_GetParameter _ _ _ _
    | with_reducible exact Evolves.of_GetMandatoryParameter _ _ _ _
    | with_reducible exact Evolves.of_IsSender _
    | with_reducible exact Evolves.of_GetAmount _
    | with_reducible exact Evolves.of_assert _ _ _
    | ((with_reducible refine Evolves.of_emit _ ?_ ?_ _) <;>
        (first | exact hP _ trivial | exact fun _ => rfl))
    | ((with_reducible refine Evolves.of_SetParameter _ _ _ ?_ _) <;> exact hP _ trivial)
    | ((with_reducible refine Evolves.of_BuilderQuery _ _ _ ?_ _) <;>
        exact fun _ => hP _ trivial)
    | with_reducible apply Evolves.bind
    | with_reducible apply Evolves.of_ite
    | intro _ _ _
    | intro _
    | split
    | (with_reducible dsimp only)

/-- `SendBulletProofPart2` only sends a peer message. -/
theorem SendBulletProofPart2_evolves {P : Effect → Prop} {strict : Prop} (hP : ∀ e, Sending e → P e)
    (env : Env) (b : Bool) (tx : AtomicSwapTransaction) :
    Evolves P strict tx (AtomicSwapTransaction.SendBulletProofPart2 env b tx).tx := by
  unfold AtomicSwapTransaction.SendBulletProofPart2 SendTxParameters OnFailed
  repeat' first
    | with_reducible exact Evolves.of_pure _ _
    | with_reducible exact Evolves.of_read _ _
    | with_reducible exact Evolves.of_raise _ _
    | with_reducible exact Evolves.of_GetParameter _ _ _ _
    | with_reducible exact Evolves.of_GetMandatoryParameter _ _ _ _
    | with_reducible exact Evolves.of_IsSender _
    | with_reducible exact Evolves.of_GetAmount _
    | with_reducible exact Evolves.of_assert _ _ _
    | ((with_reducible refine Evolves.of_emit _ ?_ ?_ _) <;>
        (first | exact hP _ trivial | exact fun _ => rfl))
    | ((with_reducible refine Evolves.of_SetParameter _ _ _ ?_ _) <;> exact hP _ trivial)
    | ((with_reducible refine Evolves.of_BuilderQuery _ _ _ ?_ _) <;>
        exact fun _ => hP _ trivial)
    | with_reducible apply Evolves.bind
    | with_reducible apply Evolves.of_ite
    | intro _ _ _
    | intro _
    | split
    | (with_reducible dsimp only)

/-- `SendBulletProofPart3` only sends a peer message. -/
theorem SendBulletProofPart3_evolves {P : Effect → Prop} {strict : Prop} (hP : ∀ e, Sending e → P e)
    (env : Env) (b : Bool) (tx : AtomicSwapTransaction) :
    Evolves P strict tx (AtomicSwapTransaction.SendBulletProofPart3 env b tx).tx := by
  unfold AtomicSwapTransaction.SendBulletProofPart3 SendTxParameters OnFailed
  repeat' first
    | with_reducible exact Evolves.of_pure _ _
    | with_reducible exact Evolves.of_read _ _
    | with_reducible exact Evolves.of_raise _ _
    | with_reducible exact Evolves.of_GetParameter _ _ _ _
    | with_reducible exact Evolves.of_GetMandatoryParameter _ _ _ _
    | with_reducible exact Evolves.of_IsSender _
    | with_reducible exact Evolves.of_GetAmount _
    | with_reducible exact Evolves.of_assert _ _ _
    | ((with_reducible refine Evolves.of_emit _ ?_ ?_ _) <;>
        (first | exact hP _ trivial | exact fun _ => rfl))
    | ((with_reducible refine Evolves.of_SetParameter _ _ _ ?_ _) <;> exact hP _ trivial)
    | ((with_reducible refine Evolves.of_BuilderQuery _ _ _ ?_ _) <;>
        exact fun _ => hP _ trivial)
    | with_reducible apply Evolves.bind
    | with_reducible apply Evolves.of_ite
    | intro _ _ _
    | intro _
    | split
    | (with_reducible dsimp only)

/-- `SendSharedTxInvitation` only sends a peer message. -/
theorem SendSharedTxInvitation_evolves {P : Effect → Prop} {strict : Prop} (hP : ∀ e, Sending e → P e)
    (env : Env) (subTxID : SubTxID) (amount fee : Nat) (b : Bool) (tx : AtomicSwapTransaction) :
    Evolves P strict tx (AtomicSwapTransaction.SendSharedTxInvitation env subTxID amount fee b tx).tx := by
  unfold AtomicSwapTransaction.SendSharedTxInvitation SendTxParameters OnFailed
  repeat' first
    | with_reducible exact Evolves.of_pure _ _
    | with_reducible exact Evolves.of_read _ _
    | with_reducible exact Evolves.of_raise _ _
    | with_reducible exact Evolves.of_GetParameter _ _ _ _
    | with_reducible exact Evolves.of_GetMandatoryParameter _ _ _ _
    | with_reducible exact Evolves.of_IsSender _
    | with_reducible exact Evolves.of_GetAmount _
    | with_reducible exact Evolves.of_assert _ _ _
    | ((with_reducible refine Evolves.of_emit _ ?_ ?_ _) <;>
        (first | exact hP _ trivial | exact fun _ => rfl))
    | ((with_reducible refine Evolves.of_SetParameter _ _ _ ?_ _) <;> exact hP _ trivial)
    | ((with_reducible refine Evolves.of_BuilderQuery _ _ _ ?_ _) <;>
        exact fun _ => hP _ trivial)
    | with_reducible apply Evolves.bind
    | with_reducible apply Evolves.of_ite
    | intro _ _ _
    | intro _
    | split
    | (with_reducible dsimp only)

/-- `ConfirmSharedTxInvitation` only sends a peer message. -/
theorem ConfirmSharedTxInvitation_evolves {P : Effect → Prop} {strict : Prop} (hP : ∀ e, Sending e → P e)
    (env : Env) (subTxID : SubTxID) (tx : AtomicSwapTransaction) :
    Evolves P strict tx (AtomicSwapTransaction.ConfirmSharedTxInvitation env subTxID tx).tx := by
  unfold AtomicSwapTransaction.ConfirmSharedTxInvitation SendTxParameters OnFailed
  repeat' first
    | with_reducible exact Evolves.of_pure _ _
    | with_reducible exact Evolves.of_read _ _
    | with_reducible exact Evolves.of_raise _ _
    | with_reducible exact Evolves.of_GetParameter _ _ _ _
    | with_reducible exact Evolves.of_GetMandatoryParameter _ _ _ _
    | with_reducible exact Evolves.of_IsSender _
    | with_reducible exact Evolves.of_GetAmount _
    | with_reducible exact Evolves.of_assert _ _ _
    | ((with_reducible refine Evolves.of_emit _ ?_ ?_ _) <;>
        (first | exact hP _ trivial | exact fun _ => rfl))
    | ((with_reducible refine Evolves.of_SetParameter _ _ _ ?_ _) <;> exact hP _ trivial)
    | ((with_reducible refine Evolves.of_BuilderQuery _ _ _ ?_ _) <;>
        exact fun _ => hP _ trivial)
    | with_reducible apply Evolves.bind
    | with_reducible apply Evolves.of_ite
    | intro _ _ _
    | intro _
    | split
    | (with_reducible dsimp only)

/-- Local builder work does not touch what steers the automaton. -/
theorem silent_inner : ∀ e, Silent e → Inner e := by
  intro e h
  unfold Inner
  split <;> simp_all [Silent]

/-- Sending a peer message does not touch what steers the automaton. -/
theorem sending_inner : ∀ e, Sending e → Inner e := by
  intro e h
  unfold Inner
  split <;> simp_all [Sending]

/-- `BuildBeamLockTx` leaves the top-level state, the raw transactions and the
confirmation count as they are and broadcasts nothing. -/
theorem BuildBeamLockTx_inner (env : Env) (tx : AtomicSwapTransaction) :
    Evolves Inner False tx (AtomicSwapTransaction.BuildBeamLockTx env tx).tx := by
  have hP : ∀ e, Inner e → Inner e := fun _ h => h
  have hSilent := silent_inner
  have hSending := sending_inner
  unfold AtomicSwapTransaction.BuildBeamLockTx Builder UpdateTxDescription SetState OnFailed
  repeat' first
    | with_reducible exact Evolves.of_pure _ _
    | with_reducible exact Evolves.of_read _ _
    | with_reducible exact Evolves.of_raise _ _
    | with_reducible exact Evolves.of_GetParameter _ _ _ _
    | with_reducible exact Evolves.of_GetMandatoryParameter _ _ _ _
    | with_reducible exact Evolves.of_IsSender _
    | with_reducible exact Evolves.of_GetAmount _
    | with_reducible exact Evolves.of_assert _ _ _
    | with_reducible exact LoadSharedParameters_evolves hSilent _ _
    | with_reducible exact SharedUTXOProofPart2_evolves hSilent _ _ _
    | with_reducible exact SharedUTXOProofPart3_evolves hSilent _ _ _
    | with_reducible exact LockTxBuilder_CreateTransaction_evolves hSilent _ _
    | with_reducible exact InitTx_evolves hSilent _ _ _ _
    | with_reducible exact SharedTxBuilder_CreateTransaction_evolves hSilent _ _ _
    | with_reducible exact GetSharedParameters_evolves hSilent _
    | with_reducible exact SendInvitation_evolves hSending _ _
    | with_reducible exact SendExternalTxDetails_evolves hSending _ _
    | with_reducible exact SendLockTxInvitation_evolves hSending _ _ _
    | with_reducible exact SendBulletProofPart2_evolves hSending _ _ _
    | with_reducible exact SendBulletProofPart3_evolves hSending _ _ _
    | with_reducible exact SendSharedTxInvitation_evolves hSending _ _ _ _ _ _
    | with_reducible exact ConfirmSharedTxInvitation_evolves hSending _ _ _
    | with_reducible exact Evolves.of_assign_LockTx _ _
    | with_reducible exact Evolves.of_assign_RefundTx _ _
    | with_reducible exact Evolves.of_assign_RedeemTx _ _
    | ((with_reducible refine Evolves.of_emit _ ?_ ?_ _) <;>
        (first | exact hP _ trivial | exact fun _ => rfl))
    | ((with_reducible refine Evolves.of_SetParameter _ _ _ ?_ _) <;> exact hP _ trivial)
    | ((with_reducible refine Evolves.of_BuilderQuery _ _ _ ?_ _) <;>
        exact fun _ => hP _ trivial)
    | with_reducible apply Evolves.bind
    | with_reducible apply Evolves.of_ite
    | intro _ _ _
    | intro _
    | split
    | (with_reducible dsimp only)

/-- `BuildBeamRefundTx` leaves the top-level state, the raw transactions and the
confirmation count as they are and broadcasts nothing. -/
theorem BuildBeamRefundTx_inner (env : Env) (tx : AtomicSwapTransaction) :
    Evolves Inner False tx (AtomicSwapTransaction.BuildBeamRefundTx env tx).tx := by
  have hP : ∀ e, Inner e → Inner e := fun _ h => h
  have hSilent := silent_inner
  have hSending := sending_inner
  unfold AtomicSwapTransaction.BuildBeamRefundTx AtomicSwapTransaction.GetSubTxState Builder SetState
  repeat' first
    | with_reducible exact Evolves.of_pure _ _
    | with_reducible exact Evolves.of_read _ _
    | with_reducible exact Evolves.of_raise _ _
    | with_reducible exact Evolves.of_GetParameter _ _ _ _
    | with_reducible exact Evolves.of_GetMandatoryParameter _ _ _ _
    | with_reducible exact Evolves.of_IsSender _
    | with_reducible exact Evolves.of_GetAmount _
    | with_reducible exact Evolves.of_assert _ _ _
    | with_reducible exact LoadSharedParameters_evolves hSilent _ _
    | with_reducible exact SharedUTXOProofPart2_evolves hSilent _ _ _
    | with_reducible exact SharedUTXOProofPart3_evolves hSilent _ _ _
    | with_reducible exact LockTxBuilder_CreateTransaction_evolves hSilent _ _
    | with_reducible exact InitTx_evolves hSilent _ _ _ _
    | with_reducible exact SharedTxBuilder_CreateTransaction_evolves hSilent _ _ _
    | with_reducible exact GetSharedParameters_evolves hSilent _
    | with_reducible exact SendInvitation_evolves hSending _ _
    | with_reducible exact SendExternalTxDetails_evolves hSending _ _
    | with_reducible exact SendLockTxInvitation_evolves hSending _ _ _
    | with_reducible exact SendBulletProofPart2_evolves hSending _ _ _
    | with_reducible exact SendBulletProofPart3_evolves hSending _ _ _
    | with_reducible exact SendSharedTxInvitation_evolves hSending _ _ _ _ _ _
    | with_reducible exact ConfirmSharedTxInvitation_evolves hSending _ _ _
    | with_reducible exact Evolves.of_assign_LockTx _ _
    | with_reducible exact Evolves.of_assign_RefundTx _ _
    | with_reducible exact Evolves.of_assign_RedeemTx _ _
    | ((with_reducible refine Evolves.of_emit _ ?_ ?_ _) <;>
        (first | exact hP _ trivial | exact fun _ => rfl))
    | ((with_reducible refine Evolves.of_SetParameter _ _ _ ?_ _) <;> exact hP _ trivial)
    | ((with_reducible refine Evolves.of_BuilderQuery _ _ _ ?_ _) <;>
        exact fun _ => hP _ trivial)
    | with_reducible apply Evolves.bind
    | with_reducible apply Evolves.of_ite
    | intro _ _ _
    | intro _
    | split
    | (with_reducible dsimp only)

/-- `BuildBeamRedeemTx` leaves the top-level state, the raw transactions and the
confirmation count as they are and broadcasts nothing. -/
theorem BuildBeamRedeemTx_inner (env : Env) (tx : AtomicSwapTransaction) :
    Evolves Inner False tx (AtomicSwapTransaction.BuildBeamRedeemTx env tx).tx := by
  have hP : ∀ e, Inner e → Inner e := fun _ h => h
  have hSilent := silent_inner
  have hSending := sending_inner
  unfold AtomicSwapTransaction.BuildBeamRedeemTx AtomicSwapTransaction.GetSubTxState Builder SetState OnFailed
  repeat' first
    | with_reducible exact Evolves.of_pure _ _
    | with_reducible exact Evolves.of_read _ _
    | with_reducible exact Evolves.of_raise _ _
    | with_reducible exact Evolves.of_GetParameter _ _ _ _
    | with_reducible exact Evolves.of_GetMandatoryParameter _ _ _ _
    | with_reducible exact Evolves.of_IsSender _
    | with_reducible exact Evolves.of_GetAmount _
    | with_reducible exact Evolves.of_assert _ _ _
    | with_reducible exact LoadSharedParameters_evolves hSilent _ _
    | with_reducible exact SharedUTXOProofPart2_evolves hSilent _ _ _
    | with_reducible exact SharedUTXOProofPart3_evolves hSilent _ _ _
    | with_reducible exact LockTxBuilder_CreateTransaction_evolves hSilent _ _
    | with_reducible exact InitTx_evolves hSilent _ _ _ _
    | with_reducible exact SharedTxBuilder_CreateTransaction_evolves hSilent _ _ _
    | with_reducible exact GetSharedParameters_evolves hSilent _
    | with_reducible exact SendInvitation_evolves hSending _ _
    | with_reducible exact SendExternalTxDetails_evolves hSending _ _
    | with_reducible exact SendLockTxInvitation_evolves hSending _ _ _
    | with_reducible exact SendBulletProofPart2_evolves hSending _ _ _
    | with_reducible exact SendBulletProofPart3_evolves hSending _ _ _
    | with_reducible exact SendSharedTxInvitation_evolves hSending _ _ _ _ _ _
    | with_reducible exact ConfirmSharedTxInvitation_evolves hSending _ _ _
    | with_reducible exact Evolves.of_assign_LockTx _ _
    | with_reducible exact Evolves.of_assign_RefundTx _ _
    | with_reducible exact Evolves.of_assign_RedeemTx _ _
    | ((with_reducible refine Evolves.of_emit _ ?_ ?_ _) <;>
        (first | exact hP _ trivial | exact fun _ => rfl))
    | ((with_reducible refine Evolves.of_SetParameter _ _ _ ?_ _) <;> exact hP _ trivial)
    | ((with_reducible refine Evolves.of_BuilderQuery _ _ _ ?_ _) <;>
        exact fun _ => hP _ trivial)
    | with_reducible apply Evolves.bind
    | with_reducible apply Evolves.of_ite
    | intro _ _ _
    | intro _
    | split
    | (with_reducible dsimp only)

/-- `BuildLockTx` leaves the top-level state, the raw transactions and the
confirmation count as they are and broadcasts nothing. -/
theorem BuildLockTx_inner (env : Env) (tx : AtomicSwapTransaction) :
    Evolves Inner False tx (AtomicSwapTransaction.BuildLockTx env tx).tx := by
  have hP : ∀ e, Inner e → Inner e := fun _ h => h
  have hSilent := silent_inner
  have hSending := sending_inner
  unfold AtomicSwapTransaction.BuildLockTx InitSecret CreateAtomicSwapContract SetState
  repeat' first
    | with_reducible exact Evolves.of_pure _ _
    | with_reducible exact Evolves.of_read _ _
    | with_reducible exact Evolves.of_raise _ _
    | with_reducible exact Evolves.of_GetParameter _ _ _ _
    | with_reducible exact Evolves.of_GetMandatoryParameter _ _ _ _
    | with_reducible exact Evolves.of_IsSender _
    | with_reducible exact Evolves.of_GetAmount _
    | with_reducible exact Evolves.of_assert _ _ _
    | with_reducible exact LoadSharedParameters_evolves hSilent _ _
    | with_reducible exact SharedUTXOProofPart2_evolves hSilent _ _ _
    | with_reducible exact SharedUTXOProofPart3_evolves hSilent _ _ _
    | with_reducible exact LockTxBuilder_CreateTransaction_evolves hSilent _ _
    | with_reducible exact InitTx_evolves hSilent _ _ _ _
    | with_reducible exact SharedTxBuilder_CreateTransaction_evolves hSilent _ _ _
    | with_reducible exact GetSharedParameters_evolves hSilent _
    | with_reducible exact SendInvitation_evolves hSending _ _
    | with_reducible exact SendExternalTxDetails_evolves hSending _ _
    | with_reducible exact SendLockTxInvitation_evolves hSending _ _ _
    | with_reducible exact SendBulletProofPart2_evolves hSending _ _ _
    | with_reducible exact SendBulletProofPart3_evolves hSending _ _ _
    | with_reducible exact SendSharedTxInvitation_evolves hSending _ _ _ _ _ _
    | with_reducible exact ConfirmSharedTxInvitation_evolves hSending _ _ _
    | with_reducible exact Evolves.of_assign_LockTx _ _
    | with_reducible exact Evolves.of_assign_RefundTx _ _
    | with_reducible exact Evolves.of_assign_RedeemTx _ _
    | ((with_reducible refine Evolves.of_emit _ ?_ ?_ _) <;>
        (first | exact hP _ trivial | exact fun _ => rfl))
    | ((with_reducible refine Evolves.of_SetParameter _ _ _ ?_ _) <;> exact hP _ trivial)
    | ((with_reducible refine Evolves.of_BuilderQuery _ _ _ ?_ _) <;>
        exact fun _ => hP _ trivial)
    | with_reducible apply Evolves.bind
    | with_reducible apply Evolves.of_ite
    | intro _ _ _
    | intro _
    | split
    | (with_reducible dsimp only)

/-- `BuildWithdrawTx(REFUND_TX)` leaves the top-level state, the raw transactions
and the confirmation count as they are and broadcasts nothing. -/
theorem BuildWithdrawTx_REFUND_inner (tx : AtomicSwapTransaction) :
    Evolves Inner False tx (AtomicSwapTransaction.BuildWithdrawTx .REFUND_TX tx).tx := by
  have hP : ∀ e, Inner e → Inner e := fun _ h => h
  have hSilent := silent_inner
  have hSending := sending_inner
  unfold AtomicSwapTransaction.BuildWithdrawTx SetState
  repeat' first
    | with_reducible exact Evolves.of_pure _ _
    | with_reducible exact Evolves.of_read _ _
    | with_reducible exact Evolves.of_raise _ _
    | with_reducible exact Evolves.of_GetParameter _ _ _ _
    | with_reducible exact Evolves.of_GetMandatoryParameter _ _ _ _
    | with_reducible exact Evolves.of_IsSender _
    | with_reducible exact Evolves.of_GetAmount _
    | with_reducible exact Evolves.of_assert _ _ _
    | with_reducible exact LoadSharedParameters_evolves hSilent _ _
    | with_reducible exact SharedUTXOProofPart2_evolves hSilent _ _ _
    | with_reducible exact SharedUTXOProofPart3_evolves hSilent _ _ _
    | with_reducible exact LockTxBuilder_CreateTransaction_evolves hSilent _ _
    | with_reducible exact InitTx_evolves hSilent _ _ _ _
    | with_reducible exact SharedTxBuilder_CreateTransaction_evolves hSilent _ _ _
    | with_reducible exact GetSharedParameters_evolves hSilent _
    | with_reducible exact SendInvitation_evolves hSending _ _
    | with_reducible exact SendExternalTxDetails_evolves hSending _ _
    | with_reducible exact SendLockTxInvitation_evolves hSending _ _ _
    | with_reducible exact SendBulletProofPart2_evolves hSending _ _ _
    | with_reducible exact SendBulletProofPart3_evolves hSending _ _ _
    | with_reducible exact SendSharedTxInvitation_evolves hSending _ _ _ _ _ _
    | with_reducible exact ConfirmSharedTxInvitation_evolves hSending _ _ _
    | with_reducible exact Evolves.of_assign_LockTx _ _
    | with_reducible exact Evolves.of_assign_RefundTx _ _
    | with_reducible exact Evolves.of_assign_RedeemTx _ _
    | ((with_reducible refine Evolves.of_emit _ ?_ ?_ _) <;>
        (first | exact hP _ trivial | exact fun _ => rfl))
    | ((with_reducible refine Evolves.of_SetParameter _ _ _ ?_ _) <;> exact hP _ trivial)
    | ((with_reducible refine Evolves.of_BuilderQuery _ _ _ ?_ _) <;>
        exact fun _ => hP _ trivial)
    | with_reducible apply Evolves.bind
    | with_reducible apply Evolves.of_ite
    | intro _ _ _
    | intro _
    | split
    | (with_reducible dsimp only)

/-- `BuildWithdrawTx(REDEEM_TX)` leaves the top-level state, the raw transactions
and the confirmation count as they are and broadcasts nothing. -/
theorem BuildWithdrawTx_REDEEM_inner (tx : AtomicSwapTransaction) :
    Evolves Inner False tx (AtomicSwapTransaction.BuildWithdrawTx .REDEEM_TX tx).tx := by
  have hP : ∀ e, Inner e → Inner e := fun _ h => h
  have hSilent := silent_inner
  have hSending := sending_inner
  unfold AtomicSwapTransaction.BuildWithdrawTx SetState
  repeat' first
    | with_reducible exact Evolves.of_pure _ _
    | with_reducible exact Evolves.of_read _ _
    | with_reducible exact Evolves.of_raise _ _
    | with_reducible exact Evolves.of_GetParameter _ _ _ _
    | with_reducible exact Evolves.of_GetMandatoryParameter _ _ _ _
    | with_reducible exact Evolves.of_IsSender _
    | with_reducible exact Evolves.of_GetAmount _
    | with_reducible exact Evolves.of_assert _ _ _
    | with_reducible exact LoadSharedParameters_evolves hSilent _ _
    | with_reducible exact SharedUTXOProofPart2_evolves hSilent _ _ _
    | with_reducible exact SharedUTXOProofPart3_evolves hSilent _ _ _
    | with_reducible exact LockTxBuilder_CreateTransaction_evolves hSilent _ _
    | with_reducible exact InitTx_evolves hSilent _ _ _ _
    | with_reducible exact SharedTxBuilder_CreateTransaction_evolves hSilent _ _ _
    | with_reducible exact GetSharedParameters_evolves hSilent _
    | with_reducible exact SendInvitation_evolves hSending _ _
    | with_reducible exact SendExternalTxDetails_evolves hSending _ _
    | with_reducible exact SendLockTxInvitation_evolves hSending _ _ _
    | with_reducible exact SendBulletProofPart2_evolves hSending _ _ _
    | with_reducible exact SendBulletProofPart3_evolves hSending _ _ _
    | with_reducible exact SendSharedTxInvitation_evolves hSending _ _ _ _ _ _
    | with_reducible exact ConfirmSharedTxInvitation_evolves hSending _ _ _
    | with_reducible exact Evolves.of_assign_LockTx _ _
    | with_reducible exact Evolves.of_assign_RefundTx _ _
    | with_reducible exact Evolves.of_assign_RedeemTx _ _
    | ((with_reducible refine Evolves.of_emit _ ?_ ?_ _) <;>
        (first | exact hP _ trivial | exact fun _ => rfl))
    | ((with_reducible refine Evolves.of_SetParameter _ _ _ ?_ _) <;> exact hP _ trivial)
    | ((with_reducible refine Evolves.of_BuilderQuery _ _ _ ?_ _) <;>
        exact fun _ => hP _ trivial)
    | with_reducible apply Evolves.bind
    | with_reducible apply Evolves.of_ite
    | intro _ _ _
    | intro _
    | split
    | (with_reducible dsimp only)

/-- `RegisterExternalTx` leaves the top-level state, the raw transactions and the
confirmation count as they are and broadcasts nothing on Chain A. -/
theorem RegisterExternalTx_inner (raw : String) (subTxID : SubTxID) (tx : AtomicSwapTransaction) :
    Evolves Inner False tx (AtomicSwapTransaction.RegisterExternalTx raw subTxID tx).tx := by
  have hP : ∀ e, Inner e → Inner e := fun _ h => h
  have hSilent := silent_inner
  have hSending := sending_inner
  unfold AtomicSwapTransaction.RegisterExternalTx OnFailed
  repeat' first
    | with_reducible exact Evolves.of_pure _ _
    | with_reducible exact Evolves.of_read _ _
    | with_reducible exact Evolves.of_raise _ _
    | with_reducible exact Evolves.of_GetParameter _ _ _ _
    | with_reducible exact Evolves.of_GetMandatoryParameter _ _ _ _
    | with_reducible exact Evolves.of_IsSender _
    | with_reducible exact Evolves.of_GetAmount _
    | with_reducible exact Evolves.of_assert _ _ _
    | with_reducible exact LoadSharedParameters_evolves hSilent _ _
    | with_reducible exact SharedUTXOProofPart2_evolves hSilent _ _ _
    | with_reducible exact SharedUTXOProofPart3_evolves hSilent _ _ _
    | with_reducible exact LockTxBuilder_CreateTransaction_evolves hSilent _ _
    | with_reducible exact InitTx_evolves hSilent _ _ _ _
    | with_reducible exact SharedTxBuilder_CreateTransaction_evolves hSilent _ _ _
    | with_reducible exact GetSharedParameters_evolves hSilent _
    | with_reducible exact SendInvitation_evolves hSending _ _
    | with_reducible exact SendExternalTxDetails_evolves hSending _ _
    | with_reducible exact SendLockTxInvitation_evolves hSending _ _ _
    | with_reducible exact SendBulletProofPart2_evolves hSending _ _ _
    | with_reducible exact SendBulletProofPart3_evolves hSending _ _ _
    | with_reducible exact SendSharedTxInvitation_evolves hSending _ _ _ _ _ _
    | with_reducible exact ConfirmSharedTxInvitation_evolves hSending _ _ _
    | with_reducible exact Evolves.of_assign_LockTx _ _
    | with_reducible exact Evolves.of_assign_RefundTx _ _
    | with_reducible exact Evolves.of_assign_RedeemTx _ _
    | ((with_reducible refine Evolves.of_emit _ ?_ ?_ _) <;>
        (first | exact hP _ trivial | exact fun _ => rfl))
    | ((with_reducible refine Evolves.of_SetParameter _ _ _ ?_ _) <;> exact hP _ trivial)
    | ((with_reducible refine Evolves.of_BuilderQuery _ _ _ ?_ _) <;>
        exact fun _ => hP _ trivial)
    | with_reducible apply Evolves.bind
    | with_reducible apply Evolves.of_ite
    | intro _ _ _
    | intro _
    | split
    | (with_reducible dsimp only)

/-- `GetSwapLockTxConfirmations` only requests `getTxOut`. -/
theorem GetSwapLockTxConfirmations_inner (tx : AtomicSwapTransaction) :
    Evolves Inner False tx (AtomicSwapTransaction.GetSwapLockTxConfirmations tx).tx := by
  have hP : ∀ e, Inner e → Inner e := fun _ h => h
  have hSilent := silent_inner
  have hSending := sending_inner
  unfold AtomicSwapTransaction.GetSwapLockTxConfirmations
  repeat' first
    | with_reducible exact Evolves.of_pure _ _
    | with_reducible exact Evolves.of_read _ _
    | with_reducible exact Evolves.of_raise _ _
    | with_reducible exact Evolves.of_GetParameter _ _ _ _
    | with_reducible exact Evolves.of_GetMandatoryParameter _ _ _ _
    | with_reducible exact Evolves.of_IsSender _
    | with_reducible exact Evolves.of_GetAmount _
    | with_reducible exact Evolves.of_assert _ _ _
    | with_reducible exact LoadSharedParameters_evolves hSilent _ _
    | with_reducible exact SharedUTXOProofPart2_evolves hSilent _ _ _
    | with_reducible exact SharedUTXOProofPart3_evolves hSilent _ _ _
    | with_reducible exact LockTxBuilder_CreateTransaction_evolves hSilent _ _
    | with_reducible exact InitTx_evolves hSilent _ _ _ _
    | with_reducible exact SharedTxBuilder_CreateTransaction_evolves hSilent _ _ _
    | with_reducible exact GetSharedParameters_evolves hSilent _
    | with_reducible exact SendInvitation_evolves hSending _ _
    | with_reducible exact SendExternalTxDetails_evolves hSending _ _
    | with_reducible exact SendLockTxInvitation_evolves hSending _ _ _
    | with_reducible exact SendBulletProofPart2_evolves hSending _ _ _
    | with_reducible exact SendBulletProofPart3_evolves hSending _ _ _
    | with_reducible exact SendSharedTxInvitation_evolves hSending _ _ _ _ _ _
    | with_reducible exact ConfirmSharedTxInvitation_evolves hSending _ _ _
    | with_reducible exact Evolves.of_assign_LockTx _ _
    | with_reducible exact Evolves.of_assign_RefundTx _ _
    | with_reducible exact Evolves.of_assign_RedeemTx _ _
    | ((with_reducible refine Evolves.of_emit _ ?_ ?_ _) <;>
        (first | exact hP _ trivial | exact fun _ => rfl))
    | ((with_reducible refine Evolves.of_SetParameter _ _ _ ?_ _) <;> exact hP _ trivial)
    | ((with_reducible refine Evolves.of_BuilderQuery _ _ _ ?_ _) <;>
        exact fun _ => hP _ trivial)
    | with_reducible apply Evolves.bind
    | with_reducible apply Evolves.of_ite
    | intro _ _ _
    | intro _
    | split
    | (with_reducible dsimp only)

/-- `IsSubTxCompleted` only requests a kernel proof. -/
theorem IsSubTxCompleted_inner (subTxID : SubTxID) (tx : AtomicSwapTransaction) :
    Evolves Inner False tx (AtomicSwapTransaction.IsSubTxCompleted subTxID tx).tx := by
  have hP : ∀ e, Inner e → Inner e := fun _ h => h
  have hSilent := silent_inner
  have hSending := sending_inner
  unfold AtomicSwapTransaction.IsSubTxCompleted
  repeat' first
    | with_reducible exact Evolves.of_pure _ _
    | with_reducible exact Evolves.of_read _ _
    | with_reducible exact Evolves.of_raise _ _
    | with_reducible exact Evolves.of_GetParameter _ _ _ _
    | with_reducible exact Evolves.of_GetMandatoryParameter _ _ _ _
    | with_reducible exact Evolves.of_IsSender _
    | with_reducible exact Evolves.of_GetAmount _
    | with_reducible exact Evolves.of_assert _ _ _
    | with_reducible exact LoadSharedParameters_evolves hSilent _ _
    | with_reducible exact SharedUTXOProofPart2_evolves hSilent _ _ _
    | with_reducible exact SharedUTXOProofPart3_evolves hSilent _ _ _
    | with_reducible exact LockTxBuilder_CreateTransaction_evolves hSilent _ _
    | with_reducible exact InitTx_evolves hSilent _ _ _ _
    | with_reducible exact SharedTxBuilder_CreateTransaction_evolves hSilent _ _ _
    | with_reducible exact GetSharedParameters_evolves hSilent _
    | with_reducible exact SendInvitation_evolves hSending _ _
    | with_reducible exact SendExternalTxDetails_evolves hSending _ _
    | with_reducible exact SendLockTxInvitation_evolves hSending _ _ _
    | with_reducible exact SendBulletProofPart2_evolves hSending _ _ _
    | with_reducible exact SendBulletProofPart3_evolves hSending _ _ _
    | with_reducible exact SendSharedTxInvitation_evolves hSending _ _ _ _ _ _
    | with_reducible exact ConfirmSharedTxInvitation_evolves hSending _ _ _
    | with_reducible exact Evolves.of_assign_LockTx _ _
    | with_reducible exact Evolves.of_assign_RefundTx _ _
    | with_reducible exact Evolves.of_assign_RedeemTx _ _
    | ((with_reducible refine Evolves.of_emit _ ?_ ?_ _) <;>
        (first | exact hP _ trivial | exact fun _ => rfl))
    | ((with_reducible refine Evolves.of_SetParameter _ _ _ ?_ _) <;> exact hP _ trivial)
    | ((with_reducible refine Evolves.of_BuilderQuery _ _ _ ?_ _) <;>
        exact fun _ => hP _ trivial)
    | with_reducible apply Evolves.bind
    | with_reducible apply Evolves.of_ite
    | intro _ _ _
    | intro _
    | split
    | (with_reducible dsimp only)

/-- `GetPreimageFromChain` only requests the kernel. -/
theorem GetPreimageFromChain_inner (tx : AtomicSwapTransaction) :
    Evolves Inner False tx (AtomicSwapTransaction.GetPreimageFromChain tx).tx := by
  have hP : ∀ e, Inner e → Inner e := fun _ h => h
  have hSilent := silent_inner
  have hSending := sending_inner
  unfold AtomicSwapTransaction.GetPreimageFromChain
  repeat' first
    | with_reducible exact Evolves.of_pure _ _
    | with_reducible exact Evolves.of_read _ _
    | with_reducible exact Evolves.of_raise _ _
    | with_reducible exact Evolves.of_GetParameter _ _ _ _
    | with_reducible exact Evolves.of_GetMandatoryParameter _ _ _ _
    | with_reducible exact Evolves.of_IsSender _
    | with_reducible exact Evolves.of_GetAmount _
    | with_reducible exact Evolves.of_assert _ _ _
    | with_reducible exact LoadSharedParameters_evolves hSilent _ _
    | with_reducible exact SharedUTXOProofPart2_evolves hSilent _ _ _
    | with_reducible exact SharedUTXOProofPart3_evolves hSilent _ _ _
    | with_reducible exact LockTxBuilder_CreateTransaction_evolves hSilent _ _
    | with_reducible exact InitTx_evolves hSilent _ _ _ _
    | with_reducible exact SharedTxBuilder_CreateTransaction_evolves hSilent _ _ _
    | with_reducible exact GetSharedParameters_evolves hSilent _
    | with_reducible exact SendInvitation_evolves hSending _ _
    | with_reducible exact SendExternalTxDetails_evolves hSending _ _
    | with_reducible exact SendLockTxInvitation_evolves hSending _ _ _
    | with_reducible exact SendBulletProofPart2_evolves hSending _ _ _
    | with_reducible exact SendBulletProofPart3_evolves hSending _ _ _
    | with_reducible exact SendSharedTxInvitation_evolves hSending _ _ _ _ _ _
    | with_reducible exact ConfirmSharedTxInvitation_evolves hSending _ _ _
    | with_reducible exact Evolves.of_assign_LockTx _ _
    | with_reducible exact Evolves.of_assign_RefundTx _ _
    | with_reducible exact Evolves.of_assign_RedeemTx _ _
    | ((with_reducible refine Evolves.of_emit _ ?_ ?_ _) <;>
        (first | exact hP _ trivial | exact fun _ => rfl))
    | ((with_reducible refine Evolves.of_SetParameter _ _ _ ?_ _) <;> exact hP _ trivial)
    | ((with_reducible refine Evolves.of_BuilderQuery _ _ _ ?_ _) <;>
        exact fun _ => hP _ trivial)
    | with_reducible apply Evolves.bind
    | with_reducible apply Evolves.of_ite
    | intro _ _ _
    | intro _
    | split
    | (with_reducible dsimp only)

/-- `IsBeamLockTimeExpired` only reads. -/
theorem IsBeamLockTimeExpired_inner (env : Env) (tx : AtomicSwapTransaction) :
    Evolves Inner False tx (AtomicSwapTransaction.IsBeamLockTimeExpired env tx).tx := by
  have hP : ∀ e, Inner e → Inner e := fun _ h => h
  have hSilent := silent_inner
  have hSending := sending_inner
  unfold AtomicSwapTransaction.IsBeamLockTimeExpired
  repeat' first
    | with_reducible exact Evolves.of_pure _ _
    | with_reducible exact Evolves.of_read _ _
    | with_reducible exact Evolves.of_raise _ _
    | with_reducible exact Evolves.of_GetParameter _ _ _ _
    | with_reducible exact Evolves.of_GetMandatoryParameter _ _ _ _
    | with_reducible exact Evolves.of_IsSender _
    | with_reducible exact Evolves.of_GetAmount _
    | with_reducible exact Evolves.of_assert _ _ _
    | with_reducible exact LoadSharedParameters_evolves hSilent _ _
    | with_reducible exact SharedUTXOProofPart2_evolves hSilent _ _ _
    | with_reducible exact SharedUTXOProofPart3_evolves hSilent _ _ _
    | with_reducible exact LockTxBuilder_CreateTransaction_evolves hSilent _ _
    | with_reducible exact InitTx_evolves hSilent _ _ _ _
    | with_reducible exact SharedTxBuilder_CreateTransaction_evolves hSilent _ _ _
    | with_reducible exact GetSharedParameters_evolves hSilent _
    | with_reducible exact SendInvitation_evolves hSending _ _
    | with_reducible exact SendExternalTxDetails_evolves hSending _ _
    | with_reducible exact SendLockTxInvitation_evolves hSending _ _ _
    | with_reducible exact SendBulletProofPart2_evolves hSending _ _ _
    | with_reducible exact SendBulletProofPart3_evolves hSending _ _ _
    | with_reducible exact SendSharedTxInvitation_evolves hSending _ _ _ _ _ _
    | with_reducible exact ConfirmSharedTxInvitation_evolves hSending _ _ _
    | with_reducible exact Evolves.of_assign_LockTx _ _
    | with_reducible exact Evolves.of_assign_RefundTx _ _
    | with_reducible exact Evolves.of_assign_RedeemTx _ _
    | ((with_reducible refine Evolves.of_emit _ ?_ ?_ _) <;>
        (first | exact hP _ trivial | exact fun _ => rfl))
    | ((with_reducible refine Evolves.of_SetParameter _ _ _ ?_ _) <;> exact hP _ trivial)
    | ((with_reducible refine Evolves.of_BuilderQuery _ _ _ ?_ _) <;>
        exact fun _ => hP _ trivial)
    | with_reducible apply Evolves.bind
    | with_reducible apply Evolves.of_ite
    | intro _ _ _
    | intro _
    | split
    | (with_reducible dsimp only)

/-! ## Consequences of `Evolves` -/

/-- Writes that are not to the top-level state leave the top-level state. -/
theorem replay_state_of_inner (l : List Effect) (s : ParamStore) (h : ∀ e ∈ l, Inner e) :
    replay l s .kDefaultSubTxID .State = s .kDefaultSubTxID .State := by
  induction l generalizing s with
  | nil => rfl
  | cons e l ih =>
    have he : Inner e := h e (by simp)
    have hl : ∀ x ∈ l, Inner x := fun x hx => h x (by simp [hx])
    show replay l (replay [e] s) .kDefaultSubTxID .State = _
    rw [ih _ hl]
    cases e with
    | SetParameter subTxID id v =>
      show s.put subTxID id v .kDefaultSubTxID .State = _
      unfold ParamStore.put
      split
      · rename_i h'
        obtain ⟨rfl, rfl⟩ := h'
        exact absurd he (by simp [Inner])
      · rfl
    | _ => rfl

/-- A parameter that is stored stays stored. -/
theorem replay_isSome (l : List Effect) (s : ParamStore) (subTxID : SubTxID) (id : TxParameterID)
    (h : (s subTxID id).isSome) : (replay l s subTxID id).isSome := by
  induction l generalizing s with
  | nil => exact h
  | cons e l ih =>
    show (replay l (replay [e] s) subTxID id).isSome
    apply ih
    cases e with
    | SetParameter sub' id' v =>
      show (s.put sub' id' v subTxID id).isSome
      unfold ParamStore.put
      split
      · rfl
      · exact h
    | _ => exact h

/-- A function that only adds `Inner` entries leaves the top-level state. -/
theorem Evolves.state_eq {strict : Prop} {tx tx' : AtomicSwapTransaction}
    (h : Evolves Inner strict tx tx') : tx'.state = tx.state := by
  obtain ⟨l, _, r, p⟩ := h.log
  unfold AtomicSwapTransaction.state
  rw [r, replay_state_of_inner l _ p]

/-- The log entries added are those of the relation. -/
theorem Evolves.newLog {P : Effect → Prop} {strict : Prop} {α : Type}
    {tx : AtomicSwapTransaction} {r : Res α} (h : Evolves P strict tx r.tx) :
    ∀ e ∈ r.newLog tx, P e := by
  obtain ⟨l, e, _, p⟩ := h.log
  unfold Res.newLog
  rw [e, List.drop_left]
  exact p

/-! ## One tick, state by state -/

theorem GetState_apply (tx : AtomicSwapTransaction) :
    AtomicSwapTransaction.GetState .kDefaultSubTxID tx = .ok tx.state tx := rfl

theorem cached_of_cached (tx : AtomicSwapTransaction) (b : Bool) (h : tx.m_IsSender = some b) :
    tx.cached b = tx := by
  cases tx
  simp_all [AtomicSwapTransaction.cached]

/-- `IsSender()` returns the role and leaves it cached. -/
theorem IsSender_of_role (tx : AtomicSwapTransaction) (b : Bool) (h : tx.role = some b) :
    AtomicSwapTransaction.IsSender tx = .ok b (tx.cached b) := by
  unfold AtomicSwapTransaction.role at h
  unfold AtomicSwapTransaction.IsSender
  split at h
  · rename_i b' hb'
    cases h
    simp [hb', cached_of_cached tx b hb']
  · rename_i hb'
    simp [hb', h, AtomicSwapTransaction.cached]

@[simp] theorem cached_state (tx : AtomicSwapTransaction) (b : Bool) :
    (tx.cached b).state = tx.state := rfl

@[simp] theorem cached_params (tx : AtomicSwapTransaction) (b : Bool) :
    (tx.cached b).params = tx.params := rfl

@[simp] theorem cached_log (tx : AtomicSwapTransaction) (b : Bool) :
    (tx.cached b).log = tx.log := rfl

/-- The first two steps of a tick: the state is loaded and the role resolved. -/
theorem UpdateImpl_prelude (env : Env) (tx : AtomicSwapTransaction) (b : Bool)
    (hb : tx.role = some b) (k : State → Bool → M Unit)
    (h : AtomicSwapTransaction.UpdateImpl env = (do
      let state ← AtomicSwapTransaction.GetState .kDefaultSubTxID
      let isBeamOwner ← AtomicSwapTransaction.IsSender
      k state isBeamOwner)) :
    AtomicSwapTransaction.UpdateImpl env tx = k tx.state b (tx.cached b) := by
  rw [h]
  simp [GetState_apply, IsSender_of_role tx b hb]

theorem GetAmount_of_amount (tx : AtomicSwapTransaction) (a : Nat) (h : tx.amount = some a) :
    AtomicSwapTransaction.GetAmount tx = .ok a { tx with m_Amount := some a } := by
  unfold AtomicSwapTransaction.amount at h
  unfold AtomicSwapTransaction.GetAmount
  split at h
  · rename_i a' ha'
    cases h
    cases tx
    simp_all
  · rename_i ha'
    simp [ha', h]

open AtomicSwapTransaction in
/-- A tick in state `BuildingRefundTX`. -/
theorem tick_BuildingRefundTX (env : Env) (tx : AtomicSwapTransaction) (b : Bool)
    (hb : tx.role = some b) (hs : tx.state = .BuildingRefundTX) (hr : b = false) :
    (UpdateImpl env tx).tx.state =
      if (BuildWithdrawTx .REFUND_TX (tx.cached b)).value = some .Constructed
      then .SendingBeamLockTX else .BuildingRefundTX := by
  subst hr
  have hf := (BuildWithdrawTx_REFUND_inner (tx.cached false)).state_eq
  simp only [UpdateImpl, UpdateImpl.BuildingRefundTX, M.bind_apply, GetState_apply, IsSender_of_role tx _ hb, hs]
  cases hr : BuildWithdrawTx .REFUND_TX (tx.cached false) with
  | ok r tx2 =>
    rw [hr] at hf
    cases r <;>
      simp_all [Res.value, SetNextState, SetState, UpdateAsync, AtomicSwapTransaction.state,
        Value.asState]
  | fail e tx2 =>
    rw [hr] at hf
    simp_all [Res.value]

open AtomicSwapTransaction in
/-- A tick in state `BuildingRedeemTX`. -/
theorem tick_BuildingRedeemTX (env : Env) (tx : AtomicSwapTransaction) (b : Bool)
    (hb : tx.role = some b) (hs : tx.state = .BuildingRedeemTX) (hr : b = true) :
    (UpdateImpl env tx).tx.state =
      if (BuildWithdrawTx .REDEEM_TX (tx.cached b)).value = some .Constructed
      then .SendingRedeemTX else .BuildingRedeemTX := by
  subst hr
  have hf := (BuildWithdrawTx_REDEEM_inner (tx.cached true)).state_eq
  simp only [UpdateImpl, UpdateImpl.BuildingRedeemTX, M.bind_apply, GetState_apply, IsSender_of_role tx _ hb, hs]
  cases hr : BuildWithdrawTx .REDEEM_TX (tx.cached true) with
  | ok r tx2 =>
    rw [hr] at hf
    cases r <;>
      simp_all [Res.value, SetNextState, SetState, UpdateAsync, AtomicSwapTransaction.state,
        Value.asState]
  | fail e tx2 =>
    rw [hr] at hf
    simp_all [Res.value]

open AtomicSwapTransaction in
/-- A tick of the Beam owner in state `HandlingContractTX`. -/
theorem tick_HandlingContractTX_owner (env : Env) (tx : AtomicSwapTransaction)
    (hb : tx.role = some true) (hs : tx.state = .HandlingContractTX) :
    ((UpdateImpl env tx).tx.state = .SendingBeamLockTX ↔
        ((tx.params .LOCK_TX .AtomicSwapExternalTxID).bind Value.asStr).isSome ∧
          kBTCMinTxConfirmations ≤ tx.m_SwapLockTxConfirmations)
      ∧ (∀ txID outputIndex,
          (tx.params .LOCK_TX .AtomicSwapExternalTxID).bind Value.asStr = some txID →
          (tx.params .LOCK_TX .AtomicSwapExternalTxOutputIndex).bind Value.asInt
            = some outputIndex →
          tx.m_SwapLockTxConfirmations < kBTCMinTxConfirmations →
          (UpdateImpl env tx).tx.state = .HandlingContractTX ∧
            (UpdateImpl env tx).newLog tx = [.getTxOut txID outputIndex])
      ∧ ((tx.params .LOCK_TX .AtomicSwapExternalTxID).bind Value.asStr = none →
          UpdateImpl env tx = .ok () (tx.cached true)) := by
  have hs' := hs
  unfold AtomicSwapTransaction.state at hs'
  simp only [UpdateImpl, UpdateImpl.HandlingContractTX, M.bind_apply, GetState_apply, IsSender_of_role tx _ hb, hs]
  cases ht : (tx.params .LOCK_TX .AtomicSwapExternalTxID).bind Value.asStr with
  | none => simp [GetParameter, ht, AtomicSwapTransaction.state, hs']
  | some txID =>
    by_cases hc : tx.m_SwapLockTxConfirmations < kBTCMinTxConfirmations
    · have hc' : ¬ kBTCMinTxConfirmations ≤ tx.m_SwapLockTxConfirmations := by omega
      refine ⟨?_, ?_, ?_⟩
      · cases hi : (tx.params .LOCK_TX .AtomicSwapExternalTxOutputIndex).bind Value.asInt <;>
          simp [GetParameter, ht, hc, hc', GetSwapLockTxConfirmations, GetMandatoryParameter, hi,
            AtomicSwapTransaction.cached, AtomicSwapTransaction.state, hs']
      · intro t i h1 h2 _
        cases h1
        simp [GetParameter, ht, hc, GetSwapLockTxConfirmations, GetMandatoryParameter, h2,
          AtomicSwapTransaction.cached, AtomicSwapTransaction.state, hs', Res.newLog]
      · intro h
        cases h
    · have hc' : kBTCMinTxConfirmations ≤ tx.m_SwapLockTxConfirmations := by omega
      simp [GetParameter, ht, hc, hc', SetNextState, SetState, UpdateAsync,
        AtomicSwapTransaction.cached, AtomicSwapTransaction.state, Value.asState]

open AtomicSwapTransaction in
theorem IsBeamLockTimeExpired_returns (env : Env) (tx : AtomicSwapTransaction) :
    ∃ e, IsBeamLockTimeExpired env tx = .ok e tx := ⟨_, rfl⟩

open AtomicSwapTransaction in
/-- A settled broadcast: `SendSubTx` returns true and does nothing. -/
theorem SendSubTx_of_registered (tx : AtomicSwapTransaction) (t : Transaction) (subTxID : SubTxID)
    (h : (tx.params subTxID .TransactionRegistered).bind Value.asBool = some true) :
    SendSubTx t subTxID tx = .ok true tx := by
  simp [SendSubTx, GetParameter, h]

open AtomicSwapTransaction in
/-- A tick of the Beam owner in `SendingBeamRedeemTX` with no redeem broadcast
pending or failed. -/
theorem tick_SendingBeamRedeemTX_owner (env : Env) (tx : AtomicSwapTransaction)
    (hb : tx.role = some true) (hs : tx.state = .SendingBeamRedeemTX)
    (hg : tx.broadcastSettled tx.m_RedeemTx .BEAM_REDEEM_TX) :
    (UpdateImpl env tx).tx.state =
      if (IsBeamLockTimeExpired env (tx.cached true)).value = some true then .SendingBeamRefundTX
      else if (GetPreimageFromChain (tx.cached true)).value = some true then .BuildingRedeemTX
      else .SendingBeamRedeemTX := by
  have hf := (GetPreimageFromChain_inner (tx.cached true)).state_eq
  obtain ⟨e, he⟩ := IsBeamLockTimeExpired_returns env (tx.cached true)
  have hm : (tx.cached true).m_RedeemTx = tx.m_RedeemTx := rfl
  have hreg : ∀ t, tx.m_RedeemTx = some t →
      SendSubTx t .BEAM_REDEEM_TX (tx.cached true) = .ok true (tx.cached true) := by
    intro t ht
    rcases hg with h | h
    · rw [h] at ht
      cases ht
    · exact SendSubTx_of_registered (tx.cached true) t _ h
  have hnext : ∀ (s : State) (t : AtomicSwapTransaction),
      ∃ t', SetNextState s t = .ok () t' ∧ t'.state = s := by
    intro s t
    exact ⟨_, rfl, by simp [AtomicSwapTransaction.state, Value.asState]⟩
  obtain ⟨t1, ht1, hs1⟩ := hnext .SendingBeamRefundTX (tx.cached true)
  have hU : UpdateImpl env tx = UpdateImpl.SendingBeamRedeemTX env true (tx.cached true) := by
    simp only [UpdateImpl, M.bind_apply, GetState_apply, IsSender_of_role tx _ hb, hs]
  have hpre : UpdateImpl env tx =
      (if e = true then SetNextState .SendingBeamRefundTX (tx.cached true)
       else
         match GetPreimageFromChain (tx.cached true) with
         | .ok true tx2 => SetNextState .BuildingRedeemTX tx2
         | .ok false tx2 => .ok () tx2
         | .fail x tx2 => .fail x tx2) := by
    cases hm' : tx.m_RedeemTx with
    | none =>
      cases e <;> cases hr : GetPreimageFromChain (tx.cached true) with
      | ok r tx2 =>
        cases r <;>
          simp [hU, UpdateImpl.SendingBeamRedeemTX, hm, hm', he, hr, ht1]
      | fail x tx2 =>
        simp [hU, UpdateImpl.SendingBeamRedeemTX, hm, hm', he, hr, ht1]
    | some t =>
      have hreg' := hreg t hm'
      cases e <;> cases hr : GetPreimageFromChain (tx.cached true) with
      | ok r tx2 =>
        cases r <;>
          simp [hU, UpdateImpl.SendingBeamRedeemTX, hm, hm', he, hr, ht1,
            hreg']
      | fail x tx2 =>
        simp [hU, UpdateImpl.SendingBeamRedeemTX, hm, hm', he, hr, ht1,
          hreg']
  rw [hpre, he]
  cases e
  · simp only [Bool.false_eq_true, if_false]
    cases hr : GetPreimageFromChain (tx.cached true) with
    | ok r tx2 =>
      rw [hr] at hf
      cases r
      · simpa [Res.value, hs] using hf
      · obtain ⟨t2, ht2, hs2⟩ := hnext .BuildingRedeemTX tx2
        simp [Res.value, ht2, hs2]
    | fail x tx2 =>
      rw [hr] at hf
      simpa [Res.value, hs] using hf
  · simp [Res.value, ht1, hs1]

open AtomicSwapTransaction in
/-- A tick of the other party in `SendingBeamRedeemTX` with no redeem broadcast
pending or failed. -/
theorem tick_SendingBeamRedeemTX_other (env : Env) (tx : AtomicSwapTransaction)
    (hb : tx.role = some false) (hs : tx.state = .SendingBeamRedeemTX)
    (hg : tx.broadcastSettled tx.m_RedeemTx .BEAM_REDEEM_TX) :
    (UpdateImpl env tx).tx.state =
      if (IsSubTxCompleted .BEAM_REDEEM_TX (tx.cached false)).value = some true
      then .CompleteSwap else .SendingBeamRedeemTX := by
  have hf := (IsSubTxCompleted_inner .BEAM_REDEEM_TX (tx.cached false)).state_eq
  have hm : (tx.cached false).m_RedeemTx = tx.m_RedeemTx := rfl
  have hU : UpdateImpl env tx = UpdateImpl.SendingBeamRedeemTX env false (tx.cached false) := by
    simp only [UpdateImpl, M.bind_apply, GetState_apply, IsSender_of_role tx _ hb, hs]
  have hnext : ∀ (s : State) (t : AtomicSwapTransaction),
      ∃ t', SetNextState s t = .ok () t' ∧ t'.state = s := by
    intro s t
    exact ⟨_, rfl, by simp [AtomicSwapTransaction.state, Value.asState]⟩
  have hpre : UpdateImpl env tx =
      (match IsSubTxCompleted .BEAM_REDEEM_TX (tx.cached false) with
       | .ok true tx2 => SetNextState .CompleteSwap tx2
       | .ok false tx2 => .ok () tx2
       | .fail x tx2 => .fail x tx2) := by
    cases hm' : tx.m_RedeemTx with
    | none =>
      cases hr : IsSubTxCompleted .BEAM_REDEEM_TX (tx.cached false) with
      | ok r tx2 => cases r <;> simp [hU, UpdateImpl.SendingBeamRedeemTX, hm, hm', hr]
      | fail x tx2 => simp [hU, UpdateImpl.SendingBeamRedeemTX, hm, hm', hr]
    | some t =>
      have hreg : SendSubTx t .BEAM_REDEEM_TX (tx.cached false) = .ok true (tx.cached false) := by
        rcases hg with h | h
        · rw [h] at hm'
          cases hm'
        · exact SendSubTx_of_registered (tx.cached false) t _ h
      cases hr : IsSubTxCompleted .BEAM_REDEEM_TX (tx.cached false) with
      | ok r tx2 => cases r <;> simp [hU, UpdateImpl.SendingBeamRedeemTX, hm, hm', hr, hreg]
      | fail x tx2 => simp [hU, UpdateImpl.SendingBeamRedeemTX, hm, hm', hr, hreg]
  rw [hpre]
  cases hr : IsSubTxCompleted .BEAM_REDEEM_TX (tx.cached false) with
  | ok r tx2 =>
    rw [hr] at hf
    cases r
    · simpa [Res.value, hs] using hf
    · obtain ⟨t2, ht2, hs2⟩ := hnext .CompleteSwap tx2
      simp [Res.value, ht2, hs2]
  | fail x tx2 =>
    rw [hr] at hf
    simpa [Res.value, hs] using hf

open AtomicSwapTransaction in
/-- A tick of the Beam owner in `SendingBeamRefundTX` with no refund broadcast
pending or failed. -/
theorem tick_SendingBeamRefundTX (env : Env) (tx : AtomicSwapTransaction)
    (hb : tx.role = some true) (hs : tx.state = .SendingBeamRefundTX)
    (hg : tx.broadcastSettled tx.m_RefundTx .BEAM_REFUND_TX) :
    (UpdateImpl env tx).tx.state =
      if (IsSubTxCompleted .BEAM_REFUND_TX (tx.cached true)).value = some true
      then .CompleteSwap else .SendingBeamRefundTX := by
  have hf := (IsSubTxCompleted_inner .BEAM_REFUND_TX (tx.cached true)).state_eq
  have hm : (tx.cached true).m_RefundTx = tx.m_RefundTx := rfl
  have hU : UpdateImpl env tx = UpdateImpl.SendingBeamRefundTX true (tx.cached true) := by
    simp only [UpdateImpl, M.bind_apply, GetState_apply, IsSender_of_role tx _ hb, hs]
  have hnext : ∀ (s : State) (t : AtomicSwapTransaction),
      ∃ t', SetNextState s t = .ok () t' ∧ t'.state = s := by
    intro s t
    exact ⟨_, rfl, by simp [AtomicSwapTransaction.state, Value.asState]⟩
  have hpre : UpdateImpl env tx =
      (match IsSubTxCompleted .BEAM_REFUND_TX (tx.cached true) with
       | .ok true tx2 => SetNextState .CompleteSwap tx2
       | .ok false tx2 => .ok () tx2
       | .fail x tx2 => .fail x tx2) := by
    cases hm' : tx.m_RefundTx with
    | none =>
      cases hr : IsSubTxCompleted .BEAM_REFUND_TX (tx.cached true) with
      | ok r tx2 => cases r <;> simp [hU, UpdateImpl.SendingBeamRefundTX, hm, hm', hr]
      | fail x tx2 => simp [hU, UpdateImpl.SendingBeamRefundTX, hm, hm', hr]
    | some t =>
      have hreg : SendSubTx t .BEAM_REFUND_TX (tx.cached true) = .ok true (tx.cached true) := by
        rcases hg with h | h
        · rw [h] at hm'
          cases hm'
        · exact SendSubTx_of_registered (tx.cached true) t _ h
      cases hr : IsSubTxCompleted .BEAM_REFUND_TX (tx.cached true) with
      | ok r tx2 => cases r <;> simp [hU, UpdateImpl.SendingBeamRefundTX, hm, hm', hr, hreg]
      | fail x tx2 => simp [hU, UpdateImpl.SendingBeamRefundTX, hm, hm', hr, hreg]
  rw [hpre]
  cases hr : IsSubTxCompleted .BEAM_REFUND_TX (tx.cached true) with
  | ok r tx2 =>
    rw [hr] at hf
    cases r
    · simpa [Res.value, hs] using hf
    · obtain ⟨t2, ht2, hs2⟩ := hnext .CompleteSwap tx2
      simp [Res.value, ht2, hs2]
  | fail x tx2 =>
    rw [hr] at hf
    simpa [Res.value, hs] using hf

open AtomicSwapTransaction in
/-- C6 as stated fails for its last sentence: the Beam owner in
`SendingBeamRefundTX`, holding a built refund transaction whose broadcast is not
yet registered, with a non-zero `KernelProofHeight` stored. The kernel counts as
proven (`IsSubTxCompleted(BEAM_REFUND_TX)` returns true on this object), yet the
tick only calls `register_tx` and the state stays `SendingBeamRefundTX`. -/
theorem sending_refund_pending_broadcast_counterexample :
    (IsSubTxCompleted .BEAM_REFUND_TX (sampleRefundPending.cached true)).value = some true
      ∧ (UpdateImpl (sampleEnv true none) sampleRefundPending).tx.state = .SendingBeamRefundTX
      ∧ (UpdateImpl (sampleEnv true none) sampleRefundPending).newLog sampleRefundPending
          = [.register_tx .BEAM_REFUND_TX { kernelID := zeroBig, body := 0 }]
      ∧ ¬ ((UpdateImpl (sampleEnv true none) sampleRefundPending).tx.state = .CompleteSwap ↔
          (IsSubTxCompleted .BEAM_REFUND_TX (sampleRefundPending.cached true)).value
            = some true) := by
  refine ⟨by decide, by decide, by decide, ?_⟩
  intro h
  have h1 := h.mpr (by decide)
  exact absurd h1 (by decide)

open AtomicSwapTransaction in
/-- C6, amended. One tick in a sending state with no broadcast of the state's
own transaction pending or failed. In `SendingBeamRedeemTX`: for the Beam owner
the next state is `SendingBeamRefundTX` whenever the Beam locktime has expired
(checked before the preimage), otherwise `BuildingRedeemTX` iff
`GetPreimageFromChain` succeeds, otherwise unchanged; for the other party it is
`CompleteSwap` iff the `BEAM_REDEEM_TX` kernel is proven, otherwise unchanged.
In `SendingBeamRefundTX`, for the Beam owner and with no refund broadcast
pending or failed, the next state is `CompleteSwap` iff the `BEAM_REFUND_TX`
kernel is proven, otherwise unchanged. -/
theorem sending_states_transitions (env : Env) (tx : AtomicSwapTransaction) (b : Bool)
    (hb : tx.role = some b) :
    (tx.state = .SendingBeamRedeemTX → tx.broadcastSettled tx.m_RedeemTx .BEAM_REDEEM_TX →
      (b = true →
        (UpdateImpl env tx).tx.state =
          if (IsBeamLockTimeExpired env (tx.cached true)).value = some true
          then .SendingBeamRefundTX
          else if (GetPreimageFromChain (tx.cached true)).value = some true
          then .BuildingRedeemTX
          else .SendingBeamRedeemTX)
      ∧ (b = false →
        (UpdateImpl env tx).tx.state =
          if (IsSubTxCompleted .BEAM_REDEEM_TX (tx.cached false)).value = some true
          then .CompleteSwap else .SendingBeamRedeemTX))
    ∧ (tx.state = .SendingBeamRefundTX → b = true →
      tx.broadcastSettled tx.m_RefundTx .BEAM_REFUND_TX →
        (UpdateImpl env tx).tx.state =
          if (IsSubTxCompleted .BEAM_REFUND_TX (tx.cached true)).value = some true
          then .CompleteSwap else .SendingBeamRefundTX) := by
  refine ⟨fun hs hg => ⟨fun h => ?_, fun h => ?_⟩, fun hs h hg => ?_⟩
  · subst h
    exact tick_SendingBeamRedeemTX_owner env tx hb hs hg
  · subst h
    exact tick_SendingBeamRedeemTX_other env tx hb hs hg
  · subst h
    exact tick_SendingBeamRefundTX env tx hb hs hg

/-- The amended sixth theorem on the sample object once the refund broadcast is
registered: the tick completes the swap. -/
theorem sending_states_transitions_witness :
    (AtomicSwapTransaction.UpdateImpl (sampleEnv true none)
      { sampleRefundPending with
        params := sampleRefundPending.params.put .BEAM_REFUND_TX .TransactionRegistered
          (.bool true) }).tx.state = .CompleteSwap :=
  ((sending_states_transitions (sampleEnv true none)
      { sampleRefundPending with
        params := sampleRefundPending.params.put .BEAM_REFUND_TX .TransactionRegistered
          (.bool true) } true rfl).2 rfl rfl (Or.inr rfl)).trans (if_pos (by decide))

/-! ## Sub-transaction states never decrease (C9) -/

/-- Local builder work writes no sub-transaction state. -/
theorem silent_monoWrite (subTxID : SubTxID) (s : SubTxState) :
    ∀ e, Silent e → MonoWrite subTxID s e := by
  intro e h
  unfold MonoWrite
  split
  · simp [Silent] at h
  · trivial

/-- Sending a peer message writes no sub-transaction state. -/
theorem sending_monoWrite (subTxID : SubTxID) (s : SubTxState) :
    ∀ e, Sending e → MonoWrite subTxID s e := by
  intro e h
  unfold MonoWrite
  split
  · simp [Sending] at h
  · trivial

/-- In `BuildBeamLockTx`, every write of the sub-transaction state stores a state at or
above the one loaded at the start of the call. -/
theorem BuildBeamLockTx_writes (env : Env) (tx : AtomicSwapTransaction) :
    Evolves (MonoWrite .BEAM_LOCK_TX (tx.subTxState .BEAM_LOCK_TX)) False tx
      (AtomicSwapTransaction.BuildBeamLockTx env tx).tx := by
  have hSilent : ∀ s e, Silent e → MonoWrite .BEAM_LOCK_TX s e := fun s => silent_monoWrite _ s
  have hSending : ∀ s e, Sending e → MonoWrite .BEAM_LOCK_TX s e := fun s => sending_monoWrite _ s
  unfold AtomicSwapTransaction.BuildBeamLockTx Builder UpdateTxDescription SetState OnFailed
  apply Evolves.bind
  · exact Evolves.of_GetParameter _ _ _ _
  · intro a tx' hx
    obtain ⟨rfl, rfl⟩ : a = (tx.params .BEAM_LOCK_TX .State).bind Value.asSubTxState ∧ tx = tx' := by
      simpa [GetParameter, eq_comm] using hx
    clear hx
    have hs : tx.subTxState .BEAM_LOCK_TX = ((tx.params .BEAM_LOCK_TX .State).bind Value.asSubTxState).getD .Initial := rfl
    rw [hs]
    generalize ((tx.params .BEAM_LOCK_TX .State).bind Value.asSubTxState).getD .Initial = s
    clear hs
    have hP : ∀ e, MonoWrite .BEAM_LOCK_TX s e → MonoWrite .BEAM_LOCK_TX s e := fun _ h => h
    replace hSilent := hSilent s
    replace hSending := hSending s
    revert tx
    intro tx
    repeat' first
      | with_reducible exact Evolves.of_pure _ _
      | with_reducible exact Evolves.of_read _ _
      | with_reducible exact Evolves.of_raise _ _
      | with_reducible exact Evolves.of_GetParameter _ _ _ _
      | with_reducible exact Evolves.of_GetMandatoryParameter _ _ _ _
      | with_reducible exact Evolves.of_IsSender _
      | with_reducible exact Evolves.of_GetAmount _
      | with_reducible exact Evolves.of_assert _ _ _
      | with_reducible exact LoadSharedParameters_evolves hSilent _ _
      | with_reducible exact SharedUTXOProofPart2_evolves hSilent _ _ _
      | with_reducible exact SharedUTXOProofPart3_evolves hSilent _ _ _
      | with_reducible exact LockTxBuilder_CreateTransaction_evolves hSilent _ _
      | with_reducible exact InitTx_evolves hSilent _ _ _ _
      | with_reducible exact SharedTxBuilder_CreateTransaction_evolves hSilent _ _ _
      | with_reducible exact GetSharedParameters_evolves hSilent _
      | with_reducible exact SendLockTxInvitation_evolves hSending _ _ _
      | with_reducible exact SendBulletProofPart2_evolves hSending _ _ _
      | with_reducible exact SendBulletProofPart3_evolves hSending _ _ _
      | with_reducible exact SendSharedTxInvitation_evolves hSending _ _ _ _ _ _
      | with_reducible exact ConfirmSharedTxInvitation_evolves hSending _ _ _
      | with_reducible exact Evolves.of_assign_LockTx _ _
      | with_reducible exact Evolves.of_assign_RefundTx _ _
      | with_reducible exact Evolves.of_assign_RedeemTx _ _
      | ((with_reducible refine Evolves.of_emit _ ?_ ?_ _) <;>
          (first | exact hP _ trivial | exact fun _ => rfl))
      | ((with_reducible refine Evolves.of_SetParameter _ _ _ ?_ _) <;>
          (first
            | exact hP _ trivial
            | (intro _; exact ⟨_, rfl, by cases s <;> simp_all [SubTxState.rank]⟩)))
      | ((with_reducible refine Evolves.of_BuilderQuery _ _ _ ?_ _) <;>
          exact fun _ => hP _ trivial)
      | with_reducible apply Evolves.bind
      | with_reducible apply Evolves.of_ite
      | intro _ _ _
      | intro _
      | split
      | (with_reducible dsimp only)

/-- In `BuildBeamRefundTx`, every write of the sub-transaction state stores a state at or
above the one loaded at the start of the call. -/
theorem BuildBeamRefundTx_writes (env : Env) (tx : AtomicSwapTransaction) :
    Evolves (MonoWrite .BEAM_REFUND_TX (tx.subTxState .BEAM_REFUND_TX)) False tx
      (AtomicSwapTransaction.BuildBeamRefundTx env tx).tx := by
  have hSilent : ∀ s e, Silent e → MonoWrite .BEAM_REFUND_TX s e := fun s => silent_monoWrite _ s
  have hSending : ∀ s e, Sending e → MonoWrite .BEAM_REFUND_TX s e := fun s => sending_monoWrite _ s
  unfold AtomicSwapTransaction.BuildBeamRefundTx Builder SetState
  apply Evolves.bind
  · exact Evolves.refl _
  · intro a tx' hx
    obtain ⟨rfl, rfl⟩ : a = tx.subTxState .BEAM_REFUND_TX ∧ tx = tx' := by
      simpa [AtomicSwapTransaction.GetSubTxState, GetParameter, AtomicSwapTransaction.subTxState, eq_comm] using hx
    clear hx
    have hs : tx.subTxState .BEAM_REFUND_TX = tx.subTxState .BEAM_REFUND_TX := rfl
    rw [hs]
    generalize tx.subTxState .BEAM_REFUND_TX = s
    clear hs
    have hP : ∀ e, MonoWrite .BEAM_REFUND_TX s e → MonoWrite .BEAM_REFUND_TX s e := fun _ h => h
    replace hSilent := hSilent s
    replace hSending := hSending s
    revert tx
    intro tx
    repeat' first
      | with_reducible exact Evolves.of_pure _ _
      | with_reducible exact Evolves.of_read _ _
      | with_reducible exact Evolves.of_raise _ _
      | with_reducible exact Evolves.of_GetParameter _ _ _ _
      | with_reducible exact Evolves.of_GetMandatoryParameter _ _ _ _
      | with_reducible exact Evolves.of_IsSender _
      | with_reducible exact Evolves.of_GetAmount _
      | with_reducible exact Evolves.of_assert _ _ _
      | with_reducible exact LoadSharedParameters_evolves hSilent _ _
      | with_reducible exact SharedUTXOProofPart2_evolves hSilent _ _ _
      | with_reducible exact SharedUTXOProofPart3_evolves hSilent _ _ _
      | with_reducible exact LockTxBuilder_CreateTransaction_evolves hSilent _ _
      | with_reducible exact InitTx_evolves hSilent _ _ _ _
      | with_reducible exact SharedTxBuilder_CreateTransaction_evolves hSilent _ _ _
      | with_reducible exact GetSharedParameters_evolves hSilent _
      | with_reducible exact SendLockTxInvitation_evolves hSending _ _ _
      | with_reducible exact SendBulletProofPart2_evolves hSending _ _ _
      | with_reducible exact SendBulletProofPart3_evolves hSending _ _ _
      | with_reducible exact SendSharedTxInvitation_evolves hSending _ _ _ _ _ _
      | with_reducible exact ConfirmSharedTxInvitation_evolves hSending _ _ _
      | with_reducible exact Evolves.of_assign_LockTx _ _
      | with_reducible exact Evolves.of_assign_RefundTx _ _
      | with_reducible exact Evolves.of_assign_RedeemTx _ _
      | ((with_reducible refine Evolves.of_emit _ ?_ ?_ _) <;>
          (first | exact hP _ trivial | exact fun _ => rfl))
      | ((with_reducible refine Evolves.of_SetParameter _ _ _ ?_ _) <;>
          (first
            | exact hP _ trivial
            | (intro _; exact ⟨_, rfl, by cases s <;> simp_all [SubTxState.rank]⟩)))
      | ((with_reducible refine Evolves.of_BuilderQuery _ _ _ ?_ _) <;>
          exact fun _ => hP _ trivial)
      | with_reducible apply Evolves.bind
      | with_reducible apply Evolves.of_ite
      | intro _ _ _
      | intro _
      | split
      | (with_reducible dsimp only)

/-- In `BuildBeamRedeemTx`, every write of the sub-transaction state stores a state at or
above the one loaded at the start of the call. -/
theorem BuildBeamRedeemTx_writes (env : Env) (tx : AtomicSwapTransaction) :
    Evolves (MonoWrite .BEAM_REDEEM_TX (tx.subTxState .BEAM_REDEEM_TX)) False tx
      (AtomicSwapTransaction.BuildBeamRedeemTx env tx).tx := by
  have hSilent : ∀ s e, Silent e → MonoWrite .BEAM_REDEEM_TX s e := fun s => silent_monoWrite _ s
  have hSending : ∀ s e, Sending e → MonoWrite .BEAM_REDEEM_TX s e := fun s => sending_monoWrite _ s
  unfold AtomicSwapTransaction.BuildBeamRedeemTx Builder SetState OnFailed
  apply Evolves.bind
  · exact Evolves.refl _
  · intro a tx' hx
    obtain ⟨rfl, rfl⟩ : a = tx.subTxState .BEAM_REDEEM_TX ∧ tx = tx' := by
      simpa [AtomicSwapTransaction.GetSubTxState, GetParameter, AtomicSwapTransaction.subTxState, eq_comm] using hx
    clear hx
    have hs : tx.subTxState .BEAM_REDEEM_TX = tx.subTxState .BEAM_REDEEM_TX := rfl
    rw [hs]
    generalize tx.subTxState .BEAM_REDEEM_TX = s
    clear hs
    have hP : ∀ e, MonoWrite .BEAM_REDEEM_TX s e → MonoWrite .BEAM_REDEEM_TX s e := fun _ h => h
    replace hSilent := hSilent s
    replace hSending := hSending s
    revert tx
    intro tx
    repeat' first
      | with_reducible exact Evolves.of_pure _ _
      | with_reducible exact Evolves.of_read _ _
      | with_reducible exact Evolves.of_raise _ _
      | with_reducible exact Evolves.of_GetParameter _ _ _ _
      | with_reducible exact Evolves.of_GetMandatoryParameter _ _ _ _
      | with_reducible exact Evolves.of_IsSender _
      | with_reducible exact Evolves.of_GetAmount _
      | with_reducible exact Evolves.of_assert _ _ _
      | with_reducible exact LoadSharedParameters_evolves hSilent _ _
      | with_reducible exact SharedUTXOProofPart2_evolves hSilent _ _ _
      | with_reducible exact SharedUTXOProofPart3_evolves hSilent _ _ _
      | with_reducible exact LockTxBuilder_CreateTransaction_evolves hSilent _ _
      | with_reducible exact InitTx_evolves hSilent _ _ _ _
      | with_reducible exact SharedTxBuilder_CreateTransaction_evolves hSilent _ _ _
      | with_reducible exact GetSharedParameters_evolves hSilent _
      | with_reducible exact SendLockTxInvitation_evolves hSending _ _ _
      | with_reducible exact SendBulletProofPart2_evolves hSending _ _ _
      | with_reducible exact SendBulletProofPart3_evolves hSending _ _ _
      | with_reducible exact SendSharedTxInvitation_evolves hSending _ _ _ _ _ _
      | with_reducible exact ConfirmSharedTxInvitation_evolves hSending _ _ _
      | with_reducible exact Evolves.of_assign_LockTx _ _
      | with_reducible exact Evolves.of_assign_RefundTx _ _
      | with_reducible exact Evolves.of_assign_RedeemTx _ _
      | ((with_reducible refine Evolves.of_emit _ ?_ ?_ _) <;>
          (first | exact hP _ trivial | exact fun _ => rfl))
      | ((with_reducible refine Evolves.of_SetParameter _ _ _ ?_ _) <;>
          (first
            | exact hP _ trivial
            | (intro _; exact ⟨_, rfl, by cases s <;> simp_all [SubTxState.rank]⟩)))
      | ((with_reducible refine Evolves.of_BuilderQuery _ _ _ ?_ _) <;>
          exact fun _ => hP _ trivial)
      | with_reducible apply Evolves.bind
      | with_reducible apply Evolves.of_ite
      | intro _ _ _
      | intro _
      | split
      | (with_reducible dsimp only)

/-- Replaying writes that keep a sub-transaction state at or above `s` leaves it
at or above `s`. -/
theorem replay_rank_le (subTxID : SubTxID) (s : SubTxState) (l : List Effect)
    (st : ParamStore) (h : ∀ e ∈ l, MonoWrite subTxID s e)
    (h0 : s.rank ≤ (((st subTxID .State).bind Value.asSubTxState).getD .Initial).rank) :
    s.rank ≤ (((replay l st subTxID .State).bind Value.asSubTxState).getD .Initial).rank := by
  induction l generalizing st with
  | nil => exact h0
  | cons e l ih =>
    have he : MonoWrite subTxID s e := h e (by simp)
    have hl : ∀ x ∈ l, MonoWrite subTxID s x := fun x hx => h x (by simp [hx])
    show s.rank ≤ (((replay l (replay [e] st) subTxID .State).bind
      Value.asSubTxState).getD .Initial).rank
    apply ih _ hl
    cases e with
    | SetParameter sub' id v =>
      show s.rank ≤ (((st.put sub' id v subTxID .State).bind Value.asSubTxState).getD
        .Initial).rank
      unfold ParamStore.put
      split
      · rename_i h'
        obtain ⟨rfl, rfl⟩ := h'
        obtain ⟨s', rfl, hs'⟩ := he rfl
        exact hs'
      · exact h0
    | _ => exact h0

/-- A call whose state writes are at or above the state it started from leaves
the sub-transaction state at or above it. -/
theorem Evolves.rank_le {strict : Prop} {subTxID : SubTxID} {tx tx' : AtomicSwapTransaction}
    (h : Evolves (MonoWrite subTxID (tx.subTxState subTxID)) strict tx tx') :
    (tx.subTxState subTxID).rank ≤ (tx'.subTxState subTxID).rank := by
  obtain ⟨l, _, r, p⟩ := h.log
  show _ ≤ (((tx'.params subTxID .State).bind Value.asSubTxState).getD .Initial).rank
  rw [r]
  exact replay_rank_le subTxID _ l tx.params p (Nat.le_refl _)

/-- C9. For every call of `BuildBeamLockTx`, `BuildBeamRefundTx` and
`BuildBeamRedeemTx`, for every environment, role and parameter store, and
whether the call returns or stops at an exception or assertion, the sub-tx state
stored after the call is at or above the state stored before it in the order
`Initial < Invitation < SharedUTXOProofPart2 < Constructed`. -/
theorem sub_tx_state_never_decreases (env : Env) (tx : AtomicSwapTransaction) :
    (tx.subTxState .BEAM_LOCK_TX).rank ≤
        ((AtomicSwapTransaction.BuildBeamLockTx env tx).tx.subTxState .BEAM_LOCK_TX).rank
      ∧ (tx.subTxState .BEAM_REFUND_TX).rank ≤
        ((AtomicSwapTransaction.BuildBeamRefundTx env tx).tx.subTxState .BEAM_REFUND_TX).rank
      ∧ (tx.subTxState .BEAM_REDEEM_TX).rank ≤
        ((AtomicSwapTransaction.BuildBeamRedeemTx env tx).tx.subTxState .BEAM_REDEEM_TX).rank :=
  ⟨(BuildBeamLockTx_writes env tx).rank_le, (BuildBeamRefundTx_writes env tx).rank_le,
    (BuildBeamRedeemTx_writes env tx).rank_le⟩

/-! ## A rejected peer signature (C10) -/

/-- Local builder work is not a failed signature check. -/
theorem silent_noCheck : ∀ e, Silent e → NoCheck e := by
  intro e h
  unfold NoCheck
  split
  · simp [Silent] at h
  · trivial

/-- Sending a peer message is not a failed signature check. -/
theorem sending_noCheck : ∀ e, Sending e → NoCheck e := by
  intro e h
  unfold NoCheck
  split
  · simp [Sending] at h
  · trivial

/-- Local builder work writes no state, sends nothing and does not finalize. -/
theorem silent_rejected : ∀ e, Silent e → Rejected e := by
  intro e h
  unfold Rejected
  split <;> simp_all [Silent]

/-- A call that makes no failed signature check. -/
theorem RejectedBy.vac {subTxID : SubTxID} {s : SubTxState} {tx : AtomicSwapTransaction}
    {r : Res SubTxState} (h : Evolves NoCheck False tx r.tx) : RejectedBy subTxID s tx r := by
  obtain ⟨l, e, _, p⟩ := h.log
  exact ⟨l, e, fun hc => False.elim (p _ hc)⟩

/-- Sequencing after a step of local builder work. -/
theorem RejectedBy.after_silent {α : Type} {x : M α} {f : α → M SubTxState} {subTxID : SubTxID}
    {s : SubTxState} {tx : AtomicSwapTransaction}
    (hx : Evolves Silent True tx (x tx).tx)
    (hf : ∀ a tx', x tx = .ok a tx' → RejectedBy subTxID s tx' (f a tx')) :
    RejectedBy subTxID s tx ((x >>= f) tx) := by
  simp only [M.bind_apply]
  obtain ⟨l1, e1, _, p1⟩ := hx.log
  have hb := hx.built trivial
  cases h : x tx with
  | ok a tx' =>
    rw [h] at e1 hb
    replace e1 : tx'.log = tx.log ++ l1 := e1
    replace hb : tx'.m_LockTx = tx.m_LockTx ∧ tx'.m_RefundTx = tx.m_RefundTx ∧
      tx'.m_RedeemTx = tx.m_RedeemTx := hb
    obtain ⟨l2, e2, h2⟩ := hf a tx' h
    refine ⟨l1 ++ l2, ?_, fun hc => ?_⟩
    · show (f a tx').tx.log = tx.log ++ (l1 ++ l2)
      rw [e2, e1, List.append_assoc]
    · rcases List.mem_append.mp hc with hc | hc
      · exact False.elim (p1 _ hc)
      · obtain ⟨v, q, a1, a2, a3⟩ := h2 hc
        refine ⟨v, fun e he => ?_, a1.trans hb.1, a2.trans hb.2.1, a3.trans hb.2.2⟩
        rcases List.mem_append.mp he with he | he
        · exact silent_rejected e (p1 e he)
        · exact q e he
  | fail e tx' =>
    rw [h] at e1
    exact ⟨l1, e1, fun hc => False.elim (p1 _ hc)⟩

/-- The signature check itself: on `false` the rest returns the loaded state at
once, on `true` the rest makes no further check. -/
theorem RejectedBy.check {oracle : ParamStore → SubTxID → Bool} {f : Bool → M SubTxState}
    {subTxID : SubTxID} {s : SubTxState} {tx : AtomicSwapTransaction}
    (hfalse : ∀ tx', f false tx' = .ok s tx')
    (htrue : ∀ tx', Evolves NoCheck False tx' (f true tx').tx) :
    RejectedBy subTxID s tx
      ((BuilderQuery oracle .IsPeerSignatureValid subTxID >>= f) tx) := by
  simp only [M.bind_apply, BuilderQuery]
  cases oracle tx.params subTxID
  · rw [hfalse]
    refine ⟨[.Builder subTxID (.IsPeerSignatureValid false)], rfl, fun _ =>
      ⟨rfl, ?_, rfl, rfl, rfl⟩⟩
    intro e he
    rw [List.mem_singleton.mp he]
    trivial
  · obtain ⟨l, e, _, p⟩ := (htrue { tx with log := tx.log ++
      [.Builder subTxID (.IsPeerSignatureValid true)] }).log
    refine ⟨[.Builder subTxID (.IsPeerSignatureValid true)] ++ l, ?_, fun hc => ?_⟩
    · rw [e, List.append_assoc]
    · rcases List.mem_append.mp hc with hc | hc
      · simp at hc
      · exact False.elim (p _ hc)

/-- Both branches of a conditional. -/
theorem RejectedBy.both_branches {c : Prop} [Decidable c] {x y : M SubTxState} {subTxID : SubTxID}
    {s : SubTxState} {tx : AtomicSwapTransaction}
    (hx : c → RejectedBy subTxID s tx (x tx)) (hy : ¬ c → RejectedBy subTxID s tx (y tx)) :
    RejectedBy subTxID s tx ((if c then x else y) tx) := by
  split
  · exact hx ‹_›
  · exact hy ‹_›

/-- The outcome of `BuildBeamLockTx` when the peer's signature fails the check. -/
theorem BuildBeamLockTx_rejection (env : Env) (tx : AtomicSwapTransaction) :
    RejectedBy .BEAM_LOCK_TX (tx.subTxState .BEAM_LOCK_TX) tx (AtomicSwapTransaction.BuildBeamLockTx env tx) := by
  have hS : ∀ e, Silent e → Silent e := fun _ h => h
  have hSS := hS
  have hN : ∀ e, NoCheck e → NoCheck e := fun _ h => h
  have hSilentN := silent_noCheck
  have hSendingN := sending_noCheck
  unfold AtomicSwapTransaction.BuildBeamLockTx Builder UpdateTxDescription SetState OnFailed
  apply RejectedBy.after_silent
  · exact Evolves.of_GetParameter _ _ _ _
  · intro a tx' hx
    obtain ⟨rfl, rfl⟩ : a = (tx.params .BEAM_LOCK_TX .State).bind Value.asSubTxState ∧ tx = tx' := by
      simpa [GetParameter, eq_comm] using hx
    clear hx
    have hs : tx.subTxState .BEAM_LOCK_TX = ((tx.params .BEAM_LOCK_TX .State).bind Value.asSubTxState).getD .Initial := rfl
    rw [hs]
    generalize ((tx.params .BEAM_LOCK_TX .State).bind Value.asSubTxState).getD .Initial = s
    clear hs
    revert tx
    intro tx
    repeat' first
      | ((with_reducible refine RejectedBy.check ?_ ?_)
         · intro _
           rfl
         · intro _
           repeat' first
             | with_reducible exact Evolves.of_pure _ _
             | with_reducible exact Evolves.of_read _ _
             | with_reducible exact Evolves.of_raise _ _
             | with_reducible exact Evolves.of_GetParameter _ _ _ _
             | with_reducible exact Evolves.of_GetMandatoryParameter _ _ _ _
             | with_reducible exact Evolves.of_IsSender _
             | with_reducible exact Evolves.of_GetAmount _
             | with_reducible exact Evolves.of_assert _ _ _
             | with_reducible exact LoadSharedParameters_evolves hSilentN _ _
             | with_reducible exact SharedUTXOProofPart2_evolves hSilentN _ _ _
             | with_reducible exact SharedUTXOProofPart3_evolves hSilentN _ _ _
             | with_reducible exact LockTxBuilder_CreateTransaction_evolves hSilentN _ _
             | with_reducible exact InitTx_evolves hSilentN _ _ _ _
             | with_reducible exact SharedTxBuilder_CreateTransaction_evolves hSilentN _ _ _
             | with_reducible exact GetSharedParameters_evolves hSilentN _
             | with_reducible exact SendLockTxInvitation_evolves hSendingN _ _ _
             | with_reducible exact SendBulletProofPart2_evolves hSendingN _ _ _
             | with_reducible exact SendBulletProofPart3_evolves hSendingN _ _ _
             | with_reducible exact SendSharedTxInvitation_evolves hSendingN _ _ _ _ _ _
             | with_reducible exact ConfirmSharedTxInvitation_evolves hSendingN _ _ _
             | with_reducible exact Evolves.of_assign_LockTx _ _
             | with_reducible exact Evolves.of_assign_RefundTx _ _
             | with_reducible exact Evolves.of_assign_RedeemTx _ _
             | ((with_reducible refine Evolves.of_emit _ ?_ ?_ _) <;>
                 (first | exact hN _ trivial | exact fun _ => rfl))
             | ((with_reducible refine Evolves.of_SetParameter _ _ _ ?_ _) <;> exact hN _ trivial)
             | ((with_reducible refine Evolves.of_BuilderQuery _ _ _ ?_ _) <;>
                 exact fun _ => hN _ trivial)
             | with_reducible apply Evolves.bind
             | with_reducible apply Evolves.of_ite
             | intro _ _ _
             | intro _
             | split
             | (with_reducible dsimp only)
         )
      | ((with_reducible refine RejectedBy.after_silent ?_ ?_)
         ·
           repeat' first
             | with_reducible exact Evolves.of_pure _ _
             | with_reducible exact Evolves.of_read _ _
             | with_reducible exact Evolves.of_raise _ _
             | with_reducible exact Evolves.of_GetParameter _ _ _ _
             | with_reducible exact Evolves.of_GetMandatoryParameter _ _ _ _
             | with_reducible exact Evolves.of_IsSender _
             | with_reducible exact Evolves.of_GetAmount _
             | with_reducible exact Evolves.of_assert _ _ _
             | with_reducible exact LoadSharedParameters_evolves hSS _ _
             | with_reducible exact SharedUTXOProofPart2_evolves hSS _ _ _
             | with_reducible exact SharedUTXOProofPart3_evolves hSS _ _ _
             | with_reducible exact LockTxBuilder_CreateTransaction_evolves hSS _ _
             | with_reducible exact InitTx_evolves hSS _ _ _ _
             | with_reducible exact SharedTxBuilder_CreateTransaction_evolves hSS _ _ _
             | with_reducible exact GetSharedParameters_evolves hSS _
             | ((with_reducible refine Evolves.of_emit _ ?_ ?_ _) <;>
                 (first | exact hS _ trivial | exact fun _ => rfl))
             | ((with_reducible refine Evolves.of_SetParameter _ _ _ ?_ _) <;> exact hS _ trivial)
             | ((with_reducible refine Evolves.of_BuilderQuery _ _ _ ?_ _) <;>
                 exact fun _ => hS _ trivial)
             | with_reducible apply Evolves.bind
             | with_reducible apply Evolves.of_ite
             | intro _ _ _
             | intro _
             | split
             | (with_reducible dsimp only)
         )
      | ((with_reducible refine RejectedBy.vac ?_)
         ·
           repeat' first
             | with_reducible exact Evolves.of_pure _ _
             | with_reducible exact Evolves.of_read _ _
             | with_reducible exact Evolves.of_raise _ _
             | with_reducible exact Evolves.of_GetParameter _ _ _ _
             | with_reducible exact Evolves.of_GetMandatoryParameter _ _ _ _
             | with_reducible exact Evolves.of_IsSender _
             | with_reducible exact Evolves.of_GetAmount _
             | with_reducible exact Evolves.of_assert _ _ _
             | with_reducible exact LoadSharedParameters_evolves hSilentN _ _
             | with_reducible exact SharedUTXOProofPart2_evolves hSilentN _ _ _
             | with_reducible exact SharedUTXOProofPart3_evolves hSilentN _ _ _
             | with_reducible exact LockTxBuilder_CreateTransaction_evolves hSilentN _ _
             | with_reducible exact InitTx_evolves hSilentN _ _ _ _
             | with_reducible exact SharedTxBuilder_CreateTransaction_evolves hSilentN _ _ _
             | with_reducible exact GetSharedParameters_evolves hSilentN _
             | with_reducible exact SendLockTxInvitation_evolves hSendingN _ _ _
             | with_reducible exact SendBulletProofPart2_evolves hSendingN _ _ _
             | with_reducible exact SendBulletProofPart3_evolves hSendingN _ _ _
             | with_reducible exact SendSharedTxInvitation_evolves hSendingN _ _ _ _ _ _
             | with_reducible exact ConfirmSharedTxInvitation_evolves hSendingN _ _ _
             | with_reducible exact Evolves.of_assign_LockTx _ _
             | with_reducible exact Evolves.of_assign_RefundTx _ _
             | with_reducible exact Evolves.of_assign_RedeemTx _ _
             | ((with_reducible refine Evolves.of_emit _ ?_ ?_ _) <;>
                 (first | exact hN _ trivial | exact fun _ => rfl))
             | ((with_reducible refine Evolves.of_SetParameter _ _ _ ?_ _) <;> exact hN _ trivial)
             | ((with_reducible refine Evolves.of_BuilderQuery _ _ _ ?_ _) <;>
                 exact fun _ => hN _ trivial)
             | with_reducible apply Evolves.bind
             | with_reducible apply Evolves.of_ite
             | intro _ _ _
             | intro _
             | split
             | (with_reducible dsimp only)
         )
      | with_reducible apply RejectedBy.both_branches
      | intro _ _ _
      | intro _
      | (with_reducible dsimp only)

/-- The outcome of `BuildBeamRefundTx` when the peer's signature fails the check. -/
theorem BuildBeamRefundTx_rejection (env : Env) (tx : AtomicSwapTransaction) :
    RejectedBy .BEAM_REFUND_TX (tx.subTxState .BEAM_REFUND_TX) tx (AtomicSwapTransaction.BuildBeamRefundTx env tx) := by
  have hS : ∀ e, Silent e → Silent e := fun _ h => h
  have hSS := hS
  have hN : ∀ e, NoCheck e → NoCheck e := fun _ h => h
  have hSilentN := silent_noCheck
  have hSendingN := sending_noCheck
  unfold AtomicSwapTransaction.BuildBeamRefundTx Builder SetState
  apply RejectedBy.after_silent
  · exact Evolves.refl _
  · intro a tx' hx
    obtain ⟨rfl, rfl⟩ : a = tx.subTxState .BEAM_REFUND_TX ∧ tx = tx' := by
      simpa [AtomicSwapTransaction.GetSubTxState, GetParameter, AtomicSwapTransaction.subTxState, eq_comm] using hx
    clear hx
    have hs : tx.subTxState .BEAM_REFUND_TX = tx.subTxState .BEAM_REFUND_TX := rfl
    rw [hs]
    generalize tx.subTxState .BEAM_REFUND_TX = s
    clear hs
    revert tx
    intro tx
    repeat' first
      | ((with_reducible refine RejectedBy.check ?_ ?_)
         · intro _
           rfl
         · intro _
           repeat' first
             | with_reducible exact Evolves.of_pure _ _
             | with_reducible exact Evolves.of_read _ _
             | with_reducible exact Evolves.of_raise _ _
             | with_reducible exact Evolves.of_GetParameter _ _ _ _
             | with_reducible exact Evolves.of_GetMandatoryParameter _ _ _ _
             | with_reducible exact Evolves.of_IsSender _
             | with_reducible exact Evolves.of_GetAmount _
             | with_reducible exact Evolves.of_assert _ _ _
             | with_reducible exact LoadSharedParameters_evolves hSilentN _ _
             | with_reducible exact SharedUTXOProofPart2_evolves hSilentN _ _ _
             | with_reducible exact SharedUTXOProofPart3_evolves hSilentN _ _ _
             | with_reducible exact LockTxBuilder_CreateTransaction_evolves hSilentN _ _
             | with_reducible exact InitTx_evolves hSilentN _ _ _ _
             | with_reducible exact SharedTxBuilder_CreateTransaction_evolves hSilentN _ _ _
             | with_reducible exact GetSharedParameters_evolves hSilentN _
             | with_reducible exact SendLockTxInvitation_evolves hSendingN _ _ _
             | with_reducible exact SendBulletProofPart2_evolves hSendingN _ _ _
             | with_reducible exact SendBulletProofPart3_evolves hSendingN _ _ _
             | with_reducible exact SendSharedTxInvitation_evolves hSendingN _ _ _ _ _ _
             | with_reducible exact ConfirmSharedTxInvitation_evolves hSendingN _ _ _
             | with_reducible exact Evolves.of_assign_LockTx _ _
             | with_reducible exact Evolves.of_assign_RefundTx _ _
             | with_reducible exact Evolves.of_assign_RedeemTx _ _
             | ((with_reducible refine Evolves.of_emit _ ?_ ?_ _) <;>
                 (first | exact hN _ trivial | exact fun _ => rfl))
             | ((with_reducible refine Evolves.of_SetParameter _ _ _ ?_ _) <;> exact hN _ trivial)
             | ((with_reducible refine Evolves.of_BuilderQuery _ _ _ ?_ _) <;>
                 exact fun _ => hN _ trivial)
             | with_reducible apply Evolves.bind
             | with_reducible apply Evolves.of_ite
             | intro _ _ _
             | intro _
             | split
             | (with_reducible dsimp only)
         )
      | ((with_reducible refine RejectedBy.after_silent ?_ ?_)
         ·
           repeat' first
             | with_reducible exact Evolves.of_pure _ _
             | with_reducible exact Evolves.of_read _ _
             | with_reducible exact Evolves.of_raise _ _
             | with_reducible exact Evolves.of_GetParameter _ _ _ _
             | with_reducible exact Evolves.of_GetMandatoryParameter _ _ _ _
             | with_reducible exact Evolves.of_IsSender _
             | with_reducible exact Evolves.of_GetAmount _
             | with_reducible exact Evolves.of_assert _ _ _
             | with_reducible exact LoadSharedParameters_evolves hSS _ _
             | with_reducible exact SharedUTXOProofPart2_evolves hSS _ _ _
             | with_reducible exact SharedUTXOProofPart3_evolves hSS _ _ _
             | with_reducible exact LockTxBuilder_CreateTransaction_evolves hSS _ _
             | with_reducible exact InitTx_evolves hSS _ _ _ _
             | with_reducible exact SharedTxBuilder_CreateTransaction_evolves hSS _ _ _
             | with_reducible exact GetSharedParameters_evolves hSS _
             | ((with_reducible refine Evolves.of_emit _ ?_ ?_ _) <;>
                 (first | exact hS _ trivial | exact fun _ => rfl))
             | ((with_reducible refine Evolves.of_SetParameter _ _ _ ?_ _) <;> exact hS _ trivial)
             | ((with_reducible refine Evolves.of_BuilderQuery _ _ _ ?_ _) <;>
                 exact fun _ => hS _ trivial)
             | with_reducible apply Evolves.bind
             | with_reducible apply Evolves.of_ite
             | intro _ _ _
             | intro _
             | split
             | (with_reducible dsimp only)
         )
      | ((with_reducible refine RejectedBy.vac ?_)
         ·
           repeat' first
             | with_reducible exact Evolves.of_pure _ _
             | with_reducible exact Evolves.of_read _ _
             | with_reducible exact Evolves.of_raise _ _
             | with_reducible exact Evolves.of_GetParameter _ _ _ _
             | with_reducible exact Evolves.of_GetMandatoryParameter _ _ _ _
             | with_reducible exact Evolves.of_IsSender _
             | with_reducible exact Evolves.of_GetAmount _
             | with_reducible exact Evolves.of_assert _ _ _
             | with_reducible exact LoadSharedParameters_evolves hSilentN _ _
             | with_reducible exact SharedUTXOProofPart2_evolves hSilentN _ _ _
             | with_reducible exact SharedUTXOProofPart3_evolves hSilentN _ _ _
             | with_reducible exact LockTxBuilder_CreateTransaction_evolves hSilentN _ _
             | with_reducible exact InitTx_evolves hSilentN _ _ _ _
             | with_reducible exact SharedTxBuilder_CreateTransaction_evolves hSilentN _ _ _
             | with_reducible exact GetSharedParameters_evolves hSilentN _
             | with_reducible exact SendLockTxInvitation_evolves hSendingN _ _ _
             | with_reducible exact SendBulletProofPart2_evolves hSendingN _ _ _
             | with_reducible exact SendBulletProofPart3_evolves hSendingN _ _ _
             | with_reducible exact SendSharedTxInvitation_evolves hSendingN _ _ _ _ _ _
             | with_reducible exact ConfirmSharedTxInvitation_evolves hSendingN _ _ _
             | with_reducible exact Evolves.of_assign_LockTx _ _
             | with_reducible exact Evolves.of_assign_RefundTx _ _
             | with_reducible exact Evolves.of_assign_RedeemTx _ _
             | ((with_reducible refine Evolves.of_emit _ ?_ ?_ _) <;>
                 (first | exact hN _ trivial | exact fun _ => rfl))
             | ((with_reducible refine Evolves.of_SetParameter _ _ _ ?_ _) <;> exact hN _ trivial)
             | ((with_reducible refine Evolves.of_BuilderQuery _ _ _ ?_ _) <;>
                 exact fun _ => hN _ trivial)
             | with_reducible apply Evolves.bind
             | with_reducible apply Evolves.of_ite
             | intro _ _ _
             | intro _
             | split
             | (with_reducible dsimp only)
         )
      | with_reducible apply RejectedBy.both_branches
      | intro _ _ _
      | intro _
      | (with_reducible dsimp only)

/-- The outcome of `BuildBeamRedeemTx` when the peer's signature fails the check. -/
theorem BuildBeamRedeemTx_rejection (env : Env) (tx : AtomicSwapTransaction) :
    RejectedBy .BEAM_REDEEM_TX (tx.subTxState .BEAM_REDEEM_TX) tx (AtomicSwapTransaction.BuildBeamRedeemTx env tx) := by
  have hS : ∀ e, Silent e → Silent e := fun _ h => h
  have hSS := hS
  have hN : ∀ e, NoCheck e → NoCheck e := fun _ h => h
  have hSilentN := silent_noCheck
  have hSendingN := sending_noCheck
  unfold AtomicSwapTransaction.BuildBeamRedeemTx Builder SetState OnFailed
  apply RejectedBy.after_silent
  · exact Evolves.refl _
  · intro a tx' hx
    obtain ⟨rfl, rfl⟩ : a = tx.subTxState .BEAM_REDEEM_TX ∧ tx = tx' := by
      simpa [AtomicSwapTransaction.GetSubTxState, GetParameter, AtomicSwapTransaction.subTxState, eq_comm] using hx
    clear hx
    have hs : tx.subTxState .BEAM_REDEEM_TX = tx.subTxState .BEAM_REDEEM_TX := rfl
    rw [hs]
    generalize tx.subTxState .BEAM_REDEEM_TX = s
    clear hs
    revert tx
    intro tx
    repeat' first
      | ((with_reducible refine RejectedBy.check ?_ ?_)
         · intro _
           rfl
         · intro _
           repeat' first
             | with_reducible exact Evolves.of_pure _ _
             | with_reducible exact Evolves.of_read _ _
             | with_reducible exact Evolves.of_raise _ _
             | with_reducible exact Evolves.of_GetParameter _ _ _ _
             | with_reducible exact Evolves.of_GetMandatoryParameter _ _ _ _
             | with_reducible exact Evolves.of_IsSender _
             | with_reducible exact Evolves.of_GetAmount _
             | with_reducible exact Evolves.of_assert _ _ _
             | with_reducible exact LoadSharedParameters_evolves hSilentN _ _
             | with_reducible exact SharedUTXOProofPart2_evolves hSilentN _ _ _
             | with_reducible exact SharedUTXOProofPart3_evolves hSilentN _ _ _
             | with_reducible exact LockTxBuilder_CreateTransaction_evolves hSilentN _ _
             | with_reducible exact InitTx_evolves hSilentN _ _ _ _
             | with_reducible exact SharedTxBuilder_CreateTransaction_evolves hSilentN _ _ _
             | with_reducible exact GetSharedParameters_evolves hSilentN _
             | with_reducible exact SendLockTxInvitation_evolves hSendingN _ _ _
             | with_reducible exact SendBulletProofPart2_evolves hSendingN _ _ _
             | with_reducible exact SendBulletProofPart3_evolves hSendingN _ _ _
             | with_reducible exact SendSharedTxInvitation_evolves hSendingN _ _ _ _ _ _
             | with_reducible exact ConfirmSharedTxInvitation_evolves hSendingN _ _ _
             | with_reducible exact Evolves.of_assign_LockTx _ _
             | with_reducible exact Evolves.of_assign_RefundTx _ _
             | with_reducible exact Evolves.of_assign_RedeemTx _ _
             | ((with_reducible refine Evolves.of_emit _ ?_ ?_ _) <;>
                 (first | exact hN _ trivial | exact fun _ => rfl))
             | ((with_reducible refine Evolves.of_SetParameter _ _ _ ?_ _) <;> exact hN _ trivial)
             | ((with_reducible refine Evolves.of_BuilderQuery _ _ _ ?_ _) <;>
                 exact fun _ => hN _ trivial)
             | with_reducible apply Evolves.bind
             | with_reducible apply Evolves.of_ite
             | intro _ _ _
             | intro _
             | split
             | (with_reducible dsimp only)
         )
      | ((with_reducible refine RejectedBy.after_silent ?_ ?_)
         ·
           repeat' first
             | with_reducible exact Evolves.of_pure _ _
             | with_reducible exact Evolves.of_read _ _
             | with_reducible exact Evolves.of_raise _ _
             | with_reducible exact Evolves.of_GetParameter _ _ _ _
             | with_reducible exact Evolves.of_GetMandatoryParameter _ _ _ _
             | with_reducible exact Evolves.of_IsSender _
             | with_reducible exact Evolves.of_GetAmount _
             | with_reducible exact Evolves.of_assert _ _ _
             | with_reducible exact LoadSharedParameters_evolves hSS _ _
             | with_reducible exact SharedUTXOProofPart2_evolves hSS _ _ _
             | with_reducible exact SharedUTXOProofPart3_evolves hSS _ _ _
             | with_reducible exact LockTxBuilder_CreateTransaction_evolves hSS _ _
             | with_reducible exact InitTx_evolves hSS _ _ _ _
             | with_reducible exact SharedTxBuilder_CreateTransaction_evolves hSS _ _ _
             | with_reducible exact GetSharedParameters_evolves hSS _
             | ((with_reducible refine Evolves.of_emit _ ?_ ?_ _) <;>
                 (first | exact hS _ trivial | exact fun _ => rfl))
             | ((with_reducible refine Evolves.of_SetParameter _ _ _ ?_ _) <;> exact hS _ trivial)
             | ((with_reducible refine Evolves.of_BuilderQuery _ _ _ ?_ _) <;>
                 exact fun _ => hS _ trivial)
             | with_reducible apply Evolves.bind
             | with_reducible apply Evolves.of_ite
             | intro _ _ _
             | intro _
             | split
             | (with_reducible dsimp only)
         )
      | ((with_reducible refine RejectedBy.vac ?_)
         ·
           repeat' first
             | with_reducible exact Evolves.of_pure _ _
             | with_reducible exact Evolves.of_read _ _
             | with_reducible exact Evolves.of_raise _ _
             | with_reducible exact Evolves.of_GetParameter _ _ _ _
             | with_reducible exact Evolves.of_GetMandatoryParameter _ _ _ _
             | with_reducible exact Evolves.of_IsSender _
             | with_reducible exact Evolves.of_GetAmount _
             | with_reducible exact Evolves.of_assert _ _ _
             | with_reducible exact LoadSharedParameters_evolves hSilentN _ _
             | with_reducible exact SharedUTXOProofPart2_evolves hSilentN _ _ _
             | with_reducible exact SharedUTXOProofPart3_evolves hSilentN _ _ _
             | with_reducible exact LockTxBuilder_CreateTransaction_evolves hSilentN _ _
             | with_reducible exact InitTx_evolves hSilentN _ _ _ _
             | with_reducible exact SharedTxBuilder_CreateTransaction_evolves hSilentN _ _ _
             | with_reducible exact GetSharedParameters_evolves hSilentN _
             | with_reducible exact SendLockTxInvitation_evolves hSendingN _ _ _
             | with_reducible exact SendBulletProofPart2_evolves hSendingN _ _ _
             | with_reducible exact SendBulletProofPart3_evolves hSendingN _ _ _
             | with_reducible exact SendSharedTxInvitation_evolves hSendingN _ _ _ _ _ _
             | with_reducible exact ConfirmSharedTxInvitation_evolves hSendingN _ _ _
             | with_reducible exact Evolves.of_assign_LockTx _ _
             | with_reducible exact Evolves.of_assign_RefundTx _ _
             | with_reducible exact Evolves.of_assign_RedeemTx _ _
             | ((with_reducible refine Evolves.of_emit _ ?_ ?_ _) <;>
                 (first | exact hN _ trivial | exact fun _ => rfl))
             | ((with_reducible refine Evolves.of_SetParameter _ _ _ ?_ _) <;> exact hN _ trivial)
             | ((with_reducible refine Evolves.of_BuilderQuery _ _ _ ?_ _) <;>
                 exact fun _ => hN _ trivial)
             | with_reducible apply Evolves.bind
             | with_reducible apply Evolves.of_ite
             | intro _ _ _
             | intro _
             | split
             | (with_reducible dsimp only)
         )
      | with_reducible apply RejectedBy.both_branches
      | intro _ _ _
      | intro _
      | (with_reducible dsimp only)

/-- What `RejectedBy` says in terms of the log entries the call added. -/
theorem RejectedBy.outcome {subTxID : SubTxID} {tx : AtomicSwapTransaction}
    {r : Res SubTxState} (h : RejectedBy subTxID (tx.subTxState subTxID) tx r)
    (hc : Effect.Builder subTxID (.IsPeerSignatureValid false) ∈ r.newLog tx) :
    r.value = some (tx.subTxState subTxID)
      ∧ (∀ sub v, Effect.SetParameter sub .State v ∉ r.newLog tx)
      ∧ (∀ msg, Effect.SendTxParameters msg ∉ r.newLog tx)
      ∧ (∀ sub, Effect.Builder sub .FinalizeSignature ∉ r.newLog tx)
      ∧ r.tx.m_LockTx = tx.m_LockTx ∧ r.tx.m_RefundTx = tx.m_RefundTx
      ∧ r.tx.m_RedeemTx = tx.m_RedeemTx := by
  obtain ⟨l, e, h'⟩ := h
  have hl : r.newLog tx = l := by simp [Res.newLog, e]
  rw [hl] at hc ⊢
  obtain ⟨v, q, a1, a2, a3⟩ := h' hc
  exact ⟨v, fun _ _ hm => q _ hm, fun _ hm => q _ hm, fun _ hm => q _ hm, a1, a2, a3⟩

/-- C10. Let `r` be the outcome of `BuildBeamLockTx`, `BuildBeamRefundTx` or
`BuildBeamRedeemTx` on `tx`, and `subTxID` the sub-transaction that builder
works on. If during the call `IsPeerSignatureValid` returned `false` (the log
entries the call added hold that check with answer `false`), then the call
returned the sub-tx state it loaded, it wrote no `State` parameter, sent no peer
message, did not call `FinalizeSignature`, and `m_LockTx`, `m_RefundTx` and
`m_RedeemTx` are what they were before the call. -/
theorem invalid_peer_signature_does_not_advance (env : Env) (tx : AtomicSwapTransaction)
    (subTxID : SubTxID) (r : Res SubTxState)
    (hr : (subTxID = .BEAM_LOCK_TX ∧ r = AtomicSwapTransaction.BuildBeamLockTx env tx)
      ∨ (subTxID = .BEAM_REFUND_TX ∧ r = AtomicSwapTransaction.BuildBeamRefundTx env tx)
      ∨ (subTxID = .BEAM_REDEEM_TX ∧ r = AtomicSwapTransaction.BuildBeamRedeemTx env tx))
    (hcheck : Effect.Builder subTxID (.IsPeerSignatureValid false) ∈ r.newLog tx) :
    r.value = some (tx.subTxState subTxID)
      ∧ (∀ sub v, Effect.SetParameter sub .State v ∉ r.newLog tx)
      ∧ (∀ msg, Effect.SendTxParameters msg ∉ r.newLog tx)
      ∧ (∀ sub, Effect.Builder sub .FinalizeSignature ∉ r.newLog tx)
      ∧ r.tx.m_LockTx = tx.m_LockTx ∧ r.tx.m_RefundTx = tx.m_RefundTx
      ∧ r.tx.m_RedeemTx = tx.m_RedeemTx := by
  rcases hr with ⟨rfl, rfl⟩ | ⟨rfl, rfl⟩ | ⟨rfl, rfl⟩
  · exact (BuildBeamLockTx_rejection env tx).outcome hcheck
  · exact (BuildBeamRefundTx_rejection env tx).outcome hcheck
  · exact (BuildBeamRedeemTx_rejection env tx).outcome hcheck

/-- The tenth theorem on three sample objects, one per builder, whose peer
signature is stored and does not verify: each call returns the state it found,
`SharedUTXOProofPart2` for the lock transaction and `Invitation` for the
other two. -/
theorem invalid_peer_signature_does_not_advance_witness :
    (AtomicSwapTransaction.BuildBeamLockTx sampleRejectingEnv
        (sampleSigned .BEAM_LOCK_TX .SharedUTXOProofPart2)).value = some .SharedUTXOProofPart2
      ∧ (AtomicSwapTransaction.BuildBeamRefundTx sampleRejectingEnv
        (sampleSigned .BEAM_REFUND_TX .Invitation)).value = some .Invitation
      ∧ (AtomicSwapTransaction.BuildBeamRedeemTx sampleRejectingEnv
        (sampleSigned .BEAM_REDEEM_TX .Invitation)).value = some .Invitation :=
  ⟨(invalid_peer_signature_does_not_advance sampleRejectingEnv
      (sampleSigned .BEAM_LOCK_TX .SharedUTXOProofPart2) .BEAM_LOCK_TX _
      (Or.inl ⟨rfl, rfl⟩) (by decide)).1,
    (invalid_peer_signature_does_not_advance sampleRejectingEnv
      (sampleSigned .BEAM_REFUND_TX .Invitation) .BEAM_REFUND_TX _
      (Or.inr (Or.inl ⟨rfl, rfl⟩)) (by decide)).1,
    (invalid_peer_signature_does_not_advance sampleRejectingEnv
      (sampleSigned .BEAM_REDEEM_TX .Invitation) .BEAM_REDEEM_TX _
      (Or.inr (Or.inr ⟨rfl, rfl⟩)) (by decide)).1⟩

/-! ## One event on the Beam owner -/

/-- What leaves the automaton alone is allowed in every tick. -/
theorem inner_tick (allowed : List State) (lock : Prop) : ∀ e, Inner e → Tick allowed lock e := by
  intro e h
  unfold Tick
  split
  · simp [Inner] at h
  · simp [Inner] at h
  · trivial

open AtomicSwapTransaction in
/-- `SendSubTx` broadcasts the transaction or reports the failed broadcast. -/
theorem SendSubTx_evolves {P : Effect → Prop} {strict : Prop} {subTxID : SubTxID}
    (hreg : ∀ t, P (.register_tx subTxID t)) (hfail : P (.OnFailed .FailedToRegister true))
    (t : Transaction) (tx : AtomicSwapTransaction) :
    Evolves P strict tx (SendSubTx t subTxID tx).tx := by
  unfold SendSubTx OnFailed
  repeat' first
    | with_reducible exact Evolves.of_pure _ _
    | with_reducible exact Evolves.of_read _ _
    | with_reducible exact Evolves.of_raise _ _
    | with_reducible exact Evolves.of_GetParameter _ _ _ _
    | with_reducible exact Evolves.of_GetMandatoryParameter _ _ _ _
    | with_reducible exact Evolves.of_IsSender _
    | with_reducible exact Evolves.of_GetAmount _
    | with_reducible exact Evolves.of_assert _ _ _
    | ((with_reducible refine Evolves.of_emit _ ?_ ?_ _) <;>
        (first | exact hreg _ | exact hfail | exact fun _ => rfl))
    | with_reducible apply Evolves.bind
    | with_reducible apply Evolves.of_ite
    | intro _ _ _
    | intro _
    | split
    | (with_reducible dsimp only)

/-- The log entries of a tick of the Beam owner in state `Initial`. -/
theorem owner_tick_Initial (tx : AtomicSwapTransaction) :
    Evolves (Tick (ownerNext .Initial) (State.Initial = .SendingBeamLockTX)) False tx
      (AtomicSwapTransaction.UpdateImpl.Initial tx).tx := by
  have hInner : ∀ e, Inner e → Tick (ownerNext .Initial) (State.Initial = .SendingBeamLockTX) e :=
    inner_tick _ _
  have hSending : ∀ e, Sending e → Tick (ownerNext .Initial) (State.Initial = .SendingBeamLockTX) e :=
    fun e h => inner_tick _ _ e (sending_inner e h)
  unfold AtomicSwapTransaction.UpdateImpl.Initial
  unfold AtomicSwapTransaction.SetNextState SetState AtomicSwapTransaction.UpdateAsync
  repeat' first
    | with_reducible exact Evolves.of_pure _ _
    | with_reducible exact Evolves.of_read _ _
    | with_reducible exact Evolves.of_raise _ _
    | with_reducible exact Evolves.of_GetParameter _ _ _ _
    | with_reducible exact Evolves.of_GetMandatoryParameter _ _ _ _
    | with_reducible exact Evolves.of_IsSender _
    | with_reducible exact Evolves.of_GetAmount _
    | with_reducible exact Evolves.of_assert _ _ _
    | with_reducible exact Evolves.mono (BuildBeamLockTx_inner _ _) hInner (fun h => h)
    | with_reducible exact Evolves.mono (BuildBeamRefundTx_inner _ _) hInner (fun h => h)
    | with_reducible exact Evolves.mono (BuildBeamRedeemTx_inner _ _) hInner (fun h => h)
    | with_reducible exact Evolves.mono (BuildLockTx_inner _ _) hInner (fun h => h)
    | with_reducible exact Evolves.mono (BuildWithdrawTx_REFUND_inner _) hInner (fun h => h)
    | with_reducible exact Evolves.mono (BuildWithdrawTx_REDEEM_inner _) hInner (fun h => h)
    | with_reducible exact Evolves.mono (RegisterExternalTx_inner _ _ _) hInner (fun h => h)
    | with_reducible exact Evolves.mono (GetSwapLockTxConfirmations_inner _) hInner (fun h => h)
    | with_reducible exact Evolves.mono (IsSubTxCompleted_inner _ _) hInner (fun h => h)
    | with_reducible exact Evolves.mono (GetPreimageFromChain_inner _) hInner (fun h => h)
    | with_reducible exact Evolves.mono (IsBeamLockTimeExpired_inner _ _) hInner (fun h => h)
    | with_reducible exact SendInvitation_evolves hSending _ _
    | with_reducible exact SendExternalTxDetails_evolves hSending _ _
    | ((with_reducible refine SendSubTx_evolves ?_ ?_ _ _) <;>
        (first | exact fun _ => trivial | exact fun _ => rfl | exact trivial))
    | ((with_reducible refine Evolves.of_emit _ ?_ ?_ _) <;>
        (first | exact trivial | exact fun _ => rfl))
    | ((with_reducible refine Evolves.of_SetParameter _ _ _ ?_ _) <;>
        (first | exact trivial | exact ⟨_, rfl, by decide⟩))
    | with_reducible apply Evolves.bind
    | with_reducible apply Evolves.of_ite
    | (intro h; first | exact absurd h (by decide) | exact absurd rfl h)
    | intro _ _ _
    | intro _
    | split
    | (with_reducible dsimp only)

/-- The log entries of a tick of the Beam owner in state `Invitation`. -/
theorem owner_tick_Invitation (env : Env) (tx : AtomicSwapTransaction) :
    Evolves (Tick (ownerNext .Invitation) (State.Invitation = .SendingBeamLockTX)) False tx
      (AtomicSwapTransaction.UpdateImpl.Invitation env true tx).tx := by
  have hInner : ∀ e, Inner e → Tick (ownerNext .Invitation) (State.Invitation = .SendingBeamLockTX) e :=
    inner_tick _ _
  have hSending : ∀ e, Sending e → Tick (ownerNext .Invitation) (State.Invitation = .SendingBeamLockTX) e :=
    fun e h => inner_tick _ _ e (sending_inner e h)
  unfold AtomicSwapTransaction.UpdateImpl.Invitation
  unfold AtomicSwapTransaction.SetNextState SetState AtomicSwapTransaction.UpdateAsync
  repeat' first
    | with_reducible exact Evolves.of_pure _ _
    | with_reducible exact Evolves.of_read _ _
    | with_reducible exact Evolves.of_raise _ _
    | with_reducible exact Evolves.of_GetParameter _ _ _ _
    | with_reducible exact Evolves.of_GetMandatoryParameter _ _ _ _
    | with_reducible exact Evolves.of_IsSender _
    | with_reducible exact Evolves.of_GetAmount _
    | with_reducible exact Evolves.of_assert _ _ _
    | with_reducible exact Evolves.mono (BuildBeamLockTx_inner _ _) hInner (fun h => h)
    | with_reducible exact Evolves.mono (BuildBeamRefundTx_inner _ _) hInner (fun h => h)
    | with_reducible exact Evolves.mono (BuildBeamRedeemTx_inner _ _) hInner (fun h => h)
    | with_reducible exact Evolves.mono (BuildLockTx_inner _ _) hInner (fun h => h)
    | with_reducible exact Evolves.mono (BuildWithdrawTx_REFUND_inner _) hInner (fun h => h)
    | with_reducible exact Evolves.mono (BuildWithdrawTx_REDEEM_inner _) hInner (fun h => h)
    | with_reducible exact Evolves.mono (RegisterExternalTx_inner _ _ _) hInner (fun h => h)
    | with_reducible exact Evolves.mono (GetSwapLockTxConfirmations_inner _) hInner (fun h => h)
    | with_reducible exact Evolves.mono (IsSubTxCompleted_inner _ _) hInner (fun h => h)
    | with_reducible exact Evolves.mono (GetPreimageFromChain_inner _) hInner (fun h => h)
    | with_reducible exact Evolves.mono (IsBeamLockTimeExpired_inner _ _) hInner (fun h => h)
    | with_reducible exact SendInvitation_evolves hSending _ _
    | with_reducible exact SendExternalTxDetails_evolves hSending _ _
    | ((with_reducible refine SendSubTx_evolves ?_ ?_ _ _) <;>
        (first | exact fun _ => trivial | exact fun _ => rfl | exact trivial))
    | ((with_reducible refine Evolves.of_emit _ ?_ ?_ _) <;>
        (first | exact trivial | exact fun _ => rfl))
    | ((with_reducible refine Evolves.of_SetParameter _ _ _ ?_ _) <;>
        (first | exact trivial | exact ⟨_, rfl, by decide⟩))
    | with_reducible apply Evolves.bind
    | with_reducible apply Evolves.of_ite
    | (intro h; first | exact absurd h (by decide) | exact absurd rfl h)
    | intro _ _ _
    | intro _
    | split
    | (with_reducible dsimp only)

/-- The log entries of a tick of the Beam owner in state `BuildingLockTX`: the assertion
on the role stops it. -/
theorem owner_tick_BuildingLockTX (env : Env) (tx : AtomicSwapTransaction) :
    Evolves (Tick (ownerNext .BuildingLockTX) (State.BuildingLockTX = .SendingBeamLockTX)) False tx
      (AtomicSwapTransaction.UpdateImpl.BuildingLockTX env true tx).tx :=
  Evolves.refl tx

/-- The log entries of a tick of the Beam owner in state `BuildingRefundTX`: the assertion
on the role stops it. -/
theorem owner_tick_BuildingRefundTX (tx : AtomicSwapTransaction) :
    Evolves (Tick (ownerNext .BuildingRefundTX) (State.BuildingRefundTX = .SendingBeamLockTX)) False tx
      (AtomicSwapTransaction.UpdateImpl.BuildingRefundTX true tx).tx :=
  Evolves.refl tx

/-- The log entries of a tick of the Beam owner in state `BuildingRedeemTX`. -/
theorem owner_tick_BuildingRedeemTX (tx : AtomicSwapTransaction) :
    Evolves (Tick (ownerNext .BuildingRedeemTX) (State.BuildingRedeemTX = .SendingBeamLockTX)) False tx
      (AtomicSwapTransaction.UpdateImpl.BuildingRedeemTX true tx).tx := by
  have hInner : ∀ e, Inner e → Tick (ownerNext .BuildingRedeemTX) (State.BuildingRedeemTX = .SendingBeamLockTX) e :=
    inner_tick _ _
  have hSending : ∀ e, Sending e → Tick (ownerNext .BuildingRedeemTX) (State.BuildingRedeemTX = .SendingBeamLockTX) e :=
    fun e h => inner_tick _ _ e (sending_inner e h)
  unfold AtomicSwapTransaction.UpdateImpl.BuildingRedeemTX
  unfold AtomicSwapTransaction.SetNextState SetState AtomicSwapTransaction.UpdateAsync
  repeat' first
    | with_reducible exact Evolves.of_pure _ _
    | with_reducible exact Evolves.of_read _ _
    | with_reducible exact Evolves.of_raise _ _
    | with_reducible exact Evolves.of_GetParameter _ _ _ _
    | with_reducible exact Evolves.of_GetMandatoryParameter _ _ _ _
    | with_reducible exact Evolves.of_IsSender _
    | with_reducible exact Evolves.of_GetAmount _
    | with_reducible exact Evolves.of_assert _ _ _
    | with_reducible exact Evolves.mono (BuildBeamLockTx_inner _ _) hInner (fun h => h)
    | with_reducible exact Evolves.mono (BuildBeamRefundTx_inner _ _) hInner (fun h => h)
    | with_reducible exact Evolves.mono (BuildBeamRedeemTx_inner _ _) hInner (fun h => h)
    | with_reducible exact Evolves.mono (BuildLockTx_inner _ _) hInner (fun h => h)
    | with_reducible exact Evolves.mono (BuildWithdrawTx_REFUND_inner _) hInner (fun h => h)
    | with_reducible exact Evolves.mono (BuildWithdrawTx_REDEEM_inner _) hInner (fun h => h)
    | with_reducible exact Evolves.mono (RegisterExternalTx_inner _ _ _) hInner (fun h => h)
    | with_reducible exact Evolves.mono (GetSwapLockTxConfirmations_inner _) hInner (fun h => h)
    | with_reducible exact Evolves.mono (IsSubTxCompleted_inner _ _) hInner (fun h => h)
    | with_reducible exact Evolves.mono (GetPreimageFromChain_inner _) hInner (fun h => h)
    | with_reducible exact Evolves.mono (IsBeamLockTimeExpired_inner _ _) hInner (fun h => h)
    | with_reducible exact SendInvitation_evolves hSending _ _
    | with_reducible exact SendExternalTxDetails_evolves hSending _ _
    | ((with_reducible refine SendSubTx_evolves ?_ ?_ _ _) <;>
        (first | exact fun _ => trivial | exact fun _ => rfl | exact trivial))
    | ((with_reducible refine Evolves.of_emit _ ?_ ?_ _) <;>
        (first | exact trivial | exact fun _ => rfl))
    | ((with_reducible refine Evolves.of_SetParameter _ _ _ ?_ _) <;>
        (first | exact trivial | exact ⟨_, rfl, by decide⟩))
    | with_reducible apply Evolves.bind
    | with_reducible apply Evolves.of_ite
    | (intro h; first | exact absurd h (by decide) | exact absurd rfl h)
    | intro _ _ _
    | intro _
    | split
    | (with_reducible dsimp only)

/-- The log entries of a tick of the Beam owner in state `BuildingBeamLockTX`. -/
theorem owner_tick_BuildingBeamLockTX (env : Env) (tx : AtomicSwapTransaction) :
    Evolves (Tick (ownerNext .BuildingBeamLockTX) (State.BuildingBeamLockTX = .SendingBeamLockTX)) False tx
      (AtomicSwapTransaction.UpdateImpl.BuildingBeamLockTX env tx).tx := by
  have hInner : ∀ e, Inner e → Tick (ownerNext .BuildingBeamLockTX) (State.BuildingBeamLockTX = .SendingBeamLockTX) e :=
    inner_tick _ _
  have hSending : ∀ e, Sending e → Tick (ownerNext .BuildingBeamLockTX) (State.BuildingBeamLockTX = .SendingBeamLockTX) e :=
    fun e h => inner_tick _ _ e (sending_inner e h)
  unfold AtomicSwapTransaction.UpdateImpl.BuildingBeamLockTX
  unfold AtomicSwapTransaction.SetNextState SetState AtomicSwapTransaction.UpdateAsync
  repeat' first
    | with_reducible exact Evolves.of_pure _ _
    | with_reducible exact Evolves.of_read _ _
    | with_reducible exact Evolves.of_raise _ _
    | with_reducible exact Evolves.of_GetParameter _ _ _ _
    | with_reducible exact Evolves.of_GetMandatoryParameter _ _ _ _
    | with_reducible exact Evolves.of_IsSender _
    | with_reducible exact Evolves.of_GetAmount _
    | with_reducible exact Evolves.of_assert _ _ _
    | with_reducible exact Evolves.mono (BuildBeamLockTx_inner _ _) hInner (fun h => h)
    | with_reducible exact Evolves.mono (BuildBeamRefundTx_inner _ _) hInner (fun h => h)
    | with_reducible exact Evolves.mono (BuildBeamRedeemTx_inner _ _) hInner (fun h => h)
    | with_reducible exact Evolves.mono (BuildLockTx_inner _ _) hInner (fun h => h)
    | with_reducible exact Evolves.mono (BuildWithdrawTx_REFUND_inner _) hInner (fun h => h)
    | with_reducible exact Evolves.mono (BuildWithdrawTx_REDEEM_inner _) hInner (fun h => h)
    | with_reducible exact Evolves.mono (RegisterExternalTx_inner _ _ _) hInner (fun h => h)
    | with_reducible exact Evolves.mono (GetSwapLockTxConfirmations_inner _) hInner (fun h => h)
    | with_reducible exact Evolves.mono (IsSubTxCompleted_inner _ _) hInner (fun h => h)
    | with_reducible exact Evolves.mono (GetPreimageFromChain_inner _) hInner (fun h => h)
    | with_reducible exact Evolves.mono (IsBeamLockTimeExpired_inner _ _) hInner (fun h => h)
    | with_reducible exact SendInvitation_evolves hSending _ _
    | with_reducible exact SendExternalTxDetails_evolves hSending _ _
    | ((with_reducible refine SendSubTx_evolves ?_ ?_ _ _) <;>
        (first | exact fun _ => trivial | exact fun _ => rfl | exact trivial))
    | ((with_reducible refine Evolves.of_emit _ ?_ ?_ _) <;>
        (first | exact trivial | exact fun _ => rfl))
    | ((with_reducible refine Evolves.of_SetParameter _ _ _ ?_ _) <;>
        (first | exact trivial | exact ⟨_, rfl, by decide⟩))
    | with_reducible apply Evolves.bind
    | with_reducible apply Evolves.of_ite
    | (intro h; first | exact absurd h (by decide) | exact absurd rfl h)
    | intro _ _ _
    | intro _
    | split
    | (with_reducible dsimp only)

/-- The log entries of a tick of the Beam owner in state `BuildingBeamRefundTX`. -/
theorem owner_tick_BuildingBeamRefundTX (env : Env) (tx : AtomicSwapTransaction) :
    Evolves (Tick (ownerNext .BuildingBeamRefundTX) (State.BuildingBeamRefundTX = .SendingBeamLockTX)) False tx
      (AtomicSwapTransaction.UpdateImpl.BuildingBeamRefundTX env tx).tx := by
  have hInner : ∀ e, Inner e → Tick (ownerNext .BuildingBeamRefundTX) (State.BuildingBeamRefundTX = .SendingBeamLockTX) e :=
    inner_tick _ _
  have hSending : ∀ e, Sending e → Tick (ownerNext .BuildingBeamRefundTX) (State.BuildingBeamRefundTX = .SendingBeamLockTX) e :=
    fun e h => inner_tick _ _ e (sending_inner e h)
  unfold AtomicSwapTransaction.UpdateImpl.BuildingBeamRefundTX
  unfold AtomicSwapTransaction.SetNextState SetState AtomicSwapTransaction.UpdateAsync
  repeat' first
    | with_reducible exact Evolves.of_pure _ _
    | with_reducible exact Evolves.of_read _ _
    | with_reducible exact Evolves.of_raise _ _
    | with_reducible exact Evolves.of_GetParameter _ _ _ _
    | with_reducible exact Evolves.of_GetMandatoryParameter _ _ _ _
    | with_reducible exact Evolves.of_IsSender _
    | with_reducible exact Evolves.of_GetAmount _
    | with_reducible exact Evolves.of_assert _ _ _
    | with_reducible exact Evolves.mono (BuildBeamLockTx_inner _ _) hInner (fun h => h)
    | with_reducible exact Evolves.mono (BuildBeamRefundTx_inner _ _) hInner (fun h => h)
    | with_reducible exact Evolves.mono (BuildBeamRedeemTx_inner _ _) hInner (fun h => h)
    | with_reducible exact Evolves.mono (BuildLockTx_inner _ _) hInner (fun h => h)
    | with_reducible exact Evolves.mono (BuildWithdrawTx_REFUND_inner _) hInner (fun h => h)
    | with_reducible exact Evolves.mono (BuildWithdrawTx_REDEEM_inner _) hInner (fun h => h)
    | with_reducible exact Evolves.mono (RegisterExternalTx_inner _ _ _) hInner (fun h => h)
    | with_reducible exact Evolves.mono (GetSwapLockTxConfirmations_inner _) hInner (fun h => h)
    | with_reducible exact Evolves.mono (IsSubTxCompleted_inner _ _) hInner (fun h => h)
    | with_reducible exact Evolves.mono (GetPreimageFromChain_inner _) hInner (fun h => h)
    | with_reducible exact Evolves.mono (IsBeamLockTimeExpired_inner _ _) hInner (fun h => h)
    | with_reducible exact SendInvitation_evolves hSending _ _
    | with_reducible exact SendExternalTxDetails_evolves hSending _ _
    | ((with_reducible refine SendSubTx_evolves ?_ ?_ _ _) <;>
        (first | exact fun _ => trivial | exact fun _ => rfl | exact trivial))
    | ((with_reducible refine Evolves.of_emit _ ?_ ?_ _) <;>
        (first | exact trivial | exact fun _ => rfl))
    | ((with_reducible refine Evolves.of_SetParameter _ _ _ ?_ _) <;>
        (first | exact trivial | exact ⟨_, rfl, by decide⟩))
    | with_reducible apply Evolves.bind
    | with_reducible apply Evolves.of_ite
    | (intro h; first | exact absurd h (by decide) | exact absurd rfl h)
    | intro _ _ _
    | intro _
    | split
    | (with_reducible dsimp only)

/-- The log entries of a tick of the Beam owner in state `BuildingBeamRedeemTX`. -/
theorem owner_tick_BuildingBeamRedeemTX (env : Env) (tx : AtomicSwapTransaction) :
    Evolves (Tick (ownerNext .BuildingBeamRedeemTX) (State.BuildingBeamRedeemTX = .SendingBeamLockTX)) False tx
      (AtomicSwapTransaction.UpdateImpl.BuildingBeamRedeemTX env tx).tx := by
  have hInner : ∀ e, Inner e → Tick (ownerNext .BuildingBeamRedeemTX) (State.BuildingBeamRedeemTX = .SendingBeamLockTX) e :=
    inner_tick _ _
  have hSending : ∀ e, Sending e → Tick (ownerNext .BuildingBeamRedeemTX) (State.BuildingBeamRedeemTX = .SendingBeamLockTX) e :=
    fun e h => inner_tick _ _ e (sending_inner e h)
  unfold AtomicSwapTransaction.UpdateImpl.BuildingBeamRedeemTX
  unfold AtomicSwapTransaction.SetNextState SetState AtomicSwapTransaction.UpdateAsync
  repeat' first
    | with_reducible exact Evolves.of_pure _ _
    | with_reducible exact Evolves.of_read _ _
    | with_reducible exact Evolves.of_raise _ _
    | with_reducible exact Evolves.of_GetParameter _ _ _ _
    | with_reducible exact Evolves.of_GetMandatoryParameter _ _ _ _
    | with_reducible exact Evolves.of_IsSender _
    | with_reducible exact Evolves.of_GetAmount _
    | with_reducible exact Evolves.of_assert _ _ _
    | with_reducible exact Evolves.mono (BuildBeamLockTx_inner _ _) hInner (fun h => h)
    | with_reducible exact Evolves.mono (BuildBeamRefundTx_inner _ _) hInner (fun h => h)
    | with_reducible exact Evolves.mono (BuildBeamRedeemTx_inner _ _) hInner (fun h => h)
    | with_reducible exact Evolves.mono (BuildLockTx_inner _ _) hInner (fun h => h)
    | with_reducible exact Evolves.mono (BuildWithdrawTx_REFUND_inner _) hInner (fun h => h)
    | with_reducible exact Evolves.mono (BuildWithdrawTx_REDEEM_inner _) hInner (fun h => h)
    | with_reducible exact Evolves.mono (RegisterExternalTx_inner _ _ _) hInner (fun h => h)
    | with_reducible exact Evolves.mono (GetSwapLockTxConfirmations_inner _) hInner (fun h => h)
    | with_reducible exact Evolves.mono (IsSubTxCompleted_inner _ _) hInner (fun h => h)
    | with_reducible exact Evolves.mono (GetPreimageFromChain_inner _) hInner (fun h => h)
    | with_reducible exact Evolves.mono (IsBeamLockTimeExpired_inner _ _) hInner (fun h => h)
    | with_reducible exact SendInvitation_evolves hSending _ _
    | with_reducible exact SendExternalTxDetails_evolves hSending _ _
    | ((with_reducible refine SendSubTx_evolves ?_ ?_ _ _) <;>
        (first | exact fun _ => trivial | exact fun _ => rfl | exact trivial))
    | ((with_reducible refine Evolves.of_emit _ ?_ ?_ _) <;>
        (first | exact trivial | exact fun _ => rfl))
    | ((with_reducible refine Evolves.of_SetParameter _ _ _ ?_ _) <;>
        (first | exact trivial | exact ⟨_, rfl, by decide⟩))
    | with_reducible apply Evolves.bind
    | with_reducible apply Evolves.of_ite
    | (intro h; first | exact absurd h (by decide) | exact absurd rfl h)
    | intro _ _ _
    | intro _
    | split
    | (with_reducible dsimp only)

/-- The log entries of a tick of the Beam owner in state `HandlingContractTX`. -/
theorem owner_tick_HandlingContractTX (env : Env) (tx : AtomicSwapTransaction) :
    Evolves (Tick (ownerNext .HandlingContractTX) (State.HandlingContractTX = .SendingBeamLockTX)) False tx
      (AtomicSwapTransaction.UpdateImpl.HandlingContractTX env true tx).tx := by
  have hInner : ∀ e, Inner e → Tick (ownerNext .HandlingContractTX) (State.HandlingContractTX = .SendingBeamLockTX) e :=
    inner_tick _ _
  have hSending : ∀ e, Sending e → Tick (ownerNext .HandlingContractTX) (State.HandlingContractTX = .SendingBeamLockTX) e :=
    fun e h => inner_tick _ _ e (sending_inner e h)
  unfold AtomicSwapTransaction.UpdateImpl.HandlingContractTX
  unfold AtomicSwapTransaction.SetNextState SetState AtomicSwapTransaction.UpdateAsync
  repeat' first
    | with_reducible exact Evolves.of_pure _ _
    | with_reducible exact Evolves.of_read _ _
    | with_reducible exact Evolves.of_raise _ _
    | with_reducible exact Evolves.of_GetParameter _ _ _ _
    | with_reducible exact Evolves.of_GetMandatoryParameter _ _ _ _
    | with_reducible exact Evolves.of_IsSender _
    | with_reducible exact Evolves.of_GetAmount _
    | with_reducible exact Evolves.of_assert _ _ _
    | with_reducible exact Evolves.mono (BuildBeamLockTx_inner _ _) hInner (fun h => h)
    | with_reducible exact Evolves.mono (BuildBeamRefundTx_inner _ _) hInner (fun h => h)
    | with_reducible exact Evolves.mono (BuildBeamRedeemTx_inner _ _) hInner (fun h => h)
    | with_reducible exact Evolves.mono (BuildLockTx_inner _ _) hInner (fun h => h)
    | with_reducible exact Evolves.mono (BuildWithdrawTx_REFUND_inner _) hInner (fun h => h)
    | with_reducible exact Evolves.mono (BuildWithdrawTx_REDEEM_inner _) hInner (fun h => h)
    | with_reducible exact Evolves.mono (RegisterExternalTx_inner _ _ _) hInner (fun h => h)
    | with_reducible exact Evolves.mono (GetSwapLockTxConfirmations_inner _) hInner (fun h => h)
    | with_reducible exact Evolves.mono (IsSubTxCompleted_inner _ _) hInner (fun h => h)
    | with_reducible exact Evolves.mono (GetPreimageFromChain_inner _) hInner (fun h => h)
    | with_reducible exact Evolves.mono (IsBeamLockTimeExpired_inner _ _) hInner (fun h => h)
    | with_reducible exact SendInvitation_evolves hSending _ _
    | with_reducible exact SendExternalTxDetails_evolves hSending _ _
    | ((with_reducible refine SendSubTx_evolves ?_ ?_ _ _) <;>
        (first | exact fun _ => trivial | exact fun _ => rfl | exact trivial))
    | ((with_reducible refine Evolves.of_emit _ ?_ ?_ _) <;>
        (first | exact trivial | exact fun _ => rfl))
    | ((with_reducible refine Evolves.of_SetParameter _ _ _ ?_ _) <;>
        (first | exact trivial | exact ⟨_, rfl, by decide⟩))
    | with_reducible apply Evolves.bind
    | with_reducible apply Evolves.of_ite
    | (intro h; first | exact absurd h (by decide) | exact absurd rfl h)
    | intro _ _ _
    | intro _
    | split
    | (with_reducible dsimp only)

/-- The log entries of a tick of the Beam owner in state `SendingRefundTX`. -/
theorem owner_tick_SendingRefundTX (tx : AtomicSwapTransaction) :
    Evolves (Tick (ownerNext .SendingRefundTX) (State.SendingRefundTX = .SendingBeamLockTX)) False tx
      (AtomicSwapTransaction.UpdateImpl.SendingRefundTX tx).tx := by
  have hInner : ∀ e, Inner e → Tick (ownerNext .SendingRefundTX) (State.SendingRefundTX = .SendingBeamLockTX) e :=
    inner_tick _ _
  have hSending : ∀ e, Sending e → Tick (ownerNext .SendingRefundTX) (State.SendingRefundTX = .SendingBeamLockTX) e :=
    fun e h => inner_tick _ _ e (sending_inner e h)
  unfold AtomicSwapTransaction.UpdateImpl.SendingRefundTX
  repeat' first
    | with_reducible exact Evolves.of_pure _ _
    | with_reducible exact Evolves.of_read _ _
    | with_reducible exact Evolves.of_raise _ _
    | with_reducible exact Evolves.of_GetParameter _ _ _ _
    | with_reducible exact Evolves.of_GetMandatoryParameter _ _ _ _
    | with_reducible exact Evolves.of_IsSender _
    | with_reducible exact Evolves.of_GetAmount _
    | with_reducible exact Evolves.of_assert _ _ _
    | with_reducible exact Evolves.mono (BuildBeamLockTx_inner _ _) hInner (fun h => h)
    | with_reducible exact Evolves.mono (BuildBeamRefundTx_inner _ _) hInner (fun h => h)
    | with_reducible exact Evolves.mono (BuildBeamRedeemTx_inner _ _) hInner (fun h => h)
    | with_reducible exact Evolves.mono (BuildLockTx_inner _ _) hInner (fun h => h)
    | with_reducible exact Evolves.mono (BuildWithdrawTx_REFUND_inner _) hInner (fun h => h)
    | with_reducible exact Evolves.mono (BuildWithdrawTx_REDEEM_inner _) hInner (fun h => h)
    | with_reducible exact Evolves.mono (RegisterExternalTx_inner _ _ _) hInner (fun h => h)
    | with_reducible exact Evolves.mono (GetSwapLockTxConfirmations_inner _) hInner (fun h => h)
    | with_reducible exact Evolves.mono (IsSubTxCompleted_inner _ _) hInner (fun h => h)
    | with_reducible exact Evolves.mono (GetPreimageFromChain_inner _) hInner (fun h => h)
    | with_reducible exact Evolves.mono (IsBeamLockTimeExpired_inner _ _) hInner (fun h => h)
    | with_reducible exact SendInvitation_evolves hSending _ _
    | with_reducible exact SendExternalTxDetails_evolves hSending _ _
    | ((with_reducible refine SendSubTx_evolves ?_ ?_ _ _) <;>
        (first | exact fun _ => trivial | exact fun _ => rfl | exact trivial))
    | ((with_reducible refine Evolves.of_emit _ ?_ ?_ _) <;>
        (first | exact trivial | exact fun _ => rfl))
    | ((with_reducible refine Evolves.of_SetParameter _ _ _ ?_ _) <;>
        (first | exact trivial | exact ⟨_, rfl, by decide⟩))
    | with_reducible apply Evolves.bind
    | with_reducible apply Evolves.of_ite
    | (intro h; first | exact absurd h (by decide) | exact absurd rfl h)
    | intro _ _ _
    | intro _
    | split
    | (with_reducible dsimp only)

/-- The log entries of a tick of the Beam owner in state `SendingRedeemTX`. -/
theorem owner_tick_SendingRedeemTX (tx : AtomicSwapTransaction) :
    Evolves (Tick (ownerNext .SendingRedeemTX) (State.SendingRedeemTX = .SendingBeamLockTX)) False tx
      (AtomicSwapTransaction.UpdateImpl.SendingRedeemTX tx).tx := by
  have hInner : ∀ e, Inner e → Tick (ownerNext .SendingRedeemTX) (State.SendingRedeemTX = .SendingBeamLockTX) e :=
    inner_tick _ _
  have hSending : ∀ e, Sending e → Tick (ownerNext .SendingRedeemTX) (State.SendingRedeemTX = .SendingBeamLockTX) e :=
    fun e h => inner_tick _ _ e (sending_inner e h)
  unfold AtomicSwapTransaction.UpdateImpl.SendingRedeemTX
  repeat' first
    | with_reducible exact Evolves.of_pure _ _
    | with_reducible exact Evolves.of_read _ _
    | with_reducible exact Evolves.of_raise _ _
    | with_reducible exact Evolves.of_GetParameter _ _ _ _
    | with_reducible exact Evolves.of_GetMandatoryParameter _ _ _ _
    | with_reducible exact Evolves.of_IsSender _
    | with_reducible exact Evolves.of_GetAmount _
    | with_reducible exact Evolves.of_assert _ _ _
    | with_reducible exact Evolves.mono (BuildBeamLockTx_inner _ _) hInner (fun h => h)
    | with_reducible exact Evolves.mono (BuildBeamRefundTx_inner _ _) hInner (fun h => h)
    | with_reducible exact Evolves.mono (BuildBeamRedeemTx_inner _ _) hInner (fun h => h)
    | with_reducible exact Evolves.mono (BuildLockTx_inner _ _) hInner (fun h => h)
    | with_reducible exact Evolves.mono (BuildWithdrawTx_REFUND_inner _) hInner (fun h => h)
    | with_reducible exact Evolves.mono (BuildWithdrawTx_REDEEM_inner _) hInner (fun h => h)
    | with_reducible exact Evolves.mono (RegisterExternalTx_inner _ _ _) hInner (fun h => h)
    | with_reducible exact Evolves.mono (GetSwapLockTxConfirmations_inner _) hInner (fun h => h)
    | with_reducible exact Evolves.mono (IsSubTxCompleted_inner _ _) hInner (fun h => h)
    | with_reducible exact Evolves.mono (GetPreimageFromChain_inner _) hInner (fun h => h)
    | with_reducible exact Evolves.mono (IsBeamLockTimeExpired_inner _ _) hInner (fun h => h)
    | with_reducible exact SendInvitation_evolves hSending _ _
    | with_reducible exact SendExternalTxDetails_evolves hSending _ _
    | ((with_reducible refine SendSubTx_evolves ?_ ?_ _ _) <;>
        (first | exact fun _ => trivial | exact fun _ => rfl | exact trivial))
    | ((with_reducible refine Evolves.of_emit _ ?_ ?_ _) <;>
        (first | exact trivial | exact fun _ => rfl))
    | ((with_reducible refine Evolves.of_SetParameter _ _ _ ?_ _) <;>
        (first | exact trivial | exact ⟨_, rfl, by decide⟩))
    | with_reducible apply Evolves.bind
    | with_reducible apply Evolves.of_ite
    | (intro h; first | exact absurd h (by decide) | exact absurd rfl h)
    | intro _ _ _
    | intro _
    | split
    | (with_reducible dsimp only)

/-- The log entries of a tick of the Beam owner in state `SendingBeamLockTX`. -/
theorem owner_tick_SendingBeamLockTX (tx : AtomicSwapTransaction) :
    Evolves (Tick (ownerNext .SendingBeamLockTX) (State.SendingBeamLockTX = .SendingBeamLockTX)) False tx
      (AtomicSwapTransaction.UpdateImpl.SendingBeamLockTX tx).tx := by
  have hInner : ∀ e, Inner e → Tick (ownerNext .SendingBeamLockTX) (State.SendingBeamLockTX = .SendingBeamLockTX) e :=
    inner_tick _ _
  have hSending : ∀ e, Sending e → Tick (ownerNext .SendingBeamLockTX) (State.SendingBeamLockTX = .SendingBeamLockTX) e :=
    fun e h => inner_tick _ _ e (sending_inner e h)
  unfold AtomicSwapTransaction.UpdateImpl.SendingBeamLockTX
  unfold AtomicSwapTransaction.SetNextState SetState AtomicSwapTransaction.UpdateAsync
  repeat' first
    | with_reducible exact Evolves.of_pure _ _
    | with_reducible exact Evolves.of_read _ _
    | with_reducible exact Evolves.of_raise _ _
    | with_reducible exact Evolves.of_GetParameter _ _ _ _
    | with_reducible exact Evolves.of_GetMandatoryParameter _ _ _ _
    | with_reducible exact Evolves.of_IsSender _
    | with_reducible exact Evolves.of_GetAmount _
    | with_reducible exact Evolves.of_assert _ _ _
    | with_reducible exact Evolves.mono (BuildBeamLockTx_inner _ _) hInner (fun h => h)
    | with_reducible exact Evolves.mono (BuildBeamRefundTx_inner _ _) hInner (fun h => h)
    | with_reducible exact Evolves.mono (BuildBeamRedeemTx_inner _ _) hInner (fun h => h)
    | with_reducible exact Evolves.mono (BuildLockTx_inner _ _) hInner (fun h => h)
    | with_reducible exact Evolves.mono (BuildWithdrawTx_REFUND_inner _) hInner (fun h => h)
    | with_reducible exact Evolves.mono (BuildWithdrawTx_REDEEM_inner _) hInner (fun h => h)
    | with_reducible exact Evolves.mono (RegisterExternalTx_inner _ _ _) hInner (fun h => h)
    | with_reducible exact Evolves.mono (GetSwapLockTxConfirmations_inner _) hInner (fun h => h)
    | with_reducible exact Evolves.mono (IsSubTxCompleted_inner _ _) hInner (fun h => h)
    | with_reducible exact Evolves.mono (GetPreimageFromChain_inner _) hInner (fun h => h)
    | with_reducible exact Evolves.mono (IsBeamLockTimeExpired_inner _ _) hInner (fun h => h)
    | with_reducible exact SendInvitation_evolves hSending _ _
    | with_reducible exact SendExternalTxDetails_evolves hSending _ _
    | ((with_reducible refine SendSubTx_evolves ?_ ?_ _ _) <;>
        (first | exact fun _ => trivial | exact fun _ => rfl | exact trivial))
    | ((with_reducible refine Evolves.of_emit _ ?_ ?_ _) <;>
        (first | exact trivial | exact fun _ => rfl))
    | ((with_reducible refine Evolves.of_SetParameter _ _ _ ?_ _) <;>
        (first | exact trivial | exact ⟨_, rfl, by decide⟩))
    | with_reducible apply Evolves.bind
    | with_reducible apply Evolves.of_ite
    | (intro h; first | exact absurd h (by decide) | exact absurd rfl h)
    | intro _ _ _
    | intro _
    | split
    | (with_reducible dsimp only)

/-- The log entries of a tick of the Beam owner in state `SendingBeamRedeemTX`. -/
theorem owner_tick_SendingBeamRedeemTX (env : Env) (tx : AtomicSwapTransaction) :
    Evolves (Tick (ownerNext .SendingBeamRedeemTX) (State.SendingBeamRedeemTX = .SendingBeamLockTX)) False tx
      (AtomicSwapTransaction.UpdateImpl.SendingBeamRedeemTX env true tx).tx := by
  have hInner : ∀ e, Inner e → Tick (ownerNext .SendingBeamRedeemTX) (State.SendingBeamRedeemTX = .SendingBeamLockTX) e :=
    inner_tick _ _
  have hSending : ∀ e, Sending e → Tick (ownerNext .SendingBeamRedeemTX) (State.SendingBeamRedeemTX = .SendingBeamLockTX) e :=
    fun e h => inner_tick _ _ e (sending_inner e h)
  unfold AtomicSwapTransaction.UpdateImpl.SendingBeamRedeemTX
  unfold AtomicSwapTransaction.SetNextState SetState AtomicSwapTransaction.UpdateAsync
  repeat' first
    | with_reducible exact Evolves.of_pure _ _
    | with_reducible exact Evolves.of_read _ _
    | with_reducible exact Evolves.of_raise _ _
    | with_reducible exact Evolves.of_GetParameter _ _ _ _
    | with_reducible exact Evolves.of_GetMandatoryParameter _ _ _ _
    | with_reducible exact Evolves.of_IsSender _
    | with_reducible exact Evolves.of_GetAmount _
    | with_reducible exact Evolves.of_assert _ _ _
    | with_reducible exact Evolves.mono (BuildBeamLockTx_inner _ _) hInner (fun h => h)
    | with_reducible exact Evolves.mono (BuildBeamRefundTx_inner _ _) hInner (fun h => h)
    | with_reducible exact Evolves.mono (BuildBeamRedeemTx_inner _ _) hInner (fun h => h)
    | with_reducible exact Evolves.mono (BuildLockTx_inner _ _) hInner (fun h => h)
    | with_reducible exact Evolves.mono (BuildWithdrawTx_REFUND_inner _) hInner (fun h => h)
    | with_reducible exact Evolves.mono (BuildWithdrawTx_REDEEM_inner _) hInner (fun h => h)
    | with_reducible exact Evolves.mono (RegisterExternalTx_inner _ _ _) hInner (fun h => h)
    | with_reducible exact Evolves.mono (GetSwapLockTxConfirmations_inner _) hInner (fun h => h)
    | with_reducible exact Evolves.mono (IsSubTxCompleted_inner _ _) hInner (fun h => h)
    | with_reducible exact Evolves.mono (GetPreimageFromChain_inner _) hInner (fun h => h)
    | with_reducible exact Evolves.mono (IsBeamLockTimeExpired_inner _ _) hInner (fun h => h)
    | with_reducible exact SendInvitation_evolves hSending _ _
    | with_reducible exact SendExternalTxDetails_evolves hSending _ _
    | ((with_reducible refine SendSubTx_evolves ?_ ?_ _ _) <;>
        (first | exact fun _ => trivial | exact fun _ => rfl | exact trivial))
    | ((with_reducible refine Evolves.of_emit _ ?_ ?_ _) <;>
        (first | exact trivial | exact fun _ => rfl))
    | ((with_reducible refine Evolves.of_SetParameter _ _ _ ?_ _) <;>
        (first | exact trivial | exact ⟨_, rfl, by decide⟩))
    | with_reducible apply Evolves.bind
    | with_reducible apply Evolves.of_ite
    | (intro h; first | exact absurd h (by decide) | exact absurd rfl h)
    | intro _ _ _
    | intro _
    | split
    | (with_reducible dsimp only)

/-- The log entries of a tick of the Beam owner in state `SendingBeamRefundTX`. -/
theorem owner_tick_SendingBeamRefundTX (tx : AtomicSwapTransaction) :
    Evolves (Tick (ownerNext .SendingBeamRefundTX) (State.SendingBeamRefundTX = .SendingBeamLockTX)) False tx
      (AtomicSwapTransaction.UpdateImpl.SendingBeamRefundTX true tx).tx := by
  have hInner : ∀ e, Inner e → Tick (ownerNext .SendingBeamRefundTX) (State.SendingBeamRefundTX = .SendingBeamLockTX) e :=
    inner_tick _ _
  have hSending : ∀ e, Sending e → Tick (ownerNext .SendingBeamRefundTX) (State.SendingBeamRefundTX = .SendingBeamLockTX) e :=
    fun e h => inner_tick _ _ e (sending_inner e h)
  unfold AtomicSwapTransaction.UpdateImpl.SendingBeamRefundTX
  unfold AtomicSwapTransaction.SetNextState SetState AtomicSwapTransaction.UpdateAsync
  repeat' first
    | with_reducible exact Evolves.of_pure _ _
    | with_reducible exact Evolves.of_read _ _
    | with_reducible exact Evolves.of_raise _ _
    | with_reducible exact Evolves.of_GetParameter _ _ _ _
    | with_reducible exact Evolves.of_GetMandatoryParameter _ _ _ _
    | with_reducible exact Evolves.of_IsSender _
    | with_reducible exact Evolves.of_GetAmount _
    | with_reducible exact Evolves.of_assert _ _ _
    | with_reducible exact Evolves.mono (BuildBeamLockTx_inner _ _) hInner (fun h => h)
    | with_reducible exact Evolves.mono (BuildBeamRefundTx_inner _ _) hInner (fun h => h)
    | with_reducible exact Evolves.mono (BuildBeamRedeemTx_inner _ _) hInner (fun h => h)
    | with_reducible exact Evolves.mono (BuildLockTx_inner _ _) hInner (fun h => h)
    | with_reducible exact Evolves.mono (BuildWithdrawTx_REFUND_inner _) hInner (fun h => h)
    | with_reducible exact Evolves.mono (BuildWithdrawTx_REDEEM_inner _) hInner (fun h => h)
    | with_reducible exact Evolves.mono (RegisterExternalTx_inner _ _ _) hInner (fun h => h)
    | with_reducible exact Evolves.mono (GetSwapLockTxConfirmations_inner _) hInner (fun h => h)
    | with_reducible exact Evolves.mono (IsSubTxCompleted_inner _ _) hInner (fun h => h)
    | with_reducible exact Evolves.mono (GetPreimageFromChain_inner _) hInner (fun h => h)
    | with_reducible exact Evolves.mono (IsBeamLockTimeExpired_inner _ _) hInner (fun h => h)
    | with_reducible exact SendInvitation_evolves hSending _ _
    | with_reducible exact SendExternalTxDetails_evolves hSending _ _
    | ((with_reducible refine SendSubTx_evolves ?_ ?_ _ _) <;>
        (first | exact fun _ => trivial | exact fun _ => rfl | exact trivial))
    | ((with_reducible refine Evolves.of_emit _ ?_ ?_ _) <;>
        (first | exact trivial | exact fun _ => rfl))
    | ((with_reducible refine Evolves.of_SetParameter _ _ _ ?_ _) <;>
        (first | exact trivial | exact ⟨_, rfl, by decide⟩))
    | with_reducible apply Evolves.bind
    | with_reducible apply Evolves.of_ite
    | (intro h; first | exact absurd h (by decide) | exact absurd rfl h)
    | intro _ _ _
    | intro _
    | split
    | (with_reducible dsimp only)

/-- The log entries of a tick of the Beam owner in state `CompleteSwap`. -/
theorem owner_tick_CompleteSwap (tx : AtomicSwapTransaction) :
    Evolves (Tick (ownerNext .CompleteSwap) (State.CompleteSwap = .SendingBeamLockTX)) False tx
      (AtomicSwapTransaction.UpdateImpl.CompleteSwap tx).tx := by
  have hInner : ∀ e, Inner e → Tick (ownerNext .CompleteSwap) (State.CompleteSwap = .SendingBeamLockTX) e :=
    inner_tick _ _
  have hSending : ∀ e, Sending e → Tick (ownerNext .CompleteSwap) (State.CompleteSwap = .SendingBeamLockTX) e :=
    fun e h => inner_tick _ _ e (sending_inner e h)
  unfold AtomicSwapTransaction.UpdateImpl.CompleteSwap
  unfold UpdateTxDescription
  repeat' first
    | with_reducible exact Evolves.of_pure _ _
    | with_reducible exact Evolves.of_read _ _
    | with_reducible exact Evolves.of_raise _ _
    | with_reducible exact Evolves.of_GetParameter _ _ _ _
    | with_reducible exact Evolves.of_GetMandatoryParameter _ _ _ _
    | with_reducible exact Evolves.of_IsSender _
    | with_reducible exact Evolves.of_GetAmount _
    | with_reducible exact Evolves.of_assert _ _ _
    | with_reducible exact Evolves.mono (BuildBeamLockTx_inner _ _) hInner (fun h => h)
    | with_reducible exact Evolves.mono (BuildBeamRefundTx_inner _ _) hInner (fun h => h)
    | with_reducible exact Evolves.mono (BuildBeamRedeemTx_inner _ _) hInner (fun h => h)
    | with_reducible exact Evolves.mono (BuildLockTx_inner _ _) hInner (fun h => h)
    | with_reducible exact Evolves.mono (BuildWithdrawTx_REFUND_inner _) hInner (fun h => h)
    | with_reducible exact Evolves.mono (BuildWithdrawTx_REDEEM_inner _) hInner (fun h => h)
    | with_reducible exact Evolves.mono (RegisterExternalTx_inner _ _ _) hInner (fun h => h)
    | with_reducible exact Evolves.mono (GetSwapLockTxConfirmations_inner _) hInner (fun h => h)
    | with_reducible exact Evolves.mono (IsSubTxCompleted_inner _ _) hInner (fun h => h)
    | with_reducible exact Evolves.mono (GetPreimageFromChain_inner _) hInner (fun h => h)
    | with_reducible exact Evolves.mono (IsBeamLockTimeExpired_inner _ _) hInner (fun h => h)
    | with_reducible exact SendInvitation_evolves hSending _ _
    | with_reducible exact SendExternalTxDetails_evolves hSending _ _
    | ((with_reducible refine SendSubTx_evolves ?_ ?_ _ _) <;>
        (first | exact fun _ => trivial | exact fun _ => rfl | exact trivial))
    | ((with_reducible refine Evolves.of_emit _ ?_ ?_ _) <;>
        (first | exact trivial | exact fun _ => rfl))
    | ((with_reducible refine Evolves.of_SetParameter _ _ _ ?_ _) <;>
        (first | exact trivial | exact ⟨_, rfl, by decide⟩))
    | with_reducible apply Evolves.bind
    | with_reducible apply Evolves.of_ite
    | (intro h; first | exact absurd h (by decide) | exact absurd rfl h)
    | intro _ _ _
    | intro _
    | split
    | (with_reducible dsimp only)

/-! ## Rules for `Keeps` -/

section keeps
variable {α β : Type} {P : Effect → Prop}

theorem Keeps.keeps_refl (tx : AtomicSwapTransaction) : Keeps P tx tx :=
  ⟨⟨[], by simp, rfl, by simp⟩, rfl, rfl⟩

theorem Keeps.keeps_trans {a b c : AtomicSwapTransaction} (h1 : Keeps P a b) (h2 : Keeps P b c) :
    Keeps P a c := by
  obtain ⟨l1, e1, r1, p1⟩ := h1.log
  obtain ⟨l2, e2, r2, p2⟩ := h2.log
  refine ⟨⟨l1 ++ l2, ?_, ?_, ?_⟩, h2.cache.trans h1.cache,
    h2.confirmations.trans h1.confirmations⟩
  · rw [e2, e1, List.append_assoc]
  · rw [r2, r1, replay_append]
  · intro e he
    rcases List.mem_append.mp he with h | h
    · exact p1 e h
    · exact p2 e h

/-- Sequencing: the second step starts where the first returned. -/
theorem Keeps.keeps_bind {x : M α} {f : α → M β} {tx : AtomicSwapTransaction}
    (hx : Keeps P tx (x tx).tx)
    (hf : ∀ a tx', x tx = .ok a tx' → Keeps P tx' (f a tx').tx) :
    Keeps P tx ((x >>= f) tx).tx := by
  simp only [M.bind_apply]
  cases h : x tx with
  | ok a tx' =>
    rw [h] at hx
    exact Keeps.keeps_trans hx (hf a tx' h)
  | fail e tx' =>
    rw [h] at hx
    exact hx

theorem Keeps.keeps_pure (a : α) (tx : AtomicSwapTransaction) :
    Keeps P tx ((pure a : M α) tx).tx := Keeps.keeps_refl tx

theorem Keeps.keeps_read (f : AtomicSwapTransaction → α) (tx : AtomicSwapTransaction) :
    Keeps P tx (M.read f tx).tx := Keeps.keeps_refl tx

theorem Keeps.keeps_raise (e : Exc) (tx : AtomicSwapTransaction) :
    Keeps P tx ((M.raise e : M α) tx).tx := Keeps.keeps_refl tx

theorem Keeps.keeps_GetMandatoryParameter (proj : Value → Option α) (id : TxParameterID)
    (subTxID : SubTxID) (tx : AtomicSwapTransaction) :
    Keeps P tx (GetMandatoryParameter proj id subTxID tx).tx := by
  unfold GetMandatoryParameter
  split <;> exact Keeps.keeps_refl tx

theorem Keeps.keeps_assert (line : Nat) (c : Bool) (tx : AtomicSwapTransaction) :
    Keeps P tx (M.assert line c tx).tx := by
  cases c <;> exact Keeps.keeps_refl tx

theorem Keeps.keeps_emit (e : Effect) (h : P e) (hw : ∀ s, replay [e] s = s)
    (tx : AtomicSwapTransaction) : Keeps P tx (M.emit e tx).tx :=
  ⟨⟨[e], rfl, (hw _).symm, by simpa using h⟩, rfl, rfl⟩

theorem Keeps.keeps_SetParameter (id : TxParameterID) (v : Value) (subTxID : SubTxID)
    (h : P (.SetParameter subTxID id v)) (tx : AtomicSwapTransaction) :
    Keeps P tx (SetParameter id v subTxID tx).tx :=
  ⟨⟨[.SetParameter subTxID id v], rfl, rfl, by simpa using h⟩, rfl, rfl⟩

/-- An assignment to a member other than the store, the log, the role cache and
the confirmation count. -/
theorem Keeps.keeps_modify (f : AtomicSwapTransaction → AtomicSwapTransaction)
    (tx : AtomicSwapTransaction) (h1 : (f tx).log = tx.log) (h2 : (f tx).params = tx.params)
    (h3 : (f tx).m_IsSender = tx.m_IsSender)
    (h4 : (f tx).m_SwapLockTxConfirmations = tx.m_SwapLockTxConfirmations) :
    Keeps P tx (M.modify f tx).tx :=
  ⟨⟨[], by simpa using h1, h2, by simp⟩, h3, h4⟩

theorem Keeps.keeps_ite {c : Prop} [Decidable c] {x y : M α} {tx : AtomicSwapTransaction}
    (hx : c → Keeps P tx (x tx).tx) (hy : ¬ c → Keeps P tx (y tx).tx) :
    Keeps P tx ((if c then x else y) tx).tx := by
  split
  · exact hx ‹_›
  · exact hy ‹_›

end keeps

/-- `CreateAtomicSwapContract` only reads. -/
theorem CreateAtomicSwapContract_keeps {P : Effect → Prop} (env : Env)
    (tx : AtomicSwapTransaction) : Keeps P tx (CreateAtomicSwapContract env tx).tx := by
  unfold CreateAtomicSwapContract
  repeat' first
    | with_reducible exact Keeps.keeps_pure _ _
    | with_reducible exact Keeps.keeps_read _ _
    | with_reducible exact Keeps.keeps_raise _ _
    | with_reducible exact Keeps.keeps_GetMandatoryParameter _ _ _ _
    | with_reducible exact Keeps.keeps_assert _ _ _
    | ((with_reducible refine Keeps.keeps_emit _ ?_ ?_ _) <;>
        (first | exact trivial | exact fun _ => rfl))
    | ((with_reducible refine Keeps.keeps_SetParameter _ _ _ ?_ _) <;>
        (first | exact trivial | exact ⟨_, rfl, by decide⟩))
    | ((with_reducible refine Keeps.keeps_modify _ _ ?_ ?_ ?_ ?_) <;> rfl)
    | with_reducible apply Keeps.keeps_bind
    | with_reducible apply Keeps.keeps_ite
    | intro _ _ _
    | intro _
    | split
    | (with_reducible dsimp only)
    | (generalize set_script_of_first_input _ _ = o; cases o)

/-- The log entries of `OnGetRawChangeAddress`. -/
theorem OnGetRawChangeAddress_keeps (response : Option String) (tx : AtomicSwapTransaction) :
    Keeps (Reply [.Invitation]) tx (AtomicSwapTransaction.OnGetRawChangeAddress response tx).tx := by
  unfold AtomicSwapTransaction.OnGetRawChangeAddress
  try unfold AtomicSwapTransaction.SetNextState
  try unfold SetState
  try unfold AtomicSwapTransaction.UpdateAsync
  repeat' first
    | with_reducible exact Keeps.keeps_pure _ _
    | with_reducible exact Keeps.keeps_read _ _
    | with_reducible exact Keeps.keeps_raise _ _
    | with_reducible exact Keeps.keeps_GetMandatoryParameter _ _ _ _
    | with_reducible exact Keeps.keeps_assert _ _ _
    | with_reducible exact CreateAtomicSwapContract_keeps _ _
    | ((with_reducible refine Keeps.keeps_emit _ ?_ ?_ _) <;>
        (first | exact trivial | exact fun _ => rfl))
    | ((with_reducible refine Keeps.keeps_SetParameter _ _ _ ?_ _) <;>
        (first | exact trivial | exact ⟨_, rfl, by decide⟩))
    | ((with_reducible refine Keeps.keeps_modify _ _ ?_ ?_ ?_ ?_) <;> rfl)
    | with_reducible apply Keeps.keeps_bind
    | with_reducible apply Keeps.keeps_ite
    | intro _ _ _
    | intro _
    | split
    | (with_reducible dsimp only)
    | (generalize set_script_of_first_input _ _ = o; cases o)

/-- The log entries of `OnFundRawTransaction`. -/
theorem OnFundRawTransaction_keeps (response : Option (String × Int)) (tx : AtomicSwapTransaction) :
    Keeps (Reply []) tx (AtomicSwapTransaction.OnFundRawTransaction response tx).tx := by
  unfold AtomicSwapTransaction.OnFundRawTransaction
  try unfold AtomicSwapTransaction.SetNextState
  try unfold SetState
  try unfold AtomicSwapTransaction.UpdateAsync
  repeat' first
    | with_reducible exact Keeps.keeps_pure _ _
    | with_reducible exact Keeps.keeps_read _ _
    | with_reducible exact Keeps.keeps_raise _ _
    | with_reducible exact Keeps.keeps_GetMandatoryParameter _ _ _ _
    | with_reducible exact Keeps.keeps_assert _ _ _
    | with_reducible exact CreateAtomicSwapContract_keeps _ _
    | ((with_reducible refine Keeps.keeps_emit _ ?_ ?_ _) <;>
        (first | exact trivial | exact fun _ => rfl))
    | ((with_reducible refine Keeps.keeps_SetParameter _ _ _ ?_ _) <;>
        (first | exact trivial | exact ⟨_, rfl, by decide⟩))
    | ((with_reducible refine Keeps.keeps_modify _ _ ?_ ?_ ?_ ?_) <;> rfl)
    | with_reducible apply Keeps.keeps_bind
    | with_reducible apply Keeps.keeps_ite
    | intro _ _ _
    | intro _
    | split
    | (with_reducible dsimp only)
    | (generalize set_script_of_first_input _ _ = o; cases o)

/-- The log entries of `OnSignLockTransaction`. -/
theorem OnSignLockTransaction_keeps (response : Option (String × Bool)) (tx : AtomicSwapTransaction) :
    Keeps (Reply []) tx (AtomicSwapTransaction.OnSignLockTransaction response tx).tx := by
  unfold AtomicSwapTransaction.OnSignLockTransaction
  try unfold AtomicSwapTransaction.SetNextState
  try unfold SetState
  try unfold AtomicSwapTransaction.UpdateAsync
  repeat' first
    | with_reducible exact Keeps.keeps_pure _ _
    | with_reducible exact Keeps.keeps_read _ _
    | with_reducible exact Keeps.keeps_raise _ _
    | with_reducible exact Keeps.keeps_GetMandatoryParameter _ _ _ _
    | with_reducible exact Keeps.keeps_assert _ _ _
    | with_reducible exact CreateAtomicSwapContract_keeps _ _
    | ((with_reducible refine Keeps.keeps_emit _ ?_ ?_ _) <;>
        (first | exact trivial | exact fun _ => rfl))
    | ((with_reducible refine Keeps.keeps_SetParameter _ _ _ ?_ _) <;>
        (first | exact trivial | exact ⟨_, rfl, by decide⟩))
    | ((with_reducible refine Keeps.keeps_modify _ _ ?_ ?_ ?_ ?_) <;> rfl)
    | with_reducible apply Keeps.keeps_bind
    | with_reducible apply Keeps.keeps_ite
    | intro _ _ _
    | intro _
    | split
    | (with_reducible dsimp only)
    | (generalize set_script_of_first_input _ _ = o; cases o)

/-- The log entries of `OnCreateRefundTransaction`. -/
theorem OnCreateRefundTransaction_keeps (response : Option String) (tx : AtomicSwapTransaction) :
    Keeps (Reply []) tx (AtomicSwapTransaction.OnCreateRefundTransaction response tx).tx := by
  unfold AtomicSwapTransaction.OnCreateRefundTransaction
  try unfold AtomicSwapTransaction.SetNextState
  try unfold SetState
  try unfold AtomicSwapTransaction.UpdateAsync
  repeat' first
    | with_reducible exact Keeps.keeps_pure _ _
    | with_reducible exact Keeps.keeps_read _ _
    | with_reducible exact Keeps.keeps_raise _ _
    | with_reducible exact Keeps.keeps_GetMandatoryParameter _ _ _ _
    | with_reducible exact Keeps.keeps_assert _ _ _
    | with_reducible exact CreateAtomicSwapContract_keeps _ _
    | ((with_reducible refine Keeps.keeps_emit _ ?_ ?_ _) <;>
        (first | exact trivial | exact fun _ => rfl))
    | ((with_reducible refine Keeps.keeps_SetParameter _ _ _ ?_ _) <;>
        (first | exact trivial | exact ⟨_, rfl, by decide⟩))
    | ((with_reducible refine Keeps.keeps_modify _ _ ?_ ?_ ?_ ?_) <;> rfl)
    | with_reducible apply Keeps.keeps_bind
    | with_reducible apply Keeps.keeps_ite
    | intro _ _ _
    | intro _
    | split
    | (with_reducible dsimp only)
    | (generalize set_script_of_first_input _ _ = o; cases o)

/-- The log entries of `OnDumpSenderPrivateKey`. -/
theorem OnDumpSenderPrivateKey_keeps (env : Env) (response : Option String) (tx : AtomicSwapTransaction) :
    Keeps (Reply []) tx (AtomicSwapTransaction.OnDumpSenderPrivateKey env response tx).tx := by
  unfold AtomicSwapTransaction.OnDumpSenderPrivateKey
  try unfold AtomicSwapTransaction.SetNextState
  try unfold SetState
  try unfold AtomicSwapTransaction.UpdateAsync
  repeat' first
    | with_reducible exact Keeps.keeps_pure _ _
    | with_reducible exact Keeps.keeps_read _ _
    | with_reducible exact Keeps.keeps_raise _ _
    | with_reducible exact Keeps.keeps_GetMandatoryParameter _ _ _ _
    | with_reducible exact Keeps.keeps_assert _ _ _
    | with_reducible exact CreateAtomicSwapContract_keeps _ _
    | ((with_reducible refine Keeps.keeps_emit _ ?_ ?_ _) <;>
        (first | exact trivial | exact fun _ => rfl))
    | ((with_reducible refine Keeps.keeps_SetParameter _ _ _ ?_ _) <;>
        (first | exact trivial | exact ⟨_, rfl, by decide⟩))
    | ((with_reducible refine Keeps.keeps_modify _ _ ?_ ?_ ?_ ?_) <;> rfl)
    | with_reducible apply Keeps.keeps_bind
    | with_reducible apply Keeps.keeps_ite
    | intro _ _ _
    | intro _
    | split
    | (with_reducible dsimp only)
    | (generalize set_script_of_first_input _ _ = o; cases o)

/-- The log entries of `OnDumpReceiverPrivateKey`. -/
theorem OnDumpReceiverPrivateKey_keeps (env : Env) (response : Option String) (tx : AtomicSwapTransaction) :
    Keeps (Reply []) tx (AtomicSwapTransaction.OnDumpReceiverPrivateKey env response tx).tx := by
  unfold AtomicSwapTransaction.OnDumpReceiverPrivateKey
  try unfold AtomicSwapTransaction.SetNextState
  try unfold SetState
  try unfold AtomicSwapTransaction.UpdateAsync
  repeat' first
    | with_reducible exact Keeps.keeps_pure _ _
    | with_reducible exact Keeps.keeps_read _ _
    | with_reducible exact Keeps.keeps_raise _ _
    | with_reducible exact Keeps.keeps_GetMandatoryParameter _ _ _ _
    | with_reducible exact Keeps.keeps_assert _ _ _
    | with_reducible exact CreateAtomicSwapContract_keeps _ _
    | ((with_reducible refine Keeps.keeps_emit _ ?_ ?_ _) <;>
        (first | exact trivial | exact fun _ => rfl))
    | ((with_reducible refine Keeps.keeps_SetParameter _ _ _ ?_ _) <;>
        (first | exact trivial | exact ⟨_, rfl, by decide⟩))
    | ((with_reducible refine Keeps.keeps_modify _ _ ?_ ?_ ?_ ?_) <;> rfl)
    | with_reducible apply Keeps.keeps_bind
    | with_reducible apply Keeps.keeps_ite
    | intro _ _ _
    | intro _
    | split
    | (with_reducible dsimp only)
    | (generalize set_script_of_first_input _ _ = o; cases o)

/-- The log entries of `OnSendRawTransaction`. -/
theorem OnSendRawTransaction_keeps (subTxID : SubTxID) (txID : String) (tx : AtomicSwapTransaction) :
    Keeps (Reply []) tx (AtomicSwapTransaction.OnSendRawTransaction subTxID txID tx).tx := by
  unfold AtomicSwapTransaction.OnSendRawTransaction
  try unfold AtomicSwapTransaction.SetNextState
  try unfold SetState
  try unfold AtomicSwapTransaction.UpdateAsync
  cases subTxID <;>
  (
  repeat' first
    | with_reducible exact Keeps.keeps_pure _ _
    | with_reducible exact Keeps.keeps_read _ _
    | with_reducible exact Keeps.keeps_raise _ _
    | with_reducible exact Keeps.keeps_GetMandatoryParameter _ _ _ _
    | with_reducible exact Keeps.keeps_assert _ _ _
    | with_reducible exact CreateAtomicSwapContract_keeps _ _
    | ((with_reducible refine Keeps.keeps_emit _ ?_ ?_ _) <;>
        (first | exact trivial | exact fun _ => rfl))
    | ((with_reducible refine Keeps.keeps_SetParameter _ _ _ ?_ _) <;>
        (first | exact trivial | exact ⟨_, rfl, by decide⟩))
    | ((with_reducible refine Keeps.keeps_modify _ _ ?_ ?_ ?_ ?_) <;> rfl)
    | with_reducible apply Keeps.keeps_bind
    | with_reducible apply Keeps.keeps_ite
    | intro _ _ _
    | intro _
    | split
    | (with_reducible dsimp only)
    | (generalize set_script_of_first_input _ _ = o; cases o)
  )

/-! ## Every event as a `Step` -/

/-- Callback entries are entries of a tick that broadcasts nothing. -/
theorem reply_tick (allowed : List State) : ∀ e, Reply allowed e → Tick allowed False e := by
  intro e h
  unfold Tick
  split
  · exact h
  · exact h
  · trivial

/-- Callback entries leave the stored role bit. -/
theorem replay_role_of_reply (allowed : List State) (l : List Effect) (s : ParamStore)
    (h : ∀ e ∈ l, Reply allowed e) :
    replay l s .kDefaultSubTxID .IsSender = s .kDefaultSubTxID .IsSender := by
  induction l generalizing s with
  | nil => rfl
  | cons e l ih =>
    have he : Reply allowed e := h e (by simp)
    have hl : ∀ x ∈ l, Reply allowed x := fun x hx => h x (by simp [hx])
    show replay l (replay [e] s) .kDefaultSubTxID .IsSender = _
    rw [ih _ hl]
    cases e with
    | SetParameter subTxID id v =>
      show s.put subTxID id v .kDefaultSubTxID .IsSender = _
      unfold ParamStore.put
      split
      · rename_i h'
        obtain ⟨rfl, rfl⟩ := h'
        exact absurd he (by simp [Reply])
      · rfl
    | _ => rfl

/-- After the writes of one event, the top-level state is the one before or one
of the allowed states. -/
theorem replay_state_of_tick (allowed : List State) (lock : Prop) (l : List Effect)
    (s : ParamStore) (h : ∀ e ∈ l, Tick allowed lock e) :
    ((replay l s .kDefaultSubTxID .State).bind Value.asState).getD .Initial
        = ((s .kDefaultSubTxID .State).bind Value.asState).getD .Initial
      ∨ ((replay l s .kDefaultSubTxID .State).bind Value.asState).getD .Initial ∈ allowed := by
  induction l generalizing s with
  | nil => exact Or.inl rfl
  | cons e l ih =>
    have he : Tick allowed lock e := h e (by simp)
    have hl : ∀ x ∈ l, Tick allowed lock x := fun x hx => h x (by simp [hx])
    show ((replay l (replay [e] s) .kDefaultSubTxID .State).bind Value.asState).getD .Initial = _
      ∨ ((replay l (replay [e] s) .kDefaultSubTxID .State).bind Value.asState).getD .Initial
        ∈ allowed
    rcases ih (replay [e] s) hl with h1 | h1
    · rw [h1]
      cases e with
      | SetParameter subTxID id v =>
        show ((s.put subTxID id v .kDefaultSubTxID .State).bind Value.asState).getD .Initial = _
          ∨ ((s.put subTxID id v .kDefaultSubTxID .State).bind Value.asState).getD .Initial
            ∈ allowed
        unfold ParamStore.put
        split
        · rename_i h'
          obtain ⟨rfl, rfl⟩ := h'
          obtain ⟨st, rfl, hst⟩ := he
          exact Or.inr hst
        · exact Or.inl rfl
      | _ => exact Or.inl rfl
    · exact Or.inr h1

/-- The state after a `Step`. -/
theorem Step.state {allowed : List State} {lock : Prop} {tx tx' : AtomicSwapTransaction}
    (h : Step (Tick allowed lock) tx tx') : tx'.state = tx.state ∨ tx'.state ∈ allowed := by
  obtain ⟨l, _, r, p, _⟩ := h.log
  unfold AtomicSwapTransaction.state
  rw [r]
  exact replay_state_of_tick allowed lock l tx.params p

/-- A callback that leaves the role cache and the confirmation count is a
`Step` of the Beam owner. -/
theorem Keeps.step {allowed : List State} {tx tx' : AtomicSwapTransaction}
    (h : Keeps (Reply allowed) tx tx') (hrole : tx.role = some true) :
    Step (Tick allowed False) tx tx' := by
  obtain ⟨l, e, r, p⟩ := h.log
  refine ⟨⟨l, e, r, fun x hx => reply_tick allowed x (p x hx), Or.inl h.confirmations⟩, ?_⟩
  unfold AtomicSwapTransaction.role at hrole ⊢
  rw [h.cache, r, replay_role_of_reply allowed l _ p]
  exact hrole

open AtomicSwapTransaction in
/-- One tick of the Beam owner, whatever the state. -/
theorem owner_tick (env : Env) (tx : AtomicSwapTransaction) (hb : tx.role = some true) :
    Evolves (Tick (ownerNext tx.state) (tx.state = .SendingBeamLockTX)) False (tx.cached true)
      (UpdateImpl env tx).tx := by
  cases hs : tx.state
  · have hU : UpdateImpl env tx = UpdateImpl.Initial (tx.cached true) := by
      simp only [UpdateImpl, M.bind_apply, GetState_apply, IsSender_of_role tx _ hb, hs]
    rw [hU]
    exact owner_tick_Initial _
  · have hU : UpdateImpl env tx = UpdateImpl.Invitation env true (tx.cached true) := by
      simp only [UpdateImpl, M.bind_apply, GetState_apply, IsSender_of_role tx _ hb, hs]
    rw [hU]
    exact owner_tick_Invitation env _
  · have hU : UpdateImpl env tx = UpdateImpl.BuildingLockTX env true (tx.cached true) := by
      simp only [UpdateImpl, M.bind_apply, GetState_apply, IsSender_of_role tx _ hb, hs]
    rw [hU]
    exact owner_tick_BuildingLockTX env _
  · have hU : UpdateImpl env tx = UpdateImpl.BuildingRefundTX true (tx.cached true) := by
      simp only [UpdateImpl, M.bind_apply, GetState_apply, IsSender_of_role tx _ hb, hs]
    rw [hU]
    exact owner_tick_BuildingRefundTX _
  · have hU : UpdateImpl env tx = UpdateImpl.BuildingRedeemTX true (tx.cached true) := by
      simp only [UpdateImpl, M.bind_apply, GetState_apply, IsSender_of_role tx _ hb, hs]
    rw [hU]
    exact owner_tick_BuildingRedeemTX _
  · have hU : UpdateImpl env tx = UpdateImpl.BuildingBeamLockTX env (tx.cached true) := by
      simp only [UpdateImpl, M.bind_apply, GetState_apply, IsSender_of_role tx _ hb, hs]
    rw [hU]
    exact owner_tick_BuildingBeamLockTX env _
  · have hU : UpdateImpl env tx = UpdateImpl.BuildingBeamRefundTX env (tx.cached true) := by
      simp only [UpdateImpl, M.bind_apply, GetState_apply, IsSender_of_role tx _ hb, hs]
    rw [hU]
    exact owner_tick_BuildingBeamRefundTX env _
  · have hU : UpdateImpl env tx = UpdateImpl.BuildingBeamRedeemTX env (tx.cached true) := by
      simp only [UpdateImpl, M.bind_apply, GetState_apply, IsSender_of_role tx _ hb, hs]
    rw [hU]
    exact owner_tick_BuildingBeamRedeemTX env _
  · have hU : UpdateImpl env tx = UpdateImpl.HandlingContractTX env true (tx.cached true) := by
      simp only [UpdateImpl, M.bind_apply, GetState_apply, IsSender_of_role tx _ hb, hs]
    rw [hU]
    exact owner_tick_HandlingContractTX env _
  · have hU : UpdateImpl env tx = UpdateImpl.SendingRefundTX (tx.cached true) := by
      simp only [UpdateImpl, M.bind_apply, GetState_apply, IsSender_of_role tx _ hb, hs]
    rw [hU]
    exact owner_tick_SendingRefundTX _
  · have hU : UpdateImpl env tx = UpdateImpl.SendingRedeemTX (tx.cached true) := by
      simp only [UpdateImpl, M.bind_apply, GetState_apply, IsSender_of_role tx _ hb, hs]
    rw [hU]
    exact owner_tick_SendingRedeemTX _
  · have hU : UpdateImpl env tx = UpdateImpl.SendingBeamLockTX (tx.cached true) := by
      simp only [UpdateImpl, M.bind_apply, GetState_apply, IsSender_of_role tx _ hb, hs]
    rw [hU]
    exact owner_tick_SendingBeamLockTX _
  · have hU : UpdateImpl env tx = UpdateImpl.SendingBeamRedeemTX env true (tx.cached true) := by
      simp only [UpdateImpl, M.bind_apply, GetState_apply, IsSender_of_role tx _ hb, hs]
    rw [hU]
    exact owner_tick_SendingBeamRedeemTX env _
  · have hU : UpdateImpl env tx = UpdateImpl.SendingBeamRefundTX true (tx.cached true) := by
      simp only [UpdateImpl, M.bind_apply, GetState_apply, IsSender_of_role tx _ hb, hs]
    rw [hU]
    exact owner_tick_SendingBeamRefundTX _
  · have hU : UpdateImpl env tx = UpdateImpl.CompleteSwap (tx.cached true) := by
      simp only [UpdateImpl, M.bind_apply, GetState_apply, IsSender_of_role tx _ hb, hs]
    rw [hU]
    exact owner_tick_CompleteSwap _

open AtomicSwapTransaction in
/-- One tick of the Beam owner is a `Step`. -/
theorem Update_step (env : Env) (tx : AtomicSwapTransaction) (hb : tx.role = some true) :
    Step (Tick (ownerNext tx.state) (tx.state = .SendingBeamLockTX)) tx
      (UpdateImpl env tx).tx := by
  have h := owner_tick env tx hb
  obtain ⟨l, e, r, p⟩ := h.log
  refine ⟨⟨l, e, r, p, Or.inl h.confirmations⟩, ?_⟩
  unfold AtomicSwapTransaction.role
  rw [h.role true rfl]

open AtomicSwapTransaction in
/-- Recording a confirmation count is a `Step`. -/
theorem OnGetSwapLockTxConfirmations_step (response : Option Nat) (tx : AtomicSwapTransaction)
    (hb : tx.role = some true) :
    Step (Tick [] False) tx (OnGetSwapLockTxConfirmations response tx).tx := by
  cases response with
  | none => exact ⟨⟨[], by simp [OnGetSwapLockTxConfirmations], rfl, by simp, Or.inl rfl⟩, hb⟩
  | some n =>
    by_cases hn : n ≥ kBTCMinTxConfirmations
    · refine ⟨⟨[.ConfirmationsRecorded n, .UpdateAsync], ?_, ?_, ?_, Or.inr ?_⟩, ?_⟩ <;>
        simp [OnGetSwapLockTxConfirmations, hn, UpdateAsync, replay, Tick]
      exact hb
    · refine ⟨⟨[.ConfirmationsRecorded n], ?_, ?_, ?_, Or.inr ?_⟩, ?_⟩ <;>
        simp [OnGetSwapLockTxConfirmations, hn, replay, Tick]
      exact hb

/-- A parameter stored from outside is a `Step`. -/
theorem SetParameter_step (subTxID : SubTxID) (id : TxParameterID) (v : Value)
    (tx : AtomicSwapTransaction) (hadm : (Event.SetParameter subTxID id v).admissible = true)
    (hb : tx.role = some true) :
    Step (Tick [] False) tx (SetParameter id v subTxID tx).tx := by
  have hne : ¬ (SubTxID.kDefaultSubTxID = subTxID ∧ TxParameterID.IsSender = id) := by
    rintro ⟨rfl, rfl⟩
    simp [Event.admissible] at hadm
  have hP : Tick [] False (.SetParameter subTxID id v) := by
    unfold Tick
    split
    · rename_i h
      cases h
      simp [Event.admissible] at hadm
    · rename_i h
      cases h
    · trivial
  refine ⟨⟨[.SetParameter subTxID id v], rfl, rfl, by simpa using hP, Or.inl rfl⟩, ?_⟩
  unfold AtomicSwapTransaction.role at hb ⊢
  simp only [SetParameter_apply, Res.tx_ok, ParamStore.put]
  rw [if_neg (by
    rintro ⟨h1, h2⟩
    exact hne ⟨h1, h2⟩)]
  exact hb


open AtomicSwapTransaction in
/-- The outcome of a Chain A broadcast is a `Step`. -/
theorem SetRegisteredStatus_step (transaction : Transaction) (isRegistered : Bool)
    (tx : AtomicSwapTransaction) (hb : tx.role = some true) :
    Step (Tick [] False) tx (SetRegisteredStatus transaction isRegistered tx).tx := by
  unfold SetRegisteredStatus
  cases hk : (tx.params .BEAM_LOCK_TX .KernelID).bind Value.asBig with
  | none =>
    refine ⟨⟨[], ?_, ?_, by simp, Or.inl ?_⟩, ?_⟩ <;>
      (try simp [GetMandatoryParameter, hk]) <;> (first | exact hb | rfl)
  | some k =>
    by_cases hne : transaction.kernelID = k
    · refine ⟨⟨[.SetParameter .BEAM_LOCK_TX .TransactionRegistered (.bool isRegistered)],
        ?_, ?_, ?_, Or.inl ?_⟩, ?_⟩ <;>
        (try simp [GetMandatoryParameter, hk, hne, AtomicSwapTransaction.role, replay, Tick,
          ParamStore.put])
      exact hb
    · refine ⟨⟨[.SetParameter .BEAM_REFUND_TX .TransactionRegistered (.bool isRegistered)],
        ?_, ?_, ?_, Or.inl ?_⟩, ?_⟩ <;>
        (try simp [GetMandatoryParameter, hk, hne, IsSender_of_role tx _ hb,
          AtomicSwapTransaction.cached, AtomicSwapTransaction.role, replay, Tick]) <;>
        (try exact hb)

/-- Every admissible event on the Beam owner is a `Step`: it writes the
top-level state only along the edges of the event, and only a tick in
`SendingBeamLockTX` broadcasts the Chain A lock transaction. -/
theorem step_owner (ev : Event) (tx : AtomicSwapTransaction) (hadm : ev.admissible = true)
    (hb : tx.role = some true) :
    Step (Tick (ev.next tx.state) (ev.locks tx.state)) tx (step ev tx) := by
  cases ev with
  | Update env => exact Update_step env tx hb
  | OnGetRawChangeAddress response => exact (OnGetRawChangeAddress_keeps response tx).step hb
  | OnFundRawTransaction response => exact (OnFundRawTransaction_keeps response tx).step hb
  | OnSignLockTransaction response => exact (OnSignLockTransaction_keeps response tx).step hb
  | OnCreateRefundTransaction response =>
    exact (OnCreateRefundTransaction_keeps response tx).step hb
  | OnDumpSenderPrivateKey env response =>
    exact (OnDumpSenderPrivateKey_keeps env response tx).step hb
  | OnDumpReceiverPrivateKey env response =>
    exact (OnDumpReceiverPrivateKey_keeps env response tx).step hb
  | OnGetSwapLockTxConfirmations response =>
    exact OnGetSwapLockTxConfirmations_step response tx hb
  | OnSendRawTransaction subTxID txID => exact (OnSendRawTransaction_keeps subTxID txID tx).step hb
  | SetRegisteredStatus transaction isRegistered =>
    exact SetRegisteredStatus_step transaction isRegistered tx hb
  | SetParameter subTxID id v => exact SetParameter_step subTxID id v tx hadm hb


/-! ## The Beam owner never completes the swap (C7) -/

open AtomicSwapTransaction in
/-- `SendSubTx` leaves the store. -/
theorem SendSubTx_params (t : Transaction) (subTxID : SubTxID) (tx : AtomicSwapTransaction) :
    (SendSubTx t subTxID tx).tx.params = tx.params := by
  unfold SendSubTx
  cases h : (tx.params subTxID .TransactionRegistered).bind Value.asBool with
  | none => simp [GetParameter, h]
  | some b => cases b <;> simp [GetParameter, h, OnFailed]

open AtomicSwapTransaction in
/-- The answer of `IsBeamLockTimeExpired` depends on the store only. -/
theorem IsBeamLockTimeExpired_of_params (env : Env) (tx tx2 : AtomicSwapTransaction)
    (hp : tx2.params = tx.params)
    (h : (IsBeamLockTimeExpired env tx).value = some false) :
    IsBeamLockTimeExpired env tx2 = .ok false tx2 := by
  unfold IsBeamLockTimeExpired at h ⊢
  simp only [M.bind_apply, GetParameter, M.read_apply, M.pure_apply, Res.value, hp] at h ⊢
  simp only [Option.some.injEq] at h
  rw [h]

open AtomicSwapTransaction in
/-- Sequencing after `IsBeamLockTimeExpired` while the locktime has not expired:
only the `false` branch runs. -/
theorem Evolves.bind_not_expired {P : Effect → Prop} {strict : Prop} {β : Type} {env : Env}
    {f : Bool → M β} {tx tx2 : AtomicSwapTransaction} (hp : tx2.params = tx.params)
    (h : (IsBeamLockTimeExpired env tx).value = some false)
    (hf : Evolves P strict tx2 (f false tx2).tx) :
    Evolves P strict tx2 ((IsBeamLockTimeExpired env >>= f) tx2).tx := by
  simp only [M.bind_apply, IsBeamLockTimeExpired_of_params env tx tx2 hp h]
  exact hf

open AtomicSwapTransaction in
/-- While the Beam locktime has not expired, a tick of the Beam owner in
`SendingBeamRedeemTX` writes no state but `BuildingRedeemTX`. -/
theorem owner_tick_not_expired (env : Env) (tx : AtomicSwapTransaction)
    (h : (IsBeamLockTimeExpired env tx).value = some false) :
    Evolves (Tick [.BuildingRedeemTX] False) False tx
      (UpdateImpl.SendingBeamRedeemTX env true tx).tx := by
  have hInner : ∀ e, Inner e → Tick [.BuildingRedeemTX] False e := inner_tick _ _
  have hSending : ∀ e, Sending e → Tick [.BuildingRedeemTX] False e :=
    fun e h => inner_tick _ _ e (sending_inner e h)
  unfold UpdateImpl.SendingBeamRedeemTX SetNextState SetState UpdateAsync
  simp only [↓reduceIte]
  apply Evolves.bind (Evolves.of_read _ _)
  intro o tx1 h1
  obtain ⟨-, rfl⟩ : tx.m_RedeemTx = o ∧ tx = tx1 := by simpa using h1
  split
  · rename_i t
    apply Evolves.bind (SendSubTx_evolves (fun _ => trivial) trivial _ _)
    intro r tx2 h2
    have hp : tx2.params = tx.params := by
      have := SendSubTx_params t .BEAM_REDEEM_TX tx
      rw [h2] at this
      exact this
    apply Evolves.of_ite
    · intro _
      exact Evolves.of_pure _ _
    · intro _
      apply Evolves.bind (Evolves.of_pure _ _)
      intro u tx3 h3
      obtain ⟨-, rfl⟩ : PUnit.unit = u ∧ tx2 = tx3 := by simpa using h3
      refine Evolves.bind_not_expired hp h ?_
      repeat' first
        | with_reducible exact Evolves.of_pure _ _
        | with_reducible exact Evolves.of_read _ _
        | with_reducible exact Evolves.of_raise _ _
        | with_reducible exact Evolves.of_GetParameter _ _ _ _
        | with_reducible exact Evolves.of_GetMandatoryParameter _ _ _ _
        | with_reducible exact Evolves.of_IsSender _
        | with_reducible exact Evolves.of_GetAmount _
        | with_reducible exact Evolves.of_assert _ _ _
        | with_reducible exact Evolves.mono (BuildBeamLockTx_inner _ _) hInner (fun h => h)
        | with_reducible exact Evolves.mono (BuildBeamRefundTx_inner _ _) hInner (fun h => h)
        | with_reducible exact Evolves.mono (BuildBeamRedeemTx_inner _ _) hInner (fun h => h)
        | with_reducible exact Evolves.mono (BuildLockTx_inner _ _) hInner (fun h => h)
        | with_reducible exact Evolves.mono (BuildWithdrawTx_REFUND_inner _) hInner (fun h => h)
        | with_reducible exact Evolves.mono (BuildWithdrawTx_REDEEM_inner _) hInner (fun h => h)
        | with_reducible exact Evolves.mono (RegisterExternalTx_inner _ _ _) hInner (fun h => h)
        | with_reducible exact Evolves.mono (GetSwapLockTxConfirmations_inner _) hInner (fun h => h)
        | with_reducible exact Evolves.mono (IsSubTxCompleted_inner _ _) hInner (fun h => h)
        | with_reducible exact Evolves.mono (GetPreimageFromChain_inner _) hInner (fun h => h)
        | with_reducible exact Evolves.mono (IsBeamLockTimeExpired_inner _ _) hInner (fun h => h)
        | with_reducible exact SendInvitation_evolves hSending _ _
        | with_reducible exact SendExternalTxDetails_evolves hSending _ _
        | ((with_reducible refine SendSubTx_evolves ?_ ?_ _ _) <;>
            (first | exact fun _ => trivial | exact fun _ => rfl | exact trivial))
        | ((with_reducible refine Evolves.of_emit _ ?_ ?_ _) <;>
            (first | exact trivial | exact fun _ => rfl))
        | ((with_reducible refine Evolves.of_SetParameter _ _ _ ?_ _) <;>
            (first | exact trivial | exact ⟨_, rfl, by decide⟩))
        | with_reducible apply Evolves.bind
        | with_reducible apply Evolves.of_ite
        | (intro h; first | exact absurd h (by decide) | exact absurd rfl h)
        | intro _ _ _
        | intro _
        | split
        | (with_reducible dsimp only)
  · apply Evolves.bind (Evolves.of_pure _ _)
    intro u tx3 h3
    obtain ⟨-, rfl⟩ : PUnit.unit = u ∧ tx = tx3 := by simpa using h3
    refine Evolves.bind_not_expired rfl h ?_
    repeat' first
      | with_reducible exact Evolves.of_pure _ _
      | with_reducible exact Evolves.of_read _ _
      | with_reducible exact Evolves.of_raise _ _
      | with_reducible exact Evolves.of_GetParameter _ _ _ _
      | with_reducible exact Evolves.of_GetMandatoryParameter _ _ _ _
      | with_reducible exact Evolves.of_IsSender _
      | with_reducible exact Evolves.of_GetAmount _
      | with_reducible exact Evolves.of_assert _ _ _
      | with_reducible exact Evolves.mono (BuildBeamLockTx_inner _ _) hInner (fun h => h)
      | with_reducible exact Evolves.mono (BuildBeamRefundTx_inner _ _) hInner (fun h => h)
      | with_reducible exact Evolves.mono (BuildBeamRedeemTx_inner _ _) hInner (fun h => h)
      | with_reducible exact Evolves.mono (BuildLockTx_inner _ _) hInner (fun h => h)
      | with_reducible exact Evolves.mono (BuildWithdrawTx_REFUND_inner _) hInner (fun h => h)
      | with_reducible exact Evolves.mono (BuildWithdrawTx_REDEEM_inner _) hInner (fun h => h)
      | with_reducible exact Evolves.mono (RegisterExternalTx_inner _ _ _) hInner (fun h => h)
      | with_reducible exact Evolves.mono (GetSwapLockTxConfirmations_inner _) hInner (fun h => h)
      | with_reducible exact Evolves.mono (IsSubTxCompleted_inner _ _) hInner (fun h => h)
      | with_reducible exact Evolves.mono (GetPreimageFromChain_inner _) hInner (fun h => h)
      | with_reducible exact Evolves.mono (IsBeamLockTimeExpired_inner _ _) hInner (fun h => h)
      | with_reducible exact SendInvitation_evolves hSending _ _
      | with_reducible exact SendExternalTxDetails_evolves hSending _ _
      | ((with_reducible refine SendSubTx_evolves ?_ ?_ _ _) <;>
          (first | exact fun _ => trivial | exact fun _ => rfl | exact trivial))
      | ((with_reducible refine Evolves.of_emit _ ?_ ?_ _) <;>
          (first | exact trivial | exact fun _ => rfl))
      | ((with_reducible refine Evolves.of_SetParameter _ _ _ ?_ _) <;>
          (first | exact trivial | exact ⟨_, rfl, by decide⟩))
      | with_reducible apply Evolves.bind
      | with_reducible apply Evolves.of_ite
      | (intro h; first | exact absurd h (by decide) | exact absurd rfl h)
      | intro _ _ _
      | intro _
      | split
      | (with_reducible dsimp only)

/-- The state after a call that only adds entries of a tick. -/
theorem Evolves.tick_state {allowed : List State} {lock strict : Prop}
    {tx tx' : AtomicSwapTransaction} (h : Evolves (Tick allowed lock) strict tx tx') :
    tx'.state = tx.state ∨ tx'.state ∈ allowed := by
  obtain ⟨l, _, r, p⟩ := h.log
  unfold AtomicSwapTransaction.state
  rw [r]
  exact replay_state_of_tick allowed lock l tx.params p

open AtomicSwapTransaction in
/-- While the Beam locktime has not expired, no event takes the Beam owner to
`SendingBeamRefundTX` or `CompleteSwap` from another state. -/
theorem owner_stays_before_refund (ev : Event) (tx : AtomicSwapTransaction)
    (hadm : ev.admissible = true) (hb : tx.role = some true)
    (hne : ∀ env, ev = .Update env → (IsBeamLockTimeExpired env tx).value = some false)
    (h1 : tx.state ≠ .SendingBeamRefundTX) (h2 : tx.state ≠ .CompleteSwap) :
    (step ev tx).state ≠ .SendingBeamRefundTX ∧ (step ev tx).state ≠ .CompleteSwap := by
  have hstate := (step_owner ev tx hadm hb).state
  cases ev with
  | Update env =>
    cases hs : tx.state with
    | SendingBeamRedeemTX =>
      have hU : UpdateImpl env tx = UpdateImpl.SendingBeamRedeemTX env true (tx.cached true) := by
        simp only [UpdateImpl, M.bind_apply, GetState_apply, IsSender_of_role tx _ hb, hs]
      have he : (IsBeamLockTimeExpired env (tx.cached true)).value = some false := by
        rw [IsBeamLockTimeExpired_of_params env tx (tx.cached true) rfl (hne env rfl)]
        rfl
      have ht := (owner_tick_not_expired env (tx.cached true) he).tick_state
      show (UpdateImpl env tx).tx.state ≠ _ ∧ (UpdateImpl env tx).tx.state ≠ _
      rw [hU]
      rw [cached_state, hs] at ht
      rcases ht with ht | ht
      · rw [ht]
        exact ⟨by decide, by decide⟩
      · rw [List.mem_singleton.mp ht]
        exact ⟨by decide, by decide⟩
    | SendingBeamRefundTX => exact absurd hs h1
    | CompleteSwap => exact absurd hs h2
    | _ =>
      rw [hs] at hstate
      rcases hstate with ht | ht
      · rw [ht]
        exact ⟨by decide, by decide⟩
      · simp only [Event.next, ownerNext, List.mem_singleton, List.not_mem_nil] at ht <;>
          (rw [ht]; exact ⟨by decide, by decide⟩)
  | OnGetRawChangeAddress response =>
    rcases hstate with ht | ht
    · rw [ht]
      exact ⟨h1, h2⟩
    · rw [List.mem_singleton.mp ht]
      exact ⟨by decide, by decide⟩
  | _ =>
    rcases hstate with ht | ht
    · rw [ht]
      exact ⟨h1, h2⟩
    · simp [Event.next] at ht

/-- Along every execution during which the Beam locktime does not expire, the
Beam owner stays out of `SendingBeamRefundTX` and `CompleteSwap`. -/
theorem owner_run_before_refund (evs : List Event) :
    ∀ tx : AtomicSwapTransaction, (∀ ev ∈ evs, ev.admissible = true) → tx.role = some true →
      NeverExpired evs tx = true → tx.state ≠ .SendingBeamRefundTX → tx.state ≠ .CompleteSwap →
      (run evs tx).state ≠ .SendingBeamRefundTX ∧ (run evs tx).state ≠ .CompleteSwap := by
  induction evs with
  | nil => exact fun tx _ _ _ h1 h2 => ⟨h1, h2⟩
  | cons ev evs ih =>
    intro tx hadm hb hne h1 h2
    have hadm' := hadm ev (by simp)
    have hrole := (step_owner ev tx hadm' hb).role
    have hne' : (∀ env, ev = .Update env →
        (AtomicSwapTransaction.IsBeamLockTimeExpired env tx).value = some false) ∧
        NeverExpired evs (step ev tx) = true := by
      cases ev <;> simp_all [NeverExpired]
    obtain ⟨k1, k2⟩ := owner_stays_before_refund ev tx hadm' hb hne'.1 h1 h2
    exact ih (step ev tx) (fun x hx => hadm x (by simp [hx])) hrole hne'.2 k1 k2

/-- C7, the Beam owner. In every execution of the Beam owner that starts from a
freshly constructed object in state `Initial` and during which the Beam
locktime never expires (`IsBeamLockTimeExpired` answers `false` at every tick),
whatever the ticks, callbacks and parameters received, the top-level state is
never `CompleteSwap`: the only edge into `CompleteSwap` open to the Beam owner
leaves `SendingBeamRefundTX`, which is entered on an expired locktime only, and
the edge its happy path takes, `SendingBeamRedeemTX` to `BuildingRedeemTX` to
`SendingRedeemTX`, ends at `assert(false && "Not implemented yet.")`. -/
theorem owner_never_reaches_CompleteSwap (params : ParamStore) (evs : List Event)
    (hadm : ∀ ev ∈ evs, ev.admissible = true)
    (hstate : (AtomicSwapTransaction.create params).state = .Initial)
    (hrole : (AtomicSwapTransaction.create params).role = some true)
    (hne : NeverExpired evs (AtomicSwapTransaction.create params) = true) :
    (run evs (AtomicSwapTransaction.create params)).state ≠ .CompleteSwap :=
  (owner_run_before_refund evs _ hadm hrole hne (by rw [hstate]; decide)
    (by rw [hstate]; decide)).2

/-- The seventh theorem on the sample execution of the Beam owner along its
happy path, the locktime never expiring: it ends in `SendingRedeemTX`, not in
`CompleteSwap`, and the next tick stops at the assertion of line 306. -/
theorem owner_never_reaches_CompleteSwap_witness :
    (run (sampleOwnerRun ++ sampleOwnerTail)
        (AtomicSwapTransaction.create sampleOwnerParams)).state = .SendingRedeemTX
      ∧ (∃ tx', AtomicSwapTransaction.UpdateImpl (sampleEnv true none)
          (run (sampleOwnerRun ++ sampleOwnerTail)
            (AtomicSwapTransaction.create sampleOwnerParams))
          = .fail (.AssertionFailed 306) tx')
      ∧ (run (sampleOwnerRun ++ sampleOwnerTail)
        (AtomicSwapTransaction.create sampleOwnerParams)).state ≠ .CompleteSwap :=
  ⟨by decide, ⟨_, rfl⟩,
    owner_never_reaches_CompleteSwap sampleOwnerParams (sampleOwnerRun ++ sampleOwnerTail)
      (by decide) rfl rfl (by decide)⟩

/-- The other half of the happy path: the sample execution of the Chain B owner
takes the top-level state from `Initial` to `CompleteSwap`. -/
theorem counterparty_reaches_CompleteSwap :
    (AtomicSwapTransaction.create sampleCounterpartyParams).state = .Initial
      ∧ (run sampleCounterpartyRun
          (AtomicSwapTransaction.create sampleCounterpartyParams)).state = .CompleteSwap
      ∧ NeverExpired sampleCounterpartyRun
          (AtomicSwapTransaction.create sampleCounterpartyParams) = true :=
  ⟨rfl, by decide, by decide⟩

/-! ## The Chain A lock transaction waits for Chain B (C8) -/

theorem Received.received_append {s : ParamStore} {l : List Effect} (h : Received s l)
    (l' : List Effect) : Received s (l ++ l') := by
  obtain ⟨l1, l2, rfl, h⟩ := h
  exact ⟨l1, l2 ++ l', by rw [List.append_assoc], h⟩

theorem Confirmed.confirmed_append {l : List Effect} (h : Confirmed l) (l' : List Effect) :
    Confirmed (l ++ l') := by
  obtain ⟨n, hn, hm⟩ := h
  exact ⟨n, hn, List.mem_append_left _ hm⟩

/-- Where an entry of an extended log lies: in the old log, or among the new
entries. -/
theorem split_extended_log {l l' pre post : List Effect} {x : Effect}
    (h : l ++ l' = pre ++ x :: post) :
    (∃ post', l = pre ++ x :: post') ∨ (∃ a, pre = l ++ a ∧ x ∈ l') := by
  rcases List.append_eq_append_iff.mp h with ⟨a, h1, h2⟩ | ⟨c, h1, h2⟩
  · exact Or.inr ⟨a, h1, by rw [h2]; simp⟩
  · cases c with
    | nil =>
      refine Or.inr ⟨[], by simpa using h1.symm, ?_⟩
      rw [← List.nil_append l', ← h2]
      simp
    | cons y c =>
      obtain ⟨rfl, _⟩ := List.cons.inj h2
      exact Or.inl ⟨c, h1⟩

/-- From an early state a tick of the Beam owner leaves the early states only
by the edge from `HandlingContractTX` to `SendingBeamLockTX`. -/
theorem ownerNext_early {s s' : State} (h : s' ∈ ownerNext s) (hs : s.early = true)
    (hs' : s'.early = false) : s = .HandlingContractTX ∧ s' = .SendingBeamLockTX := by
  cases s <;> simp [ownerNext, State.early] at h hs <;> subst h <;>
    simp [State.early] at hs' ⊢

/-- An object freshly constructed in state `Initial` with the role of the Beam
owner satisfies the invariant. -/
theorem OwnerInv.of_create (params : ParamStore)
    (hstate : (AtomicSwapTransaction.create params).state = .Initial)
    (hrole : (AtomicSwapTransaction.create params).role = some true) :
    OwnerInv params (AtomicSwapTransaction.create params) := by
  refine ⟨rfl, hrole, fun h => ?_, fun h => ?_, fun pre t post h => ?_⟩
  · simp [AtomicSwapTransaction.create, kBTCMinTxConfirmations] at h
  · rw [hstate] at h
    exact absurd h (by decide)
  · exact absurd h (by simp [AtomicSwapTransaction.create])

/-- Every admissible event keeps the invariant. -/
theorem OwnerInv.of_step {p0 : ParamStore} {tx : AtomicSwapTransaction} (h : OwnerInv p0 tx)
    (ev : Event) (hadm : ev.admissible = true) : OwnerInv p0 (step ev tx) := by
  have hstep := step_owner ev tx hadm h.role
  have hstate := hstep.state
  obtain ⟨l, e, r, p, c⟩ := hstep.log
  have hcount : kBTCMinTxConfirmations ≤ (step ev tx).m_SwapLockTxConfirmations →
      Confirmed (step ev tx).log := by
    intro hc
    rw [e]
    rcases c with c | c
    · rw [c] at hc
      exact (h.count hc).confirmed_append l
    · exact ⟨_, hc, List.mem_append_right _ c⟩
  have hlate : tx.state.early = false → Received p0 (tx.log ++ l) ∧ Confirmed (tx.log ++ l) :=
    fun hl => ⟨(h.late hl).1.received_append l, (h.late hl).2.confirmed_append l⟩
  refine ⟨?_, hstep.role, hcount, fun hl => ?_, fun pre t post hlog => ?_⟩
  · rw [r, e, replay_append, ← h.store]
  · rw [e]
    cases he : tx.state.early with
    | false => exact hlate he
    | true =>
      rcases hstate with hst | hst
      · rw [hst, he] at hl
        cases hl
      · cases ev with
        | Update env =>
          obtain ⟨h1, h2⟩ := ownerNext_early hst he hl
          have hg := (tick_HandlingContractTX_owner env tx h.role h1).1.mp h2
          exact ⟨Received.received_append ⟨tx.log, [], by simp, by rw [← h.store]; exact hg.1⟩ l,
            (h.count hg.2).confirmed_append l⟩
        | OnGetRawChangeAddress response =>
          simp only [Event.next, List.mem_singleton] at hst
          rw [hst] at hl
          cases hl
        | _ => simp [Event.next] at hst
  · rw [e] at hlog
    rcases split_extended_log hlog with ⟨post', h1⟩ | ⟨a, h1, h2⟩
    · exact h.broadcast pre t post' h1
    · have hlock : ev.locks tx.state := p _ h2
      cases ev with
      | Update env =>
        have hs : tx.state = .SendingBeamLockTX := hlock
        have hl := h.late (by rw [hs]; rfl)
        rw [h1]
        exact ⟨hl.1.received_append a, hl.2.confirmed_append a⟩
      | _ => exact hlock.elim

/-- The invariant holds along every execution of admissible events. -/
theorem OwnerInv.of_run {p0 : ParamStore} (evs : List Event) :
    ∀ {tx : AtomicSwapTransaction}, OwnerInv p0 tx → (∀ ev ∈ evs, ev.admissible = true) →
      OwnerInv p0 (run evs tx) := by
  induction evs with
  | nil => exact fun h _ => h
  | cons ev evs ih =>
    intro tx h hadm
    exact ih (h.of_step ev (hadm ev (by simp))) (fun x hx => hadm x (by simp [hx]))

/-- The order of the lock broadcast. In every execution of the Beam owner that
starts from a freshly constructed object in state `Initial` (with no
confirmation recorded, as `create` takes it) and runs any sequence of ticks,
callbacks and parameters stored from outside: wherever `register_tx` for
`BEAM_LOCK_TX` stands in the log, the entries before it hold a point at which
the peer's Chain B lock txid was stored, and a recorded `getTxOut` reply with
at least `kBTCMinTxConfirmations = 6` confirmations; when no such reply is ever
recorded, the Chain A lock transaction is never broadcast. Whether the output
that the reply is about is the HTLC plays no part. -/
theorem lock_broadcast_waits_for_confirmations (params : ParamStore) (evs : List Event)
    (hadm : ∀ ev ∈ evs, ev.admissible = true)
    (hstate : (AtomicSwapTransaction.create params).state = .Initial)
    (hrole : (AtomicSwapTransaction.create params).role = some true) :
    (∀ pre t post,
        (run evs (AtomicSwapTransaction.create params)).log
          = pre ++ Effect.register_tx .BEAM_LOCK_TX t :: post →
        (∃ pre1 pre2, pre = pre1 ++ pre2 ∧
          ((replay pre1 params .LOCK_TX .AtomicSwapExternalTxID).bind Value.asStr).isSome)
        ∧ ∃ n, 6 ≤ n ∧ Effect.ConfirmationsRecorded n ∈ pre)
      ∧ ((∀ n, Effect.ConfirmationsRecorded n ∈ (run evs (AtomicSwapTransaction.create params)).log
            → n < 6) →
          ∀ t, Effect.register_tx .BEAM_LOCK_TX t
            ∉ (run evs (AtomicSwapTransaction.create params)).log) := by
  have hinv := (OwnerInv.of_create params hstate hrole).of_run evs hadm
  refine ⟨fun pre t post h => hinv.broadcast pre t post h, fun hnone t hmem => ?_⟩
  obtain ⟨pre, post, h⟩ := List.append_of_mem hmem
  obtain ⟨n, hn, hm⟩ := (hinv.broadcast pre t post h).2
  have := hnone n (by rw [h]; exact List.mem_append_left _ hm)
  exact absurd hn (by simp only [kBTCMinTxConfirmations]; omega)

/-- The order of the lock broadcast on the sample execution of the Beam owner:
the Chain A lock transaction is broadcast, and before it a reply with at least
6 confirmations was recorded. -/
theorem lock_broadcast_waits_for_confirmations_witness :
    ∃ pre post,
      (run sampleOwnerRun (AtomicSwapTransaction.create sampleOwnerParams)).log
          = pre ++ Effect.register_tx .BEAM_LOCK_TX { kernelID := zeroBig, body := 0 } :: post
        ∧ ∃ n, 6 ≤ n ∧ Effect.ConfirmationsRecorded n ∈ pre :=
  have hmem : Effect.register_tx .BEAM_LOCK_TX { kernelID := zeroBig, body := 0 }
      ∈ (run sampleOwnerRun (AtomicSwapTransaction.create sampleOwnerParams)).log := by decide
  match List.append_of_mem hmem with
  | ⟨pre, post, h⟩ =>
    ⟨pre, post, h,
      ((lock_broadcast_waits_for_confirmations sampleOwnerParams sampleOwnerRun (by decide) rfl
        rfl).1 pre _ post h).2⟩


/-! ## The output index of the Chain B lock transaction (C13) -/

/-- An integer that fits the 32-bit `int` is read unchanged. -/
theorem toInt32_of_fits (x : Int) (hlo : -2 ^ 31 ≤ x) (hhi : x < 2 ^ 31) : toInt32 x = x := by
  unfold toInt32
  omega

open AtomicSwapTransaction in
/-- `OnFundRawTransaction` on a reply: it returns, sets `m_ValuePosition` and
stores `AtomicSwapExternalTxOutputIndex` under `LOCK_TX` to 1 when `changepos`,
read as an `int`, is 0 and to 0 otherwise, then requests `signRawTransaction`. -/
theorem OnFundRawTransaction_some (tx : AtomicSwapTransaction) (hexTx : String)
    (changepos : Int) :
    OnFundRawTransaction (some (hexTx, changepos)) tx =
      .ok ()
        { tx with
          m_ValuePosition := if toInt32 changepos = 0 then 1 else 0
          params := tx.params.put .LOCK_TX .AtomicSwapExternalTxOutputIndex
            (.int (if toInt32 changepos = 0 then 1 else 0))
          log := tx.log ++
            [.SetParameter .LOCK_TX .AtomicSwapExternalTxOutputIndex
              (.int (if toInt32 changepos = 0 then 1 else 0)),
             .signRawTransaction hexTx] } := by
  by_cases hc : toInt32 changepos = 0 <;> simp [OnFundRawTransaction, hc]

open AtomicSwapTransaction in
/-- C13, counterexample. The reply with `changepos = 2 ^ 32`, an integer other
than 0: read into the 32-bit `int` of line 987 it is 0, so on the fresh object
over `sampleParams` the callback stores the output index 1, where the claim
says 0. -/
theorem changepos_is_read_as_int32 :
    ((4294967296 : Int) ≠ 0)
      ∧ toInt32 4294967296 = 0
      ∧ (OnFundRawTransaction (some ("hex", 4294967296))
          (AtomicSwapTransaction.create sampleParams)).tx.params .LOCK_TX
          .AtomicSwapExternalTxOutputIndex = some (.int 1)
      ∧ (OnFundRawTransaction (some ("hex", 4294967296))
          (AtomicSwapTransaction.create sampleParams)).tx.m_ValuePosition = 1 := by
  refine ⟨by decide, by decide, ?_, ?_⟩ <;>
    (rw [OnFundRawTransaction_some]; simp [toInt32, ParamStore.put])

open AtomicSwapTransaction in
/-- C13, amended. For every `changepos` of a `fundRawTransaction` reply that
fits the 32-bit `int` it is read into, `OnFundRawTransaction` returns and
stores `AtomicSwapExternalTxOutputIndex` under `LOCK_TX` as 1 when `changepos`
is 0 and as 0 otherwise: in particular 0 for `changepos = 1` and for
`changepos = -1`, the reply without a change output. -/
theorem OnFundRawTransaction_stores_output_index (tx : AtomicSwapTransaction) (hexTx : String)
    (changePos : Int) (hlo : -2 ^ 31 ≤ changePos) (hhi : changePos < 2 ^ 31) :
    OnFundRawTransaction (some (hexTx, changePos)) tx =
        .ok ()
          { tx with
            m_ValuePosition := if changePos = 0 then 1 else 0
            params := tx.params.put .LOCK_TX .AtomicSwapExternalTxOutputIndex
              (.int (if changePos = 0 then 1 else 0))
            log := tx.log ++
              [.SetParameter .LOCK_TX .AtomicSwapExternalTxOutputIndex
                (.int (if changePos = 0 then 1 else 0)),
               .signRawTransaction hexTx] }
      ∧ (OnFundRawTransaction (some (hexTx, changePos)) tx).tx.params .LOCK_TX
          .AtomicSwapExternalTxOutputIndex = some (.int (if changePos = 0 then 1 else 0))
      ∧ (OnFundRawTransaction (some (hexTx, 0)) tx).tx.params .LOCK_TX
          .AtomicSwapExternalTxOutputIndex = some (.int 1)
      ∧ (OnFundRawTransaction (some (hexTx, 1)) tx).tx.params .LOCK_TX
          .AtomicSwapExternalTxOutputIndex = some (.int 0)
      ∧ (OnFundRawTransaction (some (hexTx, -1)) tx).tx.params .LOCK_TX
          .AtomicSwapExternalTxOutputIndex = some (.int 0) := by
  have h := OnFundRawTransaction_some tx hexTx changePos
  rw [toInt32_of_fits changePos hlo hhi] at h
  refine ⟨h, ?_, ?_, ?_, ?_⟩
  · rw [h]
    simp [ParamStore.put]
  · rw [OnFundRawTransaction_some]
    simp [toInt32, ParamStore.put]
  · rw [OnFundRawTransaction_some]
    simp [toInt32, ParamStore.put]
  · rw [OnFundRawTransaction_some]
    simp [toInt32, ParamStore.put]

open AtomicSwapTransaction in
/-- The thirteenth theorem at `changepos = -1`, the reply without a change
output, on the fresh object over `sampleParams`: the stored index is 0. -/
theorem OnFundRawTransaction_stores_output_index_witness :
    (-(2 : Int) ^ 31 ≤ -1 ∧ (-1 : Int) < 2 ^ 31)
      ∧ (OnFundRawTransaction (some ("hex", -1))
          (AtomicSwapTransaction.create sampleParams)).tx.params .LOCK_TX
          .AtomicSwapExternalTxOutputIndex = some (.int (if (-1 : Int) = 0 then 1 else 0)) :=
  ⟨⟨by decide, by decide⟩,
    (OnFundRawTransaction_stores_output_index (AtomicSwapTransaction.create sampleParams) "hex"
      (-1) (by decide) (by decide)).2.1⟩


/-! ## Broadcasting a Chain B transaction (C15) -/

open AtomicSwapTransaction in
/-- C15. `RegisterExternalTx(raw, sub)` by the stored flag
`TransactionRegistered` of `sub`: when absent it issues `sendRawTransaction(raw)`
and returns false, and `OnFailed` is not called; when stored as true it returns
true and changes nothing; when stored as false it returns false after
`OnFailed(FailedToRegister, true)`, and issues no request. The reply callback
for a non-empty txid stores `TransactionRegistered = true` and
`AtomicSwapExternalTxID = txid` under `sub`; for an empty txid it stores
`TransactionRegistered = false` and no txid. Both then call `Update`. -/
theorem RegisterExternalTx_by_flag (tx : AtomicSwapTransaction) (rawTransaction txID : String)
    (subTxID : SubTxID) :
    RegisterExternalTx rawTransaction subTxID tx =
        (match (tx.params subTxID .TransactionRegistered).bind Value.asBool with
          | none =>
            .ok false { tx with log := tx.log ++ [.sendRawTransaction rawTransaction subTxID] }
          | some true => .ok true tx
          | some false =>
            .ok false { tx with log := tx.log ++ [.OnFailed .FailedToRegister true] })
      ∧ OnSendRawTransaction subTxID txID tx =
        (if txID.isEmpty then
          .ok ()
            { tx with
              params := tx.params.put subTxID .TransactionRegistered (.bool false)
              log := tx.log ++
                [.SetParameter subTxID .TransactionRegistered (.bool false), .Update] }
        else
          .ok ()
            { tx with
              params := (tx.params.put subTxID .TransactionRegistered (.bool true)).put subTxID
                .AtomicSwapExternalTxID (.str txID)
              log := tx.log ++
                [.SetParameter subTxID .TransactionRegistered (.bool true),
                 .SetParameter subTxID .AtomicSwapExternalTxID (.str txID), .Update] }) := by
  constructor
  · cases h : (tx.params subTxID .TransactionRegistered).bind Value.asBool with
    | none => simp [RegisterExternalTx, GetParameter, h]
    | some b => cases b <;> simp [RegisterExternalTx, GetParameter, h, OnFailed]
  · cases h : txID.isEmpty <;> simp [OnSendRawTransaction, h]


/-! ## A `fundRawTransaction` reply delivered twice (C14) -/

open AtomicSwapTransaction in
/-- C14, counterexample. On the fresh object over `sampleParams`, the second
delivery of the reply `("hex", 1)` to `OnFundRawTransaction` issues a second
`signRawTransaction` request. -/
theorem second_fund_reply_signs_again :
    (OnFundRawTransaction (some ("hex", 1))
        (OnFundRawTransaction (some ("hex", 1)) (AtomicSwapTransaction.create sampleParams)).tx).newLog
      (OnFundRawTransaction (some ("hex", 1)) (AtomicSwapTransaction.create sampleParams)).tx =
      [.SetParameter .LOCK_TX .AtomicSwapExternalTxOutputIndex (.int 0),
       .signRawTransaction "hex"] := by
  decide

open AtomicSwapTransaction in
/-- C14, amended. Delivering the same `fundRawTransaction` reply to
`OnFundRawTransaction` twice: the second delivery returns, writes the same
`AtomicSwapExternalTxOutputIndex` (the store and `m_ValuePosition` are as after
the first delivery), and issues a second `signRawTransaction` request for the
same transaction. -/
theorem second_fund_reply_same_index (tx : AtomicSwapTransaction) (hexTx : String)
    (changePos : Int) :
    (OnFundRawTransaction (some (hexTx, changePos))
        (OnFundRawTransaction (some (hexTx, changePos)) tx).tx).value = some ()
      ∧ (OnFundRawTransaction (some (hexTx, changePos))
          (OnFundRawTransaction (some (hexTx, changePos)) tx).tx).newLog
          (OnFundRawTransaction (some (hexTx, changePos)) tx).tx =
        (OnFundRawTransaction (some (hexTx, changePos)) tx).newLog tx
      ∧ (OnFundRawTransaction (some (hexTx, changePos)) tx).newLog tx =
        [.SetParameter .LOCK_TX .AtomicSwapExternalTxOutputIndex
           (.int (if toInt32 changePos = 0 then 1 else 0)),
         .signRawTransaction hexTx]
      ∧ (OnFundRawTransaction (some (hexTx, changePos))
          (OnFundRawTransaction (some (hexTx, changePos)) tx).tx).tx.params =
        (OnFundRawTransaction (some (hexTx, changePos)) tx).tx.params
      ∧ (OnFundRawTransaction (some (hexTx, changePos))
          (OnFundRawTransaction (some (hexTx, changePos)) tx).tx).tx.m_ValuePosition =
        (OnFundRawTransaction (some (hexTx, changePos)) tx).tx.m_ValuePosition := by
  have h : ∀ t : AtomicSwapTransaction, OnFundRawTransaction (some (hexTx, changePos)) t =
      .ok ()
        { t with
          m_ValuePosition := if toInt32 changePos = 0 then 1 else 0
          params := t.params.put .LOCK_TX .AtomicSwapExternalTxOutputIndex
            (.int (if toInt32 changePos = 0 then 1 else 0))
          log := t.log ++
            [.SetParameter .LOCK_TX .AtomicSwapExternalTxOutputIndex
              (.int (if toInt32 changePos = 0 then 1 else 0)),
             .signRawTransaction hexTx] } :=
    fun t => OnFundRawTransaction_some t hexTx changePos
  rw [h tx, h]
  refine ⟨rfl, ?_, ?_, ?_, rfl⟩
  · simp [Res.newLog, Res.tx]
  · simp [Res.newLog, Res.tx]
  · funext s i
    simp only [Res.tx, ParamStore.put]
    split <;> rfl


/-! ## The failure path in the sending states (C16) -/

open AtomicSwapTransaction in
/-- `SendSubTx` by the stored flag `TransactionRegistered`. -/
theorem SendSubTx_by_flag (t : Transaction) (subTxID : SubTxID) (tx : AtomicSwapTransaction) :
    SendSubTx t subTxID tx =
      (match (tx.params subTxID .TransactionRegistered).bind Value.asBool with
        | none => .ok false { tx with log := tx.log ++ [.register_tx subTxID t] }
        | some true => .ok true tx
        | some false => .ok false { tx with log := tx.log ++ [.OnFailed .FailedToRegister true] }) := by
  cases h : (tx.params subTxID .TransactionRegistered).bind Value.asBool with
  | none => simp [SendSubTx, GetParameter, h]
  | some b => cases b <;> simp [SendSubTx, GetParameter, h, OnFailed]

open AtomicSwapTransaction in
/-- `IsSubTxCompleted` does not call the failure path. -/
theorem IsSubTxCompleted_noFail (subTxID : SubTxID) (tx : AtomicSwapTransaction) :
    Evolves NoFail False tx (IsSubTxCompleted subTxID tx).tx := by
  unfold IsSubTxCompleted
  repeat' first
    | with_reducible exact Evolves.of_pure _ _
    | with_reducible exact Evolves.of_GetParameter _ _ _ _
    | with_reducible exact Evolves.of_GetMandatoryParameter _ _ _ _
    | ((with_reducible refine Evolves.of_emit _ ?_ ?_ _) <;>
        (first | exact trivial | exact fun _ => rfl))
    | with_reducible apply Evolves.bind
    | with_reducible apply Evolves.of_ite
    | intro _ _ _
    | intro _
    | split
    | (with_reducible dsimp only)

open AtomicSwapTransaction in
/-- `GetPreimageFromChain` does not call the failure path. -/
theorem GetPreimageFromChain_noFail (tx : AtomicSwapTransaction) :
    Evolves NoFail False tx (GetPreimageFromChain tx).tx := by
  unfold GetPreimageFromChain
  repeat' first
    | with_reducible exact Evolves.of_pure _ _
    | with_reducible exact Evolves.of_GetParameter _ _ _ _
    | with_reducible exact Evolves.of_GetMandatoryParameter _ _ _ _
    | ((with_reducible refine Evolves.of_emit _ ?_ ?_ _) <;>
        (first | exact trivial | exact fun _ => rfl))
    | with_reducible apply Evolves.bind
    | with_reducible apply Evolves.of_ite
    | intro _ _ _
    | intro _
    | split
    | (with_reducible dsimp only)

open AtomicSwapTransaction in
/-- `SetNextState` does not call the failure path. -/
theorem SetNextState_noFail (s : State) (tx : AtomicSwapTransaction) :
    Evolves NoFail False tx (SetNextState s tx).tx := by
  unfold SetNextState SetState UpdateAsync
  repeat' first
    | ((with_reducible refine Evolves.of_emit _ ?_ ?_ _) <;>
        (first | exact trivial | exact fun _ => rfl))
    | ((with_reducible refine Evolves.of_SetParameter _ _ _ ?_ _) <;> exact trivial)
    | with_reducible apply Evolves.bind
    | intro _ _ _
    | (with_reducible dsimp only)

open AtomicSwapTransaction in
/-- What follows a settled broadcast in a sending state does not call the
failure path: the kernel query, then the next state. -/
theorem after_query_noFail (q : M Bool) (s : State) (tx : AtomicSwapTransaction)
    (hq : ∀ t, Evolves NoFail False t (q t).tx) :
    Evolves NoFail False tx
      (match q tx with
        | .ok true tx2 => SetNextState s tx2
        | .ok false tx2 => .ok () tx2
        | .fail x tx2 => .fail x tx2 : Res Unit).tx := by
  have h := hq tx
  cases hr : q tx with
  | ok r tx2 =>
    rw [hr] at h
    cases r
    · exact h
    · exact h.trans (SetNextState_noFail s tx2)
  | fail x tx2 =>
    rw [hr] at h
    exact h

open AtomicSwapTransaction in
/-- A tick in `SendingBeamRefundTX` of the Beam owner, by the built refund
transaction held and the stored flag of its broadcast. -/
theorem tick_SendingBeamRefundTX_by_flag (env : Env) (tx : AtomicSwapTransaction)
    (hb : tx.role = some true) (hs : tx.state = .SendingBeamRefundTX) :
    UpdateImpl env tx =
      (match tx.m_RefundTx, (tx.params .BEAM_REFUND_TX .TransactionRegistered).bind Value.asBool with
        | some t, none =>
          .ok () { tx.cached true with log := tx.log ++ [.register_tx .BEAM_REFUND_TX t] }
        | some _, some false =>
          .ok () { tx.cached true with log := tx.log ++ [.OnFailed .FailedToRegister true] }
        | _, _ =>
          (match IsSubTxCompleted .BEAM_REFUND_TX (tx.cached true) with
            | .ok true tx2 => SetNextState .CompleteSwap tx2
            | .ok false tx2 => .ok () tx2
            | .fail x tx2 => .fail x tx2)) := by
  have hm : (tx.cached true).m_RefundTx = tx.m_RefundTx := rfl
  have hU : UpdateImpl env tx = UpdateImpl.SendingBeamRefundTX true (tx.cached true) := by
    simp only [UpdateImpl, M.bind_apply, GetState_apply, IsSender_of_role tx _ hb, hs]
  cases hm' : tx.m_RefundTx with
  | none =>
    cases hr : IsSubTxCompleted .BEAM_REFUND_TX (tx.cached true) with
    | ok r tx2 => cases r <;> simp [hU, UpdateImpl.SendingBeamRefundTX, hm, hm', hr]
    | fail x tx2 => simp [hU, UpdateImpl.SendingBeamRefundTX, hm, hm', hr]
  | some t =>
    have hreg := SendSubTx_by_flag t .BEAM_REFUND_TX (tx.cached true)
    rw [cached_params] at hreg
    cases hf : (tx.params .BEAM_REFUND_TX .TransactionRegistered).bind Value.asBool with
    | none =>
      rw [hf] at hreg
      simp [hU, UpdateImpl.SendingBeamRefundTX, hm, hm', hreg]
    | some f =>
      rw [hf] at hreg
      cases f
      · simp [hU, UpdateImpl.SendingBeamRefundTX, hm, hm', hreg]
      · cases hr : IsSubTxCompleted .BEAM_REFUND_TX (tx.cached true) with
        | ok r tx2 => cases r <;> simp [hU, UpdateImpl.SendingBeamRefundTX, hm, hm', hr, hreg]
        | fail x tx2 => simp [hU, UpdateImpl.SendingBeamRefundTX, hm, hm', hr, hreg]

open AtomicSwapTransaction in
/-- A tick in `SendingBeamRedeemTX`, by the built redeem transaction held and
the stored flag of its broadcast. -/
theorem tick_SendingBeamRedeemTX_by_flag (env : Env) (tx : AtomicSwapTransaction) (b : Bool)
    (hb : tx.role = some b) (hs : tx.state = .SendingBeamRedeemTX) :
    UpdateImpl env tx =
      (match tx.m_RedeemTx, (tx.params .BEAM_REDEEM_TX .TransactionRegistered).bind Value.asBool with
        | some t, none =>
          .ok () { tx.cached b with log := tx.log ++ [.register_tx .BEAM_REDEEM_TX t] }
        | some _, some false =>
          .ok () { tx.cached b with log := tx.log ++ [.OnFailed .FailedToRegister true] }
        | _, _ =>
          if b = true then
            (if (IsBeamLockTimeExpired env (tx.cached b)).value = some true then
              SetNextState .SendingBeamRefundTX (tx.cached b)
            else
              (match GetPreimageFromChain (tx.cached b) with
                | .ok true tx2 => SetNextState .BuildingRedeemTX tx2
                | .ok false tx2 => .ok () tx2
                | .fail x tx2 => .fail x tx2))
          else
            (match IsSubTxCompleted .BEAM_REDEEM_TX (tx.cached b) with
              | .ok true tx2 => SetNextState .CompleteSwap tx2
              | .ok false tx2 => .ok () tx2
              | .fail x tx2 => .fail x tx2)) := by
  have hm : (tx.cached b).m_RedeemTx = tx.m_RedeemTx := rfl
  have hU : UpdateImpl env tx = UpdateImpl.SendingBeamRedeemTX env b (tx.cached b) := by
    simp only [UpdateImpl, M.bind_apply, GetState_apply, IsSender_of_role tx _ hb, hs]
  obtain ⟨e, he⟩ := IsBeamLockTimeExpired_returns env (tx.cached b)
  obtain ⟨t1, ht1⟩ : ∃ t1, SetNextState .SendingBeamRefundTX (tx.cached b) = .ok () t1 :=
    ⟨_, rfl⟩
  cases hm' : tx.m_RedeemTx with
  | none =>
    cases b
    · cases hr : IsSubTxCompleted .BEAM_REDEEM_TX (tx.cached false) with
      | ok r tx2 => cases r <;> simp [hU, UpdateImpl.SendingBeamRedeemTX, hm, hm', hr]
      | fail x tx2 => simp [hU, UpdateImpl.SendingBeamRedeemTX, hm, hm', hr]
    · cases e <;> cases hr : GetPreimageFromChain (tx.cached true) with
      | ok r tx2 =>
        cases r <;> simp [hU, UpdateImpl.SendingBeamRedeemTX, hm, hm', he, hr, ht1, Res.value]
      | fail x tx2 => simp [hU, UpdateImpl.SendingBeamRedeemTX, hm, hm', he, hr, ht1, Res.value]
  | some t =>
    have hreg := SendSubTx_by_flag t .BEAM_REDEEM_TX (tx.cached b)
    rw [cached_params] at hreg
    cases hf : (tx.params .BEAM_REDEEM_TX .TransactionRegistered).bind Value.asBool with
    | none =>
      rw [hf] at hreg
      simp [hU, UpdateImpl.SendingBeamRedeemTX, hm, hm', hreg]
    | some f =>
      rw [hf] at hreg
      cases f
      · simp [hU, UpdateImpl.SendingBeamRedeemTX, hm, hm', hreg]
      · cases b
        · cases hr : IsSubTxCompleted .BEAM_REDEEM_TX (tx.cached false) with
          | ok r tx2 => cases r <;> simp [hU, UpdateImpl.SendingBeamRedeemTX, hm, hm', hr, hreg]
          | fail x tx2 => simp [hU, UpdateImpl.SendingBeamRedeemTX, hm, hm', hr, hreg]
        · cases e <;> cases hr : GetPreimageFromChain (tx.cached true) with
          | ok r tx2 =>
            cases r <;>
              simp [hU, UpdateImpl.SendingBeamRedeemTX, hm, hm', he, hr, hreg, ht1, Res.value]
          | fail x tx2 =>
            simp [hU, UpdateImpl.SendingBeamRedeemTX, hm, hm', he, hr, hreg, ht1, Res.value]

/-- The failure path in a tick that has the shape of the sending states: it is
called exactly when a built transaction is held and its broadcast is stored as
refused. -/
theorem failure_path_by_flag {r rest : Res Unit} {tx : AtomicSwapTransaction} {b : Bool}
    {built : Option Transaction} {flag : Option Bool} {subTxID : SubTxID}
    (h : r =
      (match built, flag with
        | some t, none =>
          .ok () { tx.cached b with log := tx.log ++ [.register_tx subTxID t] }
        | some _, some false =>
          .ok () { tx.cached b with log := tx.log ++ [.OnFailed .FailedToRegister true] }
        | _, _ => rest))
    (hrest : Evolves NoFail False (tx.cached b) rest.tx) :
    ((∃ reason notify, Effect.OnFailed reason notify ∈ r.newLog tx) ↔
        built.isSome = true ∧ flag = some false)
      ∧ (built.isSome = true → flag = some false →
          r.newLog tx = [.OnFailed .FailedToRegister true] ∧ r.value = some ()
            ∧ r.tx.state = tx.state) := by
  have hno : ¬ ∃ reason notify, Effect.OnFailed reason notify ∈ rest.newLog tx := by
    rintro ⟨reason, notify, hmem⟩
    exact hrest.newLog _ hmem
  cases built with
  | none =>
    subst h
    exact ⟨⟨fun h' => absurd h' hno, fun h' => by simp at h'⟩, fun h' => by simp at h'⟩
  | some t =>
    cases flag with
    | none =>
      subst h
      simp [Res.newLog, Res.tx]
    | some f =>
      cases f
      · subst h
        simp [Res.newLog, Res.tx, Res.value, AtomicSwapTransaction.state,
          AtomicSwapTransaction.cached]
      · subst h
        exact ⟨⟨fun h' => absurd h' hno, fun h' => by simp at h'⟩, fun _ h' => by simp at h'⟩

open AtomicSwapTransaction in
/-- C16, counterexample. The Beam owner in `SendingBeamRefundTX` holds a built
refund transaction whose broadcast is stored as refused
(`TransactionRegistered = false` under `BEAM_REFUND_TX`): the tick calls the
failure path `OnFailed(FailedToRegister, true)` and nothing else, and the
stored state stays `SendingBeamRefundTX`. -/
theorem refused_refund_broadcast_calls_OnFailed :
    (UpdateImpl (sampleEnv true none) sampleRefundFailed).newLog sampleRefundFailed =
        [.OnFailed .FailedToRegister true]
      ∧ (UpdateImpl (sampleEnv true none) sampleRefundFailed).tx.state = .SendingBeamRefundTX := by
  decide

open AtomicSwapTransaction in
/-- C16, amended. In the states `SendingBeamRedeemTX` and `SendingBeamRefundTX`
(the latter on the Beam owner), a tick invokes the failure path `OnFailed`
exactly when the object holds the built transaction of the state and
`TransactionRegistered` is stored as false for its sub-transaction
(`BEAM_REDEEM_TX`, `BEAM_REFUND_TX`); the tick then returns having logged only
`OnFailed(FailedToRegister, true)`, and the stored top-level state is
unchanged. -/
theorem sending_states_failure_path (env : Env) (tx : AtomicSwapTransaction) (b : Bool)
    (hb : tx.role = some b) :
    (tx.state = .SendingBeamRedeemTX →
      ((∃ reason notify, Effect.OnFailed reason notify ∈ (UpdateImpl env tx).newLog tx) ↔
          tx.m_RedeemTx.isSome = true ∧
            (tx.params .BEAM_REDEEM_TX .TransactionRegistered).bind Value.asBool = some false)
        ∧ (tx.m_RedeemTx.isSome = true →
            (tx.params .BEAM_REDEEM_TX .TransactionRegistered).bind Value.asBool = some false →
            (UpdateImpl env tx).newLog tx = [.OnFailed .FailedToRegister true]
              ∧ (UpdateImpl env tx).value = some ()
              ∧ (UpdateImpl env tx).tx.state = tx.state))
    ∧ (tx.state = .SendingBeamRefundTX → b = true →
      ((∃ reason notify, Effect.OnFailed reason notify ∈ (UpdateImpl env tx).newLog tx) ↔
          tx.m_RefundTx.isSome = true ∧
            (tx.params .BEAM_REFUND_TX .TransactionRegistered).bind Value.asBool = some false)
        ∧ (tx.m_RefundTx.isSome = true →
            (tx.params .BEAM_REFUND_TX .TransactionRegistered).bind Value.asBool = some false →
            (UpdateImpl env tx).newLog tx = [.OnFailed .FailedToRegister true]
              ∧ (UpdateImpl env tx).value = some ()
              ∧ (UpdateImpl env tx).tx.state = tx.state)) := by
  constructor
  · intro hs
    refine failure_path_by_flag (tick_SendingBeamRedeemTX_by_flag env tx b hb hs) ?_
    cases b
    · exact after_query_noFail _ _ _ (IsSubTxCompleted_noFail _)
    · simp only [if_true]
      split
      · exact SetNextState_noFail _ _
      · exact after_query_noFail _ _ _ GetPreimageFromChain_noFail
  · intro hs hbt
    subst hbt
    exact failure_path_by_flag (tick_SendingBeamRefundTX_by_flag env tx hb hs)
      (after_query_noFail _ _ _ (IsSubTxCompleted_noFail _))

open AtomicSwapTransaction in
/-- The sixteenth theorem on the sample object whose refund broadcast was
refused: the tick calls the failure path and the state stays. -/
theorem sending_states_failure_path_witness :
    (∃ reason notify, Effect.OnFailed reason notify ∈
        (UpdateImpl (sampleEnv true none) sampleRefundFailed).newLog sampleRefundFailed)
      ∧ (UpdateImpl (sampleEnv true none) sampleRefundFailed).tx.state =
          sampleRefundFailed.state :=
  have h := (sending_states_failure_path (sampleEnv true none) sampleRefundFailed true
    (by decide)).2 (by decide) rfl
  ⟨h.1.mpr ⟨by decide, by decide⟩, (h.2 (by decide) (by decide)).2.2⟩


/-! ## A tick after a restart (C17) -/

open AtomicSwapTransaction in
/-- C17. Two objects over the same store whose in-memory members differ, as
before and after a restart, take different ticks. The Chain B owner in
`HandlingContractTX`: with the raw lock transaction held the tick requests
`sendRawTransaction` and returns; in a fresh process it stops at the assertion
of line 270. The Beam owner in `SendingBeamLockTX` (where the source notes
`TODO: load m_LockTx`): with the built lock transaction held the tick calls
`register_tx`; in a fresh process the tick calls no `register_tx`, so the lock
transaction is not broadcast. -/
theorem tick_depends_on_members :
    sampleAfterRestart.params = sampleBeforeRestart.params
      ∧ (UpdateImpl (sampleEnv false none) sampleBeforeRestart).newLog sampleBeforeRestart =
          [.sendRawTransaction "raw" .LOCK_TX]
      ∧ (UpdateImpl (sampleEnv false none) sampleBeforeRestart).value = some ()
      ∧ (∃ tx', UpdateImpl (sampleEnv false none) sampleAfterRestart =
          .fail (.AssertionFailed 270) tx')
      ∧ (UpdateImpl (sampleEnv false none) sampleAfterRestart).newLog sampleAfterRestart = []
      ∧ (AtomicSwapTransaction.create sampleLockBuilt.params).params = sampleLockBuilt.params
      ∧ (UpdateImpl (sampleEnv true none) sampleLockBuilt).newLog sampleLockBuilt =
          [.register_tx .BEAM_LOCK_TX { kernelID := zeroBig, body := 0 }]
      ∧ (∀ e ∈ (UpdateImpl (sampleEnv true none)
            (AtomicSwapTransaction.create sampleLockBuilt.params)).newLog
            (AtomicSwapTransaction.create sampleLockBuilt.params),
          ∀ t, e ≠ .register_tx .BEAM_LOCK_TX t) := by
  refine ⟨rfl, by decide, by decide, ⟨_, rfl⟩, by decide, rfl, by decide, ?_⟩
  intro e he t
  have h : (UpdateImpl (sampleEnv true none)
      (AtomicSwapTransaction.create sampleLockBuilt.params)).newLog
      (AtomicSwapTransaction.create sampleLockBuilt.params) = [] := by decide
  rw [h] at he
  cases he


/-! ## The settings provider's reference count (C18) -/

/-- The count after a sequence of calls is the number of outstanding references,
while the references taken fit the counter. -/
theorem SettingsProvider.run_count (w : Nat) (calls : List RefCall) :
    ∀ p : SettingsProvider, p.m_refCount + calls.count .AddRef < 2 ^ w →
      (p.run w calls).m_refCount = outstanding p.m_refCount calls := by
  induction calls with
  | nil => intro p _; rfl
  | cons c rest ih =>
    intro p h
    cases c with
    | AddRef =>
      have h1 : (p.AddRef w).m_refCount = p.m_refCount + 1 := by
        simp only [SettingsProvider.AddRef]
        exact Nat.mod_eq_of_lt (by simp at h; omega)
      have h2 := ih (p.AddRef w) (by rw [h1]; simp at h; omega)
      simp only [SettingsProvider.run, outstanding, List.foldl_cons] at h2 ⊢
      rw [h2, h1]
    | ReleaseRef =>
      have h1 : (p.ReleaseRef w).m_refCount = p.m_refCount - 1 := by
        unfold SettingsProvider.ReleaseRef
        split
        · simp only
          exact Nat.mod_eq_of_lt (by simp at h; omega)
        · omega
      have h2 := ih (p.ReleaseRef w) (by rw [h1]; simp at h; omega)
      simp only [SettingsProvider.run, outstanding, List.foldl_cons] at h2 ⊢
      rw [h2, h1]

/-- C18. On a freshly constructed `SettingsProvider`, for every sequence of
`AddRef` and `ReleaseRef` calls whose `AddRef` calls fit the counter: the count
after the sequence is the number of outstanding references (where a release at
zero is a no-op), so it never wraps below zero; `CanModify()` returns true iff
that number is zero; and `ReleaseRef` at count 0 leaves the count 0. -/
theorem refcount_is_outstanding_references (w : Nat) (calls : List RefCall)
    (h : calls.count .AddRef < 2 ^ w) :
    (SettingsProvider.create.run w calls).m_refCount = outstanding 0 calls
      ∧ ((SettingsProvider.create.run w calls).CanModify = true ↔ outstanding 0 calls = 0)
      ∧ (∀ p : SettingsProvider, p.m_refCount = 0 → (p.ReleaseRef w).m_refCount = 0)
      ∧ (SettingsProvider.create.run w calls).m_refCount ≤ calls.count .AddRef := by
  have hc := SettingsProvider.run_count w calls SettingsProvider.create
    (by simpa [SettingsProvider.create] using h)
  have hc' : (SettingsProvider.create.run w calls).m_refCount = outstanding 0 calls := hc
  have hle : ∀ (l : List RefCall) (n : Nat), outstanding n l ≤ n + l.count .AddRef := by
    intro l
    induction l with
    | nil => intro n; simp [outstanding]
    | cons c rest ih =>
      intro n
      cases c with
      | AddRef =>
        have := ih (n + 1)
        simp only [outstanding, List.foldl_cons, List.count_cons_self] at this ⊢
        omega
      | ReleaseRef =>
        have := ih (n - 1)
        simp only [outstanding, List.foldl_cons] at this ⊢
        simp
        omega
  refine ⟨hc', ?_, ?_, ?_⟩
  · simp [SettingsProvider.CanModify, hc']
  · intro p hp
    simp [SettingsProvider.ReleaseRef, hp]
  · rw [hc']
    simpa using hle calls 0

/-- The eighteenth theorem on a 64-bit counter: two references taken, three
released, one taken. -/
theorem refcount_is_outstanding_references_witness :
    (SettingsProvider.create.run 64
        [.AddRef, .AddRef, .ReleaseRef, .ReleaseRef, .ReleaseRef, .AddRef]).m_refCount = 1
      ∧ (SettingsProvider.create.run 64
        [.AddRef, .ReleaseRef, .ReleaseRef]).CanModify = true :=
  ⟨(refcount_is_outstanding_references 64
      [.AddRef, .AddRef, .ReleaseRef, .ReleaseRef, .ReleaseRef, .AddRef] (by decide)).1,
    (refcount_is_outstanding_references 64 [.AddRef, .ReleaseRef, .ReleaseRef]
      (by decide)).2.1.mpr (by decide)⟩


/-! ## The shared commitment (C20) -/

/-- C20. For every amount `v` (an `Amount`, below `2 ^ 64`), own blinding share
`r_self` and peer public share `R_peer`, `LockTxBuilder::GetSharedCommitment`
returns `v • H + r_self • G + R_peer`, and the input commitment that
`SharedTxBuilder::InitInputAndOutputs` builds for `BEAM_REFUND_TX` and for
`BEAM_REDEEM_TX`, whose builder amount is `GetAmount()` minus the fee, is the
same group element; when each party holds the other's `r • G` as its peer
share, both compute the same commitment. -/
theorem shared_commitment_is_the_same {Point : Type} [AddCommGroup Point] (G H : Point) (v : Nat)
    (hv : v < 2 ^ 64) (r_self r_peer : ℤ) (R_peer : Point) :
    ECC.LockTxBuilder.GetSharedCommitment G H v r_self (some R_peer) =
        some (v • H + r_self • G + R_peer)
      ∧ ECC.SharedTxBuilder.InitInputAndOutputs G H (ECC.refundAmount v) r_self R_peer =
        v • H + r_self • G + R_peer
      ∧ ECC.SharedTxBuilder.InitInputAndOutputs G H (ECC.redeemAmount v) r_self R_peer =
        v • H + r_self • G + R_peer
      ∧ ECC.LockTxBuilder.GetSharedCommitment G H v r_self
          (some (ECC.LockTxBuilder.GetPublicSharedBlindingFactor G r_peer)) =
        ECC.LockTxBuilder.GetSharedCommitment G H v r_peer
          (some (ECC.LockTxBuilder.GetPublicSharedBlindingFactor G r_self))
      ∧ ECC.SharedTxBuilder.InitInputAndOutputs G H (ECC.refundAmount v) r_self
          (ECC.LockTxBuilder.GetPublicSharedBlindingFactor G r_peer) =
        ECC.SharedTxBuilder.InitInputAndOutputs G H (ECC.redeemAmount v) r_peer
          (ECC.LockTxBuilder.GetPublicSharedBlindingFactor G r_self) := by
  have hs : ECC.sub64 v 0 = v := by
    unfold ECC.sub64
    rw [Nat.zero_mod, Nat.sub_zero, Nat.add_mod_right, Nat.mod_eq_of_lt hv]
  simp only [ECC.LockTxBuilder.GetSharedCommitment, ECC.SharedTxBuilder.InitInputAndOutputs,
    ECC.AddValue, ECC.LockTxBuilder.GetPublicSharedBlindingFactor, ECC.refundAmount,
    ECC.redeemAmount, hs, zero_add]
  refine ⟨trivial, trivial, trivial, ?_, ?_⟩
  · rw [add_assoc, add_assoc, add_comm (r_self • G)]
  · rw [add_assoc, add_assoc, add_comm (r_self • G)]

/-- The twentieth theorem on the integers, with `G = 1` and `H = 7`: amount 10,
shares 3 and 5. -/
theorem shared_commitment_is_the_same_witness :
    ECC.LockTxBuilder.GetSharedCommitment (1 : ℤ) 7 10 3 (some 5) = some 78
      ∧ ECC.SharedTxBuilder.InitInputAndOutputs (1 : ℤ) 7 (ECC.refundAmount 10) 3 5 = 78 := by
  have h := shared_commitment_is_the_same (1 : ℤ) 7 10 (by decide) 3 5 5
  refine ⟨?_, ?_⟩
  · rw [h.1]
    simp
  · rw [h.2.1]
    simp


/-! ## A peer signature that does not verify is not reported (C11) -/

open AtomicSwapTransaction in
/-- A tick of a building state after its builder: when the builder's check of
the peer's signature failed, the tick returns, the failure path is not called,
and the top-level state stays unless the sub-transaction was stored as
`Constructed`. -/
theorem after_rejecting_builder {subTxID : SubTxID} {tx : AtomicSwapTransaction}
    {rb : Res SubTxState} (next : State) (h : RejectedBy subTxID (tx.subTxState subTxID) tx rb)
    (hin : Evolves Inner False tx rb.tx)
    (hc : Effect.Builder subTxID (.IsPeerSignatureValid false) ∈
      (match rb with
        | .ok s t => (if s ≠ .Constructed then pure () else SetNextState next : M Unit) t
        | .fail e t => .fail e t).newLog tx) :
    (∀ reason notify, Effect.OnFailed reason notify ∉
      (match rb with
        | .ok s t => (if s ≠ .Constructed then pure () else SetNextState next : M Unit) t
        | .fail e t => .fail e t).newLog tx)
    ∧ (match rb with
        | .ok s t => (if s ≠ .Constructed then pure () else SetNextState next : M Unit) t
        | .fail e t => .fail e t).value = some ()
    ∧ (tx.subTxState subTxID ≠ .Constructed →
      (match rb with
        | .ok s t => (if s ≠ .Constructed then pure () else SetNextState next : M Unit) t
        | .fail e t => .fail e t).tx.state = tx.state) := by
  obtain ⟨l, e, h'⟩ := h
  have hst := hin.state_eq
  cases rb with
  | fail x t =>
    replace e : t.log = tx.log ++ l := e
    have hl : (Res.fail x t : Res Unit).newLog tx = l := by simp [Res.newLog, Res.tx, e]
    simp only [hl] at hc ⊢
    obtain ⟨v, _⟩ := h' hc
    cases v
  | ok s t =>
    replace e : t.log = tx.log ++ l := e
    replace hst : t.state = tx.state := hst
    obtain hcl | hcl : Effect.Builder subTxID (.IsPeerSignatureValid false) ∈ l ∨
        Effect.Builder subTxID (.IsPeerSignatureValid false) ∈
          [Effect.SetParameter .kDefaultSubTxID .State (.state next), .UpdateAsync] := by
      by_cases hs : s = .Constructed
      · simp only [hs, ne_eq, not_true_eq_false, if_false] at hc
        have : (SetNextState next t).newLog tx =
            l ++ [Effect.SetParameter .kDefaultSubTxID .State (.state next), .UpdateAsync] := by
          simp [Res.newLog, Res.tx, SetNextState, SetState, UpdateAsync,
            beam.wallet.SetParameter, M.emit, e]
        rw [this] at hc
        exact List.mem_append.mp hc
      · simp only [ne_eq, hs, not_false_eq_true, if_true] at hc
        have : ((pure () : M Unit) t).newLog tx = l := by
          show (Res.ok () t).newLog tx = l
          simp [Res.newLog, Res.tx, e]
        rw [this] at hc
        exact Or.inl hc
    · obtain ⟨v, q, _⟩ := h' hcl
      have hv : s = tx.subTxState subTxID := by
        simpa [Res.value] using v
      by_cases hs : s = .Constructed
      · simp only [hs, ne_eq, not_true_eq_false, if_false]
        have : (SetNextState next t).newLog tx =
            l ++ [Effect.SetParameter .kDefaultSubTxID .State (.state next), .UpdateAsync] := by
          simp [Res.newLog, Res.tx, SetNextState, SetState, UpdateAsync,
            beam.wallet.SetParameter, M.emit, e]
        rw [this]
        refine ⟨?_, rfl, ?_⟩
        · intro reason notify hm
          rcases List.mem_append.mp hm with hm | hm
          · exact q _ hm
          · simp at hm
        · intro hne
          exact absurd (hv ▸ hs) hne
      · simp only [ne_eq, hs, not_false_eq_true, if_true]
        have : ((pure () : M Unit) t).newLog tx = l := by
          show (Res.ok () t).newLog tx = l
          simp [Res.newLog, Res.tx, e]
        rw [this]
        exact ⟨fun reason notify hm => q _ hm, rfl, fun _ => hst⟩
    · simp at hcl

open AtomicSwapTransaction in
/-- C11, counterexample. In `BuildingBeamLockTX`, with the lock sub-transaction
in `SharedUTXOProofPart2` and a stored peer signature that does not verify, the
tick ends at the failed check: it returns, the failure path `OnFailed` is not
called (with `PeerSignatureInvalid` or any other reason), and the stored state
is still `BuildingBeamLockTX`. -/
theorem rejected_signature_is_not_a_failure :
    (UpdateImpl sampleRejectingEnv sampleRejectedLock).newLog sampleRejectedLock =
        [.Builder .BEAM_LOCK_TX (.GetInitialTxParams false),
         .Builder .BEAM_LOCK_TX .CreateKernel,
         .Builder .BEAM_LOCK_TX (.GetPeerPublicExcessAndNonce true),
         .Builder .BEAM_LOCK_TX .SignPartial,
         .Builder .BEAM_LOCK_TX (.GetPeerSignature true),
         .Builder .BEAM_LOCK_TX (.IsPeerSignatureValid false)]
      ∧ (UpdateImpl sampleRejectingEnv sampleRejectedLock).value = some ()
      ∧ (UpdateImpl sampleRejectingEnv sampleRejectedLock).tx.state = .BuildingBeamLockTX := by
  decide

open AtomicSwapTransaction in
/-- C11, amended. When the peer's partial signature fails verification while
building a Chain A sub-transaction (a tick in `BuildingBeamLockTX`,
`BuildingBeamRefundTX` or `BuildingBeamRedeemTX` whose builder's
`IsPeerSignatureValid` returned false), the failure is not surfaced as a
protocol failure: the tick returns, the failure path `OnFailed` is not invoked
with any reason, and the stored top-level state is unchanged unless the
sub-transaction was already stored as `Constructed`. -/
theorem invalid_peer_signature_is_not_reported (env : Env) (tx : AtomicSwapTransaction)
    (b : Bool) (subTxID : SubTxID) (hb : tx.role = some b)
    (hstate : (tx.state = .BuildingBeamLockTX ∧ subTxID = .BEAM_LOCK_TX)
      ∨ (tx.state = .BuildingBeamRefundTX ∧ subTxID = .BEAM_REFUND_TX)
      ∨ (tx.state = .BuildingBeamRedeemTX ∧ subTxID = .BEAM_REDEEM_TX))
    (hcheck : Effect.Builder subTxID (.IsPeerSignatureValid false) ∈
      (UpdateImpl env tx).newLog tx) :
    (∀ reason notify, Effect.OnFailed reason notify ∉ (UpdateImpl env tx).newLog tx)
      ∧ (UpdateImpl env tx).value = some ()
      ∧ (tx.subTxState subTxID ≠ .Constructed → (UpdateImpl env tx).tx.state = tx.state) := by
  rcases hstate with ⟨hs, rfl⟩ | ⟨hs, rfl⟩ | ⟨hs, rfl⟩
  · have hU : UpdateImpl env tx =
        (match BuildBeamLockTx env (tx.cached b) with
          | .ok s t =>
            (if s ≠ .Constructed then pure () else SetNextState .BuildingBeamRefundTX : M Unit) t
          | .fail e t => .fail e t) := by
      simp only [UpdateImpl, UpdateImpl.BuildingBeamLockTX, M.bind_apply, GetState_apply,
        IsSender_of_role tx _ hb, hs]
      cases BuildBeamLockTx env (tx.cached b) <;> rfl
    rw [hU] at hcheck ⊢
    exact @after_rejecting_builder _ (tx.cached b) _ _
      (BuildBeamLockTx_rejection env (tx.cached b)) (BuildBeamLockTx_inner env (tx.cached b)) hcheck
  · have hU : UpdateImpl env tx =
        (match BuildBeamRefundTx env (tx.cached b) with
          | .ok s t =>
            (if s ≠ .Constructed then pure () else SetNextState .BuildingBeamRedeemTX : M Unit) t
          | .fail e t => .fail e t) := by
      simp only [UpdateImpl, UpdateImpl.BuildingBeamRefundTX, M.bind_apply, GetState_apply,
        IsSender_of_role tx _ hb, hs]
      cases BuildBeamRefundTx env (tx.cached b) <;> rfl
    rw [hU] at hcheck ⊢
    exact @after_rejecting_builder _ (tx.cached b) _ _
      (BuildBeamRefundTx_rejection env (tx.cached b)) (BuildBeamRefundTx_inner env (tx.cached b)) hcheck
  · have hU : UpdateImpl env tx =
        (match BuildBeamRedeemTx env (tx.cached b) with
          | .ok s t =>
            (if s ≠ .Constructed then pure () else SetNextState .HandlingContractTX : M Unit) t
          | .fail e t => .fail e t) := by
      simp only [UpdateImpl, UpdateImpl.BuildingBeamRedeemTX, M.bind_apply, GetState_apply,
        IsSender_of_role tx _ hb, hs]
      cases BuildBeamRedeemTx env (tx.cached b) <;> rfl
    rw [hU] at hcheck ⊢
    exact @after_rejecting_builder _ (tx.cached b) _ _
      (BuildBeamRedeemTx_rejection env (tx.cached b)) (BuildBeamRedeemTx_inner env (tx.cached b)) hcheck

open AtomicSwapTransaction in
/-- The eleventh theorem on the sample object: the check fails during the tick,
and the tick does not call the failure path. -/
theorem invalid_peer_signature_is_not_reported_witness :
    (∀ reason notify, Effect.OnFailed reason notify ∉
        (UpdateImpl sampleRejectingEnv sampleRejectedLock).newLog sampleRejectedLock)
      ∧ (UpdateImpl sampleRejectingEnv sampleRejectedLock).tx.state =
          sampleRejectedLock.state :=
  have h := invalid_peer_signature_is_not_reported sampleRejectingEnv sampleRejectedLock false
    .BEAM_LOCK_TX (by decide) (Or.inl ⟨by decide, rfl⟩) (by decide)
  ⟨h.1, h.2.2 (by decide)⟩


/-! ## Member functions on a party -/

section owned
variable {α β : Type} {secret : Prop} {b : Bool}

/-- A member function that leaves the built transactions alone. -/
theorem Owned.of_evolves {x : M α}
    (h : ∀ tx, Evolves (Fine secret (owns b)) True tx (x tx).tx) : Owned secret b x := by
  intro tx hp
  obtain ⟨h1, h2, h3⟩ := (h tx).built trivial
  exact ⟨⟨(h tx).role b hp.1, fun hb => by rw [h1, h2]; exact hp.2.1 hb,
    fun hb => by rw [h3]; exact hp.2.2 hb⟩, (h tx).log⟩

theorem Owned.of_bind {x : M α} {f : α → M β} (hx : Owned secret b x)
    (hf : ∀ a, Owned secret b (f a)) : Owned secret b (x >>= f) := by
  intro tx hp
  obtain ⟨hp1, l1, e1, r1, p1⟩ := hx tx hp
  simp only [M.bind_apply]
  cases h : x tx with
  | fail e tx' =>
    rw [h] at hp1 e1 r1
    exact ⟨hp1, l1, e1, r1, p1⟩
  | ok a tx' =>
    rw [h] at hp1 e1 r1
    replace e1 : tx'.log = tx.log ++ l1 := e1
    replace r1 : tx'.params = replay l1 tx.params := r1
    obtain ⟨hp2, l2, e2, r2, p2⟩ := hf a tx' hp1
    refine ⟨hp2, l1 ++ l2, ?_, ?_, ?_⟩
    · rw [e2, e1, List.append_assoc]
    · rw [r2, r1, replay_append]
    · intro e he
      rcases List.mem_append.mp he with he | he
      · exact p1 e he
      · exact p2 e he

/-- On the party, `IsSender()` returns `b`. -/
theorem Owned.bind_IsSender {f : Bool → M β} (hf : Owned secret b (f b)) :
    Owned secret b (AtomicSwapTransaction.IsSender >>= f) := by
  intro tx hp
  have h : AtomicSwapTransaction.IsSender tx = .ok b tx := by
    simp [AtomicSwapTransaction.IsSender, hp.1]
  simp only [M.bind_apply, h]
  exact hf tx hp

/-- Reading a built transaction: on the party that does not own it, none is
held. -/
theorem Owned.bind_read_LockTx {k : Option Transaction → M β} (hnone : Owned secret b (k none))
    (hsome : b = true → ∀ t, Owned secret b (k (some t))) :
    Owned secret b (M.read (fun tx => tx.m_LockTx) >>= k) := by
  intro tx hp
  simp only [M.bind_apply, M.read]
  cases b with
  | false =>
    rw [(hp.2.1 rfl).1]
    exact hnone tx hp
  | true =>
    cases h : tx.m_LockTx with
    | none => exact hnone tx hp
    | some t => exact hsome rfl t tx hp

theorem Owned.bind_read_RefundTx {k : Option Transaction → M β}
    (hnone : Owned secret b (k none)) (hsome : b = true → ∀ t, Owned secret b (k (some t))) :
    Owned secret b (M.read (fun tx => tx.m_RefundTx) >>= k) := by
  intro tx hp
  simp only [M.bind_apply, M.read]
  cases b with
  | false =>
    rw [(hp.2.1 rfl).2]
    exact hnone tx hp
  | true =>
    cases h : tx.m_RefundTx with
    | none => exact hnone tx hp
    | some t => exact hsome rfl t tx hp

theorem Owned.bind_read_RedeemTx {k : Option Transaction → M β}
    (hnone : Owned secret b (k none)) (hsome : b = false → ∀ t, Owned secret b (k (some t))) :
    Owned secret b (M.read (fun tx => tx.m_RedeemTx) >>= k) := by
  intro tx hp
  simp only [M.bind_apply, M.read]
  cases b with
  | true =>
    rw [hp.2.2 rfl]
    exact hnone tx hp
  | false =>
    cases h : tx.m_RedeemTx with
    | none => exact hnone tx hp
    | some t => exact hsome rfl t tx hp

theorem Owned.branches {c : Prop} [Decidable c] {x y : M α} (hx : c → Owned secret b x)
    (hy : ¬ c → Owned secret b y) : Owned secret b (if c then x else y) := by
  split
  · exact hx ‹_›
  · exact hy ‹_›

/-- The sender keeps the lock transaction it built. -/
theorem Owned.assign_LockTx (v : Option Transaction) (hb : b = true) :
    Owned secret b (M.modify fun tx => { tx with m_LockTx := v }) := by
  subst hb
  intro tx hp
  exact ⟨⟨hp.1, ⟨fun h => absurd h (by decide), hp.2.2⟩⟩, [], by simp [M.modify, Res.tx], rfl,
    by simp⟩

/-- The sender keeps the refund transaction it built. -/
theorem Owned.assign_RefundTx (v : Option Transaction) (hb : b = true) :
    Owned secret b (M.modify fun tx => { tx with m_RefundTx := v }) := by
  subst hb
  intro tx hp
  exact ⟨⟨hp.1, ⟨fun h => absurd h (by decide), hp.2.2⟩⟩, [], by simp [M.modify, Res.tx], rfl,
    by simp⟩

/-- The receiver keeps the redeem transaction it built. -/
theorem Owned.assign_RedeemTx (v : Option Transaction) (hb : b = false) :
    Owned secret b (M.modify fun tx => { tx with m_RedeemTx := v }) := by
  subst hb
  intro tx hp
  exact ⟨⟨hp.1, ⟨hp.2.1, fun h => absurd h (by decide)⟩⟩, [], by simp [M.modify, Res.tx], rfl,
    by simp⟩

end owned

/-- The builders' local work is `Fine`. -/
theorem silent_fine (secret : Prop) (own : SubTxID → Prop) :
    ∀ e, Silent e → Fine secret own e := by
  intro e h
  unfold Fine
  split <;> simp_all [Silent]

/-- Sending a peer message is `Fine`. -/
theorem sending_fine (secret : Prop) (own : SubTxID → Prop) :
    ∀ e, Sending e → Fine secret own e := by
  intro e h
  unfold Fine
  split <;> simp_all [Sending]

/-- `BuildBeamLockTx` on a party: only the sender comes to hold the lock transaction. -/
theorem BuildBeamLockTx_owned (secret : Prop) (env : Env) (b : Bool) :
    Owned secret b (AtomicSwapTransaction.BuildBeamLockTx env) := by
  have hSilent := silent_fine secret (owns b)
  have hSending := sending_fine secret (owns b)
  unfold AtomicSwapTransaction.BuildBeamLockTx Builder UpdateTxDescription SetState OnFailed
  cases b
  all_goals
    repeat' first
      | (with_reducible refine Owned.bind_IsSender ?_)
      | (with_reducible refine Owned.bind_read_LockTx ?_ ?_)
      | (with_reducible refine Owned.bind_read_RefundTx ?_ ?_)
      | (with_reducible refine Owned.bind_read_RedeemTx ?_ ?_)
      | ((with_reducible refine Owned.assign_LockTx _ ?_) <;> rfl)
      | ((with_reducible refine Owned.assign_RefundTx _ ?_) <;> rfl)
      | ((with_reducible refine Owned.assign_RedeemTx _ ?_) <;> rfl)
      | with_reducible apply Owned.of_bind
      | with_reducible apply Owned.branches
      | ((with_reducible refine Owned.of_evolves ?_)
         · intro _
           repeat' first
             | with_reducible exact Evolves.of_pure _ _
             | with_reducible exact Evolves.of_read _ _
             | with_reducible exact Evolves.of_raise _ _
             | with_reducible exact Evolves.of_GetParameter _ _ _ _
             | with_reducible exact Evolves.of_GetMandatoryParameter _ _ _ _
             | with_reducible exact Evolves.of_IsSender _
             | with_reducible exact Evolves.of_GetAmount _
             | with_reducible exact Evolves.of_assert _ _ _
             | with_reducible exact LoadSharedParameters_evolves hSilent _ _
             | with_reducible exact SharedUTXOProofPart2_evolves hSilent _ _ _
             | with_reducible exact SharedUTXOProofPart3_evolves hSilent _ _ _
             | with_reducible exact LockTxBuilder_CreateTransaction_evolves hSilent _ _
             | with_reducible exact InitTx_evolves hSilent _ _ _ _
             | with_reducible exact SharedTxBuilder_CreateTransaction_evolves hSilent _ _ _
             | with_reducible exact GetSharedParameters_evolves hSilent _
             | with_reducible exact SendInvitation_evolves hSending _ _
             | with_reducible exact SendExternalTxDetails_evolves hSending _ _
             | with_reducible exact SendLockTxInvitation_evolves hSending _ _ _
             | with_reducible exact SendBulletProofPart2_evolves hSending _ _ _
             | with_reducible exact SendBulletProofPart3_evolves hSending _ _ _
             | with_reducible exact SendSharedTxInvitation_evolves hSending _ _ _ _ _ _
             | with_reducible exact ConfirmSharedTxInvitation_evolves hSending _ _ _
             | ((with_reducible refine SendSubTx_evolves ?_ ?_ _ _) <;>
                 (first | exact fun _ => rfl | exact trivial))
             | ((with_reducible refine Evolves.of_emit _ ?_ ?_ _) <;>
                 (first | exact trivial | exact fun _ => rfl))
             | ((with_reducible refine Evolves.of_SetParameter _ _ _ ?_ _) <;>
                 (first | exact trivial | exact rfl | exact Or.inl rfl | exact Or.inr rfl))
             | ((with_reducible refine Evolves.of_BuilderQuery _ _ _ ?_ _);
                 exact fun _ => trivial)
             | with_reducible apply Evolves.bind
             | with_reducible apply Evolves.of_ite
             | (intro h; first | exact absurd h (by decide) | exact absurd rfl h | (simp at h; done))
             | intro _ _ _
             | intro _
             | split
             | (with_reducible dsimp only)
         )
      | (intro h; first | exact absurd h (by decide) | exact absurd rfl h | (simp at h; done))
      | intro _
      | split
      | (with_reducible dsimp only)

/-- `BuildBeamRefundTx` on a party: only the sender comes to hold the refund
transaction. -/
theorem BuildBeamRefundTx_owned (secret : Prop) (env : Env) (b : Bool) :
    Owned secret b (AtomicSwapTransaction.BuildBeamRefundTx env) := by
  have hSilent := silent_fine secret (owns b)
  have hSending := sending_fine secret (owns b)
  unfold AtomicSwapTransaction.BuildBeamRefundTx AtomicSwapTransaction.GetSubTxState Builder SetState
  cases b
  all_goals
    repeat' first
      | (with_reducible refine Owned.bind_IsSender ?_)
      | (with_reducible refine Owned.bind_read_LockTx ?_ ?_)
      | (with_reducible refine Owned.bind_read_RefundTx ?_ ?_)
      | (with_reducible refine Owned.bind_read_RedeemTx ?_ ?_)
      | ((with_reducible refine Owned.assign_LockTx _ ?_) <;> rfl)
      | ((with_reducible refine Owned.assign_RefundTx _ ?_) <;> rfl)
      | ((with_reducible refine Owned.assign_RedeemTx _ ?_) <;> rfl)
      | with_reducible apply Owned.of_bind
      | with_reducible apply Owned.branches
      | ((with_reducible refine Owned.of_evolves ?_)
         · intro _
           repeat' first
             | with_reducible exact Evolves.of_pure _ _
             | with_reducible exact Evolves.of_read _ _
             | with_reducible exact Evolves.of_raise _ _
             | with_reducible exact Evolves.of_GetParameter _ _ _ _
             | with_reducible exact Evolves.of_GetMandatoryParameter _ _ _ _
             | with_reducible exact Evolves.of_IsSender _
             | with_reducible exact Evolves.of_GetAmount _
             | with_reducible exact Evolves.of_assert _ _ _
             | with_reducible exact LoadSharedParameters_evolves hSilent _ _
             | with_reducible exact SharedUTXOProofPart2_evolves hSilent _ _ _
             | with_reducible exact SharedUTXOProofPart3_evolves hSilent _ _ _
             | with_reducible exact LockTxBuilder_CreateTransaction_evolves hSilent _ _
             | with_reducible exact InitTx_evolves hSilent _ _ _ _
             | with_reducible exact SharedTxBuilder_CreateTransaction_evolves hSilent _ _ _
             | with_reducible exact GetSharedParameters_evolves hSilent _
             | with_reducible exact SendInvitation_evolves hSending _ _
             | with_reducible exact SendExternalTxDetails_evolves hSending _ _
             | with_reducible exact SendLockTxInvitation_evolves hSending _ _ _
             | with_reducible exact SendBulletProofPart2_evolves hSending _ _ _
             | with_reducible exact SendBulletProofPart3_evolves hSending _ _ _
             | with_reducible exact SendSharedTxInvitation_evolves hSending _ _ _ _ _ _
             | with_reducible exact ConfirmSharedTxInvitation_evolves hSending _ _ _
             | ((with_reducible refine SendSubTx_evolves ?_ ?_ _ _) <;>
                 (first | exact fun _ => rfl | exact trivial))
             | ((with_reducible refine Evolves.of_emit _ ?_ ?_ _) <;>
                 (first | exact trivial | exact fun _ => rfl))
             | ((with_reducible refine Evolves.of_SetParameter _ _ _ ?_ _) <;>
                 (first | exact trivial | exact rfl | exact Or.inl rfl | exact Or.inr rfl))
             | ((with_reducible refine Evolves.of_BuilderQuery _ _ _ ?_ _);
                 exact fun _ => trivial)
             | with_reducible apply Evolves.bind
             | with_reducible apply Evolves.of_ite
             | (intro h; first | exact absurd h (by decide) | exact absurd rfl h | (simp at h; done))
             | intro _ _ _
             | intro _
             | split
             | (with_reducible dsimp only)
         )
      | (intro h; first | exact absurd h (by decide) | exact absurd rfl h | (simp at h; done))
      | intro _
      | split
      | (with_reducible dsimp only)

/-- `BuildBeamRedeemTx` on a party: only the receiver comes to hold the redeem
transaction. -/
theorem BuildBeamRedeemTx_owned (secret : Prop) (env : Env) (b : Bool) :
    Owned secret b (AtomicSwapTransaction.BuildBeamRedeemTx env) := by
  have hSilent := silent_fine secret (owns b)
  have hSending := sending_fine secret (owns b)
  unfold AtomicSwapTransaction.BuildBeamRedeemTx AtomicSwapTransaction.GetSubTxState Builder SetState OnFailed
  cases b
  all_goals
    repeat' first
      | (with_reducible refine Owned.bind_IsSender ?_)
      | (with_reducible refine Owned.bind_read_LockTx ?_ ?_)
      | (with_reducible refine Owned.bind_read_RefundTx ?_ ?_)
      | (with_reducible refine Owned.bind_read_RedeemTx ?_ ?_)
      | ((with_reducible refine Owned.assign_LockTx _ ?_) <;> rfl)
      | ((with_reducible refine Owned.assign_RefundTx _ ?_) <;> rfl)
      | ((with_reducible refine Owned.assign_RedeemTx _ ?_) <;> rfl)
      | with_reducible apply Owned.of_bind
      | with_reducible apply Owned.branches
      | ((with_reducible refine Owned.of_evolves ?_)
         · intro _
           repeat' first
             | with_reducible exact Evolves.of_pure _ _
             | with_reducible exact Evolves.of_read _ _
             | with_reducible exact Evolves.of_raise _ _
             | with_reducible exact Evolves.of_GetParameter _ _ _ _
             | with_reducible exact Evolves.of_GetMandatoryParameter _ _ _ _
             | with_reducible exact Evolves.of_IsSender _
             | with_reducible exact Evolves.of_GetAmount _
             | with_reducible exact Evolves.of_assert _ _ _
             | with_reducible exact LoadSharedParameters_evolves hSilent _ _
             | with_reducible exact SharedUTXOProofPart2_evolves hSilent _ _ _
             | with_reducible exact SharedUTXOProofPart3_evolves hSilent _ _ _
             | with_reducible exact LockTxBuilder_CreateTransaction_evolves hSilent _ _
             | with_reducible exact InitTx_evolves hSilent _ _ _ _
             | with_reducible exact SharedTxBuilder_CreateTransaction_evolves hSilent _ _ _
             | with_reducible exact GetSharedParameters_evolves hSilent _
             | with_reducible exact SendInvitation_evolves hSending _ _
             | with_reducible exact SendExternalTxDetails_evolves hSending _ _
             | with_reducible exact SendLockTxInvitation_evolves hSending _ _ _
             | with_reducible exact SendBulletProofPart2_evolves hSending _ _ _
             | with_reducible exact SendBulletProofPart3_evolves hSending _ _ _
             | with_reducible exact SendSharedTxInvitation_evolves hSending _ _ _ _ _ _
             | with_reducible exact ConfirmSharedTxInvitation_evolves hSending _ _ _
             | ((with_reducible refine SendSubTx_evolves ?_ ?_ _ _) <;>
                 (first | exact fun _ => rfl | exact trivial))
             | ((with_reducible refine Evolves.of_emit _ ?_ ?_ _) <;>
                 (first | exact trivial | exact fun _ => rfl))
             | ((with_reducible refine Evolves.of_SetParameter _ _ _ ?_ _) <;>
                 (first | exact trivial | exact rfl | exact Or.inl rfl | exact Or.inr rfl))
             | ((with_reducible refine Evolves.of_BuilderQuery _ _ _ ?_ _);
                 exact fun _ => trivial)
             | with_reducible apply Evolves.bind
             | with_reducible apply Evolves.of_ite
             | (intro h; first | exact absurd h (by decide) | exact absurd rfl h | (simp at h; done))
             | intro _ _ _
             | intro _
             | split
             | (with_reducible dsimp only)
         )
      | (intro h; first | exact absurd h (by decide) | exact absurd rfl h | (simp at h; done))
      | intro _
      | split
      | (with_reducible dsimp only)

/-- A tick on a party, after the state is loaded and the role resolved: the
case of the `switch` for state `s`. The preimage is written in
`BuildingLockTX` only. -/
theorem tick_owned (env : Env) (b : Bool) (s : State) :
    Owned (s = .BuildingLockTX) b
      (match s with
        | .Initial => AtomicSwapTransaction.UpdateImpl.Initial
        | .Invitation => AtomicSwapTransaction.UpdateImpl.Invitation env b
        | .BuildingLockTX => AtomicSwapTransaction.UpdateImpl.BuildingLockTX env b
        | .BuildingRefundTX => AtomicSwapTransaction.UpdateImpl.BuildingRefundTX b
        | .BuildingRedeemTX => AtomicSwapTransaction.UpdateImpl.BuildingRedeemTX b
        | .BuildingBeamLockTX => AtomicSwapTransaction.UpdateImpl.BuildingBeamLockTX env
        | .BuildingBeamRefundTX => AtomicSwapTransaction.UpdateImpl.BuildingBeamRefundTX env
        | .BuildingBeamRedeemTX => AtomicSwapTransaction.UpdateImpl.BuildingBeamRedeemTX env
        | .HandlingContractTX => AtomicSwapTransaction.UpdateImpl.HandlingContractTX env b
        | .SendingRefundTX => AtomicSwapTransaction.UpdateImpl.SendingRefundTX
        | .SendingRedeemTX => AtomicSwapTransaction.UpdateImpl.SendingRedeemTX
        | .SendingBeamLockTX => AtomicSwapTransaction.UpdateImpl.SendingBeamLockTX
        | .SendingBeamRedeemTX => AtomicSwapTransaction.UpdateImpl.SendingBeamRedeemTX env b
        | .SendingBeamRefundTX => AtomicSwapTransaction.UpdateImpl.SendingBeamRefundTX b
        | .CompleteSwap => AtomicSwapTransaction.UpdateImpl.CompleteSwap) := by
  have hSilent := silent_fine (s = .BuildingLockTX) (owns b)
  have hSending := sending_fine (s = .BuildingLockTX) (owns b)
  cases b <;> cases s
  all_goals
    dsimp only
    try unfold AtomicSwapTransaction.UpdateImpl.Initial
    try unfold AtomicSwapTransaction.UpdateImpl.Invitation
    try unfold AtomicSwapTransaction.UpdateImpl.BuildingLockTX
    try unfold AtomicSwapTransaction.UpdateImpl.BuildingRefundTX
    try unfold AtomicSwapTransaction.UpdateImpl.BuildingRedeemTX
    try unfold AtomicSwapTransaction.UpdateImpl.BuildingBeamLockTX
    try unfold AtomicSwapTransaction.UpdateImpl.BuildingBeamRefundTX
    try unfold AtomicSwapTransaction.UpdateImpl.BuildingBeamRedeemTX
    try unfold AtomicSwapTransaction.UpdateImpl.HandlingContractTX
    try unfold AtomicSwapTransaction.UpdateImpl.SendingRefundTX
    try unfold AtomicSwapTransaction.UpdateImpl.SendingRedeemTX
    try unfold AtomicSwapTransaction.UpdateImpl.SendingBeamLockTX
    try unfold AtomicSwapTransaction.UpdateImpl.SendingBeamRedeemTX
    try unfold AtomicSwapTransaction.UpdateImpl.SendingBeamRefundTX
    try unfold AtomicSwapTransaction.UpdateImpl.CompleteSwap
    try unfold AtomicSwapTransaction.BuildLockTx
    try unfold AtomicSwapTransaction.BuildWithdrawTx
    try unfold AtomicSwapTransaction.RegisterExternalTx
    try unfold AtomicSwapTransaction.GetSwapLockTxConfirmations
    try unfold AtomicSwapTransaction.IsSubTxCompleted
    try unfold AtomicSwapTransaction.GetPreimageFromChain
    try unfold AtomicSwapTransaction.IsBeamLockTimeExpired
    try unfold AtomicSwapTransaction.SetNextState
    try unfold InitSecret
    try unfold CreateAtomicSwapContract
    try unfold SetState
    try unfold AtomicSwapTransaction.UpdateAsync
    try unfold UpdateTxDescription
    try unfold OnFailed
    repeat' first
      | with_reducible exact BuildBeamLockTx_owned _ _ _
      | with_reducible exact BuildBeamRefundTx_owned _ _ _
      | with_reducible exact BuildBeamRedeemTx_owned _ _ _
      | (with_reducible refine Owned.bind_IsSender ?_)
      | (with_reducible refine Owned.bind_read_LockTx ?_ ?_)
      | (with_reducible refine Owned.bind_read_RefundTx ?_ ?_)
      | (with_reducible refine Owned.bind_read_RedeemTx ?_ ?_)
      | ((with_reducible refine Owned.assign_LockTx _ ?_) <;> rfl)
      | ((with_reducible refine Owned.assign_RefundTx _ ?_) <;> rfl)
      | ((with_reducible refine Owned.assign_RedeemTx _ ?_) <;> rfl)
      | with_reducible apply Owned.of_bind
      | with_reducible apply Owned.branches
      | ((with_reducible refine Owned.of_evolves ?_)
         · intro _
           repeat' first
             | with_reducible exact Evolves.of_pure _ _
             | with_reducible exact Evolves.of_read _ _
             | with_reducible exact Evolves.of_raise _ _
             | with_reducible exact Evolves.of_GetParameter _ _ _ _
             | with_reducible exact Evolves.of_GetMandatoryParameter _ _ _ _
             | with_reducible exact Evolves.of_IsSender _
             | with_reducible exact Evolves.of_GetAmount _
             | with_reducible exact Evolves.of_assert _ _ _
             | with_reducible exact LoadSharedParameters_evolves hSilent _ _
             | with_reducible exact SharedUTXOProofPart2_evolves hSilent _ _ _
             | with_reducible exact SharedUTXOProofPart3_evolves hSilent _ _ _
             | with_reducible exact LockTxBuilder_CreateTransaction_evolves hSilent _ _
             | with_reducible exact InitTx_evolves hSilent _ _ _ _
             | with_reducible exact SharedTxBuilder_CreateTransaction_evolves hSilent _ _ _
             | with_reducible exact GetSharedParameters_evolves hSilent _
             | with_reducible exact SendInvitation_evolves hSending _ _
             | with_reducible exact SendExternalTxDetails_evolves hSending _ _
             | with_reducible exact SendLockTxInvitation_evolves hSending _ _ _
             | with_reducible exact SendBulletProofPart2_evolves hSending _ _ _
             | with_reducible exact SendBulletProofPart3_evolves hSending _ _ _
             | with_reducible exact SendSharedTxInvitation_evolves hSending _ _ _ _ _ _
             | with_reducible exact ConfirmSharedTxInvitation_evolves hSending _ _ _
             | ((with_reducible refine SendSubTx_evolves ?_ ?_ _ _) <;>
                 (first | exact fun _ => rfl | exact trivial))
             | ((with_reducible refine Evolves.of_emit _ ?_ ?_ _) <;>
                 (first | exact trivial | exact fun _ => rfl))
             | ((with_reducible refine Evolves.of_SetParameter _ _ _ ?_ _) <;>
                 (first | exact trivial | exact rfl | exact Or.inl rfl | exact Or.inr rfl))
             | ((with_reducible refine Evolves.of_BuilderQuery _ _ _ ?_ _);
                 exact fun _ => trivial)
             | with_reducible apply Evolves.bind
             | with_reducible apply Evolves.of_ite
             | (intro h; first | exact absurd h (by decide) | exact absurd rfl h | (simp at h; done))
             | intro _ _ _
             | intro _
             | split
             | (with_reducible dsimp only)
         )
      | (intro h; first | exact absurd h (by decide) | exact absurd rfl h | (simp at h; done))
      | intro _
      | split
      | (with_reducible dsimp only)

/-! ## Callbacks on a party -/

section stays
variable {α β : Type} {P : Effect → Prop}

theorem StaysBy.stays_bind {x : M α} {f : α → M β} (hx : StaysBy P x)
    (hf : ∀ a, StaysBy P (f a)) : StaysBy P (x >>= f) := by
  intro tx
  obtain ⟨⟨l1, e1, r1, p1⟩, c1, b1⟩ := hx tx
  simp only [M.bind_apply]
  cases h : x tx with
  | fail e tx' =>
    rw [h] at e1 r1 c1 b1
    exact ⟨⟨l1, e1, r1, p1⟩, c1, b1⟩
  | ok a tx' =>
    rw [h] at e1 r1 c1 b1
    replace e1 : tx'.log = tx.log ++ l1 := e1
    replace r1 : tx'.params = replay l1 tx.params := r1
    replace c1 : tx'.m_IsSender = tx.m_IsSender := c1
    replace b1 : tx'.m_LockTx = tx.m_LockTx ∧ tx'.m_RefundTx = tx.m_RefundTx ∧
      tx'.m_RedeemTx = tx.m_RedeemTx := b1
    obtain ⟨⟨l2, e2, r2, p2⟩, c2, b2⟩ := hf a tx'
    refine ⟨⟨l1 ++ l2, ?_, ?_, ?_⟩, c2.trans c1, b2.1.trans b1.1, b2.2.1.trans b1.2.1,
      b2.2.2.trans b1.2.2⟩
    · rw [e2, e1, List.append_assoc]
    · rw [r2, r1, replay_append]
    · intro e he
      rcases List.mem_append.mp he with he | he
      · exact p1 e he
      · exact p2 e he

theorem StaysBy.stays_pure (a : α) : StaysBy P (pure a : M α) :=
  fun _ => ⟨⟨[], by simp [Res.tx, pure], rfl, by simp⟩, rfl, rfl, rfl, rfl⟩

theorem StaysBy.stays_read (f : AtomicSwapTransaction → α) : StaysBy P (M.read f) :=
  fun _ => ⟨⟨[], by simp [Res.tx, M.read], rfl, by simp⟩, rfl, rfl, rfl, rfl⟩

theorem StaysBy.stays_raise (e : Exc) : StaysBy P (M.raise e : M α) :=
  fun _ => ⟨⟨[], by simp [Res.tx, M.raise], rfl, by simp⟩, rfl, rfl, rfl, rfl⟩

theorem StaysBy.stays_GetMandatoryParameter (proj : Value → Option α) (id : TxParameterID)
    (subTxID : SubTxID) : StaysBy P (GetMandatoryParameter proj id subTxID) := by
  intro tx
  unfold GetMandatoryParameter
  split <;> exact ⟨⟨[], by simp [Res.tx], rfl, by simp⟩, rfl, rfl, rfl, rfl⟩

theorem StaysBy.stays_assert (line : Nat) (c : Bool) : StaysBy P (M.assert line c) := by
  cases c
  · exact StaysBy.stays_raise _
  · exact StaysBy.stays_pure _

theorem StaysBy.stays_emit (e : Effect) (h : P e) (hw : ∀ s, replay [e] s = s) :
    StaysBy P (M.emit e) :=
  fun _ => ⟨⟨[e], rfl, (hw _).symm, by simpa using h⟩, rfl, rfl, rfl, rfl⟩

theorem StaysBy.stays_SetParameter (id : TxParameterID) (v : Value) (subTxID : SubTxID)
    (h : P (.SetParameter subTxID id v)) : StaysBy P (SetParameter id v subTxID) :=
  fun _ => ⟨⟨[.SetParameter subTxID id v], rfl, rfl, by simpa using h⟩, rfl, rfl, rfl, rfl⟩

/-- An assignment to a member other than the store, the log, the role cache and
the built transactions. -/
theorem StaysBy.stays_modify (f : AtomicSwapTransaction → AtomicSwapTransaction)
    (h1 : ∀ tx, (f tx).log = tx.log) (h2 : ∀ tx, (f tx).params = tx.params)
    (h3 : ∀ tx, (f tx).m_IsSender = tx.m_IsSender) (h4 : ∀ tx, (f tx).m_LockTx = tx.m_LockTx)
    (h5 : ∀ tx, (f tx).m_RefundTx = tx.m_RefundTx)
    (h6 : ∀ tx, (f tx).m_RedeemTx = tx.m_RedeemTx) : StaysBy P (M.modify f) :=
  fun tx => ⟨⟨[], by simpa [M.modify, Res.tx] using h1 tx, h2 tx, by simp⟩, h3 tx, h4 tx, h5 tx,
    h6 tx⟩

theorem StaysBy.stays_ite {c : Prop} [Decidable c] {x y : M α} (hx : c → StaysBy P x)
    (hy : ¬ c → StaysBy P y) : StaysBy P (if c then x else y) := by
  split
  · exact hx ‹_›
  · exact hy ‹_›

end stays

/-- The RPC callbacks leave the role cache and the built transactions alone;
they write the state of the Chain B lock transaction as `Constructed` only, and
call no `register_tx`. -/
theorem callback_stays (ev : Event)
    (hev : (∀ env, ev ≠ .Update env) ∧ (∀ t r, ev ≠ .SetRegisteredStatus t r) ∧
      ∀ subTxID id v, ev ≠ .SetParameter subTxID id v) :
    StaysBy (Fine True (fun _ => False)) ev.handler := by
  cases ev with
  | Update env => exact absurd rfl (hev.1 env)
  | SetRegisteredStatus t r => exact absurd rfl (hev.2.1 t r)
  | SetParameter subTxID id v => exact absurd rfl (hev.2.2 subTxID id v)
  | OnSendRawTransaction subTxID txID =>
    unfold Event.handler AtomicSwapTransaction.OnSendRawTransaction
    cases subTxID
    all_goals
  repeat' first
        | with_reducible exact StaysBy.stays_pure _
        | with_reducible exact StaysBy.stays_read _
        | with_reducible exact StaysBy.stays_raise _
        | with_reducible exact StaysBy.stays_GetMandatoryParameter _ _ _
        | with_reducible exact StaysBy.stays_assert _ _
        | ((with_reducible refine StaysBy.stays_emit _ ?_ ?_) <;>
            (first | exact trivial | exact fun _ => rfl))
        | ((with_reducible refine StaysBy.stays_SetParameter _ _ _ ?_) <;>
            (first | exact trivial | exact Or.inl rfl | exact Or.inr rfl))
        | ((with_reducible refine StaysBy.stays_modify _ ?_ ?_ ?_ ?_ ?_ ?_) <;> exact fun _ => rfl)
        | with_reducible apply StaysBy.stays_bind
        | with_reducible apply StaysBy.stays_ite
        | split
        | (with_reducible intro _)
        | (with_reducible dsimp only)
        | ((generalize set_script_of_first_input _ _ = o); cases o)
  | _ =>
    unfold Event.handler
    dsimp only
    try unfold AtomicSwapTransaction.OnGetRawChangeAddress
    try unfold AtomicSwapTransaction.OnFundRawTransaction
    try unfold AtomicSwapTransaction.OnSignLockTransaction
    try unfold AtomicSwapTransaction.OnCreateRefundTransaction
    try unfold AtomicSwapTransaction.OnDumpSenderPrivateKey
    try unfold AtomicSwapTransaction.OnDumpReceiverPrivateKey
    try unfold AtomicSwapTransaction.OnGetSwapLockTxConfirmations
    try unfold AtomicSwapTransaction.OnSendRawTransaction
    try unfold CreateAtomicSwapContract
    try unfold AtomicSwapTransaction.SetNextState
    try unfold SetState
    try unfold AtomicSwapTransaction.UpdateAsync
    repeat' first
      | with_reducible exact StaysBy.stays_pure _
      | with_reducible exact StaysBy.stays_read _
      | with_reducible exact StaysBy.stays_raise _
      | with_reducible exact StaysBy.stays_GetMandatoryParameter _ _ _
      | with_reducible exact StaysBy.stays_assert _ _
      | ((with_reducible refine StaysBy.stays_emit _ ?_ ?_) <;>
          (first | exact trivial | exact fun _ => rfl))
      | ((with_reducible refine StaysBy.stays_SetParameter _ _ _ ?_) <;>
          (first | exact trivial | exact Or.inl rfl | exact Or.inr rfl))
      | ((with_reducible refine StaysBy.stays_modify _ ?_ ?_ ?_ ?_ ?_ ?_) <;> exact fun _ => rfl)
      | with_reducible apply StaysBy.stays_bind
      | with_reducible apply StaysBy.stays_ite
      | split
      | (with_reducible intro _)
      | (with_reducible dsimp only)
      | ((generalize set_script_of_first_input _ _ = o); cases o)

/-! ## One event on a party -/

theorem Fine.weaken {secret secret' : Prop} {own own' : SubTxID → Prop} {e : Effect}
    (h : Fine secret own e) (hs : secret → secret') (ho : ∀ subTxID, own subTxID → own' subTxID) :
    Fine secret' own' e := by
  unfold Fine at h ⊢
  split
  · simpa using h
  · exact hs (by simpa using h)
  · simp at h
  · exact ho _ (by simpa using h)
  · trivial

/-- `Fine` writes leave the stored role bit alone. -/
theorem replay_role_of_fine {secret : Prop} {own : SubTxID → Prop} (l : List Effect)
    (s : ParamStore) (h : ∀ e ∈ l, Fine secret own e) :
    replay l s .kDefaultSubTxID .IsSender = s .kDefaultSubTxID .IsSender := by
  induction l generalizing s with
  | nil => rfl
  | cons e l ih =>
    have he : Fine secret own e := h e (by simp)
    have hl : ∀ x ∈ l, Fine secret own x := fun x hx => h x (by simp [hx])
    show replay l (replay [e] s) .kDefaultSubTxID .IsSender = _
    rw [ih _ hl]
    cases e with
    | SetParameter subTxID id v =>
      show s.put subTxID id v .kDefaultSubTxID .IsSender = _
      unfold ParamStore.put
      split
      · rename_i h'
        obtain ⟨rfl, rfl⟩ := h'
        exact absurd he (by simp [Fine])
      · rfl
    | _ => rfl

/-- `Fine` writes do not take the Chain B lock transaction back to `Initial`. -/
theorem replay_lockStarted {secret : Prop} {own : SubTxID → Prop} (l : List Effect)
    (s : ParamStore) (h : ∀ e ∈ l, Fine secret own e) (hs : lockStarted s) :
    lockStarted (replay l s) := by
  induction l generalizing s with
  | nil => exact hs
  | cons e l ih =>
    have he : Fine secret own e := h e (by simp)
    have hl : ∀ x ∈ l, Fine secret own x := fun x hx => h x (by simp [hx])
    show lockStarted (replay l (replay [e] s))
    apply ih _ hl
    cases e with
    | SetParameter subTxID id v =>
      show lockStarted (s.put subTxID id v)
      unfold lockStarted ParamStore.put
      split
      · rename_i h'
        obtain ⟨rfl, rfl⟩ := h'
        rcases (show v = .swapTxState .CreatingTx ∨ v = .swapTxState .Constructed from he)
          with rfl | rfl <;> simp [Value.asSwapTxState]
      · exact hs
    | _ => exact hs

theorem Side.party {b : Bool} {tx : AtomicSwapTransaction} (h : Side b tx) :
    Party b (tx.cached b) :=
  ⟨rfl, h.2.1, h.2.2⟩

theorem Party.side {b : Bool} {tx : AtomicSwapTransaction} (h : Party b tx) : Side b tx :=
  ⟨by simp [AtomicSwapTransaction.role, h.1], h.2.1, h.2.2⟩

open AtomicSwapTransaction in
/-- A tick on a party. The preimage is written in `BuildingLockTX` only. -/
theorem Update_passes (env : Env) (tx : AtomicSwapTransaction) (b : Bool) (hs : Side b tx) :
    Passes (tx.state = .BuildingLockTX) b tx (UpdateImpl env tx).tx := by
  have hU := UpdateImpl_prelude env tx b hs.1
    (fun s isBeamOwner => match s with
      | .Initial => UpdateImpl.Initial
      | .Invitation => UpdateImpl.Invitation env isBeamOwner
      | .BuildingLockTX => UpdateImpl.BuildingLockTX env isBeamOwner
      | .BuildingRefundTX => UpdateImpl.BuildingRefundTX isBeamOwner
      | .BuildingRedeemTX => UpdateImpl.BuildingRedeemTX isBeamOwner
      | .BuildingBeamLockTX => UpdateImpl.BuildingBeamLockTX env
      | .BuildingBeamRefundTX => UpdateImpl.BuildingBeamRefundTX env
      | .BuildingBeamRedeemTX => UpdateImpl.BuildingBeamRedeemTX env
      | .HandlingContractTX => UpdateImpl.HandlingContractTX env isBeamOwner
      | .SendingRefundTX => UpdateImpl.SendingRefundTX
      | .SendingRedeemTX => UpdateImpl.SendingRedeemTX
      | .SendingBeamLockTX => UpdateImpl.SendingBeamLockTX
      | .SendingBeamRedeemTX => UpdateImpl.SendingBeamRedeemTX env isBeamOwner
      | .SendingBeamRefundTX => UpdateImpl.SendingBeamRefundTX isBeamOwner
      | .CompleteSwap => UpdateImpl.CompleteSwap) rfl
  rw [hU]
  obtain ⟨hp, hl⟩ := tick_owned env b tx.state (tx.cached b) hs.party
  exact ⟨hp.side, hl⟩

/-- A callback on a party. -/
theorem callback_passes (ev : Event) (tx : AtomicSwapTransaction) (b : Bool) (hs : Side b tx)
    (hev : (∀ env, ev ≠ .Update env) ∧ (∀ t r, ev ≠ .SetRegisteredStatus t r) ∧
      ∀ subTxID id v, ev ≠ .SetParameter subTxID id v) :
    Passes True b tx (ev.handler tx).tx := by
  obtain ⟨⟨l, e, r, p⟩, c, b1, b2, b3⟩ := callback_stays ev hev tx
  refine ⟨⟨?_, ?_, ?_⟩, l, e, r, fun x hx => (p x hx).weaken id (fun _ h => h.elim)⟩
  · have h := hs.1
    unfold AtomicSwapTransaction.role at h ⊢
    rw [c, r, replay_role_of_fine l _ p]
    exact h
  · rw [b1, b2]
    exact hs.2.1
  · rw [b3]
    exact hs.2.2

/-- A parameter stored from outside, on a party. -/
theorem SetParameter_passes (subTxID : SubTxID) (id : TxParameterID) (v : Value)
    (tx : AtomicSwapTransaction) (b : Bool) (hs : Side b tx)
    (hadm : (Event.SetParameter subTxID id v).admissible = true)
    (hlock : ¬ (subTxID = .LOCK_TX ∧ id = .State)) :
    Passes True b tx (SetParameter id v subTxID tx).tx := by
  have hne : ¬ (SubTxID.kDefaultSubTxID = subTxID ∧ TxParameterID.IsSender = id) := by
    rintro ⟨rfl, rfl⟩
    simp [Event.admissible] at hadm
  have hP : Fine True (owns b) (.SetParameter subTxID id v) := by
    unfold Fine
    split
    · rename_i h
      cases h
      exact absurd ⟨rfl, rfl⟩ hlock
    · trivial
    · rename_i h
      cases h
      exact absurd ⟨rfl, rfl⟩ hne
    · rename_i h
      cases h
    · trivial
  refine ⟨⟨?_, hs.2.1, hs.2.2⟩, [.SetParameter subTxID id v], rfl, rfl, by simpa using hP⟩
  have hb := hs.1
  unfold AtomicSwapTransaction.role at hb ⊢
  simp only [SetParameter_apply, Res.tx_ok, ParamStore.put]
  rw [if_neg (by
    rintro ⟨h1, h2⟩
    exact hne ⟨h1, h2⟩)]
  exact hb

open AtomicSwapTransaction in
/-- The outcome of a Chain A broadcast, on a party. -/
theorem SetRegisteredStatus_passes (transaction : Transaction) (isRegistered : Bool)
    (tx : AtomicSwapTransaction) (b : Bool) (hs : Side b tx) :
    Passes True b tx (SetRegisteredStatus transaction isRegistered tx).tx := by
  have hb := hs.1
  unfold SetRegisteredStatus
  cases hk : (tx.params .BEAM_LOCK_TX .KernelID).bind Value.asBig with
  | none =>
    have : (GetMandatoryParameter Value.asBig .KernelID .BEAM_LOCK_TX >>= fun lockTxKernelID =>
        if (transaction.kernelID != lockTxKernelID) = true then do
          let subTxID := if (← IsSender) = true then SubTxID.BEAM_REFUND_TX
            else SubTxID.BEAM_REDEEM_TX
          SetParameter .TransactionRegistered (.bool isRegistered) subTxID
        else SetParameter .TransactionRegistered (.bool isRegistered) .BEAM_LOCK_TX) tx =
        .fail (.MissingParameter .BEAM_LOCK_TX .KernelID) tx := by
      simp [GetMandatoryParameter, hk]
    exact this ▸ ⟨hs, [], by simp [Res.tx], rfl, by simp⟩
  | some k =>
    by_cases hne : transaction.kernelID = k
    · refine ⟨⟨?_, ?_, ?_⟩,
        [.SetParameter .BEAM_LOCK_TX .TransactionRegistered (.bool isRegistered)], ?_, ?_, ?_⟩ <;>
        (try simp [GetMandatoryParameter, hk, hne, AtomicSwapTransaction.role, replay, Fine,
          ParamStore.put])
      · exact hb
      · exact hs.2.1
      · exact hs.2.2
    · cases b
      · refine ⟨⟨?_, ?_, ?_⟩,
          [.SetParameter .BEAM_REDEEM_TX .TransactionRegistered (.bool isRegistered)],
          ?_, ?_, ?_⟩ <;>
          (try simp [GetMandatoryParameter, hk, hne, IsSender_of_role tx _ hb,
            AtomicSwapTransaction.cached, AtomicSwapTransaction.role, replay, Fine])
        · exact hs.2.1 rfl
      · refine ⟨⟨?_, ?_, ?_⟩,
          [.SetParameter .BEAM_REFUND_TX .TransactionRegistered (.bool isRegistered)],
          ?_, ?_, ?_⟩ <;>
          (try simp [GetMandatoryParameter, hk, hne, IsSender_of_role tx _ hb,
            AtomicSwapTransaction.cached, AtomicSwapTransaction.role, replay, Fine])
        · exact hs.2.2 rfl


/-! ## Only the owner holds and broadcasts a Chain A transaction (C19) -/

/-- Any admissible event on a party: the object is still that party's, and the
event calls `register_tx` for the party's own sub-transactions only. -/
theorem step_side (ev : Event) (tx : AtomicSwapTransaction) (b : Bool) (hs : Side b tx)
    (hadm : ev.admissible = true) :
    Side b (step ev tx) ∧ ∃ l, (step ev tx).log = tx.log ++ l ∧
      ∀ subTxID t, Effect.register_tx subTxID t ∈ l → owns b subTxID := by
  have key : ∀ {secret : Prop}, Passes secret b tx (step ev tx) →
      Side b (step ev tx) ∧ ∃ l, (step ev tx).log = tx.log ++ l ∧
        ∀ subTxID t, Effect.register_tx subTxID t ∈ l → owns b subTxID := by
    intro secret h
    obtain ⟨l, e, _, p⟩ := h.log
    exact ⟨h.side, l, e, fun subTxID t hm => p _ hm⟩
  cases ev with
  | Update env => exact key (Update_passes env tx b hs)
  | SetRegisteredStatus t r => exact key (SetRegisteredStatus_passes t r tx b hs)
  | SetParameter subTxID id v =>
    by_cases hl : subTxID = .LOCK_TX ∧ id = .State
    · obtain ⟨rfl, rfl⟩ := hl
      refine ⟨⟨?_, hs.2.1, hs.2.2⟩, [.SetParameter .LOCK_TX .State v], rfl, ?_⟩
      · have hb := hs.1
        unfold AtomicSwapTransaction.role at hb ⊢
        simpa [step, Event.handler, ParamStore.put] using hb
      · intro subTxID t hm
        simp at hm
    · exact key (SetParameter_passes subTxID id v tx b hs hadm hl)
  | OnGetRawChangeAddress r =>
    exact key (callback_passes _ tx b hs
      ⟨fun _ h => (nomatch h), fun _ _ h => (nomatch h), fun _ _ _ h => (nomatch h)⟩)
  | OnFundRawTransaction r =>
    exact key (callback_passes _ tx b hs
      ⟨fun _ h => (nomatch h), fun _ _ h => (nomatch h), fun _ _ _ h => (nomatch h)⟩)
  | OnSignLockTransaction r =>
    exact key (callback_passes _ tx b hs
      ⟨fun _ h => (nomatch h), fun _ _ h => (nomatch h), fun _ _ _ h => (nomatch h)⟩)
  | OnCreateRefundTransaction r =>
    exact key (callback_passes _ tx b hs
      ⟨fun _ h => (nomatch h), fun _ _ h => (nomatch h), fun _ _ _ h => (nomatch h)⟩)
  | OnDumpSenderPrivateKey env r =>
    exact key (callback_passes _ tx b hs
      ⟨fun _ h => (nomatch h), fun _ _ h => (nomatch h), fun _ _ _ h => (nomatch h)⟩)
  | OnDumpReceiverPrivateKey env r =>
    exact key (callback_passes _ tx b hs
      ⟨fun _ h => (nomatch h), fun _ _ h => (nomatch h), fun _ _ _ h => (nomatch h)⟩)
  | OnGetSwapLockTxConfirmations r =>
    exact key (callback_passes _ tx b hs
      ⟨fun _ h => (nomatch h), fun _ _ h => (nomatch h), fun _ _ _ h => (nomatch h)⟩)
  | OnSendRawTransaction subTxID txID =>
    exact key (callback_passes _ tx b hs
      ⟨fun _ h => (nomatch h), fun _ _ h => (nomatch h), fun _ _ _ h => (nomatch h)⟩)

/-- An execution on a party: the object is still that party's, and
`register_tx` was called for the party's own sub-transactions only. -/
theorem run_side (b : Bool) (evs : List Event) :
    ∀ tx : AtomicSwapTransaction, Side b tx → (∀ ev ∈ evs, ev.admissible = true) →
      Side b (run evs tx) ∧ ∃ l, (run evs tx).log = tx.log ++ l ∧
        ∀ subTxID t, Effect.register_tx subTxID t ∈ l → owns b subTxID := by
  induction evs with
  | nil =>
    intro tx hs _
    exact ⟨hs, [], by simp [run], fun _ _ h => by simp at h⟩
  | cons ev evs ih =>
    intro tx hs hadm
    obtain ⟨hs1, l1, e1, p1⟩ := step_side ev tx b hs (hadm ev (by simp))
    obtain ⟨hs2, l2, e2, p2⟩ := ih (step ev tx) hs1 (fun x hx => hadm x (by simp [hx]))
    refine ⟨hs2, l1 ++ l2, ?_, ?_⟩
    · show (run evs (step ev tx)).log = _
      rw [e2, e1, List.append_assoc]
    · intro subTxID t hm
      rcases List.mem_append.mp hm with hm | hm
      · exact p1 _ _ hm
      · exact p2 _ _ hm

/-- C19. In every execution from a freshly constructed object whose stored role
is `IsSender() = b`: the Chain A receiver (`b = false`) never holds `m_LockTx`
or `m_RefundTx` and never calls `register_tx` for `BEAM_LOCK_TX` or
`BEAM_REFUND_TX`; the Chain A sender (`b = true`) never holds `m_RedeemTx` and
never calls `register_tx` for `BEAM_REDEEM_TX`. -/
theorem only_owner_holds_and_broadcasts (params : ParamStore) (evs : List Event) (b : Bool)
    (hadm : ∀ ev ∈ evs, ev.admissible = true)
    (hrole : (AtomicSwapTransaction.create params).role = some b) :
    (b = false →
      (run evs (AtomicSwapTransaction.create params)).m_LockTx = none
        ∧ (run evs (AtomicSwapTransaction.create params)).m_RefundTx = none
        ∧ ∀ t, Effect.register_tx .BEAM_LOCK_TX t ∉
              (run evs (AtomicSwapTransaction.create params)).log
            ∧ Effect.register_tx .BEAM_REFUND_TX t ∉
              (run evs (AtomicSwapTransaction.create params)).log)
    ∧ (b = true →
      (run evs (AtomicSwapTransaction.create params)).m_RedeemTx = none
        ∧ ∀ t, Effect.register_tx .BEAM_REDEEM_TX t ∉
            (run evs (AtomicSwapTransaction.create params)).log) := by
  obtain ⟨hs, l, e, p⟩ := run_side b evs (AtomicSwapTransaction.create params)
    ⟨hrole, fun _ => ⟨rfl, rfl⟩, fun _ => rfl⟩ hadm
  have e' : (run evs (AtomicSwapTransaction.create params)).log = l := by
    rw [e]
    rfl
  rw [e']
  constructor
  · rintro rfl
    refine ⟨(hs.2.1 rfl).1, (hs.2.1 rfl).2, fun t => ⟨fun hm => ?_, fun hm => ?_⟩⟩
    · exact absurd (p _ _ hm) (by simp [owns])
    · exact absurd (p _ _ hm) (by simp [owns])
  · rintro rfl
    exact ⟨hs.2.2 rfl, fun t hm => absurd (p _ _ hm) (by simp [owns])⟩

/-- The nineteenth theorem on the sample executions: the Chain B owner ends its
happy path holding neither the lock nor the refund transaction, and the Beam
owner ends its own holding no redeem transaction. -/
theorem only_owner_holds_and_broadcasts_witness :
    ((run sampleCounterpartyRun (AtomicSwapTransaction.create sampleCounterpartyParams)).m_LockTx
        = none
      ∧ (run sampleCounterpartyRun
          (AtomicSwapTransaction.create sampleCounterpartyParams)).m_RefundTx = none)
    ∧ (run sampleOwnerRun (AtomicSwapTransaction.create sampleOwnerParams)).m_RedeemTx = none :=
  have h1 := (only_owner_holds_and_broadcasts sampleCounterpartyParams sampleCounterpartyRun false
    (by decide) rfl).1 rfl
  have h2 := (only_owner_holds_and_broadcasts sampleOwnerParams sampleOwnerRun true
    (by decide) rfl).2 rfl
  ⟨⟨h1.1, h1.2.1⟩, h2.1⟩


/-! ## The preimage is drawn by the Chain B owner, once (C12) -/

/-- `CreateAtomicSwapContract` only reads. -/
theorem CreateAtomicSwapContract_tx (env : Env) (tx : AtomicSwapTransaction) :
    (CreateAtomicSwapContract env tx).tx = tx := by
  have h : ∀ {α : Type} (proj : Value → Option α) id sub (t : AtomicSwapTransaction),
      (GetMandatoryParameter proj id sub t).tx = t := by
    intro α proj id sub t
    unfold GetMandatoryParameter
    split <;> rfl
  unfold CreateAtomicSwapContract
  simp only [M.bind_apply]
  cases h1 : GetMandatoryParameter Value.asNat .CreateTime .kDefaultSubTxID tx with
  | fail e t => simpa [h1] using h Value.asNat .CreateTime .kDefaultSubTxID tx
  | ok a t =>
    have e1 : t = tx := by simpa [h1] using h Value.asNat .CreateTime .kDefaultSubTxID tx
    subst e1
    simp only
    cases h2 : GetMandatoryParameter Value.asStr .AtomicSwapPeerAddress .kDefaultSubTxID t with
    | fail e t2 => simpa [h2] using h Value.asStr .AtomicSwapPeerAddress .kDefaultSubTxID t
    | ok a2 t2 =>
      have e2 : t2 = t := by
        simpa [h2] using h Value.asStr .AtomicSwapPeerAddress .kDefaultSubTxID t
      subst e2
      simp only
      cases h3 : GetMandatoryParameter Value.asStr .AtomicSwapAddress .kDefaultSubTxID t2 with
      | fail e t3 => simpa [h3] using h Value.asStr .AtomicSwapAddress .kDefaultSubTxID t2
      | ok a3 t3 =>
        have e3 : t3 = t2 := by
          simpa [h3] using h Value.asStr .AtomicSwapAddress .kDefaultSubTxID t2
        subst e3
        simp only
        cases h4 : GetMandatoryParameter Value.asBig .PreImage .BEAM_REDEEM_TX t3 with
        | fail e t4 => simpa [h4] using h Value.asBig .PreImage .BEAM_REDEEM_TX t3
        | ok a4 t4 =>
          have e4 : t4 = t3 := by
            simpa [h4] using h Value.asBig .PreImage .BEAM_REDEEM_TX t3
          subst e4
          rfl

open AtomicSwapTransaction in
/-- `BuildLockTx` while the state of the Chain B lock transaction is `Initial`:
the first log entry is the write of `InitSecret`, no later one is, and when the
call returns the state is no longer `Initial`. -/
theorem BuildLockTx_of_Initial (env : Env) (tx : AtomicSwapTransaction)
    (hst : ((tx.params .LOCK_TX .State).bind Value.asSwapTxState).getD .Initial = .Initial) :
    ∃ l, (BuildLockTx env tx).tx.log =
        tx.log ++ .SetParameter .BEAM_REDEEM_TX .PreImage (.big env.GenRandom) :: l
      ∧ l.countP Effect.isInitSecret = 0
      ∧ ((BuildLockTx env tx).value.isSome = true →
          (BuildLockTx env tx).value = some .CreatingTx ∧ lockStarted (BuildLockTx env tx).tx.params) := by
  have hg : GetParameter Value.asSwapTxState .State .LOCK_TX tx =
      .ok ((tx.params .LOCK_TX .State).bind Value.asSwapTxState) tx := rfl
  obtain ⟨t1, ht1, hlog1⟩ : ∃ t1,
      SetParameter .PreImage (.big env.GenRandom) .BEAM_REDEEM_TX tx = .ok () t1 ∧
        t1.log = tx.log ++ [.SetParameter .BEAM_REDEEM_TX .PreImage (.big env.GenRandom)] :=
    ⟨_, rfl, rfl⟩
  have h2 := CreateAtomicSwapContract_tx env t1
  unfold BuildLockTx
  simp only [M.bind_apply, hg, hst, if_true, InitSecret, ht1]
  cases hr : CreateAtomicSwapContract env t1 with
  | fail e t2 =>
    rw [hr] at h2
    replace h2 : t2 = t1 := h2
    subst h2
    exact ⟨[], by simp [Res.tx, hlog1], rfl, fun h => by simp [Res.value] at h⟩
  | ok script t2 =>
    rw [hr] at h2
    replace h2 : t2 = t1 := h2
    subst h2
    cases ha : (t2.params .kDefaultSubTxID .AtomicSwapAmount).bind Value.asNat with
    | none =>
      refine ⟨[], ?_, rfl, fun h => ?_⟩
      · simp [GetMandatoryParameter, ha, Res.tx, hlog1]
      · simp [GetMandatoryParameter, ha, Res.value] at h
    | some a =>
      refine ⟨[.fundRawTransaction (env.encode_base16
          { inputs := [], outputs := [{ value := a, script := script }], locktime := 0 }),
        .SetParameter .LOCK_TX .State (.swapTxState .CreatingTx)], ?_, rfl, fun _ => ⟨?_, ?_⟩⟩
      · simp [GetMandatoryParameter, ha, Res.tx, hlog1, M.emit, SetState, pure]
      · simp [GetMandatoryParameter, ha, Res.value, M.emit, SetState, pure]
      · simp [GetMandatoryParameter, ha, Res.tx, M.emit, SetState, pure, lockStarted,
          ParamStore.put, Value.asSwapTxState]

open AtomicSwapTransaction in
/-- A tick in `BuildingLockTX`: `InitSecret` is called at most once, only by the
party with `IsSender()` false and only while the state of the Chain B lock
transaction is `Initial`; when that tick returns, the state is no longer
`Initial`. -/
theorem BuildingLockTX_secret (env : Env) (tx : AtomicSwapTransaction) (b : Bool)
    (hb : tx.role = some b) (hs : tx.state = .BuildingLockTX) :
    initSecretCount env tx ≤ 1 ∧
      (initSecretCount env tx ≠ 0 →
        b = false ∧ ¬ lockStarted tx.params ∧
          ((UpdateImpl env tx).value.isSome = true →
            lockStarted (UpdateImpl env tx).tx.params)) := by
  have hU : UpdateImpl env tx = UpdateImpl.BuildingLockTX env b (tx.cached b) := by
    simp only [UpdateImpl, M.bind_apply, GetState_apply, IsSender_of_role tx _ hb, hs]
  unfold initSecretCount
  rw [hU]
  cases b with
  | true =>
    have h0 : UpdateImpl.BuildingLockTX env true (tx.cached true) =
        .fail (.AssertionFailed 210) (tx.cached true) := by
      simp [UpdateImpl.BuildingLockTX, M.assert, M.raise]
    rw [h0]
    simp [Res.newLog, Res.tx]
  | false =>
    have hT : UpdateImpl.BuildingLockTX env false (tx.cached false) =
        (match BuildLockTx env (tx.cached false) with
          | .ok s t =>
            (if s ≠ .Constructed then pure () else SetNextState .BuildingBeamLockTX : M Unit) t
          | .fail e t => .fail e t) := by
      have ha : M.assert 210 (!false) (tx.cached false) = .ok () (tx.cached false) := rfl
      simp only [UpdateImpl.BuildingLockTX, M.bind_apply, ha]
      cases BuildLockTx env (tx.cached false) with
      | fail e t => rfl
      | ok s t =>
        simp only
        split <;> rfl
    rw [hT]
    by_cases hst : ((tx.params .LOCK_TX .State).bind Value.asSwapTxState).getD .Initial = .Initial
    · obtain ⟨l, hlog, hcnt, hret⟩ := BuildLockTx_of_Initial env (tx.cached false) hst
      have hns : ¬ lockStarted tx.params := fun h => h hst
      cases hB : BuildLockTx env (tx.cached false) with
      | fail e t =>
        rw [hB] at hlog
        replace hlog : t.log = tx.log ++ _ := hlog
        simp [Res.newLog, Res.tx, Res.value, hlog, Effect.isInitSecret, hcnt, hns]
      | ok s t =>
        rw [hB] at hlog hret
        replace hlog : t.log = tx.log ++ _ := hlog
        obtain ⟨hv, hl⟩ := hret rfl
        have hs' : s = .CreatingTx := by simpa [Res.value] using hv
        subst hs'
        replace hl : lockStarted t.params := hl
        have : ((if SwapTxState.CreatingTx ≠ .Constructed then pure ()
            else SetNextState .BuildingBeamLockTX : M Unit) t) = .ok () t := rfl
        simp only [this]
        simp [Res.newLog, Res.tx, Res.value, hlog, Effect.isInitSecret, hcnt, hns, hl]
    · have hB : BuildLockTx env (tx.cached false) =
          .ok (((tx.params .LOCK_TX .State).bind Value.asSwapTxState).getD .Initial)
            (tx.cached false) := by
        simp [BuildLockTx, GetParameter, M.read, hst]
      rw [hB]
      by_cases hc : ((tx.params .LOCK_TX .State).bind Value.asSwapTxState).getD .Initial
          = .Constructed
      · simp [hc, Res.newLog, Res.tx, SetNextState, SetState, UpdateAsync, M.emit,
          Effect.isInitSecret, List.countP_cons]
      · simp [hc, Res.newLog, Res.tx, pure]

/-- Any admissible event on a party that leaves the state of the Chain B lock
transaction to the swap. -/
theorem step_passes (ev : Event) (tx : AtomicSwapTransaction) (b : Bool) (hs : Side b tx)
    (hadm : ev.admissible = true) (hlock : ev.writesLockState = false) :
    ∃ secret, Passes secret b tx (step ev tx) := by
  cases ev with
  | Update env => exact ⟨_, Update_passes env tx b hs⟩
  | SetRegisteredStatus t r => exact ⟨_, SetRegisteredStatus_passes t r tx b hs⟩
  | SetParameter subTxID id v =>
    refine ⟨_, SetParameter_passes subTxID id v tx b hs hadm ?_⟩
    rintro ⟨rfl, rfl⟩
    simp [Event.writesLockState] at hlock
  | OnGetRawChangeAddress r =>
    exact ⟨_, callback_passes _ tx b hs
      ⟨fun _ h => (nomatch h), fun _ _ h => (nomatch h), fun _ _ _ h => (nomatch h)⟩⟩
  | OnFundRawTransaction r =>
    exact ⟨_, callback_passes _ tx b hs
      ⟨fun _ h => (nomatch h), fun _ _ h => (nomatch h), fun _ _ _ h => (nomatch h)⟩⟩
  | OnSignLockTransaction r =>
    exact ⟨_, callback_passes _ tx b hs
      ⟨fun _ h => (nomatch h), fun _ _ h => (nomatch h), fun _ _ _ h => (nomatch h)⟩⟩
  | OnCreateRefundTransaction r =>
    exact ⟨_, callback_passes _ tx b hs
      ⟨fun _ h => (nomatch h), fun _ _ h => (nomatch h), fun _ _ _ h => (nomatch h)⟩⟩
  | OnDumpSenderPrivateKey env r =>
    exact ⟨_, callback_passes _ tx b hs
      ⟨fun _ h => (nomatch h), fun _ _ h => (nomatch h), fun _ _ _ h => (nomatch h)⟩⟩
  | OnDumpReceiverPrivateKey env r =>
    exact ⟨_, callback_passes _ tx b hs
      ⟨fun _ h => (nomatch h), fun _ _ h => (nomatch h), fun _ _ _ h => (nomatch h)⟩⟩
  | OnGetSwapLockTxConfirmations r =>
    exact ⟨_, callback_passes _ tx b hs
      ⟨fun _ h => (nomatch h), fun _ _ h => (nomatch h), fun _ _ _ h => (nomatch h)⟩⟩
  | OnSendRawTransaction subTxID txID =>
    exact ⟨_, callback_passes _ tx b hs
      ⟨fun _ h => (nomatch h), fun _ _ h => (nomatch h), fun _ _ _ h => (nomatch h)⟩⟩

/-- A tick outside `BuildingLockTX` does not call `InitSecret`. -/
theorem initSecretCount_eq_zero (env : Env) (tx : AtomicSwapTransaction) (b : Bool)
    (hs : Side b tx) (hne : tx.state ≠ .BuildingLockTX) : initSecretCount env tx = 0 := by
  obtain ⟨l, e, _, p⟩ := (Update_passes env tx b hs).log
  unfold initSecretCount Res.newLog
  rw [e, List.drop_left, List.countP_eq_zero]
  intro x hx
  have hf := p x hx
  unfold Fine at hf
  unfold Effect.isInitSecret
  split
  · exact absurd hf (by simpa using hne)
  · simp

/-- What a tick adds to the calls of `InitSecret`, and what it leaves of the
state of the Chain B lock transaction. -/
theorem tick_secret (env : Env) (tx : AtomicSwapTransaction) (b : Bool) (hs : Side b tx) :
    initSecretCount env tx ≤ 1 ∧
      (initSecretCount env tx ≠ 0 →
        b = false ∧ ¬ lockStarted tx.params ∧
          ((AtomicSwapTransaction.UpdateImpl env tx).value.isSome = true →
            lockStarted (AtomicSwapTransaction.UpdateImpl env tx).tx.params)) := by
  by_cases hstate : tx.state = .BuildingLockTX
  · exact BuildingLockTX_secret env tx b hs.1 hstate
  · rw [initSecretCount_eq_zero env tx b hs hstate]
    exact ⟨by decide, fun h => absurd rfl h⟩

/-- The calls of `InitSecret` along an execution on a party: none once the
Chain B lock transaction has left `Initial`, at most one in all, and none on the
party with `IsSender()` true. -/
theorem run_secret (b : Bool) (evs : List Event) :
    ∀ tx : AtomicSwapTransaction, Side b tx → (∀ ev ∈ evs, ev.admissible = true) →
      (∀ ev ∈ evs, ev.writesLockState = false) → InitSecretReturns evs tx = true →
      (lockStarted tx.params → InitSecretCalls evs tx = [])
        ∧ (InitSecretCalls evs tx).length ≤ 1
        ∧ (InitSecretCalls evs tx ≠ [] → b = false) := by
  induction evs with
  | nil =>
    intro tx _ _ _ _
    exact ⟨fun _ => rfl, by simp [InitSecretCalls], fun h => absurd rfl h⟩
  | cons ev evs ih =>
    intro tx hs hadm hlock hret
    obtain ⟨secret, hp⟩ := step_passes ev tx b hs (hadm ev (by simp)) (hlock ev (by simp))
    have hkeep : lockStarted tx.params → lockStarted (step ev tx).params := by
      intro h
      obtain ⟨l, _, r, p⟩ := hp.log
      rw [r]
      exact replay_lockStarted l _ p h
    have hrest : ∀ hr : InitSecretReturns evs (step ev tx) = true,
        (lockStarted (step ev tx).params → InitSecretCalls evs (step ev tx) = [])
          ∧ (InitSecretCalls evs (step ev tx)).length ≤ 1
          ∧ (InitSecretCalls evs (step ev tx) ≠ [] → b = false) :=
      fun hr => ih (step ev tx) hp.side (fun x hx => hadm x (by simp [hx]))
        (fun x hx => hlock x (by simp [hx])) hr
    have hother : InitSecretReturns evs (step ev tx) = true →
        InitSecretCalls (ev :: evs) tx = InitSecretCalls evs (step ev tx) →
        (lockStarted tx.params → InitSecretCalls (ev :: evs) tx = [])
          ∧ (InitSecretCalls (ev :: evs) tx).length ≤ 1
          ∧ (InitSecretCalls (ev :: evs) tx ≠ [] → b = false) := by
      intro hr he
      rw [he]
      obtain ⟨h1, h2, h3⟩ := hrest hr
      exact ⟨fun h => h1 (hkeep h), h2, h3⟩
    cases ev with
    | Update env =>
      obtain ⟨hle, hpos⟩ := tick_secret env tx b hs
      have hret' : (initSecretCount env tx == 0 ||
          (AtomicSwapTransaction.UpdateImpl env tx).value.isSome) = true ∧
          InitSecretReturns evs (step (.Update env) tx) = true := by
        simpa [InitSecretReturns] using hret
      by_cases hn : initSecretCount env tx = 0
      · refine hother hret'.2 ?_
        simp [InitSecretCalls, hn]
      · obtain ⟨hb, hns, hafter⟩ := hpos hn
        have hv : (AtomicSwapTransaction.UpdateImpl env tx).value.isSome = true := by
          have := hret'.1
          simpa [hn] using this
        have h1 : initSecretCount env tx = 1 := by omega
        have hr0 : InitSecretCalls evs (step (.Update env) tx) = [] :=
          (hrest hret'.2).1 (hafter hv)
        have hc : InitSecretCalls (.Update env :: evs) tx = [env.IsInitiator] := by
          simp [InitSecretCalls, h1, hr0]
        rw [hc]
        exact ⟨fun h => absurd h hns, by simp, fun _ => hb⟩
    | SetRegisteredStatus t r => exact hother hret rfl
    | SetParameter subTxID id v => exact hother hret rfl
    | OnGetRawChangeAddress r => exact hother hret rfl
    | OnFundRawTransaction r => exact hother hret rfl
    | OnSignLockTransaction r => exact hother hret rfl
    | OnCreateRefundTransaction r => exact hother hret rfl
    | OnDumpSenderPrivateKey env r => exact hother hret rfl
    | OnDumpReceiverPrivateKey env r => exact hother hret rfl
    | OnGetSwapLockTxConfirmations r => exact hother hret rfl
    | OnSendRawTransaction subTxID txID => exact hother hret rfl

set_option maxRecDepth 100000 in
/-- C12, counterexample. Along the sample execution of the Chain B owner, whose
`IsInitiator()` is false at every tick, `InitSecret` is called: by a party that
is not the initiator. -/
theorem preimage_is_drawn_by_the_invited_party :
    InitSecretCalls sampleCounterpartyRun
        (AtomicSwapTransaction.create sampleCounterpartyParams) = [false]
      ∧ (AtomicSwapTransaction.create sampleCounterpartyParams).role = some false := by
  decide

/-- C12, amended. The HTLC preimage is generated by the Chain B owner, the party
with `IsSender()` false, whatever its `IsInitiator()`, and stored under
`BEAM_REDEEM_TX` with parameter `PreImage`: in every execution from a freshly
constructed object in which the state of the Chain B lock transaction is written
by the swap only and the tick that calls `InitSecret` returns, `InitSecret` is
called at most once, and not at all on the party with `IsSender()` true. -/
theorem preimage_is_drawn_once_by_chain_b_owner (params : ParamStore) (evs : List Event)
    (b : Bool) (hadm : ∀ ev ∈ evs, ev.admissible = true)
    (hlock : ∀ ev ∈ evs, ev.writesLockState = false)
    (hrole : (AtomicSwapTransaction.create params).role = some b)
    (hret : InitSecretReturns evs (AtomicSwapTransaction.create params) = true) :
    (InitSecretCalls evs (AtomicSwapTransaction.create params)).length ≤ 1
      ∧ (InitSecretCalls evs (AtomicSwapTransaction.create params) ≠ [] → b = false) :=
  (run_secret b evs (AtomicSwapTransaction.create params)
    ⟨hrole, fun _ => ⟨rfl, rfl⟩, fun _ => rfl⟩ hadm hlock hret).2

set_option maxRecDepth 100000 in
/-- The twelfth theorem on the sample executions: one call on the Chain B owner,
none on the Beam owner. -/
theorem preimage_is_drawn_once_by_chain_b_owner_witness :
    (InitSecretCalls sampleCounterpartyRun
        (AtomicSwapTransaction.create sampleCounterpartyParams)).length ≤ 1
      ∧ InitSecretCalls sampleOwnerRun (AtomicSwapTransaction.create sampleOwnerParams) = [] :=
  ⟨(preimage_is_drawn_once_by_chain_b_owner sampleCounterpartyParams sampleCounterpartyRun false
      (by decide) (by decide) rfl (by decide)).1,
    by
      have h := (preimage_is_drawn_once_by_chain_b_owner sampleOwnerParams sampleOwnerRun true
        (by decide) (by decide) rfl (by decide)).2
      by_contra hne
      exact absurd (h hne) (by decide)⟩


/-! ## The Beam locktime (C21, C28) -/

open AtomicSwapTransaction in
/-- `IsBeamLockTimeExpired` by the stored `MinHeight` and the tip: it returns,
leaving the object, whether the tip is known and its height exceeds the 64-bit
sum of the lock height (`MaxHeight` when none is stored) and
`kBeamLockTimeInBlocks`. -/
theorem IsBeamLockTimeExpired_eq (env : Env) (tx : AtomicSwapTransaction) :
    IsBeamLockTimeExpired env tx =
      .ok (match env.GetTip with
        | none => false
        | some m_Height =>
          decide (m_Height >
            add64 (((tx.params .kDefaultSubTxID .MinHeight).bind Value.asNat).getD MaxHeight)
              kBeamLockTimeInBlocks)) tx := rfl

open AtomicSwapTransaction in
/-- C21. For every stored `MinHeight` `m` with `m + 1440 < 2 ^ 64`,
`IsBeamLockTimeExpired` returns, and returns true iff the chain tip is available
and its height is strictly greater than `m + 1440`; hence a tick takes the Beam
owner from `SendingBeamRedeemTX` to `SendingBeamRefundTX` only at tip heights
greater than `m + 1440`. -/
theorem beam_locktime_expires_after_1440_blocks (env : Env) (tx : AtomicSwapTransaction)
    (m : Nat) (hm : (tx.params .kDefaultSubTxID .MinHeight).bind Value.asNat = some m)
    (hlt : m + 1440 < 2 ^ 64) :
    (∃ r, IsBeamLockTimeExpired env tx = .ok r tx)
      ∧ ((IsBeamLockTimeExpired env tx).value = some true ↔
          ∃ h, env.GetTip = some h ∧ m + 1440 < h)
      ∧ (tx.role = some true → tx.state = .SendingBeamRedeemTX →
          (UpdateImpl env tx).tx.state = .SendingBeamRefundTX →
          ∃ h, env.GetTip = some h ∧ m + 1440 < h) := by
  have hadd : add64 m kBeamLockTimeInBlocks = m + 1440 := by
    unfold add64 kBeamLockTimeInBlocks
    exact Nat.mod_eq_of_lt hlt
  have hiff : (IsBeamLockTimeExpired env tx).value = some true ↔
      ∃ h, env.GetTip = some h ∧ m + 1440 < h := by
    rw [IsBeamLockTimeExpired_eq, hm]
    cases ht : env.GetTip with
    | none => simp [Res.value]
    | some h => simp [Res.value, hadd]
  refine ⟨⟨_, IsBeamLockTimeExpired_eq env tx⟩, hiff, fun hb hs hnext => ?_⟩
  by_contra hno
  have hfalse : (IsBeamLockTimeExpired env (tx.cached true)).value = some false := by
    have h1 : (IsBeamLockTimeExpired env tx).value ≠ some true := fun h => hno (hiff.mp h)
    rw [IsBeamLockTimeExpired_eq] at h1 ⊢
    simp only [Res.value, cached_params] at h1 ⊢
    cases hv : (match env.GetTip with
      | none => false
      | some m_Height =>
        decide (m_Height >
          add64 (((tx.params .kDefaultSubTxID .MinHeight).bind Value.asNat).getD MaxHeight)
            kBeamLockTimeInBlocks)) with
    | false => rfl
    | true => exact absurd (by rw [hv]) h1
  have hU : UpdateImpl env tx = UpdateImpl.SendingBeamRedeemTX env true (tx.cached true) := by
    simp only [UpdateImpl, M.bind_apply, GetState_apply, IsSender_of_role tx _ hb, hs]
  rw [hU] at hnext
  rcases (owner_tick_not_expired env (tx.cached true) hfalse).tick_state with h | h
  · rw [h, cached_state, hs] at hnext
    cases hnext
  · rw [hnext] at h
    simp at h

open AtomicSwapTransaction in
/-- The twenty-first theorem with `MinHeight = 1000` stored: expired at tip
2441, not at tip 2440. -/
theorem beam_locktime_expires_after_1440_blocks_witness :
    (IsBeamLockTimeExpired (sampleEnv true (some 2441))
        (AtomicSwapTransaction.create
          (sampleOwnerParams.put .kDefaultSubTxID .MinHeight (.nat 1000)))).value = some true
      ∧ (IsBeamLockTimeExpired (sampleEnv true (some 2440))
        (AtomicSwapTransaction.create
          (sampleOwnerParams.put .kDefaultSubTxID .MinHeight (.nat 1000)))).value ≠ some true :=
  ⟨(beam_locktime_expires_after_1440_blocks (sampleEnv true (some 2441))
      (AtomicSwapTransaction.create
        (sampleOwnerParams.put .kDefaultSubTxID .MinHeight (.nat 1000))) 1000 rfl
      (by decide)).2.1.mpr ⟨2441, rfl, by decide⟩,
    by decide⟩

open AtomicSwapTransaction in
/-- C28. With no `MinHeight` stored, `IsBeamLockTimeExpired` does not return
false for every tip height: the default `MaxHeight = 2 ^ 64 - 1` plus 1440 wraps
to 1439 on 64 bits, so the call returns true exactly when the tip is known and
higher than 1439, for instance at height 1440. -/
theorem absent_MinHeight_expires_above_1439 (env : Env) (tx : AtomicSwapTransaction) :
    add64 MaxHeight kBeamLockTimeInBlocks = 1439
      ∧ ((tx.params .kDefaultSubTxID .MinHeight).bind Value.asNat = none →
          ((IsBeamLockTimeExpired env tx).value = some true ↔
            ∃ h, env.GetTip = some h ∧ 1439 < h))
      ∧ (IsBeamLockTimeExpired (sampleEnv true (some 1440))
          (AtomicSwapTransaction.create sampleOwnerParams)).value = some true := by
  have hadd : add64 MaxHeight kBeamLockTimeInBlocks = 1439 := by decide
  refine ⟨hadd, fun hm => ?_, by decide⟩
  rw [IsBeamLockTimeExpired_eq, hm]
  cases ht : env.GetTip with
  | none => simp [Res.value]
  | some h => simp [Res.value, hadd]


/-! ## The one kernel proof height (C24) -/

open AtomicSwapTransaction in
/-- `IsSubTxCompleted` by the proof height stored under the default sub-tx: zero
or absent, it requests the proof of the sub-tx's kernel and returns false (it
throws when no `KernelID` is stored for the sub-tx); otherwise it returns
true. -/
theorem IsSubTxCompleted_by_height (subTxID : SubTxID) (tx : AtomicSwapTransaction) :
    IsSubTxCompleted subTxID tx =
      (if ((tx.params .kDefaultSubTxID .KernelProofHeight).bind Value.asNat).getD 0 = 0 then
        (match (tx.params subTxID .KernelID).bind Value.asBig with
          | some k => .ok false { tx with log := tx.log ++ [.confirm_kernel k] }
          | none => .fail (.MissingParameter subTxID .KernelID) tx)
      else .ok true tx) := by
  by_cases h : ((tx.params .kDefaultSubTxID .KernelProofHeight).bind Value.asNat).getD 0 = 0
  · cases hk : (tx.params subTxID .KernelID).bind Value.asBig with
    | none => simp [IsSubTxCompleted, GetParameter, GetMandatoryParameter, M.read, h, hk]
    | some k => simp [IsSubTxCompleted, GetParameter, GetMandatoryParameter, M.read, M.emit, h, hk]
  · simp [IsSubTxCompleted, GetParameter, M.read, h]
/-- The role of an object that caches it. -/
theorem role_of_cached (tx : AtomicSwapTransaction) (b : Bool) (h : tx.m_IsSender = some b) :
    tx.role = some b := by
  simp only [AtomicSwapTransaction.role, h]

open AtomicSwapTransaction in
/-- The end of a tick in `SendingBeamLockTX`, after the broadcast: by the stored
proof height, either the state is kept or the height zero is stored and the
state is `SendingBeamRedeemTX`. -/
theorem after_lock_broadcast (t : AtomicSwapTransaction) (b : Bool)
    (hne : t.state ≠ .SendingBeamRedeemTX) (hi : t.m_IsSender = some b)
    (hnext : ((do
        if !(← IsSubTxCompleted .BEAM_LOCK_TX) then
          return ()
        SetParameter .KernelProofHeight (.nat 0) .kDefaultSubTxID
        SetNextState .SendingBeamRedeemTX : M Unit) t).tx.state = .SendingBeamRedeemTX) :
    ((do
        if !(← IsSubTxCompleted .BEAM_LOCK_TX) then
          return ()
        SetParameter .KernelProofHeight (.nat 0) .kDefaultSubTxID
        SetNextState .SendingBeamRedeemTX : M Unit) t).tx.params
          .kDefaultSubTxID .KernelProofHeight = some (.nat 0)
      ∧ ((do
        if !(← IsSubTxCompleted .BEAM_LOCK_TX) then
          return ()
        SetParameter .KernelProofHeight (.nat 0) .kDefaultSubTxID
        SetNextState .SendingBeamRedeemTX : M Unit) t).tx.role = some b := by
  rw [M.bind_apply, IsSubTxCompleted_by_height] at hnext ⊢
  by_cases h : ((t.params .kDefaultSubTxID .KernelProofHeight).bind Value.asNat).getD 0 = 0
  · rw [if_pos h] at hnext
    cases hk : (t.params .BEAM_LOCK_TX .KernelID).bind Value.asBig with
    | none =>
      rw [hk] at hnext
      exact absurd hnext hne
    | some k =>
      rw [hk] at hnext
      exact absurd hnext hne
  · rw [if_neg h]
    exact ⟨rfl, role_of_cached _ _ hi⟩

open AtomicSwapTransaction in
/-- A tick in `SendingBeamLockTX` that ends in `SendingBeamRedeemTX` has stored
the proof height zero under the default sub-tx, and keeps the role. -/
theorem tick_SendingBeamLockTX_resets (env : Env) (tx : AtomicSwapTransaction) (b : Bool)
    (hb : tx.role = some b) (hs : tx.state = .SendingBeamLockTX)
    (hnext : (UpdateImpl env tx).tx.state = .SendingBeamRedeemTX) :
    (UpdateImpl env tx).tx.params .kDefaultSubTxID .KernelProofHeight = some (.nat 0)
      ∧ (UpdateImpl env tx).tx.role = some b := by
  have hU : UpdateImpl env tx = UpdateImpl.SendingBeamLockTX (tx.cached b) := by
    simp only [UpdateImpl, M.bind_apply, GetState_apply, IsSender_of_role tx _ hb, hs]
  have hne : (tx.cached b).state ≠ .SendingBeamRedeemTX := by rw [cached_state, hs]; decide
  have hi : (tx.cached b).m_IsSender = some b := rfl
  rw [hU] at hnext ⊢
  generalize tx.cached b = t at hnext hne hi ⊢
  unfold UpdateImpl.SendingBeamLockTX at hnext ⊢
  cases hm : t.m_LockTx with
  | none =>
    simp only [M.bind_apply, M.read, hm] at hnext ⊢
    exact after_lock_broadcast t b hne hi hnext
  | some l =>
    simp only [M.bind_apply, M.read, hm, SendSubTx_by_flag] at hnext ⊢
    cases hf : (t.params .BEAM_LOCK_TX .TransactionRegistered).bind Value.asBool with
    | none =>
      simp only [hf] at hnext
      exact absurd hnext hne
    | some f =>
      cases f
      · simp only [hf] at hnext
        exact absurd hnext hne
      · simp only [hf] at hnext ⊢
        exact after_lock_broadcast t b hne hi hnext
open AtomicSwapTransaction in
/-- A tick of the party that is not the Beam owner in `SendingBeamRedeemTX`
while the stored proof height is zero keeps the state. -/
theorem tick_SendingBeamRedeemTX_unproven (env : Env) (tx : AtomicSwapTransaction)
    (hb : tx.role = some false) (hs : tx.state = .SendingBeamRedeemTX)
    (hh : ((tx.params .kDefaultSubTxID .KernelProofHeight).bind Value.asNat).getD 0 = 0) :
    (UpdateImpl env tx).tx.state = .SendingBeamRedeemTX := by
  have hc := IsSubTxCompleted_by_height .BEAM_REDEEM_TX (tx.cached false)
  rw [cached_params, if_pos hh] at hc
  rw [tick_SendingBeamRedeemTX_by_flag env tx false hb hs, hc]
  have hk : ∀ r : Res Bool, r = (match (tx.params .BEAM_REDEEM_TX .KernelID).bind Value.asBig with
        | some k => Res.ok false { tx.cached false with log := (tx.cached false).log ++ [.confirm_kernel k] }
        | none => .fail (.MissingParameter .BEAM_REDEEM_TX .KernelID) (tx.cached false)) →
      (match r with
        | .ok true tx2 => SetNextState .CompleteSwap tx2
        | .ok false tx2 => .ok () tx2
        | .fail x tx2 => .fail x tx2).tx.state = .SendingBeamRedeemTX := by
    intro r hr
    subst hr
    cases (tx.params .BEAM_REDEEM_TX .KernelID).bind Value.asBig <;> exact hs
  split
  · exact hs
  · exact hs
  · exact hk _ rfl

open AtomicSwapTransaction in
/-- C24. The kernel proof is tracked by the one `KernelProofHeight` under the
default sub-tx: for every sub-tx, `IsSubTxCompleted` returns true iff that
stored height is non-zero; a tick that moves from `SendingBeamLockTX` to
`SendingBeamRedeemTX` stores the height 0; and on every object in
`SendingBeamRedeemTX` that holds the proof height this tick left,
`IsSubTxCompleted(BEAM_REDEEM_TX)` does not return true (it returns false when
the kernel of the redeem transaction is stored) and a tick of the party that is
not the Beam owner stays in `SendingBeamRedeemTX`. -/
theorem proof_height_is_shared_and_reset (env : Env) (tx : AtomicSwapTransaction) (b : Bool)
    (hb : tx.role = some b) (hs : tx.state = .SendingBeamLockTX) :
    (∀ subTxID, (IsSubTxCompleted subTxID tx).value = some true ↔
        ((tx.params .kDefaultSubTxID .KernelProofHeight).bind Value.asNat).getD 0 ≠ 0)
      ∧ ((UpdateImpl env tx).tx.state = .SendingBeamRedeemTX →
          (UpdateImpl env tx).tx.params .kDefaultSubTxID .KernelProofHeight = some (.nat 0)
          ∧ (UpdateImpl env tx).tx.role = some b
          ∧ ∀ (env2 : Env) (tx2 : AtomicSwapTransaction),
              tx2.params .kDefaultSubTxID .KernelProofHeight
                = (UpdateImpl env tx).tx.params .kDefaultSubTxID .KernelProofHeight →
              tx2.state = .SendingBeamRedeemTX →
              (IsSubTxCompleted .BEAM_REDEEM_TX tx2).value ≠ some true
              ∧ (((tx2.params .BEAM_REDEEM_TX .KernelID).bind Value.asBig).isSome →
                  (IsSubTxCompleted .BEAM_REDEEM_TX tx2).value = some false)
              ∧ (tx2.role = some false →
                  (UpdateImpl env2 tx2).tx.state = .SendingBeamRedeemTX)) := by
  refine ⟨fun subTxID => ?_, fun hnext => ?_⟩
  · rw [IsSubTxCompleted_by_height]
    by_cases h : ((tx.params .kDefaultSubTxID .KernelProofHeight).bind Value.asNat).getD 0 = 0
    · rw [if_pos h]
      cases (tx.params subTxID .KernelID).bind Value.asBig <;> simp [Res.value, h]
    · rw [if_neg h]
      simp [Res.value, h]
  · obtain ⟨h0, hr⟩ := tick_SendingBeamLockTX_resets env tx b hb hs hnext
    refine ⟨h0, hr, fun env2 tx2 hp hs2 => ?_⟩
    have hh : ((tx2.params .kDefaultSubTxID .KernelProofHeight).bind Value.asNat).getD 0 = 0 := by
      rw [hp, h0]
      rfl
    refine ⟨?_, fun hk => ?_, fun hb2 => tick_SendingBeamRedeemTX_unproven env2 tx2 hb2 hs2 hh⟩
    · rw [IsSubTxCompleted_by_height, if_pos hh]
      cases (tx2.params .BEAM_REDEEM_TX .KernelID).bind Value.asBig <;> simp [Res.value]
    · rw [IsSubTxCompleted_by_height, if_pos hh]
      cases hk2 : (tx2.params .BEAM_REDEEM_TX .KernelID).bind Value.asBig with
      | none => rw [hk2] at hk; cases hk
      | some k => rfl

open AtomicSwapTransaction in
/-- The twenty-fourth theorem on the Chain B owner's sample object with the lock
kernel's proof recorded at height 100: the tick moves it to
`SendingBeamRedeemTX` with the height 0 stored, and the next tick stays
there. -/
theorem proof_height_is_shared_and_reset_witness :
    (UpdateImpl (sampleEnv false none) sampleLockProven).tx.state = .SendingBeamRedeemTX
      ∧ (UpdateImpl (sampleEnv false none) sampleLockProven).tx.params .kDefaultSubTxID
          .KernelProofHeight = some (.nat 0)
      ∧ (IsSubTxCompleted .BEAM_REDEEM_TX
          (UpdateImpl (sampleEnv false none) sampleLockProven).tx).value = some false
      ∧ (UpdateImpl (sampleEnv false none)
          (UpdateImpl (sampleEnv false none) sampleLockProven).tx).tx.state
            = .SendingBeamRedeemTX :=
  have h := (proof_height_is_shared_and_reset (sampleEnv false none) sampleLockProven false
    rfl rfl).2 (by decide)
  have h2 := h.2.2 (sampleEnv false none)
    (UpdateImpl (sampleEnv false none) sampleLockProven).tx rfl (by decide)
  ⟨by decide, h.1, h2.2.1 (by decide), h2.2.2 h.2.1⟩


/-! ## The recovered preimage (C22) -/

open AtomicSwapTransaction in
/-- `GetPreimageFromChain` by the proof height stored under the default sub-tx:
zero or absent, it requests the kernel of the redeem transaction and returns
false (it throws when no `KernelID` is stored for it); otherwise it returns
true, whether or not a `PreImage` was read. -/
theorem GetPreimageFromChain_by_height (tx : AtomicSwapTransaction) :
    GetPreimageFromChain tx =
      (if ((tx.params .kDefaultSubTxID .KernelProofHeight).bind Value.asNat).getD 0 = 0 then
        (match (tx.params .BEAM_REDEEM_TX .KernelID).bind Value.asBig with
          | some k => .ok false { tx with log := tx.log ++ [.get_kernel k] }
          | none => .fail (.MissingParameter .BEAM_REDEEM_TX .KernelID) tx)
      else .ok true tx) := by
  by_cases h : ((tx.params .kDefaultSubTxID .KernelProofHeight).bind Value.asNat).getD 0 = 0
  · cases hk : (tx.params .BEAM_REDEEM_TX .KernelID).bind Value.asBig with
    | none => simp [GetPreimageFromChain, GetParameter, GetMandatoryParameter, M.read, h, hk]
    | some k =>
      simp [GetPreimageFromChain, GetParameter, GetMandatoryParameter, M.read, M.emit, h, hk]
  · simp [GetPreimageFromChain, GetParameter, M.read, h]

open AtomicSwapTransaction in
set_option maxRecDepth 100000 in
/-- C22. The Beam owner moves from `SendingBeamRedeemTX` to `BuildingRedeemTX`
without a recovered preimage: `GetPreimageFromChain` returns true iff the proof
height stored under the default sub-tx is non-zero, and on the sample object,
that stores the proof height 5 and no `PreImage` under any sub-tx, the tick
ends in `BuildingRedeemTX` with still no `PreImage` in the store. Such an
object is reached from a fresh one: the execution `sampleLateProofRun` of
admissible events is in `SendingBeamRedeemTX` before its last tick and ends in
`BuildingRedeemTX` with no `PreImage` stored. -/
theorem redeem_is_built_without_preimage :
    (∀ tx, (GetPreimageFromChain tx).value = some true ↔
        ((tx.params .kDefaultSubTxID .KernelProofHeight).bind Value.asNat).getD 0 ≠ 0)
      ∧ sampleProofWithoutPreimage.role = some true
      ∧ sampleProofWithoutPreimage.state = .SendingBeamRedeemTX
      ∧ (∀ subTxID, sampleProofWithoutPreimage.params subTxID .PreImage = none)
      ∧ (GetPreimageFromChain (sampleProofWithoutPreimage.cached true)).value = some true
      ∧ (UpdateImpl (sampleEnv true (some 0)) sampleProofWithoutPreimage).tx.state
          = .BuildingRedeemTX
      ∧ (∀ subTxID,
          (UpdateImpl (sampleEnv true (some 0)) sampleProofWithoutPreimage).tx.params
            subTxID .PreImage = none)
      ∧ (∀ ev ∈ sampleLateProofRun, ev.admissible = true)
      ∧ (run (sampleLateProofRun.take 33)
          (AtomicSwapTransaction.create sampleOwnerParams)).state = .SendingBeamRedeemTX
      ∧ (run sampleLateProofRun (AtomicSwapTransaction.create sampleOwnerParams)).state
          = .BuildingRedeemTX
      ∧ (∀ subTxID, (run sampleLateProofRun
          (AtomicSwapTransaction.create sampleOwnerParams)).params subTxID .PreImage = none) := by
  refine ⟨fun tx => ?_, rfl, rfl, fun s => by cases s <;> rfl, by decide, by decide,
    fun s => by cases s <;> decide, by decide, by decide, by decide,
    fun s => by cases s <;> decide⟩
  rw [GetPreimageFromChain_by_height]
  by_cases h : ((tx.params .kDefaultSubTxID .KernelProofHeight).bind Value.asNat).getD 0 = 0
  · rw [if_pos h]
    cases (tx.params .BEAM_REDEEM_TX .KernelID).bind Value.asBig <;> simp [Res.value, h]
  · rw [if_neg h]
    simp [Res.value, h]


/-! ## The script on the two sides (C25) -/

/-- C25. Two parties with mirrored address parameters and the same `CreateTime`
and preimage do not derive the same HTLC script: `CreateAtomicSwapContract`
returns on each side the script that refunds to the hash of the party's own
address and pays the redeemer's branch to the hash of its peer's address, so the
two scripts are equal only when the two addresses have the same hash; on the two
sample stores they differ. -/
theorem mirrored_parties_derive_different_scripts :
    (∀ (env : Env) (funder redeemer : AtomicSwapTransaction) (t0 : Nat) (a b : String)
        (preimage : uintBig),
        funder.params .kDefaultSubTxID .CreateTime = some (.nat t0) →
        redeemer.params .kDefaultSubTxID .CreateTime = some (.nat t0) →
        funder.params .BEAM_REDEEM_TX .PreImage = some (.big preimage) →
        redeemer.params .BEAM_REDEEM_TX .PreImage = some (.big preimage) →
        funder.params .kDefaultSubTxID .AtomicSwapAddress = some (.str b) →
        funder.params .kDefaultSubTxID .AtomicSwapPeerAddress = some (.str a) →
        redeemer.params .kDefaultSubTxID .AtomicSwapAddress = some (.str a) →
        redeemer.params .kDefaultSubTxID .AtomicSwapPeerAddress = some (.str b) →
        CreateAtomicSwapContract env funder =
            .ok (AtomicSwapContract (env.payment_address_hash b) (env.payment_address_hash a)
              (toInt64 (add64 t0 kBTCLockTimeSec)) (env.Hash preimage).val 32) funder
          ∧ CreateAtomicSwapContract env redeemer =
            .ok (AtomicSwapContract (env.payment_address_hash a) (env.payment_address_hash b)
              (toInt64 (add64 t0 kBTCLockTimeSec)) (env.Hash preimage).val 32) redeemer
          ∧ ((CreateAtomicSwapContract env funder).value
                = (CreateAtomicSwapContract env redeemer).value ↔
              env.payment_address_hash a = env.payment_address_hash b))
      ∧ (CreateAtomicSwapContract (sampleEnv false none)
            (AtomicSwapTransaction.create sampleParams)).value.isSome = true
      ∧ (CreateAtomicSwapContract (sampleEnv true none)
            (AtomicSwapTransaction.create sampleMirroredParams)).value.isSome = true
      ∧ (CreateAtomicSwapContract (sampleEnv false none)
            (AtomicSwapTransaction.create sampleParams)).value
          ≠ (CreateAtomicSwapContract (sampleEnv true none)
            (AtomicSwapTransaction.create sampleMirroredParams)).value := by
  refine ⟨?_, by decide, by decide, by decide⟩
  intro env funder redeemer t0 a b preimage h1 h2 h3 h4 h5 h6 h7 h8
  have hf := CreateAtomicSwapContract_ok env funder t0 a b preimage h1 h6 h5 h3
  have hr := CreateAtomicSwapContract_ok env redeemer t0 b a preimage h2 h8 h7 h4
  refine ⟨hf, hr, ?_⟩
  rw [hf, hr]
  simp only [Res.value, AtomicSwapContract_eq]
  constructor
  · intro h
    simp at h
    exact h.1
  · intro h
    rw [h]


/-! ## The assertion on the peer's signature (C26) -/

open AtomicSwapTransaction in
set_option maxRecDepth 100000 in
/-- C26. The assertion `assert(lockTxBuilder->GetPeerSignature())` of
`BuildBeamLockTx` fails on a reachable object. The party invited to the signing
of the lock transaction answers the invitation, which carries the peer's public
excess and nonce, with its own Part2 and stores the sub-state
`SharedUTXOProofPart2`; a tick replayed before the peer's Part2 arrives finds
the excess and nonce stored and no `PeerSignature`, and stops at the assertion
of line 560. -/
theorem peer_signature_is_asserted_before_it_arrives :
    sampleAwaitingSignature.state = .BuildingBeamLockTX
      ∧ sampleAwaitingSignature.subTxState .BEAM_LOCK_TX = .SharedUTXOProofPart2
      ∧ (sampleAwaitingSignature.params .BEAM_LOCK_TX .PeerPublicExcess).isSome = true
      ∧ (sampleAwaitingSignature.params .BEAM_LOCK_TX .PeerPublicNonce).isSome = true
      ∧ sampleAwaitingSignature.params .BEAM_LOCK_TX .PeerSignature = none
      ∧ (sampleEnv false none).GetPeerPublicExcessAndNonce sampleAwaitingSignature.params
          .BEAM_LOCK_TX = true
      ∧ (sampleEnv false none).GetPeerSignature sampleAwaitingSignature.params
          .BEAM_LOCK_TX = false
      ∧ (∀ ev ∈ sampleCounterpartyRun.take 9, ev.admissible = true)
      ∧ (BuildBeamLockTx (sampleEnv false none) (sampleAwaitingSignature.cached false)).value
          = none
      ∧ (∃ tx', BuildBeamLockTx (sampleEnv false none) (sampleAwaitingSignature.cached false) =
          .fail (.AssertionFailed 560) tx')
      ∧ (∃ tx', UpdateImpl (sampleEnv false none) sampleAwaitingSignature =
          .fail (.AssertionFailed 560) tx') := by
  refine ⟨by decide, by decide, by decide, by decide, by decide, by decide, by decide, by decide,
    by decide, ⟨_, rfl⟩, ⟨_, rfl⟩⟩


/-! ## The amount string of the withdraw transaction (C27) -/

/-- Reading a digit character gives the digit. -/
theorem decimalDigit_digitChar (d : Nat) (h : d < 10) : decimalDigit (digitChar d) = some d := by
  interval_cases d <;> rfl

/-- A digit character is not the point. -/
theorem digitChar_ne_point (d : Nat) (h : d < 10) : (digitChar d != '.') = true := by
  interval_cases d <;> rfl

/-- Reading a list of digits followed by one more digit. -/
theorem readDigits_append (cs : List Char) (d : Nat) (h : d < 10) :
    readDigits (cs ++ [digitChar d]) = (readDigits cs).map (fun n => 10 * n + d) := by
  unfold readDigits
  rw [List.foldl_append]
  simp only [List.foldl_cons, List.foldl_nil, decimalDigit_digitChar d h]
  cases List.foldl (fun acc c =>
    match acc, decimalDigit c with
    | some n, some d => some (10 * n + d)
    | _, _ => none) (some 0) cs <;> rfl

/-- Reading the decimal digits of a number gives the number. -/
theorem readDigits_decimalDigits (fuel : Nat) :
    ∀ n, n < 10 ^ fuel → readDigits (decimalDigits fuel n) = some n := by
  induction fuel with
  | zero =>
    intro n h
    simp at h
    subst h
    rfl
  | succ fuel ih =>
    intro n h
    unfold decimalDigits
    by_cases h10 : n < 10
    · rw [if_pos h10]
      have := readDigits_append [] n h10
      simpa [readDigits] using this
    · rw [if_neg h10, readDigits_append _ _ (Nat.mod_lt _ (by decide)),
        ih (n / 10) (by rw [pow_succ] at h; omega)]
      simp only [Option.map_some']
      congr 1
      omega

/-- The decimal digits of a number hold no point. -/
theorem decimalDigits_ne_point (fuel : Nat) :
    ∀ n, ∀ c ∈ decimalDigits fuel n, (c != '.') = true := by
  induction fuel with
  | zero =>
    intro n c hc
    cases hc
  | succ fuel ih =>
    intro n c hc
    unfold decimalDigits at hc
    by_cases h10 : n < 10
    · rw [if_pos h10] at hc
      rw [List.mem_singleton] at hc
      subst hc
      exact digitChar_ne_point n h10
    · rw [if_neg h10, List.mem_append, List.mem_singleton] at hc
      rcases hc with hc | hc
      · exact ih _ c hc
      · subst hc
        exact digitChar_ne_point _ (Nat.mod_lt _ (by decide))

/-- The part of a list before the first point, when the point follows a prefix
without one. -/
theorem takeWhile_point (ds rest : List Char) (h : ∀ c ∈ ds, (c != '.') = true) :
    (ds ++ '.' :: rest).takeWhile (fun c => c != '.') = ds
      ∧ (ds ++ '.' :: rest).dropWhile (fun c => c != '.') = '.' :: rest := by
  induction ds with
  | nil => exact ⟨rfl, rfl⟩
  | cons d ds ih =>
    have hd := h d (List.mem_cons_self _ _)
    have ih := ih (fun c hc => h c (List.mem_cons_of_mem _ hc))
    simp only [List.cons_append, List.takeWhile_cons, List.dropWhile_cons, hd, if_true, ih.1,
      ih.2, and_self]

/-- The string of `micro` millionths of a bitcoin denotes `100 * micro`
satoshi. -/
theorem satoshiOfAmountString_renderMicro (micro : Nat) :
    satoshiOfAmountString (String.mk (renderMicro micro)) = some (100 * micro) := by
  have h1 := takeWhile_point (decimalDigits (micro / 1000000 + 1) (micro / 1000000))
    [digitChar (micro / 100000 % 10), digitChar (micro / 10000 % 10),
     digitChar (micro / 1000 % 10), digitChar (micro / 100 % 10),
     digitChar (micro / 10 % 10), digitChar (micro % 10)]
    (decimalDigits_ne_point _ _)
  have h2 := readDigits_decimalDigits (micro / 1000000 + 1) (micro / 1000000)
    (lt_of_lt_of_le (Nat.lt_pow_self (by decide) _) (Nat.pow_le_pow_right (by decide) (by omega)))
  have h3 : readDigits [digitChar (micro / 100000 % 10), digitChar (micro / 10000 % 10),
      digitChar (micro / 1000 % 10), digitChar (micro / 100 % 10),
      digitChar (micro / 10 % 10), digitChar (micro % 10)] = some (micro % 1000000) := by
    simp only [readDigits, List.foldl_cons, List.foldl_nil,
      decimalDigit_digitChar _ (Nat.mod_lt _ (show 0 < 10 by decide))]
    congr 1
    omega
  unfold satoshiOfAmountString renderMicro
  simp only [h1.1, h1.2, List.drop_succ_cons, List.drop_zero, h2, h3, List.length_cons,
    List.length_nil]
  simp only [satoshi_per_bitcoin]
  norm_num
  omega

open AtomicSwapTransaction in
/-- C27. The amount string that `BuildWithdrawTx` passes to
`createRawTransaction` does not denote the swap amount for every amount: the
string is the rendering of a whole number of millionths of a bitcoin, so it
denotes a multiple of 100 satoshi, and no amount that is not one is recovered
from it. On the sample object with the swap amount 123456789 satoshi the request
carries that amount, rendered "1.234568", which denotes 123456800 satoshi; the
amount of 1 satoshi is rendered "0.000000". -/
theorem withdraw_amount_string_drops_satoshis :
    (∀ args : CreateRawTransactionArgs,
        args.amountString = String.mk (renderMicro
          ((double.ofUInt64 args.amount).div (double.ofUInt64 satoshi_per_bitcoin)).micro)
        ∧ satoshiOfAmountString args.amountString = some (100 *
          ((double.ofUInt64 args.amount).div (double.ofUInt64 satoshi_per_bitcoin)).micro))
      ∧ (∀ args : CreateRawTransactionArgs, args.amount % 100 ≠ 0 →
          satoshiOfAmountString args.amountString ≠ some args.amount)
      ∧ (BuildWithdrawTx .REDEEM_TX sampleOddAmount).newLog sampleOddAmount =
          [.createRawTransaction
            { txid := "txid", vout := 0, Sequence := 4294967294, address := "addressB",
              amount := 123456789, locktime := none },
           .SetParameter .REDEEM_TX .State (.swapTxState .CreatingTx)]
      ∧ CreateRawTransactionArgs.amountString
          { txid := "txid", vout := 0, Sequence := 4294967294, address := "addressB",
            amount := 123456789, locktime := none } = "1.234568"
      ∧ satoshiOfAmountString "1.234568" = some 123456800
      ∧ CreateRawTransactionArgs.amountString
          { txid := "txid", vout := 0, Sequence := 4294967294, address := "addressB",
            amount := 1, locktime := none } = "0.000000"
      ∧ satoshiOfAmountString "0.000000" = some 0 := by
  have h : ∀ args : CreateRawTransactionArgs,
      satoshiOfAmountString args.amountString = some (100 *
        ((double.ofUInt64 args.amount).div (double.ofUInt64 satoshi_per_bitcoin)).micro) :=
    fun args => satoshiOfAmountString_renderMicro _
  refine ⟨fun args => ⟨rfl, h args⟩, fun args ha heq => ?_, by decide, by decide, by decide,
    by decide, by decide⟩
  rw [h args] at heq
  have := Option.some.inj heq
  omega


/-! ## The states each party reaches (C23) -/

/-- The log entries of a tick of the party that is not the Beam owner, by the
state: the top-level state is written only along the edges of
`counterpartyNext`. In `BuildingRedeemTX` and `SendingBeamRefundTX` the
assertion on the role stops the tick. -/
theorem counterparty_tick_cases (env : Env) (s : State) (tx : AtomicSwapTransaction) :
    Evolves (Tick (counterpartyNext s) True) False tx
      ((match s with
        | .Initial => AtomicSwapTransaction.UpdateImpl.Initial
        | .Invitation => AtomicSwapTransaction.UpdateImpl.Invitation env false
        | .BuildingLockTX => AtomicSwapTransaction.UpdateImpl.BuildingLockTX env false
        | .BuildingRefundTX => AtomicSwapTransaction.UpdateImpl.BuildingRefundTX false
        | .BuildingRedeemTX => AtomicSwapTransaction.UpdateImpl.BuildingRedeemTX false
        | .BuildingBeamLockTX => AtomicSwapTransaction.UpdateImpl.BuildingBeamLockTX env
        | .BuildingBeamRefundTX => AtomicSwapTransaction.UpdateImpl.BuildingBeamRefundTX env
        | .BuildingBeamRedeemTX => AtomicSwapTransaction.UpdateImpl.BuildingBeamRedeemTX env
        | .HandlingContractTX => AtomicSwapTransaction.UpdateImpl.HandlingContractTX env false
        | .SendingRefundTX => AtomicSwapTransaction.UpdateImpl.SendingRefundTX
        | .SendingRedeemTX => AtomicSwapTransaction.UpdateImpl.SendingRedeemTX
        | .SendingBeamLockTX => AtomicSwapTransaction.UpdateImpl.SendingBeamLockTX
        | .SendingBeamRedeemTX => AtomicSwapTransaction.UpdateImpl.SendingBeamRedeemTX env false
        | .SendingBeamRefundTX => AtomicSwapTransaction.UpdateImpl.SendingBeamRefundTX false
        | .CompleteSwap => AtomicSwapTransaction.UpdateImpl.CompleteSwap : M Unit) tx).tx := by
  have hInner : ∀ e, Inner e → Tick (counterpartyNext s) True e := inner_tick _ _
  have hSending : ∀ e, Sending e → Tick (counterpartyNext s) True e :=
    fun e h => inner_tick _ _ e (sending_inner e h)
  cases s with
  | BuildingRedeemTX => exact Evolves.refl tx
  | SendingBeamRefundTX => exact Evolves.refl tx
  | _ =>
    dsimp only
    try unfold AtomicSwapTransaction.UpdateImpl.Initial
    try unfold AtomicSwapTransaction.UpdateImpl.Invitation
    try unfold AtomicSwapTransaction.UpdateImpl.BuildingLockTX
    try unfold AtomicSwapTransaction.UpdateImpl.BuildingRefundTX
    try unfold AtomicSwapTransaction.UpdateImpl.BuildingBeamLockTX
    try unfold AtomicSwapTransaction.UpdateImpl.BuildingBeamRefundTX
    try unfold AtomicSwapTransaction.UpdateImpl.BuildingBeamRedeemTX
    try unfold AtomicSwapTransaction.UpdateImpl.HandlingContractTX
    try unfold AtomicSwapTransaction.UpdateImpl.SendingRefundTX
    try unfold AtomicSwapTransaction.UpdateImpl.SendingRedeemTX
    try unfold AtomicSwapTransaction.UpdateImpl.SendingBeamLockTX
    try unfold AtomicSwapTransaction.UpdateImpl.SendingBeamRedeemTX
    try unfold AtomicSwapTransaction.UpdateImpl.CompleteSwap
    try unfold AtomicSwapTransaction.SetNextState
    try unfold SetState
    try unfold AtomicSwapTransaction.UpdateAsync
    try unfold UpdateTxDescription
    repeat' first
      | with_reducible exact Evolves.of_pure _ _
      | with_reducible exact Evolves.of_read _ _
      | with_reducible exact Evolves.of_raise _ _
      | with_reducible exact Evolves.of_GetParameter _ _ _ _
      | with_reducible exact Evolves.of_GetMandatoryParameter _ _ _ _
      | with_reducible exact Evolves.of_IsSender _
      | with_reducible exact Evolves.of_GetAmount _
      | with_reducible exact Evolves.of_assert _ _ _
      | with_reducible exact Evolves.mono (BuildBeamLockTx_inner _ _) hInner (fun h => h)
      | with_reducible exact Evolves.mono (BuildBeamRefundTx_inner _ _) hInner (fun h => h)
      | with_reducible exact Evolves.mono (BuildBeamRedeemTx_inner _ _) hInner (fun h => h)
      | with_reducible exact Evolves.mono (BuildLockTx_inner _ _) hInner (fun h => h)
      | with_reducible exact Evolves.mono (BuildWithdrawTx_REFUND_inner _) hInner (fun h => h)
      | with_reducible exact Evolves.mono (BuildWithdrawTx_REDEEM_inner _) hInner (fun h => h)
      | with_reducible exact Evolves.mono (RegisterExternalTx_inner _ _ _) hInner (fun h => h)
      | with_reducible exact Evolves.mono (GetSwapLockTxConfirmations_inner _) hInner (fun h => h)
      | with_reducible exact Evolves.mono (IsSubTxCompleted_inner _ _) hInner (fun h => h)
      | with_reducible exact Evolves.mono (GetPreimageFromChain_inner _) hInner (fun h => h)
      | with_reducible exact Evolves.mono (IsBeamLockTimeExpired_inner _ _) hInner (fun h => h)
      | with_reducible exact SendInvitation_evolves hSending _ _
      | with_reducible exact SendExternalTxDetails_evolves hSending _ _
      | ((with_reducible refine SendSubTx_evolves ?_ ?_ _ _) <;>
          (first | exact fun _ => trivial | exact fun _ => rfl | exact trivial))
      | ((with_reducible refine Evolves.of_emit _ ?_ ?_ _) <;>
          (first | exact trivial | exact fun _ => rfl))
      | ((with_reducible refine Evolves.of_SetParameter _ _ _ ?_ _) <;>
          (first | exact trivial | exact ⟨_, rfl, by decide⟩))
      | with_reducible apply Evolves.bind
      | with_reducible apply Evolves.of_ite
      | (intro h; first | exact absurd h (by decide) | exact absurd rfl h)
      | intro _ _ _
      | intro _
      | split
      | (with_reducible dsimp only)

/-- The edges of a party lead to states that fit it. -/
theorem fits_roleNext (b : Bool) (s s' : State) (hf : s.fits b = true)
    (hm : s' ∈ roleNext b s) : s'.fits b = true := by
  cases b <;> cases s <;>
    simp [roleNext, ownerNext, counterpartyNext, State.fits] at hm hf ⊢ <;>
    (try rcases hm with rfl | rfl) <;> (try subst hm) <;> rfl

open AtomicSwapTransaction in
/-- One tick of the party that is not the Beam owner writes the top-level state
only along the edges of `counterpartyNext`. -/
theorem counterparty_tick (env : Env) (tx : AtomicSwapTransaction) (hb : tx.role = some false) :
    Evolves (Tick (counterpartyNext tx.state) True) False (tx.cached false)
      (UpdateImpl env tx).tx := by
  have hU := UpdateImpl_prelude env tx false hb
    (fun s isBeamOwner => match s with
      | .Initial => UpdateImpl.Initial
      | .Invitation => UpdateImpl.Invitation env isBeamOwner
      | .BuildingLockTX => UpdateImpl.BuildingLockTX env isBeamOwner
      | .BuildingRefundTX => UpdateImpl.BuildingRefundTX isBeamOwner
      | .BuildingRedeemTX => UpdateImpl.BuildingRedeemTX isBeamOwner
      | .BuildingBeamLockTX => UpdateImpl.BuildingBeamLockTX env
      | .BuildingBeamRefundTX => UpdateImpl.BuildingBeamRefundTX env
      | .BuildingBeamRedeemTX => UpdateImpl.BuildingBeamRedeemTX env
      | .HandlingContractTX => UpdateImpl.HandlingContractTX env isBeamOwner
      | .SendingRefundTX => UpdateImpl.SendingRefundTX
      | .SendingRedeemTX => UpdateImpl.SendingRedeemTX
      | .SendingBeamLockTX => UpdateImpl.SendingBeamLockTX
      | .SendingBeamRedeemTX => UpdateImpl.SendingBeamRedeemTX env isBeamOwner
      | .SendingBeamRefundTX => UpdateImpl.SendingBeamRefundTX isBeamOwner
      | .CompleteSwap => UpdateImpl.CompleteSwap) rfl
  rw [hU]
  have h := counterparty_tick_cases env tx.state (tx.cached false)
  cases hs : tx.state <;> rw [hs] at h <;> exact h

/-- A callback writes the top-level state only as its `Reply` class allows. -/
theorem Keeps.reply_state {allowed : List State} {tx tx' : AtomicSwapTransaction}
    (h : Keeps (Reply allowed) tx tx') : tx'.state = tx.state ∨ tx'.state ∈ allowed := by
  obtain ⟨l, _, r, p⟩ := h.log
  unfold AtomicSwapTransaction.state
  rw [r]
  exact replay_state_of_tick allowed False l tx.params (fun e he => reply_tick allowed e (p e he))

open AtomicSwapTransaction in
/-- Recording a confirmation count leaves the store. -/
theorem OnGetSwapLockTxConfirmations_params (response : Option Nat)
    (tx : AtomicSwapTransaction) :
    (OnGetSwapLockTxConfirmations response tx).tx.params = tx.params := by
  cases response with
  | none => rfl
  | some n =>
    by_cases hn : n ≥ kBTCMinTxConfirmations <;>
      simp [OnGetSwapLockTxConfirmations, hn, UpdateAsync, M.modify, M.emit]

/-- A parameter stored from outside leaves the top-level state. -/
theorem SetParameter_state (subTxID : SubTxID) (id : TxParameterID) (v : Value)
    (tx : AtomicSwapTransaction) (hadm : (Event.SetParameter subTxID id v).admissible = true) :
    (SetParameter id v subTxID tx).tx.state = tx.state := by
  unfold AtomicSwapTransaction.state
  simp only [SetParameter_apply, Res.tx_ok, ParamStore.put]
  rw [if_neg (by
    rintro ⟨rfl, rfl⟩
    simp [Event.admissible] at hadm)]

open AtomicSwapTransaction in
/-- The outcome of a Chain A broadcast leaves the top-level state. -/
theorem SetRegisteredStatus_state (transaction : Transaction) (isRegistered : Bool)
    (tx : AtomicSwapTransaction) (b : Bool) (hb : tx.role = some b) :
    (SetRegisteredStatus transaction isRegistered tx).tx.state = tx.state := by
  unfold SetRegisteredStatus
  cases hk : (tx.params .BEAM_LOCK_TX .KernelID).bind Value.asBig with
  | none => simp [GetMandatoryParameter, hk]
  | some k =>
    by_cases hne : transaction.kernelID = k
    · simp [GetMandatoryParameter, hk, hne, AtomicSwapTransaction.state, ParamStore.put]
    · cases b <;>
        simp [GetMandatoryParameter, hk, hne, IsSender_of_role tx _ hb,
          AtomicSwapTransaction.cached, AtomicSwapTransaction.state, ParamStore.put]

/-- One admissible event on the party with `isBeamOwner = b` keeps the top-level
state, or writes a state along that party's edges, or, as the reply with the
Chain B address, writes `Invitation`. -/
theorem step_state_by_role (ev : Event) (tx : AtomicSwapTransaction) (b : Bool)
    (hb : tx.role = some b) (hadm : ev.admissible = true) :
    (step ev tx).state = tx.state ∨ (step ev tx).state ∈ roleNext b tx.state
      ∨ (step ev tx).state = .Invitation := by
  have hk : ∀ {tx' : AtomicSwapTransaction}, Keeps (Reply []) tx tx' →
      tx'.state = tx.state ∨ tx'.state ∈ roleNext b tx.state ∨ tx'.state = .Invitation := by
    intro tx' h
    rcases h.reply_state with h | h
    · exact Or.inl h
    · cases h
  cases ev with
  | Update env =>
    cases b with
    | true =>
      rcases (Update_step env tx hb).state with h | h
      · exact Or.inl h
      · exact Or.inr (Or.inl h)
    | false =>
      rcases (counterparty_tick env tx hb).tick_state with h | h
      · exact Or.inl h
      · exact Or.inr (Or.inl h)
  | OnGetRawChangeAddress response =>
    rcases (OnGetRawChangeAddress_keeps response tx).reply_state with h | h
    · exact Or.inl h
    · exact Or.inr (Or.inr (by simpa using h))
  | OnFundRawTransaction response => exact hk (OnFundRawTransaction_keeps response tx)
  | OnSignLockTransaction response => exact hk (OnSignLockTransaction_keeps response tx)
  | OnCreateRefundTransaction response => exact hk (OnCreateRefundTransaction_keeps response tx)
  | OnDumpSenderPrivateKey env response => exact hk (OnDumpSenderPrivateKey_keeps env response tx)
  | OnDumpReceiverPrivateKey env response =>
    exact hk (OnDumpReceiverPrivateKey_keeps env response tx)
  | OnGetSwapLockTxConfirmations response =>
    refine Or.inl ?_
    unfold AtomicSwapTransaction.state step Event.handler
    rw [OnGetSwapLockTxConfirmations_params]
  | OnSendRawTransaction subTxID txID => exact hk (OnSendRawTransaction_keeps subTxID txID tx)
  | SetRegisteredStatus transaction isRegistered =>
    exact Or.inl (SetRegisteredStatus_state transaction isRegistered tx b hb)
  | SetParameter subTxID id v => exact Or.inl (SetParameter_state subTxID id v tx hadm)

/-- Along an execution of admissible events, the object stays on its side and
its top-level state fits the role. -/
theorem run_fits (b : Bool) (evs : List Event) :
    ∀ tx : AtomicSwapTransaction, Side b tx → tx.state.fits b = true →
      (∀ ev ∈ evs, ev.admissible = true) →
      Side b (run evs tx) ∧ (run evs tx).state.fits b = true := by
  induction evs with
  | nil =>
    intro tx hs hf _
    exact ⟨hs, hf⟩
  | cons ev evs ih =>
    intro tx hs hf hadm
    have ha := hadm ev (by simp)
    refine ih (step ev tx) (step_side ev tx b hs ha).1 ?_ (fun x hx => hadm x (by simp [hx]))
    rcases step_state_by_role ev tx b hs.1 ha with h | h | h
    · rw [h]
      exact hf
    · exact fits_roleNext b _ _ hf h
    · rw [h]
      rfl

open AtomicSwapTransaction in
/-- C23. On an object created in state `Initial` with the role bit
`isBeamOwner = b`, after every sequence of admissible events (ticks of
`UpdateImpl`, callbacks, parameters stored from outside other than the top-level
state and the role bit): the role is still `b`, so `IsSender()` returns `b`;
the state is `BuildingLockTX` or `BuildingRefundTX` only if `b` is false, so the
assertion `!isBeamOwner` holds there; it is `BuildingRedeemTX` or
`SendingBeamRefundTX` only if `b` is true, so the assertion `isBeamOwner` holds
there; and it is never `SendingRefundTX`. -/
theorem role_assertions_hold (params : ParamStore) (b : Bool) (evs : List Event)
    (hrole : (AtomicSwapTransaction.create params).role = some b)
    (hinit : (AtomicSwapTransaction.create params).state = .Initial)
    (hadm : ∀ ev ∈ evs, ev.admissible = true) :
    (run evs (AtomicSwapTransaction.create params)).role = some b
      ∧ IsSender (run evs (AtomicSwapTransaction.create params)) =
          .ok b ((run evs (AtomicSwapTransaction.create params)).cached b)
      ∧ ((run evs (AtomicSwapTransaction.create params)).state = .BuildingLockTX → b = false)
      ∧ ((run evs (AtomicSwapTransaction.create params)).state = .BuildingRefundTX → b = false)
      ∧ ((run evs (AtomicSwapTransaction.create params)).state = .BuildingRedeemTX → b = true)
      ∧ ((run evs (AtomicSwapTransaction.create params)).state = .SendingBeamRefundTX →
          b = true)
      ∧ (run evs (AtomicSwapTransaction.create params)).state ≠ .SendingRefundTX := by
  have hside : Side b (AtomicSwapTransaction.create params) :=
    ⟨hrole, fun _ => ⟨rfl, rfl⟩, fun _ => rfl⟩
  obtain ⟨hs, hf⟩ := run_fits b evs _ hside (by rw [hinit]; rfl) hadm
  refine ⟨hs.1, IsSender_of_role _ _ hs.1, ?_, ?_, ?_, ?_, ?_⟩ <;> intro h <;> rw [h] at hf <;>
    cases b <;> first | rfl | exact absurd hf (by decide)

open AtomicSwapTransaction in
set_option maxRecDepth 100000 in
/-- The twenty-third theorem on the two sample executions: the Chain B owner is
in `BuildingLockTX` after three ticks, the Beam owner in `BuildingRedeemTX`
after 36 events, each with its role kept. -/
theorem role_assertions_hold_witness :
    ((run (sampleCounterpartyRun.take 3)
        (AtomicSwapTransaction.create sampleCounterpartyParams)).state = .BuildingLockTX
      ∧ (run (sampleCounterpartyRun.take 3)
        (AtomicSwapTransaction.create sampleCounterpartyParams)).role = some false)
      ∧ ((run (sampleOwnerRun ++ sampleOwnerTail.take 11)
        (AtomicSwapTransaction.create sampleOwnerParams)).state = .BuildingRedeemTX
      ∧ (run (sampleOwnerRun ++ sampleOwnerTail.take 11)
        (AtomicSwapTransaction.create sampleOwnerParams)).role = some true) :=
  ⟨⟨by decide, (role_assertions_hold sampleCounterpartyParams false (sampleCounterpartyRun.take 3)
      rfl rfl (by decide)).1⟩,
    ⟨by decide, (role_assertions_hold sampleOwnerParams true
      (sampleOwnerRun ++ sampleOwnerTail.take 11) rfl rfl (by decide)).1⟩⟩


/-! ## The lock broadcast and the unvalidated contract (C8) -/

open AtomicSwapTransaction in
/-- A `getTxOut` reply with `n` confirmations, `n` at least
`kBTCMinTxConfirmations`: the callback records the count and asks for a tick. -/
theorem OnGetSwapLockTxConfirmations_of_enough (n : Nat) (tx : AtomicSwapTransaction)
    (hn : kBTCMinTxConfirmations ≤ n) :
    OnGetSwapLockTxConfirmations (some n) tx =
      .ok () { tx with
        m_SwapLockTxConfirmations := n
        log := tx.log ++ [.ConfirmationsRecorded n, .UpdateAsync] } := by
  have hn' : n ≥ kBTCMinTxConfirmations := hn
  simp [OnGetSwapLockTxConfirmations, hn', UpdateAsync, M.modify, M.emit]

open AtomicSwapTransaction in
/-- A tick of the Beam owner in `HandlingContractTX` once a txid is stored and
enough confirmations are recorded: it writes `SendingBeamLockTX`. -/
theorem tick_HandlingContractTX_confirmed (env : Env) (tx : AtomicSwapTransaction)
    (txID : String) (hb : tx.role = some true) (hs : tx.state = .HandlingContractTX)
    (htx : (tx.params .LOCK_TX .AtomicSwapExternalTxID).bind Value.asStr = some txID)
    (hn : kBTCMinTxConfirmations ≤ tx.m_SwapLockTxConfirmations) :
    UpdateImpl env tx =
      .ok () { tx.cached true with
        params := tx.params.put .kDefaultSubTxID .State (.state .SendingBeamLockTX)
        log := tx.log ++
          [.SetParameter .kDefaultSubTxID .State (.state .SendingBeamLockTX), .UpdateAsync] } := by
  have hc : ¬ tx.m_SwapLockTxConfirmations < kBTCMinTxConfirmations := by omega
  simp only [UpdateImpl, UpdateImpl.HandlingContractTX, M.bind_apply, GetState_apply,
    IsSender_of_role tx _ hb, hs]
  simp [GetParameter, htx, hc, SetNextState, SetState, UpdateAsync,
    AtomicSwapTransaction.cached]

open AtomicSwapTransaction in
/-- A tick in `SendingBeamLockTX` of an object that holds the built lock
transaction, not yet broadcast: it calls `register_tx` and returns. -/
theorem tick_SendingBeamLockTX_broadcasts (env : Env) (tx : AtomicSwapTransaction) (b : Bool)
    (t : Transaction) (hb : tx.role = some b) (hs : tx.state = .SendingBeamLockTX)
    (hlock : tx.m_LockTx = some t)
    (hreg : (tx.params .BEAM_LOCK_TX .TransactionRegistered).bind Value.asBool = none) :
    UpdateImpl env tx =
      .ok () { tx.cached b with log := tx.log ++ [.register_tx .BEAM_LOCK_TX t] } := by
  have hU : UpdateImpl env tx = UpdateImpl.SendingBeamLockTX (tx.cached b) := by
    simp only [UpdateImpl, M.bind_apply, GetState_apply, IsSender_of_role tx _ hb, hs]
  have hm : (tx.cached b).m_LockTx = some t := hlock
  have hsend := SendSubTx_by_flag t .BEAM_LOCK_TX (tx.cached b)
  rw [cached_params, hreg] at hsend
  rw [hU]
  unfold UpdateImpl.SendingBeamLockTX
  simp only [M.bind_apply, M.read, hm, hsend]
  rfl

/-- C8. The Chain A lock transaction is broadcast without the counterparty
having funded the HTLC. For the Beam owner waiting in `HandlingContractTX` with
the built lock transaction held: whatever txid the peer has reported, one
`getTxOut` reply with at least 6 confirmations followed by two ticks ends in
`register_tx` for `BEAM_LOCK_TX`. The reply is read for its confirmation count
only (line 1113; line 1115 notes `TODO: validate contract!`): nothing compares
the output the txid names with the HTLC script or the swap amount. -/
theorem lock_is_broadcast_on_any_confirmed_txid (env1 env2 : Env) (tx : AtomicSwapTransaction)
    (txID : String) (n : Nat) (t : Transaction)
    (hb : tx.role = some true) (hs : tx.state = .HandlingContractTX)
    (htx : (tx.params .LOCK_TX .AtomicSwapExternalTxID).bind Value.asStr = some txID)
    (hn : 6 ≤ n) (hlock : tx.m_LockTx = some t)
    (hreg : (tx.params .BEAM_LOCK_TX .TransactionRegistered).bind Value.asBool = none) :
    (step (.Update env1) (step (.OnGetSwapLockTxConfirmations (some n)) tx)).state
        = .SendingBeamLockTX
      ∧ (step (.Update env2)
          (step (.Update env1) (step (.OnGetSwapLockTxConfirmations (some n)) tx))).log =
        tx.log ++
          [.ConfirmationsRecorded n, .UpdateAsync,
           .SetParameter .kDefaultSubTxID .State (.state .SendingBeamLockTX), .UpdateAsync,
           .register_tx .BEAM_LOCK_TX t] := by
  have h1 := OnGetSwapLockTxConfirmations_of_enough n tx hn
  have e1 : step (.OnGetSwapLockTxConfirmations (some n)) tx =
      { tx with
        m_SwapLockTxConfirmations := n
        log := tx.log ++ [.ConfirmationsRecorded n, .UpdateAsync] } := by
    simp only [step, Event.handler, h1, Res.tx]
  have h2 := tick_HandlingContractTX_confirmed env1
    { tx with
      m_SwapLockTxConfirmations := n
      log := tx.log ++ [.ConfirmationsRecorded n, .UpdateAsync] } txID hb hs htx hn
  have e2 : step (.Update env1) (step (.OnGetSwapLockTxConfirmations (some n)) tx) =
      { ({ tx with
          m_SwapLockTxConfirmations := n
          log := tx.log ++ [.ConfirmationsRecorded n, .UpdateAsync] } :
            AtomicSwapTransaction).cached true with
        params := tx.params.put .kDefaultSubTxID .State (.state .SendingBeamLockTX)
        log := (tx.log ++ [.ConfirmationsRecorded n, .UpdateAsync]) ++
          [.SetParameter .kDefaultSubTxID .State (.state .SendingBeamLockTX), .UpdateAsync] } := by
    rw [e1]
    simp only [step, Event.handler, h2, Res.tx]
  have hs2 : (step (.Update env1) (step (.OnGetSwapLockTxConfirmations (some n)) tx)).state
      = .SendingBeamLockTX := by
    rw [e2]
    simp [AtomicSwapTransaction.state, ParamStore.put, Value.asState]
  refine ⟨hs2, ?_⟩
  have hb2 : (step (.Update env1) (step (.OnGetSwapLockTxConfirmations (some n)) tx)).role
      = some true := by
    rw [e2]
    rfl
  have hl2 : (step (.Update env1) (step (.OnGetSwapLockTxConfirmations (some n)) tx)).m_LockTx
      = some t := by
    rw [e2]
    exact hlock
  have hr2 : ((step (.Update env1) (step (.OnGetSwapLockTxConfirmations (some n)) tx)).params
      .BEAM_LOCK_TX .TransactionRegistered).bind Value.asBool = none := by
    rw [e2]
    simpa [ParamStore.put] using hreg
  have h3 := tick_SendingBeamLockTX_broadcasts env2 _ true t hb2 hs2 hl2 hr2
  show (Event.handler (.Update env2) _).tx.log = _
  simp only [Event.handler, h3, Res.tx]
  rw [e2]
  simp [AtomicSwapTransaction.cached]

set_option maxRecDepth 100000 in
/-- The eighth theorem on the sample execution of the Beam owner, taken after
the peer's txid `"txid"` is stored and the first `getTxOut` request is out: a
reply with 6 confirmations and two ticks, and the lock transaction is
broadcast. -/
theorem lock_is_broadcast_on_any_confirmed_txid_witness :
    (run (sampleOwnerRun.take 22) (AtomicSwapTransaction.create sampleOwnerParams)).state
        = .HandlingContractTX
      ∧ (step (.Update (sampleEnv true none))
          (step (.Update (sampleEnv true none))
            (step (.OnGetSwapLockTxConfirmations (some 6))
              (run (sampleOwnerRun.take 22)
                (AtomicSwapTransaction.create sampleOwnerParams))))).log =
        (run (sampleOwnerRun.take 22) (AtomicSwapTransaction.create sampleOwnerParams)).log ++
          [.ConfirmationsRecorded 6, .UpdateAsync,
           .SetParameter .kDefaultSubTxID .State (.state .SendingBeamLockTX), .UpdateAsync,
           .register_tx .BEAM_LOCK_TX { kernelID := zeroBig, body := 0 }] :=
  ⟨by decide,
    (lock_is_broadcast_on_any_confirmed_txid (sampleEnv true none) (sampleEnv true none)
      (run (sampleOwnerRun.take 22) (AtomicSwapTransaction.create sampleOwnerParams)) "txid" 6
      { kernelID := zeroBig, body := 0 } (by decide) (by decide) (by decide) (by decide)
      (by decide) (by decide)).2⟩

end beam.wallet
